import Mathlib

/-!
# USB-PD tester protocol client (`PDTesterAPI.cpp`)

A shallow embedding of the host-side protocol engine of the USB Power-Delivery
tester API: the frame reassembler and event router (`PDTester::onSerialEvent`),
the frame checksum (`checksum`) and the command operations that build a
request frame, hand it to the transport and wait for the send-complete and
response-arrived signals.

Conventions of the embedding

* A byte (`UCHAR`, `char`) is a natural number; stores into byte buffers made by
  the command operations reduce modulo 256.
* A byte buffer is a total function from indices to bytes, so a buffer has no
  capacity: the class declaration (`PDTesterAPI.h`) that fixes the capacities
  is not among the sources.
* Calls into the transport, signals and callbacks are recorded, in program
  order, in a list of `Effect`s.
* The asynchronous notification context is a list of `SerialEvent`s (a
  *window*): the notifications that the transport delivers before a wait
  gives up.
-/

namespace PDTesterAPI

/-! ## Constants (`PDTesterAPI.cpp`, lines 3-53) -/

abbrev GET_DEV_INFO : Nat := 0x01
abbrev SET_PORT_VOLTAGE : Nat := 0x0D
abbrev SET_DEF_VOLTAGE : Nat := 0x0E
abbrev SET_DEF_CURRENT : Nat := 0x0F
abbrev SET_CURRENT : Nat := 0x10
abbrev SET_USB_CONNECTION : Nat := 0x14
abbrev SET_CALIB_DATA : Nat := 0xE3
abbrev RESET_CALIB_DATA : Nat := 0xE5

abbrev EVENT_PORT_ATTACHED : Nat := 0x20
abbrev EVENT_PORT_DETACHED : Nat := 0x21
abbrev EVENT_PROFILE_CHANGED : Nat := 0x22
abbrev EVENT_NEW_CAPABILITY : Nat := 0x23
abbrev EVENT_PD_MSG_RECV : Nat := 0x24
abbrev EVENT_PD_MSG_SENT : Nat := 0x25

/-- Indices of the two signals in `com_events`. -/
inductive ComSignal
  | COM_PACKET_SENT
  | COM_PACKET_ARRIVED
  deriving DecidableEq, Repr

/-- Arguments of the registered event callback. -/
inductive PDAPI_Event
  | PDAPI_EVENT_PORT_ATTACHED
  | PDAPI_EVENT_PORT_DETACHED
  | PDAPI_EVENT_PROFILE_CHANGED
  | PDAPI_EVENT_NEW_CAPABILITY
  deriving DecidableEq, Repr

/-- Notifications of the serial transport (the `SERIAL_*` constants of the
transport's header, named in the `switch` of `onSerialEvent`); a data arrival
carries the bytes that `getDataInBuffer`/`getDataInSize` expose. -/
inductive SerialEvent
  | SERIAL_CONNECTED
  | SERIAL_DISCONNECTED
  | SERIAL_DATA_SENT
  | SERIAL_RING
  | SERIAL_CD_ON
  | SERIAL_CD_OFF
  | SERIAL_DATA_ARRIVAL (data : List Nat)
  deriving DecidableEq, Repr

/-- Result of a wait on one signal. -/
inductive WaitStatus
  | WAIT_OBJECT_0
  | WAIT_TIMEOUT
  deriving DecidableEq, Repr

/-- Externally visible actions, in program order. -/
inductive Effect
  | setRxSize (n : Int)
  | dataHasBeenRead
  | SetEvent (sig : ComSignal)
  | EventCallback (e : PDAPI_Event)
  | PDAnalyzerCallback (PDData : List Nat)
  | EnterCriticalSection
  | LeaveCriticalSection
  | sendData (bytes : List Nat)
  | WaitForMultipleObjects (sig : ComSignal) (timeout : Nat)
  | Sleep (ms : Nat)
  deriving DecidableEq, Repr

/-! ## State of a `PDTester` object -/

/-- Modelled from the spec: the configuration members of `PDTester` (the
spec's configuration shadow), declared in `PDTesterAPI.h`, which is not among
the sources; every member is held as a natural number: the flags
(`bLoopbackPortEnabled`, ...) and `DefaultProfileIndex` travel as one byte,
the other values as 16-bit values, low byte first (`GetConfig`, `SetConfig`). -/
structure ConfigShadow where
  bLoopbackPortEnabled : Nat
  CurrentLimitType : Nat
  MaxCurrent : Nat
  MaxSDPCurrent : Nat
  bEstimatePortVoltage : Nat
  CableResistance : Nat
  DefaultProfileIndex : Nat
  DefaultVoltage : Nat
  DefaultLoad : Nat
  OperatingCurrent : Nat
  SinkCapMV : Nat
  SinkCapMA : Nat
  ProfilePDLimit : Nat
  ProfileUCLimit : Nat
  ProfileBCLimit : Nat
  ProfileQC5Limit : Nat
  ProfileQC9Limit : Nat
  ProfileQC12Limit : Nat
  ProfileQC20Limit : Nat
  ProfileAppleLimit : Nat
  ProfileSamsung2ALimit : Nat
  bHoldLoadOnVChange : Nat
  bPPSEnabled : Nat
  bApplyDefaultConfigOnCap : Nat
  bDefaultConfigFailOnVolt : Nat
  bDefaultConfigFailOnCurr : Nat
  deriving DecidableEq, Repr

/-- Modelled from the spec: the class declaration (`PDTesterAPI.h`) is not
among the sources, so the types of the members are taken from their use in
`PDTesterAPI.cpp` and from the spec's reassembler (the length byte is the
declared payload length `L`, an unsigned value, and `remaining = L + 2`):
`RcvDataLen`, `NumRcvBytes`, `NumPackets` are natural numbers,
`NumRemaingBytes` is an integer, the three buffers are byte buffers without a
capacity. `PDAnalyzerCallback` records whether a callback is registered
(`true`) or the pointer is `NULL`; `com_events` holds the state of the two
auto-reset signals created by the constructor; `TIME_OUT_MS` is the active
timeout in milliseconds; `HW_Ver` and `FW_Ver` are the hardware and firmware
versions kept by `Connect`; `cfg` groups the configuration members;
`HW_SubRevNumber` is the member that `GetSubRev` assigns; `HW_SubVer` is the
member that `Connect` assigns from `HW_Ver` and `HW_SubRevNumber`, held as a
natural number, so that the sum of line 122 is kept as computed. -/
structure PDTester where
  RcvDataLen : Nat
  NumRcvBytes : Nat
  NumRemaingBytes : Int
  NumPackets : Nat
  ComRcvBuffer : Nat → Nat
  RcvDataTmp : Nat → Nat
  RcvData : Nat → Nat
  PDAnalyzerCallback : Bool
  com_events : ComSignal → Bool
  TIME_OUT_MS : Nat
  HW_Ver : Nat
  FW_Ver : Nat
  cfg : ConfigShadow
  HW_SubRevNumber : Nat
  HW_SubVer : Nat

/-- The C library `memcpy(dst, src, n)` on buffers: the first `n` bytes of
`dst` are replaced by those of `src`. -/
def memcpy (dst src : Nat → Nat) (n : Nat) : Nat → Nat :=
  fun i => if i < n then src i else dst i

/-- First `n` bytes of a buffer, as handed to the transport or a callback. -/
def bufferBytes (buf : Nat → Nat) (n : Nat) : List Nat :=
  (List.range n).map buf

/-- State after the constructor `PDTester::PDTester()` (lines 68-79); the
members the constructor leaves untouched are given here as zero, except
`TIME_OUT_MS`, which is given the default timeout of 500 ms (the value of the
disabled macro of line 55, which `StopPDAnalyzer` restores). -/
def PDTester.ctor : PDTester where
  RcvDataLen := 0
  NumRcvBytes := 0
  NumRemaingBytes := 1
  NumPackets := 0
  ComRcvBuffer := fun _ => 0
  RcvDataTmp := fun _ => 0
  RcvData := fun _ => 0
  PDAnalyzerCallback := false
  com_events := fun _ => false
  TIME_OUT_MS := 500
  HW_Ver := 0
  FW_Ver := 0
  cfg := ⟨0, 0, 0, 0, 0, 0, 0, 0, 0, 0, 0, 0, 0, 0, 0, 0, 0, 0, 0, 0, 0, 0, 0, 0, 0, 0⟩
  HW_SubRevNumber := 0
  HW_SubVer := 0

/-! ## Frame reassembler and event router (`onSerialEvent`, lines 147-250) -/

/-- Body of the `for` loop over the arrived bytes (lines 185-218): one byte is
consumed; the boolean is `bPacketReceived`. -/
def rxByte (st : PDTester × Bool) (b : Nat) : PDTester × Bool :=
  let s := st.1
  if s.NumRcvBytes = 0 then
    if b ≠ 0x02 then
      ({ s with RcvDataLen := 0, NumRemaingBytes := 1 }, st.2)
    else
      ({ s with ComRcvBuffer := Function.update s.ComRcvBuffer s.NumRcvBytes b,
                NumRcvBytes := s.NumRcvBytes + 1,
                NumRemaingBytes := 1 }, st.2)
  else if s.NumRcvBytes = 1 then
    ({ s with ComRcvBuffer := Function.update s.ComRcvBuffer s.NumRcvBytes b,
              NumRcvBytes := s.NumRcvBytes + 1,
              RcvDataLen := b,
              NumRemaingBytes := (b : Int) + 2 }, st.2)
  else
    let remaining := s.NumRemaingBytes - 1
    let buf := Function.update s.ComRcvBuffer s.NumRcvBytes b
    if remaining = 0 then
      if b = 0x03 then
        ({ s with ComRcvBuffer := buf,
                  RcvDataTmp := memcpy s.RcvDataTmp (fun i => buf (2 + i)) s.RcvDataLen,
                  NumPackets := s.NumPackets + 1,
                  NumRcvBytes := 0,
                  NumRemaingBytes := 1 }, true)
      else
        ({ s with ComRcvBuffer := buf,
                  RcvDataLen := 0,
                  NumRcvBytes := 0,
                  NumRemaingBytes := 1 }, st.2)
    else
      ({ s with ComRcvBuffer := buf,
                NumRcvBytes := s.NumRcvBytes + 1,
                NumRemaingBytes := remaining }, st.2)

/-- The whole `for` loop of one data-arrival notification, `bPacketReceived`
starting at 0. -/
def rxBytes (s : PDTester) (data : List Nat) : PDTester × Bool :=
  data.foldl rxByte (s, false)

/-- Dispatch of a received packet on `RcvDataTmp[0]` (lines 224-246). -/
def routePacket (s : PDTester) : PDTester × List Effect :=
  if s.RcvDataTmp 0 = EVENT_PORT_ATTACHED then
    (s, [Effect.EventCallback PDAPI_Event.PDAPI_EVENT_PORT_ATTACHED])
  else if s.RcvDataTmp 0 = EVENT_PORT_DETACHED then
    (s, [Effect.EventCallback PDAPI_Event.PDAPI_EVENT_PORT_DETACHED])
  else if s.RcvDataTmp 0 = EVENT_PROFILE_CHANGED then
    (s, [Effect.EventCallback PDAPI_Event.PDAPI_EVENT_PROFILE_CHANGED])
  else if s.RcvDataTmp 0 = EVENT_NEW_CAPABILITY then
    (s, [Effect.EventCallback PDAPI_Event.PDAPI_EVENT_NEW_CAPABILITY])
  else if s.RcvDataTmp 0 = EVENT_PD_MSG_RECV ∨ s.RcvDataTmp 0 = EVENT_PD_MSG_SENT then
    if s.PDAnalyzerCallback then
      (s, [Effect.PDAnalyzerCallback (bufferBytes (fun i => s.RcvDataTmp (1 + i)) 36)])
    else
      (s, [])
  else
    ({ s with RcvData := memcpy s.RcvData s.RcvDataTmp 64,
              com_events := Function.update s.com_events ComSignal.COM_PACKET_ARRIVED true },
     [Effect.SetEvent ComSignal.COM_PACKET_ARRIVED])

/-- The `SERIAL_DATA_ARRIVAL` case (lines 175-247). -/
def onDataArrival (s : PDTester) (data : List Nat) : PDTester × List Effect :=
  let s0 := if data.length = 0 then { s with RcvDataLen := 0, NumRemaingBytes := 1 } else s
  let r := rxBytes s0 data
  let fx := [Effect.setRxSize r.1.NumRemaingBytes, Effect.dataHasBeenRead]
  if r.2 then
    let d := routePacket r.1
    (d.1, fx ++ d.2)
  else
    (r.1, fx)

/-- `PDTester::onSerialEvent` for a non-null transport object. -/
def onSerialEvent (s : PDTester) : SerialEvent → PDTester × List Effect
  | SerialEvent.SERIAL_CONNECTED => (s, [Effect.dataHasBeenRead, Effect.setRxSize 1])
  | SerialEvent.SERIAL_DISCONNECTED => (s, [])
  | SerialEvent.SERIAL_DATA_SENT =>
      ({ s with com_events := Function.update s.com_events ComSignal.COM_PACKET_SENT true },
       [Effect.SetEvent ComSignal.COM_PACKET_SENT])
  | SerialEvent.SERIAL_RING => (s, [])
  | SerialEvent.SERIAL_CD_ON => (s, [])
  | SerialEvent.SERIAL_CD_OFF => (s, [])
  | SerialEvent.SERIAL_DATA_ARRIVAL data => onDataArrival s data

/-- A sequence of notifications handled one after the other. -/
def onSerialEvents (s : PDTester) : List SerialEvent → PDTester × List Effect
  | [] => (s, [])
  | ev :: rest =>
      let r := onSerialEvent s ev
      let r2 := onSerialEvents r.1 rest
      (r2.1, r.2 ++ r2.2)

/-- The bytes of a stream delivered as consecutive data-arrival notifications,
one per chunk. -/
def feedChunks (s : PDTester) (chunks : List (List Nat)) : PDTester × List Effect :=
  onSerialEvents s (chunks.map SerialEvent.SERIAL_DATA_ARRIVAL)

/-- Deliveries to a consumer among recorded effects: callbacks and signals,
without the transport bookkeeping (`setRxSize`, `dataHasBeenRead`). -/
def deliveries : List Effect → List Effect
  | [] => []
  | Effect.setRxSize _ :: fx => deliveries fx
  | Effect.dataHasBeenRead :: fx => deliveries fx
  | e :: fx => e :: deliveries fx

/-! ## Checksum (`checksum`, lines 252-263) -/

/-- The loop `for (i = 0; i < n; i++) chk ^= buf[i]` started with `chk`. -/
def xorLoop (buf : Nat → Nat) : Nat → Nat → Nat
  | 0, chk => chk
  | n + 1, chk => (xorLoop buf n chk ^^^ buf n) % 256

/-- Function `checksum(Nat *buf)`: returns the checksum and the buffer as left
by the store `buf[DataLen + 2] = 0`. -/
def checksum (buf : Nat → Nat) : Nat × (Nat → Nat) :=
  let DataLen := buf 1
  let buf1 := Function.update buf (DataLen + 2) 0
  (((xorLoop buf1 (DataLen + 2) 0) ^^^ 0x03) % 256, buf1)

/-! ## Waiting for a signal

`com_events[i]` are auto-reset events (`CreateEvent(NULL, FALSE, FALSE, NULL)`,
line 78). A wait returns `WAIT_OBJECT_0`, resetting the signal, as soon as the
signal is set; until then the notifications of its window are handled one by
one by `onSerialEvent`; when the window is used up with the signal still
unset the wait gives up with `WAIT_TIMEOUT`. -/

/-- Result of a wait: state, recorded effects, the notifications of the window
that were not yet handled, and the status. -/
structure WaitResult where
  s : PDTester
  fx : List Effect
  rest : List SerialEvent
  status : WaitStatus

/-- The wait itself, without the record of the call. -/
def waitSignal (sig : ComSignal) : PDTester → List SerialEvent → WaitResult
  | s, [] =>
      if s.com_events sig then
        ⟨{ s with com_events := Function.update s.com_events sig false }, [], [],
          WaitStatus.WAIT_OBJECT_0⟩
      else
        ⟨s, [], [], WaitStatus.WAIT_TIMEOUT⟩
  | s, ev :: rest =>
      if s.com_events sig then
        ⟨{ s with com_events := Function.update s.com_events sig false }, [], ev :: rest,
          WaitStatus.WAIT_OBJECT_0⟩
      else
        let r := onSerialEvent s ev
        let r2 := waitSignal sig r.1 rest
        ⟨r2.s, r.2 ++ r2.fx, r2.rest, r2.status⟩

/-- Call `WaitForMultipleObjects(1, &com_events[sig], FALSE, timeout)` with the
notifications `window` arriving before the timeout expires. -/
def WaitForMultipleObjects (s : PDTester) (sig : ComSignal) (timeout : Nat)
    (window : List SerialEvent) : WaitResult :=
  let r := waitSignal sig s window
  ⟨r.s, Effect.WaitForMultipleObjects sig timeout :: r.fx, r.rest, r.status⟩

/-! ## Command operations

Every operation takes the state, the initial content `cBuf` of its local frame
buffer (an uninitialised local array), its arguments, and the windows `w1`,
`w2` of its two waits; notifications of `w1` that were not handled when the
first wait returned come first in the second wait. -/

/-- Conversion of an `int` to `UCHAR`. -/
def toUCHAR (x : Int) : Nat := (x % 256).toNat

/-- Conversion `(UINT16)x` of an `int`. -/
def toUINT16 (x : Int) : Nat := (x % 65536).toNat

/-- Result of a command operation: state, recorded effects and returned
`BOOL`. -/
structure CmdResult where
  s : PDTester
  fx : List Effect
  retVal : Bool

/-- Result of `GetDevInfo`: as `CmdResult`, with the values left in `*HW_Ver`
and `*SW_Ver`. -/
structure DevInfoResult where
  s : PDTester
  fx : List Effect
  retVal : Bool
  HW_Ver : Nat
  SW_Ver : Nat

/-- Frame buffer of `GetDevInfo` when `sendData` is called (lines 299-303). -/
def GetDevInfo_cBuf (cBuf : Nat → Nat) : Nat → Nat :=
  let cBuf := Function.update cBuf 0 0x02
  let cBuf := Function.update cBuf 1 0x01
  let cBuf := Function.update cBuf 2 GET_DEV_INFO
  let ck := checksum cBuf
  let cBuf := Function.update ck.2 3 ck.1
  Function.update cBuf 4 0x03

/-- `PDTester::GetDevInfo` (lines 291-332); `HW_Ver`, `SW_Ver` are the values
behind the two pointers on entry. -/
def GetDevInfo (s : PDTester) (cBuf : Nat → Nat) (HW_Ver SW_Ver : Nat)
    (w1 w2 : List SerialEvent) : DevInfoResult :=
  let pre := [Effect.EnterCriticalSection, Effect.sendData (bufferBytes (GetDevInfo_cBuf cBuf) 5)]
  let r1 := WaitForMultipleObjects s ComSignal.COM_PACKET_SENT s.TIME_OUT_MS w1
  if r1.status = WaitStatus.WAIT_OBJECT_0 then
    let r2 := WaitForMultipleObjects r1.s ComSignal.COM_PACKET_ARRIVED r1.s.TIME_OUT_MS
      (r1.rest ++ w2)
    let fx := pre ++ r1.fx ++ r2.fx ++ [Effect.LeaveCriticalSection]
    if r2.status = WaitStatus.WAIT_OBJECT_0 then
      if r2.s.RcvData 0 = GET_DEV_INFO then
        ⟨r2.s, fx, true, r2.s.RcvData 1, r2.s.RcvData 2⟩
      else
        ⟨r2.s, fx, false, HW_Ver, SW_Ver⟩
    else
      ⟨r2.s, fx, false, 10, 0⟩
  else
    ⟨r1.s, pre ++ r1.fx ++ [Effect.LeaveCriticalSection], false, HW_Ver, SW_Ver⟩

/-- Tail shared by `SetVoltage`, `SetLoad`, `SetDefaultVoltage` and
`SetDefaultLoad` after `sendData`: the two waits and the test
`status != WAIT_OBJECT_0 || RcvData[0] != cmd` (e.g. lines 1421-1433). -/
def waitAck (s : PDTester) (frame : List Nat) (cmd : Nat)
    (w1 w2 : List SerialEvent) : CmdResult :=
  let pre := [Effect.EnterCriticalSection, Effect.sendData frame]
  let r1 := WaitForMultipleObjects s ComSignal.COM_PACKET_SENT s.TIME_OUT_MS w1
  if r1.status = WaitStatus.WAIT_OBJECT_0 then
    let r2 := WaitForMultipleObjects r1.s ComSignal.COM_PACKET_ARRIVED r1.s.TIME_OUT_MS
      (r1.rest ++ w2)
    let fx := pre ++ r1.fx ++ r2.fx ++ [Effect.LeaveCriticalSection]
    if r2.status ≠ WaitStatus.WAIT_OBJECT_0 ∨ r2.s.RcvData 0 ≠ cmd then
      ⟨r2.s, fx, false⟩
    else
      ⟨r2.s, fx, true⟩
  else
    ⟨r1.s, pre ++ r1.fx ++ [Effect.LeaveCriticalSection], false⟩

/-- Tail shared by `SetCalibrationData`, `ResetCalibrationData` and
`SetUsbConnection` after `sendData`: nested tests with `return TRUE` inside
and `return FALSE` at the end (e.g. lines 1671-1685). -/
def waitAckNested (s : PDTester) (frame : List Nat) (cmd : Nat)
    (w1 w2 : List SerialEvent) : CmdResult :=
  let pre := [Effect.EnterCriticalSection, Effect.sendData frame]
  let r1 := WaitForMultipleObjects s ComSignal.COM_PACKET_SENT s.TIME_OUT_MS w1
  if r1.status = WaitStatus.WAIT_OBJECT_0 then
    let r2 := WaitForMultipleObjects r1.s ComSignal.COM_PACKET_ARRIVED r1.s.TIME_OUT_MS
      (r1.rest ++ w2)
    let fx := pre ++ r1.fx ++ r2.fx
    if r2.status = WaitStatus.WAIT_OBJECT_0 then
      if r2.s.RcvData 0 = cmd then
        ⟨r2.s, fx ++ [Effect.LeaveCriticalSection], true⟩
      else
        ⟨r2.s, fx ++ [Effect.LeaveCriticalSection], false⟩
    else
      ⟨r2.s, fx ++ [Effect.LeaveCriticalSection], false⟩
  else
    ⟨r1.s, pre ++ r1.fx ++ [Effect.LeaveCriticalSection], false⟩

/-- Frame buffer of `SetVoltage` when `sendData` is called (lines 1412-1419). -/
def SetVoltage_cBuf (cBuf : Nat → Nat) (index : Nat) (voltage : Nat) : Nat → Nat :=
  let cBuf := Function.update cBuf 0 0x02
  let cBuf := Function.update cBuf 1 0x04
  let cBuf := Function.update cBuf 2 SET_PORT_VOLTAGE
  let cBuf := Function.update cBuf 3 (index % 256)
  let cBuf := Function.update cBuf 4 (voltage &&& 0xff)
  let cBuf := Function.update cBuf 5 ((voltage >>> 8) &&& 0xff)
  let ck := checksum cBuf
  let cBuf := Function.update ck.2 6 ck.1
  Function.update cBuf 7 0x03

/-- `PDTester::SetVoltage` (lines 1404-1434). -/
def SetVoltage (s : PDTester) (cBuf : Nat → Nat) (index : Nat) (voltage : Nat)
    (w1 w2 : List SerialEvent) : CmdResult :=
  waitAck s (bufferBytes (SetVoltage_cBuf cBuf index voltage) 8) SET_PORT_VOLTAGE w1 w2

/-- Frame buffer of `SetLoad`, `SetDefaultVoltage` and `SetDefaultLoad`: a
command id and one 16-bit value, low byte first (e.g. lines 1444-1450). -/
def setU16_cBuf (cBuf : Nat → Nat) (cmd : Nat) (value : Nat) : Nat → Nat :=
  let cBuf := Function.update cBuf 0 0x02
  let cBuf := Function.update cBuf 1 0x03
  let cBuf := Function.update cBuf 2 cmd
  let cBuf := Function.update cBuf 3 (value &&& 0xff)
  let cBuf := Function.update cBuf 4 ((value >>> 8) &&& 0xff)
  let ck := checksum cBuf
  let cBuf := Function.update ck.2 5 ck.1
  Function.update cBuf 6 0x03

/-- `PDTester::SetLoad` (lines 1436-1465). -/
def SetLoad (s : PDTester) (cBuf : Nat → Nat) (set_current : Nat)
    (w1 w2 : List SerialEvent) : CmdResult :=
  waitAck s (bufferBytes (setU16_cBuf cBuf SET_CURRENT set_current) 7) SET_CURRENT w1 w2

/-- `PDTester::SetDefaultVoltage` (lines 1504-1533). -/
def SetDefaultVoltage (s : PDTester) (cBuf : Nat → Nat) (voltage_mv : Nat)
    (w1 w2 : List SerialEvent) : CmdResult :=
  waitAck s (bufferBytes (setU16_cBuf cBuf SET_DEF_VOLTAGE voltage_mv) 7) SET_DEF_VOLTAGE w1 w2

/-- `PDTester::SetDefaultLoad` (lines 1535-1564). -/
def SetDefaultLoad (s : PDTester) (cBuf : Nat → Nat) (current_ma : Nat)
    (w1 w2 : List SerialEvent) : CmdResult :=
  waitAck s (bufferBytes (setU16_cBuf cBuf SET_DEF_CURRENT current_ma) 7) SET_DEF_CURRENT w1 w2

/-- Frame buffer of `SetCalibrationData` when `sendData` is called
(lines 1654-1669); `channel` is the value of the enumerator. -/
def SetCalibrationData_cBuf (cBuf : Nat → Nat) (channel : Nat)
    (year month applied1 measured1 applied2 measured2 : Int) : Nat → Nat :=
  let cBuf := Function.update cBuf 0 0x02
  let cBuf := Function.update cBuf 1 12
  let cBuf := Function.update cBuf 2 SET_CALIB_DATA
  let cBuf := Function.update cBuf 3 (channel % 256)
  let cBuf := Function.update cBuf 4 (toUCHAR (year - 2020))
  let cBuf := Function.update cBuf 5 (toUCHAR month)
  let cBuf := Function.update cBuf 6 (toUINT16 applied1 &&& 0xff)
  let cBuf := Function.update cBuf 7 ((toUINT16 applied1 >>> 8) &&& 0xff)
  let cBuf := Function.update cBuf 8 (toUINT16 measured1 &&& 0xff)
  let cBuf := Function.update cBuf 9 ((toUINT16 measured1 >>> 8) &&& 0xff)
  let cBuf := Function.update cBuf 10 (toUINT16 applied2 &&& 0xff)
  let cBuf := Function.update cBuf 11 ((toUINT16 applied2 >>> 8) &&& 0xff)
  let cBuf := Function.update cBuf 12 (toUINT16 measured2 &&& 0xff)
  let cBuf := Function.update cBuf 13 ((toUINT16 measured2 >>> 8) &&& 0xff)
  let ck := checksum cBuf
  let cBuf := Function.update ck.2 14 ck.1
  Function.update cBuf 15 0x03

/-- `PDTester::SetCalibrationData` (lines 1648-1686). -/
def SetCalibrationData (s : PDTester) (cBuf : Nat → Nat) (channel : Nat)
    (year month applied1 measured1 applied2 measured2 : Int)
    (w1 w2 : List SerialEvent) : CmdResult :=
  waitAckNested s
    (bufferBytes
      (SetCalibrationData_cBuf cBuf channel year month applied1 measured1 applied2 measured2) 16)
    SET_CALIB_DATA w1 w2

/-- Frame buffer of `ResetCalibrationData` and `SetUsbConnection`: a command id
and one byte (lines 1694-1699, 1724-1732). -/
def setByte_cBuf (cBuf : Nat → Nat) (cmd : Nat) (value : Nat) : Nat → Nat :=
  let cBuf := Function.update cBuf 0 0x02
  let cBuf := Function.update cBuf 1 0x02
  let cBuf := Function.update cBuf 2 cmd
  let cBuf := Function.update cBuf 3 value
  let ck := checksum cBuf
  let cBuf := Function.update ck.2 4 ck.1
  Function.update cBuf 5 0x03

/-- `PDTester::ResetCalibrationData` (lines 1688-1716). -/
def ResetCalibrationData (s : PDTester) (cBuf : Nat → Nat) (channel : Nat)
    (w1 w2 : List SerialEvent) : CmdResult :=
  waitAckNested s (bufferBytes (setByte_cBuf cBuf RESET_CALIB_DATA (channel % 256)) 6)
    RESET_CALIB_DATA w1 w2

/-- `PDTester::SetUsbConnection` (lines 1718-1749). -/
def SetUsbConnection (s : PDTester) (cBuf : Nat → Nat) (isConnected : Bool)
    (w1 w2 : List SerialEvent) : CmdResult :=
  waitAckNested s
    (bufferBytes (setByte_cBuf cBuf SET_USB_CONNECTION (if isConnected then 1 else 0)) 6)
    SET_USB_CONNECTION w1 w2

/-- Frames handed to the transport among recorded effects. -/
def sentFrames : List Effect → List (List Nat)
  | [] => []
  | Effect.sendData bytes :: fx => bytes :: sentFrames fx
  | _ :: fx => sentFrames fx

/-- Waits made among recorded effects: signal and timeout of every call
`WaitForMultipleObjects`, in order. -/
def waitCalls : List Effect → List (ComSignal × Nat)
  | [] => []
  | Effect.WaitForMultipleObjects sig timeout :: fx => (sig, timeout) :: waitCalls fx
  | _ :: fx => waitCalls fx

/-- Effects that `onSerialEvent` can record. -/
def fromNotification : Effect → Bool
  | Effect.setRxSize _ => true
  | Effect.dataHasBeenRead => true
  | Effect.SetEvent _ => true
  | Effect.EventCallback _ => true
  | Effect.PDAnalyzerCallback _ => true
  | _ => false

/-- Statement of the acknowledge contract of a set operation that issued the
command id `cmd` from state `s` with wait windows `w1`, `w2` and produced the
result `r`: `r` is TRUE exactly when the wait for send-complete returns
`WAIT_OBJECT_0`, the wait for response-arrived that follows returns
`WAIT_OBJECT_0` and byte 0 of the response buffer is then `cmd`; when the send
wait fails it is the only wait made, otherwise the two waits are made in this
order; and one frame is handed to the transport, with `cmd` as command id
(payload byte 0). -/
def AckContract (s : PDTester) (cmd : Nat) (w1 w2 : List SerialEvent) (r : CmdResult) : Prop :=
  (r.retVal = true ↔
    ((WaitForMultipleObjects s ComSignal.COM_PACKET_SENT s.TIME_OUT_MS w1).status =
        WaitStatus.WAIT_OBJECT_0 ∧
      (WaitForMultipleObjects
        (WaitForMultipleObjects s ComSignal.COM_PACKET_SENT s.TIME_OUT_MS w1).s
        ComSignal.COM_PACKET_ARRIVED s.TIME_OUT_MS
        ((WaitForMultipleObjects s ComSignal.COM_PACKET_SENT s.TIME_OUT_MS w1).rest ++ w2)).status =
        WaitStatus.WAIT_OBJECT_0 ∧
      (WaitForMultipleObjects
        (WaitForMultipleObjects s ComSignal.COM_PACKET_SENT s.TIME_OUT_MS w1).s
        ComSignal.COM_PACKET_ARRIVED s.TIME_OUT_MS
        ((WaitForMultipleObjects s ComSignal.COM_PACKET_SENT s.TIME_OUT_MS w1).rest ++ w2)).s.RcvData 0 =
        cmd)) ∧
  ((WaitForMultipleObjects s ComSignal.COM_PACKET_SENT s.TIME_OUT_MS w1).status ≠
      WaitStatus.WAIT_OBJECT_0 →
    waitCalls r.fx = [(ComSignal.COM_PACKET_SENT, s.TIME_OUT_MS)]) ∧
  ((WaitForMultipleObjects s ComSignal.COM_PACKET_SENT s.TIME_OUT_MS w1).status =
      WaitStatus.WAIT_OBJECT_0 →
    waitCalls r.fx =
      [(ComSignal.COM_PACKET_SENT, s.TIME_OUT_MS), (ComSignal.COM_PACKET_ARRIVED, s.TIME_OUT_MS)]) ∧
  (sentFrames r.fx).map (fun frame => frame.getD 2 0) = [cmd]

/-- Buffer after the stores `buf[k] = l[0]`, `buf[k+1] = l[1]`, ... -/
def writeList (buf : Nat → Nat) : Nat → List Nat → Nat → Nat
  | _, [] => buf
  | k, x :: l => writeList (Function.update buf k x) (k + 1) l

/-- Wire image of a frame: start marker, length byte, payload, checksum byte
and terminator byte. -/
def frameBytes (L : Nat) (payload : List Nat) (c e : Nat) : List Nat :=
  0x02 :: L :: (payload ++ [c, e])

/-- Checksum byte that the sender's `checksum` computes for a frame with
length byte `L` and the given payload. -/
def frameChecksum (L : Nat) (payload : List Nat) : Nat :=
  (checksum (writeList (fun _ => 0) 0 (0x02 :: L :: payload))).1

/-- State in which the byte loop leaves an accepted frame. -/
def acceptState (s : PDTester) (L : Nat) (payload : List Nat) (c : Nat) : PDTester :=
  { s with ComRcvBuffer := writeList s.ComRcvBuffer 0 (frameBytes L payload c 0x03),
           RcvDataLen := L,
           RcvDataTmp := memcpy s.RcvDataTmp (fun i => payload.getD i 0) L,
           NumPackets := s.NumPackets + 1,
           NumRcvBytes := 0,
           NumRemaingBytes := 1 }

/-- State in which the byte loop leaves a frame with a wrong terminator. -/
def rejectState (s : PDTester) (L : Nat) (payload : List Nat) (c e : Nat) : PDTester :=
  { s with ComRcvBuffer := writeList s.ComRcvBuffer 0 (frameBytes L payload c e),
           RcvDataLen := 0,
           NumRcvBytes := 0,
           NumRemaingBytes := 1 }

/-! ## Further constants (`PDTesterAPI.cpp`, lines 3-57) -/

abbrev GET_PORT_CAPABILITIES : Nat := 0x0B
abbrev SET_CURRENT_FAST : Nat := 0x11
abbrev INJECT_PD_MSG : Nat := 0x15
abbrev SET_CONFIG : Nat := 0xE0
abbrev GET_CONFIG : Nat := 0xE1

abbrev CFG_LOOPBACK_ENABLE : Nat := 0
abbrev CFG_SET_MAX_CURRENT : Nat := 1
abbrev CFG_SDP_MAX_CURRENT : Nat := 2
abbrev CFG_ESTIMATE_VBUS : Nat := 3
abbrev CFG_CABLE_RESISTANCE : Nat := 4
abbrev CFG_DEFAULT_PROFILE_IDX : Nat := 5
abbrev CFG_DEFAULT_VOLTAGE : Nat := 6
abbrev CFG_DEFAULT_LOAD : Nat := 7
abbrev CFG_OPERATING_CURRENT : Nat := 8
abbrev CFG_SINK_CAP : Nat := 9
abbrev CFG_PROFILE_LIMIT : Nat := 0xA
abbrev CFG_HOLD_LOAD : Nat := 0x16
abbrev CFG_PPS_ENABLED : Nat := 0x17
abbrev CFG_DEF_CONF_ON_CAP : Nat := 0x18
abbrev CFG_DEF_FAIL_VOLT : Nat := 0x19
abbrev CFG_DEF_FAIL_CURR : Nat := 0x1A

/-! ## `SetLoadFast` (lines 1467-1502) -/

/-- Frame buffer of `SetLoadFast` when `sendData` is called (lines 1475-1484). -/
def SetLoadFast_cBuf (cBuf : Nat → Nat) (set_current slope : Nat) : Nat → Nat :=
  let cBuf := Function.update cBuf 0 0x02
  let cBuf := Function.update cBuf 1 0x05
  let cBuf := Function.update cBuf 2 SET_CURRENT_FAST
  let cBuf := Function.update cBuf 3 (set_current &&& 0xff)
  let cBuf := Function.update cBuf 4 ((set_current >>> 8) &&& 0xff)
  let cBuf := Function.update cBuf 5 (slope &&& 0xff)
  let cBuf := Function.update cBuf 6 ((slope >>> 8) &&& 0xff)
  let ck := checksum cBuf
  let cBuf := Function.update ck.2 7 ck.1
  Function.update cBuf 8 0x03

/-- `PDTester::SetLoadFast` (lines 1467-1502): the frame carries
`SET_CURRENT_FAST`, the test after the two waits (line 1493) is
`status != WAIT_OBJECT_0 || RcvData[0] != SET_CURRENT`. -/
def SetLoadFast (s : PDTester) (cBuf : Nat → Nat) (set_current slope : Nat)
    (w1 w2 : List SerialEvent) : CmdResult :=
  waitAck s (bufferBytes (SetLoadFast_cBuf cBuf set_current slope) 9) SET_CURRENT w1 w2

/-! ## `isConfigSupported` (lines 1239-1273) -/

/-- Addresses that `isConfigSupported` can be given: one for each
configuration member of the object, and `other` for any other address. -/
inductive ConfigOption
  | bLoopbackPortEnabled
  | CurrentLimitType
  | MaxCurrent
  | MaxSDPCurrent
  | bEstimatePortVoltage
  | CableResistance
  | DefaultProfileIndex
  | DefaultVoltage
  | DefaultLoad
  | OperatingCurrent
  | SinkCapMV
  | SinkCapMA
  | ProfilePDLimit
  | ProfileUCLimit
  | ProfileBCLimit
  | ProfileQC5Limit
  | ProfileQC9Limit
  | ProfileQC12Limit
  | ProfileQC20Limit
  | ProfileAppleLimit
  | ProfileSamsung2ALimit
  | bHoldLoadOnVChange
  | bPPSEnabled
  | bApplyDefaultConfigOnCap
  | bDefaultConfigFailOnVolt
  | bDefaultConfigFailOnCurr
  | other
  deriving DecidableEq, Repr

/-- `PDTester::isConfigSupported` (lines 1242-1273). -/
def isConfigSupported (s : PDTester) (config_option : ConfigOption) : Bool :=
  if s.HW_Ver = 10 then
    if config_option = ConfigOption.bLoopbackPortEnabled ∨
        config_option = ConfigOption.bEstimatePortVoltage ∨
        config_option = ConfigOption.CurrentLimitType ∨
        config_option = ConfigOption.MaxCurrent ∨
        config_option = ConfigOption.CableResistance ∨
        config_option = ConfigOption.DefaultVoltage ∨
        config_option = ConfigOption.DefaultLoad then
      true
    else
      false
  else if s.HW_Ver = 20 then
    true
  else
    false

/-! ## `ParsePDData` (lines 1932-1953) -/

/-- Modelled from the spec: the result type `PDMsg` is declared in
`PDTesterAPI.h`, which is not among the sources; the header fields are held as
natural numbers and `Data` is the byte array of the data objects. -/
structure PDMsg where
  MessageType : Nat
  DataRole : Nat
  SpecRev : Nat
  PowerRole : Nat
  MessageID : Nat
  NumDataObj : Nat
  Extended : Nat
  Data : Nat → Nat

/-- `PDTester::ParsePDData` (lines 1932-1953); `Data0` is the content of the
array `msg.Data` of the local, uninitialised `msg`. -/
def ParsePDData (pd_data : Nat → Nat) (Data0 : Nat → Nat) : PDMsg :=
  let msgHeader := (((pd_data 1) <<< 8) ||| (pd_data 0)) % 65536
  let NumDataObj := (msgHeader &&& (0x07 <<< 12)) >>> 12
  let NumDataObj := if NumDataObj > 8 then 0 else NumDataObj
  { MessageType := msgHeader &&& 0x1F
    DataRole := (msgHeader &&& (0x01 <<< 5)) >>> 5
    SpecRev := (msgHeader &&& (0x03 <<< 6)) >>> 6
    PowerRole := (msgHeader &&& (0x01 <<< 8)) >>> 8
    MessageID := (msgHeader &&& (0x07 <<< 9)) >>> 9
    NumDataObj := NumDataObj
    Extended := (msgHeader >>> 15) &&& 0x01
    Data := memcpy Data0 (fun i => pd_data (2 + i)) (NumDataObj * 4) }

/-! ## `InjectPDMsg` (lines 1823-1872) -/

/-- The C library `memcpy(&dst[off], src, n)`. -/
def memcpyAt (dst : Nat → Nat) (off : Nat) (src : Nat → Nat) (n : Nat) : Nat → Nat :=
  fun i => if off ≤ i ∧ i < off + n then src (i - off) else dst i

/-- Frame buffer of `InjectPDMsg` and the number of bytes handed to `sendData`
(lines 1830-1852); `type` is the value of the enumerator, `dataLen` the number
of bytes of `data`. The buffer is followed here without its capacity: the
source declares `UCHAR cBuf[64]` (line 1825), so an index of 64 or more is
outside the array, and what this definition gives there is where the store
lands, not a byte of the array (`InjectPDMsg_cBuf64` below follows the same
statements on the array of 64 bytes). -/
def InjectPDMsg_cBuf (cBuf : Nat → Nat) (type : Nat) (data : Nat → Nat) (dataLen : Nat) :
    (Nat → Nat) × Nat :=
  let numPadZeros := 10
  let padZeros := decide (dataLen > 24)
  let cBuf := Function.update cBuf 0 0x02
  let cBuf := Function.update cBuf 1 ((dataLen + 3) % 256)
  let cBuf := Function.update cBuf 2 INJECT_PD_MSG
  let cBuf := Function.update cBuf 3 ((type % 256) &&& 0x1F)
  let cBuf := Function.update cBuf 4 ((type % 256) >>> 5)
  let cBuf := memcpyAt cBuf 5 data dataLen
  let cBuf := if padZeros then memcpyAt cBuf (5 + dataLen) (fun _ => 0) numPadZeros else cBuf
  let dataLen := if padZeros then dataLen + numPadZeros else dataLen
  let cBuf := if padZeros then Function.update cBuf 1 ((dataLen + 3) % 256) else cBuf
  let ck := checksum cBuf
  let cBuf := Function.update ck.2 (5 + dataLen) ck.1
  let cBuf := Function.update cBuf (6 + dataLen) 0x03
  (cBuf, 7 + dataLen)

/-- `PDTester::InjectPDMsg` (lines 1823-1872). -/
def InjectPDMsg (s : PDTester) (cBuf : Nat → Nat) (type : Nat) (data : Nat → Nat)
    (dataLen : Nat) (w1 w2 : List SerialEvent) : CmdResult :=
  let b := InjectPDMsg_cBuf cBuf type data dataLen
  let pre := [Effect.EnterCriticalSection, Effect.sendData (bufferBytes b.1 b.2)]
  let r1 := WaitForMultipleObjects s ComSignal.COM_PACKET_SENT s.TIME_OUT_MS w1
  if r1.status = WaitStatus.WAIT_OBJECT_0 then
    let r2 := WaitForMultipleObjects r1.s ComSignal.COM_PACKET_ARRIVED r1.s.TIME_OUT_MS
      (r1.rest ++ w2)
    let fx := pre ++ r1.fx ++ r2.fx ++ [Effect.LeaveCriticalSection]
    if r2.status = WaitStatus.WAIT_OBJECT_0 then
      if r2.s.RcvData 0 = INJECT_PD_MSG then
        if r2.s.RcvData 1 = 0 then
          ⟨r2.s, fx, true⟩
        else
          ⟨r2.s, fx, false⟩
      else
        ⟨r2.s, fx, false⟩
    else
      ⟨r2.s, fx, false⟩
  else
    ⟨r1.s, pre ++ r1.fx ++ [Effect.LeaveCriticalSection], false⟩

/-- Sample input of `ParsePDData`: header bytes `61 23`, then eight data
bytes. -/
def samplePDData : Nat → Nat :=
  fun i => [0x61, 0x23, 0x01, 0x02, 0x03, 0x04, 0x05, 0x06, 0x07, 0x08].getD i 0

/-! ## `GetCapabilities` (lines 1314-1365) -/

/-- Modelled from the spec: the type `USBPD_Object_TypeDef` of a profile object
is declared in `PDTesterAPI.h`, which is not among the sources. The members
that `GetCapabilities` names are `Profile.Type`, `Profile.SubType` and
`MinVoltage`; `others` stands for the remaining members (the further voltage
and current limits of the spec's profile object). -/
structure USBPD_Object_TypeDef where
  Profile_Type : Nat
  Profile_SubType : Nat
  MinVoltage : Nat
  others : List Nat
  deriving DecidableEq, Repr

/-- Modelled from the spec: the type `USBPD_Capabilities_TypeDef` of the
capability list (declared in the missing `PDTesterAPI.h`), with the three
members that `GetCapabilities` uses. -/
structure USBPD_Capabilities_TypeDef where
  NumObjects : Nat
  Object : Nat → USBPD_Object_TypeDef
  objExtraDataField : Nat → Nat

/-- Modelled from the spec: what `GetCapabilities` takes from the missing
header `PDTesterAPI.h`: the size in bytes of a profile object
(`sizeof(USBPD_Object_TypeDef)`), the object that a run of that many bytes
holds, the constant `MAX_PROFILES` and the enumerators `PROFILE_PD` and
`SUBTYPE_PD_AVS`. -/
structure CapabilitiesDecl where
  sizeofObject : Nat
  objectOfBytes : List Nat → USBPD_Object_TypeDef
  MAX_PROFILES : Nat
  PROFILE_PD : Nat
  SUBTYPE_PD_AVS : Nat

/-- The object that `memcpy` leaves in slot `k` of a destination array of
objects when the source bytes start at `src[3]`. -/
def objectAt (decl : CapabilitiesDecl) (src : Nat → Nat) (k : Nat) : USBPD_Object_TypeDef :=
  decl.objectOfBytes
    (bufferBytes (fun i => src (3 + k * decl.sizeofObject + i)) decl.sizeofObject)

/-- The call `memcpy((UCHAR*)&Object[first], &RcvData[3], sizeof(USBPD_Object_TypeDef) * 7)`:
slots `first .. first + 6` of the array receive the seven objects held by the
source bytes. -/
def memcpyObjects (decl : CapabilitiesDecl) (Object : Nat → USBPD_Object_TypeDef)
    (first : Nat) (RcvData : Nat → Nat) : Nat → USBPD_Object_TypeDef :=
  fun i => if first ≤ i ∧ i < first + 7 then objectAt decl RcvData (i - first) else Object i

/-- Result of `GetCapabilities`: state, recorded effects, returned `BOOL` and
the capability list behind the pointer `SourceCapabilities`. -/
structure CapabilitiesResult where
  s : PDTester
  fx : List Effect
  retVal : Bool
  caps : USBPD_Capabilities_TypeDef

/-- First part of `PDTester::GetCapabilities` (lines 1316-1354): the request,
the waits and the copies into the capability list, up to
`LeaveCriticalSection`. The windows `w1`, `w2`, `w3` are those of the wait for
send-complete, the wait for the first response and the wait for the second
response. -/
def GetCapabilities_receive (decl : CapabilitiesDecl) (s : PDTester) (cBuf : Nat → Nat)
    (SourceCapabilities : USBPD_Capabilities_TypeDef) (w1 w2 w3 : List SerialEvent) :
    CapabilitiesResult :=
  let cBuf := Function.update cBuf 0 0x02
  let cBuf := Function.update cBuf 1 0x01
  let cBuf := Function.update cBuf 2 GET_PORT_CAPABILITIES
  let ck := checksum cBuf
  let cBuf := Function.update ck.2 3 ck.1
  let cBuf := Function.update cBuf 4 0x03
  let pre := [Effect.EnterCriticalSection, Effect.sendData (bufferBytes cBuf 5)]
  let r1 := WaitForMultipleObjects s ComSignal.COM_PACKET_SENT s.TIME_OUT_MS w1
  if r1.status = WaitStatus.WAIT_OBJECT_0 then
    let r2 := WaitForMultipleObjects r1.s ComSignal.COM_PACKET_ARRIVED r1.s.TIME_OUT_MS
      (r1.rest ++ w2)
    if r2.status = WaitStatus.WAIT_OBJECT_0 ∧ r2.s.RcvData 0 = GET_PORT_CAPABILITIES then
      let caps1 : USBPD_Capabilities_TypeDef :=
        { SourceCapabilities with
            NumObjects := r2.s.RcvData 1,
            Object := memcpyObjects decl SourceCapabilities.Object 0 r2.s.RcvData }
      if caps1.NumObjects > 7 then
        let r3 := WaitForMultipleObjects r2.s ComSignal.COM_PACKET_ARRIVED r2.s.TIME_OUT_MS
          (r2.rest ++ w3)
        let fx := pre ++ r1.fx ++ r2.fx ++ r3.fx ++ [Effect.LeaveCriticalSection]
        if r3.status = WaitStatus.WAIT_OBJECT_0 ∧ r3.s.RcvData 0 = GET_PORT_CAPABILITIES then
          ⟨r3.s, fx, true,
            { caps1 with Object := memcpyObjects decl caps1.Object 7 r3.s.RcvData }⟩
        else
          ⟨r3.s, fx, false, caps1⟩
      else
        ⟨r2.s, pre ++ r1.fx ++ r2.fx ++ [Effect.LeaveCriticalSection], true, caps1⟩
    else
      ⟨r2.s, pre ++ r1.fx ++ r2.fx ++ [Effect.LeaveCriticalSection], false, SourceCapabilities⟩
  else
    ⟨r1.s, pre ++ r1.fx ++ [Effect.LeaveCriticalSection], false, SourceCapabilities⟩

/-- Body of the loop of lines 1357-1362 for slot `i`. -/
def avsStep (decl : CapabilitiesDecl) (caps : USBPD_Capabilities_TypeDef) (i : Nat) :
    USBPD_Capabilities_TypeDef :=
  if (caps.Object i).Profile_Type = decl.PROFILE_PD ∧
      (caps.Object i).Profile_SubType = decl.SUBTYPE_PD_AVS then
    { caps with
        objExtraDataField := Function.update caps.objExtraDataField i (caps.Object i).MinVoltage,
        Object := Function.update caps.Object i { caps.Object i with MinVoltage := 9000 } }
  else
    caps

/-- Second part of `PDTester::GetCapabilities` (lines 1356-1362): the loop
`for (int i = 0; i < MAX_PROFILES; i++)` over the slots of the list. -/
def GetCapabilities_avs (decl : CapabilitiesDecl) (caps : USBPD_Capabilities_TypeDef) :
    USBPD_Capabilities_TypeDef :=
  (List.range decl.MAX_PROFILES).foldl (avsStep decl) caps

/-- `PDTester::GetCapabilities` (lines 1314-1365). -/
def GetCapabilities (decl : CapabilitiesDecl) (s : PDTester) (cBuf : Nat → Nat)
    (SourceCapabilities : USBPD_Capabilities_TypeDef) (w1 w2 w3 : List SerialEvent) :
    CapabilitiesResult :=
  let r := GetCapabilities_receive decl s cBuf SourceCapabilities w1 w2 w3
  ⟨r.s, r.fx, r.retVal, GetCapabilities_avs decl r.caps⟩

/-- Sample declarations for `GetCapabilities`: objects of eight bytes (type,
subtype, 16-bit minimum voltage low byte first, four further bytes), sixteen
slots, profile type 1 and subtype 3 marking an adjustable-voltage profile. -/
def sampleDecl : CapabilitiesDecl where
  sizeofObject := 8
  objectOfBytes := fun b =>
    ⟨b.getD 0 0, b.getD 1 0, b.getD 2 0 + 256 * b.getD 3 0, b.drop 4⟩
  MAX_PROFILES := 16
  PROFILE_PD := 1
  SUBTYPE_PD_AVS := 3

/-- Sample capability list: every slot holds the all-zero object. -/
def sampleCaps : USBPD_Capabilities_TypeDef where
  NumObjects := 0
  Object := fun _ => ⟨0, 0, 0, []⟩
  objExtraDataField := fun _ => 0

/-! ## `GetConfig` and `SetConfig` (lines 396-1237)

Both operations are a straight sequence of blocks of one shape: build a frame
in the local buffer `cBuf`, hand it to the transport, wait for send-complete,
wait for the response, test the response. Every block after the first is
guarded by `if (retVal == TRUE)`; the first starts with `retVal` TRUE. The
embedding lists the blocks, the firmware checks and the calls of `Sleep` of
each operation in source order (`GetConfig_items`, `SetConfig_items`) and
runs the list with `runItem`. -/

/-- A frame built in `cBuf` the way every block does: start marker, length byte
`L`, the bytes `body` (command id, parameter id, values), then the checksum at
the next index and the terminator after it. -/
def buildFrame (cBuf : Nat → Nat) (L : Nat) (body : List Nat) : Nat → Nat :=
  let cBuf := writeList cBuf 0 (0x02 :: L :: body)
  let ck := checksum cBuf
  let cBuf := Function.update ck.2 (2 + body.length) ck.1
  Function.update cBuf (3 + body.length) 0x03

/-- State of a run of `GetConfig` or `SetConfig` between two blocks: the object,
the local buffer `cBuf`, the effects so far, the notifications not yet handled
when the last wait returned, the windows of the exchanges still to come (one
pair per exchange: send wait, response wait), the local `retVal`, and a record
of the exchanges issued so far: parameter id and whether the exchange
succeeded (both waits returned `WAIT_OBJECT_0` and the response passed the
test of the block). -/
structure CfgRun where
  s : PDTester
  cBuf : Nat → Nat
  fx : List Effect
  pending : List SerialEvent
  ws : List (List SerialEvent × List SerialEvent)
  retVal : Bool
  log : List (Nat × Bool)

/-- One block: under `if (retVal == TRUE)`, the frame with length byte `L` and
bytes `body` is sent and the two waits are made; `accept` is the test of the
response made after the second wait, `store` the assignments made when the
block succeeds. -/
def cfgExchange (r : CfgRun) (id : Nat) (L : Nat) (body : List Nat)
    (accept : PDTester → Bool) (store : PDTester → PDTester) : CfgRun :=
  if r.retVal = true then
    let cBuf := buildFrame r.cBuf L body
    let w := r.ws.headD ([], [])
    let send := Effect.sendData (bufferBytes cBuf (4 + body.length))
    let r1 := WaitForMultipleObjects r.s ComSignal.COM_PACKET_SENT r.s.TIME_OUT_MS
      (r.pending ++ w.1)
    if r1.status = WaitStatus.WAIT_OBJECT_0 then
      let r2 := WaitForMultipleObjects r1.s ComSignal.COM_PACKET_ARRIVED r1.s.TIME_OUT_MS
        (r1.rest ++ w.2)
      if r2.status = WaitStatus.WAIT_OBJECT_0 ∧ accept r2.s = true then
        ⟨store r2.s, cBuf, r.fx ++ [send] ++ r1.fx ++ r2.fx, r2.rest, r.ws.tail, true,
          r.log ++ [(id, true)]⟩
      else
        ⟨r2.s, cBuf, r.fx ++ [send] ++ r1.fx ++ r2.fx, r2.rest, r.ws.tail, false,
          r.log ++ [(id, false)]⟩
    else
      ⟨r1.s, cBuf, r.fx ++ [send] ++ r1.fx, r1.rest, r.ws.tail, false, r.log ++ [(id, false)]⟩
  else
    r

/-- The parts of `GetConfig` and `SetConfig`: a block of `GetConfig` for the
parameter `id` (`lenCheck` tells whether its test includes `RcvDataLen > 1`,
`store` is its assignment from the response buffer), a block of `SetConfig`
(`frame` gives the length byte and the value bytes from the configuration
members), a firmware check `if (FW_Ver < minFw) retVal = FALSE`, and a call
`Sleep(ms)`. -/
inductive CfgItem
  | get (id : Nat) (lenCheck : Bool) (store : (Nat → Nat) → ConfigShadow → ConfigShadow)
  | set (id : Nat) (frame : ConfigShadow → Nat × List Nat)
  | gate (minFw : Nat)
  | sleep (ms : Nat)

/-- One part of `GetConfig` or `SetConfig` run from the state `r`. -/
def runItem (r : CfgRun) : CfgItem → CfgRun
  | CfgItem.get id lenCheck store =>
      cfgExchange r id 0x02 [GET_CONFIG, id]
        (fun s => decide (s.RcvData 0 = GET_CONFIG ∧ (lenCheck = true → s.RcvDataLen > 1)))
        (fun s => { s with cfg := store s.RcvData s.cfg })
  | CfgItem.set id frame =>
      cfgExchange r id (frame r.s.cfg).1 (SET_CONFIG :: id :: (frame r.s.cfg).2)
        (fun s => decide (s.RcvData 0 = SET_CONFIG))
        (fun s => s)
  | CfgItem.gate minFw =>
      { r with retVal := if r.s.FW_Ver < minFw then false else r.retVal }
  | CfgItem.sleep ms =>
      { r with fx := r.fx ++ [Effect.Sleep ms] }

/-- The parts run in order. -/
def runItems (items : List CfgItem) (r : CfgRun) : CfgRun :=
  items.foldl runItem r

/-- Result of `GetConfig` or `SetConfig`: state, recorded effects, returned
`BOOL`, and the record of the exchanges issued. -/
structure CfgResult where
  s : PDTester
  fx : List Effect
  retVal : Bool
  log : List (Nat × Bool)

/-- The value `((unsigned int)RcvData[2] << 8) + RcvData[1]`. -/
def rcvU16 (RcvData : Nat → Nat) (lo : Nat) : Nat :=
  ((RcvData (lo + 1)) <<< 8) + RcvData lo

/-- The assignment `if (i == 0) ProfilePDLimit = uint16; else if ...` of lines
657-674. -/
def storeProfileLimit (i : Nat) (uint16 : Nat) (c : ConfigShadow) : ConfigShadow :=
  if i = 0 then { c with ProfilePDLimit := uint16 }
  else if i = 1 then { c with ProfileUCLimit := uint16 }
  else if i = 2 then { c with ProfileBCLimit := uint16 }
  else if i = 3 then { c with ProfileQC5Limit := uint16 }
  else if i = 4 then { c with ProfileQC9Limit := uint16 }
  else if i = 5 then { c with ProfileQC12Limit := uint16 }
  else if i = 6 then { c with ProfileQC20Limit := uint16 }
  else if i = 7 then { c with ProfileAppleLimit := uint16 }
  else if i = 8 then { c with ProfileSamsung2ALimit := uint16 }
  else c

/-- The blocks and firmware checks of `PDTester::GetConfig` (lines 404-811), in
source order. -/
def GetConfig_items : List CfgItem :=
  [ CfgItem.get CFG_LOOPBACK_ENABLE false (fun d c => { c with bLoopbackPortEnabled := d 1 }),
    CfgItem.get CFG_SDP_MAX_CURRENT false (fun d c => { c with MaxSDPCurrent := rcvU16 d 1 }),
    CfgItem.get CFG_ESTIMATE_VBUS false (fun d c => { c with bEstimatePortVoltage := d 1 }),
    CfgItem.get CFG_CABLE_RESISTANCE false (fun d c => { c with CableResistance := rcvU16 d 1 }),
    CfgItem.gate 38,
    CfgItem.get CFG_DEFAULT_PROFILE_IDX false (fun d c => { c with DefaultProfileIndex := d 1 }),
    CfgItem.get CFG_DEFAULT_VOLTAGE true (fun d c => { c with DefaultVoltage := rcvU16 d 1 }),
    CfgItem.get CFG_DEFAULT_LOAD true (fun d c => { c with DefaultLoad := rcvU16 d 1 }),
    CfgItem.get CFG_OPERATING_CURRENT true (fun d c => { c with OperatingCurrent := rcvU16 d 1 }),
    CfgItem.gate 41,
    CfgItem.get CFG_SINK_CAP true
      (fun d c => { c with SinkCapMV := rcvU16 d 1, SinkCapMA := rcvU16 d 3 }) ] ++
  (List.range 9).map
    (fun i => CfgItem.get (CFG_PROFILE_LIMIT + i) true
      (fun d c => storeProfileLimit i (rcvU16 d 1 % 65536) c)) ++
  [ CfgItem.gate 42,
    CfgItem.get CFG_HOLD_LOAD true (fun d c => { c with bHoldLoadOnVChange := d 1 }),
    CfgItem.get CFG_PPS_ENABLED true (fun d c => { c with bPPSEnabled := d 1 }),
    CfgItem.get CFG_DEF_CONF_ON_CAP true (fun d c => { c with bApplyDefaultConfigOnCap := d 1 }),
    CfgItem.get CFG_DEF_FAIL_VOLT true (fun d c => { c with bDefaultConfigFailOnVolt := d 1 }),
    CfgItem.get CFG_DEF_FAIL_CURR true (fun d c => { c with bDefaultConfigFailOnCurr := d 1 }) ]

/-- `PDTester::GetConfig` (lines 396-816); `ws` holds the windows of the
exchanges, one pair per exchange. -/
def GetConfig (s : PDTester) (cBuf : Nat → Nat)
    (ws : List (List SerialEvent × List SerialEvent)) : CfgResult :=
  let r := runItems GetConfig_items ⟨s, cBuf, [Effect.EnterCriticalSection], [], ws, true, []⟩
  ⟨r.s, r.fx ++ [Effect.LeaveCriticalSection], r.retVal, r.log⟩

/-- The bytes `(UCHAR)v & 0xff` and `(UCHAR)(v >> 8) & 0xff` of a value. -/
def lowHigh (v : Nat) : List Nat :=
  [(v % 256) &&& 0xff, ((v >>> 8) % 256) &&& 0xff]

/-- The value `limit` selected by `if (i == 0) limit = ProfilePDLimit; else if
...` of lines 1087-1105, a `UINT16` that starts as 0. -/
def profileLimit (i : Nat) (c : ConfigShadow) : Nat :=
  (if i = 0 then c.ProfilePDLimit
  else if i = 1 then c.ProfileUCLimit
  else if i = 2 then c.ProfileBCLimit
  else if i = 3 then c.ProfileQC5Limit
  else if i = 4 then c.ProfileQC9Limit
  else if i = 5 then c.ProfileQC12Limit
  else if i = 6 then c.ProfileQC20Limit
  else if i = 7 then c.ProfileAppleLimit
  else if i = 8 then c.ProfileSamsung2ALimit
  else 0) % 65536

/-- The blocks and the calls of `Sleep` of `PDTester::SetConfig` (lines
826-1232), in source order; `FORCE_LIMIT` is the value of the enumerator of
that name, declared in the missing header. -/
def SetConfig_items (FORCE_LIMIT : Nat) : List CfgItem :=
  [ CfgItem.set CFG_LOOPBACK_ENABLE (fun c => (0x03, [c.bLoopbackPortEnabled % 256])),
    CfgItem.sleep 100,
    CfgItem.set CFG_SET_MAX_CURRENT
      (fun c =>
        if c.CurrentLimitType = FORCE_LIMIT then
          (0x05, [c.CurrentLimitType % 256, (c.MaxCurrent % 256) &&& 0xff,
            ((c.MaxCurrent >>> 8) &&& 0xff) % 256])
        else
          (0x03, [c.CurrentLimitType % 256])),
    CfgItem.sleep 100,
    CfgItem.set CFG_SDP_MAX_CURRENT (fun c => (0x04, lowHigh c.MaxSDPCurrent)),
    CfgItem.sleep 100,
    CfgItem.set CFG_ESTIMATE_VBUS (fun c => (0x03, [c.bEstimatePortVoltage % 256])),
    CfgItem.sleep 100,
    CfgItem.set CFG_CABLE_RESISTANCE (fun c => (0x04, lowHigh c.CableResistance)),
    CfgItem.set CFG_DEFAULT_PROFILE_IDX (fun c => (0x03, [c.DefaultProfileIndex % 256])),
    CfgItem.set CFG_DEFAULT_VOLTAGE (fun c => (0x04, lowHigh c.DefaultVoltage)),
    CfgItem.set CFG_DEFAULT_LOAD (fun c => (0x04, lowHigh c.DefaultLoad)),
    CfgItem.set CFG_OPERATING_CURRENT (fun c => (0x04, lowHigh c.OperatingCurrent)),
    CfgItem.set CFG_SINK_CAP (fun c => (0x06, lowHigh c.SinkCapMV ++ lowHigh c.SinkCapMA)) ] ++
  (List.range 9).map
    (fun i => CfgItem.set (CFG_PROFILE_LIMIT + i) (fun c => (0x04, lowHigh (profileLimit i c)))) ++
  [ CfgItem.set CFG_HOLD_LOAD (fun c => (0x03, [c.bHoldLoadOnVChange % 256])),
    CfgItem.set CFG_PPS_ENABLED (fun c => (0x03, [c.bPPSEnabled % 256])),
    CfgItem.set CFG_DEF_CONF_ON_CAP (fun c => (0x03, [c.bApplyDefaultConfigOnCap % 256])),
    CfgItem.set CFG_DEF_FAIL_VOLT (fun c => (0x03, [c.bDefaultConfigFailOnVolt % 256])),
    CfgItem.set CFG_DEF_FAIL_CURR (fun c => (0x03, [c.bDefaultConfigFailOnCurr % 256])) ]

/-- `PDTester::SetConfig` (lines 818-1237). -/
def SetConfig (FORCE_LIMIT : Nat) (s : PDTester) (cBuf : Nat → Nat)
    (ws : List (List SerialEvent × List SerialEvent)) : CfgResult :=
  let r := runItems (SetConfig_items FORCE_LIMIT)
    ⟨s, cBuf, [Effect.EnterCriticalSection], [], ws, true, []⟩
  ⟨r.s, r.fx ++ [Effect.LeaveCriticalSection], r.retVal, r.log⟩

/-- Parameter ids of the exchanges that a list of parts issues when every
exchange succeeds, for the firmware version `fw`: those of the blocks before
the first failing firmware check. -/
def issuedIds (fw : Nat) : List CfgItem → List Nat
  | [] => []
  | CfgItem.get id _ _ :: rest => id :: issuedIds fw rest
  | CfgItem.set id _ :: rest => id :: issuedIds fw rest
  | CfgItem.gate minFw :: rest => if fw < minFw then [] else issuedIds fw rest
  | CfgItem.sleep _ :: rest => issuedIds fw rest

/-- Whether the firmware version `fw` passes every firmware check of a list of
parts. -/
def gatesPass (fw : Nat) : List CfgItem → Bool
  | [] => true
  | CfgItem.gate minFw :: rest => if fw < minFw then false else gatesPass fw rest
  | _ :: rest => gatesPass fw rest

/-- The assignments of the blocks of `GetConfig` that are issued when every
exchange succeeds, for the firmware version `fw`. -/
def issuedStores (fw : Nat) : List CfgItem → List ((Nat → Nat) → ConfigShadow → ConfigShadow)
  | [] => []
  | CfgItem.get _ _ store :: rest => store :: issuedStores fw rest
  | CfgItem.set _ _ :: rest => issuedStores fw rest
  | CfgItem.gate minFw :: rest => if fw < minFw then [] else issuedStores fw rest
  | CfgItem.sleep _ :: rest => issuedStores fw rest

/-- Assignments applied in order, each to its own response buffer. -/
def applyStores : List ((Nat → Nat) → ConfigShadow → ConfigShadow) → List (Nat → Nat) →
    ConfigShadow → ConfigShadow
  | store :: stores, d :: ds, c => applyStores stores ds (store d c)
  | _, _, c => c

/-- Wire image of a request with length byte `L` and bytes `body`: start
marker, length byte, the bytes, the exclusive-or of all of these and of 0x03,
and the terminator. -/
def wireFrame (L : Nat) (body : List Nat) : List Nat :=
  0x02 :: L :: (body ++ [(0x02 :: L :: body).foldl (· ^^^ ·) 0 ^^^ 0x03, 0x03])

/-- Parts that can occur in `GetConfig`: blocks of `GetConfig` with a parameter
id that is a byte, firmware checks, calls of `Sleep`. -/
def getItemOK : CfgItem → Bool
  | CfgItem.get id _ _ => decide (id < 256)
  | CfgItem.set _ _ => false
  | _ => true

/-- Members assigned by the blocks of `GetConfig` that follow the check
`FW_Ver < 38` and precede the check `FW_Ver < 41`. -/
def group38 (c : ConfigShadow) : List Nat :=
  [c.DefaultProfileIndex, c.DefaultVoltage, c.DefaultLoad, c.OperatingCurrent]

/-- Members assigned by the blocks of `GetConfig` that follow the check
`FW_Ver < 41` and precede the check `FW_Ver < 42`. -/
def group41 (c : ConfigShadow) : List Nat :=
  [c.SinkCapMV, c.SinkCapMA, c.ProfilePDLimit, c.ProfileUCLimit, c.ProfileBCLimit,
    c.ProfileQC5Limit, c.ProfileQC9Limit, c.ProfileQC12Limit, c.ProfileQC20Limit,
    c.ProfileAppleLimit, c.ProfileSamsung2ALimit]

/-- Members assigned by the blocks of `GetConfig` that follow the check
`FW_Ver < 42`. -/
def group42 (c : ConfigShadow) : List Nat :=
  [c.bHoldLoadOnVChange, c.bPPSEnabled, c.bApplyDefaultConfigOnCap, c.bDefaultConfigFailOnVolt,
    c.bDefaultConfigFailOnCurr]

/-- A send-complete notification in the send window and the frame
`02 02 E1 07 00 03` in one piece in the response window. -/
def sampleGetWindow : List SerialEvent × List SerialEvent :=
  ([SerialEvent.SERIAL_DATA_SENT],
    [SerialEvent.SERIAL_DATA_ARRIVAL [0x02, 0x02, 0xE1, 0x07, 0x00, 0x03]])

/-- A send-complete notification in the send window and the frame
`02 01 E0 E0 03` in one piece in the response window. -/
def sampleSetWindow : List SerialEvent × List SerialEvent :=
  ([SerialEvent.SERIAL_DATA_SENT],
    [SerialEvent.SERIAL_DATA_ARRIVAL [0x02, 0x01, 0xE0, 0xE0, 0x03]])

/-- Parts that can occur in `SetConfig` for the configuration members `c`:
blocks of `SetConfig` whose parameter id, length byte and value bytes are
bytes and whose length byte counts the command id, the parameter id and the
value bytes; firmware checks; calls of `Sleep`. -/
def setItemOK (c : ConfigShadow) : CfgItem → Prop
  | CfgItem.set id frame =>
      id < 256 ∧ (frame c).1 = (frame c).2.length + 2 ∧ (frame c).1 < 256 ∧
        ∀ b ∈ (frame c).2, b < 256
  | CfgItem.get _ _ _ => False
  | _ => True

/-- The requests of the blocks of `SetConfig` among a list of parts, for the
configuration members `c`, as wire images. -/
def setFrames (c : ConfigShadow) : List CfgItem → List (List Nat)
  | [] => []
  | CfgItem.set id frame :: rest =>
      wireFrame (frame c).1 (SET_CONFIG :: id :: (frame c).2) :: setFrames c rest
  | _ :: rest => setFrames c rest

/-- The parameter ids of the twenty-four blocks of `SetConfig`, in source
order. -/
def SetConfig_ids : List Nat :=
  [0x00, 0x01, 0x02, 0x03, 0x04, 0x05, 0x06, 0x07, 0x08, 0x09, 0x0A, 0x0B, 0x0C, 0x0D, 0x0E,
    0x0F, 0x10, 0x11, 0x12, 0x16, 0x17, 0x18, 0x19, 0x1A]

/-- State in which a wait for the response-arrived signal leaves the object when
the frame with length byte `L`, the given payload and the checksum byte `c`
arrives in one piece: the reassembler has accepted the frame, the router has
copied 64 bytes of `RcvDataTmp` to `RcvData`, and the wait has reset the
signal. -/
def responseState (s : PDTester) (L : Nat) (payload : List Nat) (c : Nat) : PDTester :=
  { acceptState s L payload c with
      RcvData := memcpy s.RcvData (memcpy s.RcvDataTmp (fun i => payload.getD i 0) L) 64 }

/-- The windows of an exchange that completes: the send-complete notification
arrives during the send wait, and the frame `response` arrives in one piece
during the response wait. -/
def completing (response : List Nat) : List SerialEvent × List SerialEvent :=
  ([SerialEvent.SERIAL_DATA_SENT], [SerialEvent.SERIAL_DATA_ARRIVAL response])

/-- Parts that can occur in `SetConfig` when no firmware check is made: blocks
of `SetConfig` and calls of `Sleep`. -/
def setOnly : CfgItem → Bool
  | CfgItem.set _ _ => true
  | CfgItem.sleep _ => true
  | _ => false

/-- A block of `GetConfig` whose response, the payload `payloadOf id` with tag
0xE1 and at least one more byte, makes its assignment store the values that
the configuration members `c` already have. -/
def getItemFaithful (c : ConfigShadow) (payloadOf : Nat → List Nat) : CfgItem → Prop
  | CfgItem.get id _ store =>
      1 < (payloadOf id).length ∧ (payloadOf id).getD 0 0 = GET_CONFIG ∧
        ∀ d : Nat → Nat,
          (∀ i, i < (payloadOf id).length → i < 64 → d i = (payloadOf id).getD i 0) →
          store d c = c
  | CfgItem.set _ _ => False
  | _ => True

/-- Modelled from the spec: the device as a store that records, per parameter
id, the value bytes of each acknowledged `SET_CONFIG` frame. `frames` are the
acknowledged frames in order; the value bytes recorded for `id` are those of
the last frame for `id`: the bytes after the parameter id, as many as the
length byte announces beyond the command id and the parameter id. -/
def deviceValues (frames : List (List Nat)) (id : Nat) : List Nat :=
  match (frames.filter (fun f => decide (f.getD 2 0 = SET_CONFIG ∧ f.getD 3 0 = id))).getLast? with
  | some f => (f.drop 4).take (f.getD 1 0 - 2)
  | none => []

/-- Modelled from the spec: the acknowledgement of the device for a
`SET_CONFIG` frame, a frame whose payload is the tag 0xE0. -/
def deviceAck : List Nat :=
  frameBytes 1 [SET_CONFIG] (frameChecksum 1 [SET_CONFIG]) 0x03

/-- Modelled from the spec: the answer of the device to the `GET_CONFIG` frame
`request`, a frame whose payload is the tag 0xE1 followed by the value bytes
recorded for the parameter id of the request. -/
def deviceAnswer (frames : List (List Nat)) (request : List Nat) : List Nat :=
  frameBytes (1 + (deviceValues frames (request.getD 3 0)).length)
    (GET_CONFIG :: deviceValues frames (request.getD 3 0))
    (frameChecksum (1 + (deviceValues frames (request.getD 3 0)).length)
      (GET_CONFIG :: deviceValues frames (request.getD 3 0))) 0x03

/-- The parameter ids of the twenty-three blocks of `GetConfig`, in source
order. -/
def GetConfig_ids : List Nat :=
  [0x00, 0x02, 0x03, 0x04, 0x05, 0x06, 0x07, 0x08, 0x09, 0x0A, 0x0B, 0x0C, 0x0D, 0x0E, 0x0F,
    0x10, 0x11, 0x12, 0x16, 0x17, 0x18, 0x19, 0x1A]

/-- The requests `02 02 E1 id chk 03` of the twenty-three blocks of `GetConfig`. -/
def GetConfig_requests : List (List Nat) :=
  GetConfig_ids.map (fun id => wireFrame 0x02 [GET_CONFIG, id])

/-- Ranges of the configuration members that `GetConfig` fetches: the members
that travel as one byte (the flags and the default profile index) are bytes,
the others are 16-bit values. -/
def wireRange (c : ConfigShadow) : Prop :=
  (c.bLoopbackPortEnabled < 256 ∧ c.bEstimatePortVoltage < 256 ∧ c.DefaultProfileIndex < 256 ∧
    c.bHoldLoadOnVChange < 256 ∧ c.bPPSEnabled < 256 ∧ c.bApplyDefaultConfigOnCap < 256 ∧
    c.bDefaultConfigFailOnVolt < 256 ∧ c.bDefaultConfigFailOnCurr < 256) ∧
  (c.MaxSDPCurrent < 65536 ∧ c.CableResistance < 65536 ∧ c.DefaultVoltage < 65536 ∧
    c.DefaultLoad < 65536 ∧ c.OperatingCurrent < 65536 ∧ c.SinkCapMV < 65536 ∧
    c.SinkCapMA < 65536) ∧
  (c.ProfilePDLimit < 65536 ∧ c.ProfileUCLimit < 65536 ∧ c.ProfileBCLimit < 65536 ∧
    c.ProfileQC5Limit < 65536 ∧ c.ProfileQC9Limit < 65536 ∧ c.ProfileQC12Limit < 65536 ∧
    c.ProfileQC20Limit < 65536 ∧ c.ProfileAppleLimit < 65536 ∧
    c.ProfileSamsung2ALimit < 65536)

instance (c : ConfigShadow) : Decidable (wireRange c) := by
  unfold wireRange
  infer_instance

/-- Configuration members used as an example: every fetched member has a value
of its own. -/
def sampleConfig : ConfigShadow :=
  ⟨1, 2, 300, 400, 1, 500, 3, 5000, 1000, 200, 9000, 3000, 1100, 1200, 1300, 1400, 1500, 1600,
    1700, 1800, 65535, 1, 0, 1, 0, 255⟩

/-- `SetConfig` followed by `GetConfig` against the modelled device: every
exchange of `SetConfig` completes and is acknowledged by `deviceAck`, and
every exchange of `GetConfig` completes with the answer of the device, which
has recorded the frames that `SetConfig` handed to the transport, to the
request of that exchange. The results of the two operations, in order. -/
def SetConfig_then_GetConfig (FORCE_LIMIT : Nat) (s : PDTester) (cBuf1 cBuf2 : Nat → Nat) :
    CfgResult × CfgResult :=
  let rs := SetConfig FORCE_LIMIT s cBuf1 (List.replicate 24 (completing deviceAck))
  let rg := GetConfig rs.s cBuf2
    (GetConfig_requests.map (fun q => completing (deviceAnswer (sentFrames rs.fx) q)))
  (rs, rg)

/-! ## Further command operations -/

abbrev GET_CONSTAT : Nat := 0x0A
abbrev GET_STAT : Nat := 0x0C
abbrev GET_STEP_RESPONSE : Nat := 0x13
abbrev INJECT_PD_MSG_RAW : Nat := 0x16
abbrev GET_SUB_HW_REV : Nat := 0xD1
abbrev GET_CALIB_DATA : Nat := 0xE4
abbrev SET_PD_ANALYZER : Nat := 0xE7
abbrev MAX_MSG_INJECT_LENGTH : Nat := 50

/-- Result of a command operation that leaves values behind pointers: state,
recorded effects, returned `BOOL` and the values behind the pointers when the
operation returns. -/
structure OutResult (α : Type) where
  s : PDTester
  fx : List Effect
  retVal : Bool
  out : α

/-- Frame buffer of `GetSubRev`, `GetConnectionStatus` and `GetStatistics` when
`sendData` is called: a command id alone (lines 342-346, 1272-1276,
1374-1378). -/
def query_cBuf (cBuf : Nat → Nat) (cmd : Nat) : Nat → Nat :=
  let cBuf := Function.update cBuf 0 0x02
  let cBuf := Function.update cBuf 1 0x01
  let cBuf := Function.update cBuf 2 cmd
  let ck := checksum cBuf
  let cBuf := Function.update ck.2 3 ck.1
  Function.update cBuf 4 0x03

/-- `PDTester::GetSubRev` (lines 334-373). -/
def GetSubRev (s : PDTester) (cBuf : Nat → Nat) (w1 w2 : List SerialEvent) : CmdResult :=
  let pre :=
    [Effect.EnterCriticalSection, Effect.sendData (bufferBytes (query_cBuf cBuf GET_SUB_HW_REV) 5)]
  let r1 := WaitForMultipleObjects s ComSignal.COM_PACKET_SENT s.TIME_OUT_MS w1
  if r1.status = WaitStatus.WAIT_OBJECT_0 then
    let r2 := WaitForMultipleObjects r1.s ComSignal.COM_PACKET_ARRIVED r1.s.TIME_OUT_MS
      (r1.rest ++ w2)
    let fx := pre ++ r1.fx ++ r2.fx ++ [Effect.LeaveCriticalSection]
    if r2.status = WaitStatus.WAIT_OBJECT_0 then
      if r2.s.RcvData 0 = GET_SUB_HW_REV then
        ⟨{ r2.s with HW_SubRevNumber := r2.s.RcvData 1 }, fx, true⟩
      else
        ⟨r2.s, fx, false⟩
    else
      ⟨{ r2.s with HW_SubRevNumber := 0 }, fx, false⟩
  else
    ⟨r1.s, pre ++ r1.fx ++ [Effect.LeaveCriticalSection], false⟩

/-- Values behind the pointers of `GetConnectionStatus`. -/
structure ConnectionStatus where
  port_status : Nat
  profile_index : Nat
  profile : Nat
  profile_subtype : Nat
  voltage : Nat
  max_current : Nat
  max_power : Nat
  deriving DecidableEq, Repr

/-- `PDTester::GetConnectionStatus` (lines 1263-1299); `out` holds the values
behind the seven pointers on entry. -/
def GetConnectionStatus (s : PDTester) (cBuf : Nat → Nat) (out : ConnectionStatus)
    (w1 w2 : List SerialEvent) : OutResult ConnectionStatus :=
  let pre :=
    [Effect.EnterCriticalSection, Effect.sendData (bufferBytes (query_cBuf cBuf GET_CONSTAT) 5)]
  let r1 := WaitForMultipleObjects s ComSignal.COM_PACKET_SENT s.TIME_OUT_MS w1
  if r1.status = WaitStatus.WAIT_OBJECT_0 then
    let r2 := WaitForMultipleObjects r1.s ComSignal.COM_PACKET_ARRIVED r1.s.TIME_OUT_MS
      (r1.rest ++ w2)
    let fx := pre ++ r1.fx ++ r2.fx ++ [Effect.LeaveCriticalSection]
    if r2.status = WaitStatus.WAIT_OBJECT_0 ∧ r2.s.RcvData 0 = GET_CONSTAT then
      ⟨r2.s, fx, true,
        { port_status := r2.s.RcvData 1,
          profile_index := r2.s.RcvData 2 % 256,
          profile := r2.s.RcvData 3,
          profile_subtype := r2.s.RcvData 4,
          voltage := (((r2.s.RcvData 6) <<< 8) ||| r2.s.RcvData 5) % 65536,
          max_current := (((r2.s.RcvData 8) <<< 8) ||| r2.s.RcvData 7) % 65536,
          max_power :=
            ((((r2.s.RcvData 12) % 65536) <<< 24) ||| (((r2.s.RcvData 11) % 65536) <<< 16) |||
              (((r2.s.RcvData 10) % 65536) <<< 8) ||| r2.s.RcvData 9) % 4294967296 }⟩
    else
      ⟨r2.s, fx, false, out⟩
  else
    ⟨r1.s, pre ++ r1.fx ++ [Effect.LeaveCriticalSection], false, out⟩

/-- Values behind the pointers of `GetStatistics`. -/
structure Statistics where
  temp : Nat
  voltage : Nat
  set_current : Nat
  current : Nat
  loopback_current : Nat
  deriving DecidableEq, Repr

/-- `PDTester::GetStatistics` (lines 1366-1402); `out` holds the values behind
the five pointers on entry. -/
def GetStatistics (s : PDTester) (cBuf : Nat → Nat) (out : Statistics)
    (w1 w2 : List SerialEvent) : OutResult Statistics :=
  let pre :=
    [Effect.EnterCriticalSection, Effect.sendData (bufferBytes (query_cBuf cBuf GET_STAT) 5)]
  let r1 := WaitForMultipleObjects s ComSignal.COM_PACKET_SENT s.TIME_OUT_MS w1
  if r1.status = WaitStatus.WAIT_OBJECT_0 then
    let r2 := WaitForMultipleObjects r1.s ComSignal.COM_PACKET_ARRIVED r1.s.TIME_OUT_MS
      (r1.rest ++ w2)
    let fx := pre ++ r1.fx ++ r2.fx ++ [Effect.LeaveCriticalSection]
    if r2.status = WaitStatus.WAIT_OBJECT_0 ∧ r2.s.RcvData 0 = GET_STAT then
      ⟨r2.s, fx, true,
        { temp := r2.s.RcvData 2,
          voltage := (((r2.s.RcvData 4) <<< 8) ||| r2.s.RcvData 3) % 65536,
          set_current := (((r2.s.RcvData 6) <<< 8) ||| r2.s.RcvData 5) % 65536,
          current := (((r2.s.RcvData 8) <<< 8) ||| r2.s.RcvData 7) % 65536,
          loopback_current := (((r2.s.RcvData 10) <<< 8) ||| r2.s.RcvData 9) % 65536 }⟩
    else
      ⟨r2.s, fx, false, out⟩
  else
    ⟨r1.s, pre ++ r1.fx ++ [Effect.LeaveCriticalSection], false, out⟩

/-- Conversion `(INT16)x` of a non-negative `int`. -/
def toINT16 (x : Nat) : Int :=
  if x % 65536 < 32768 then (x % 65536 : Nat) else ((x % 65536 : Nat) : Int) - 65536

/-- Values behind the pointers of `GetCalibrationData`. -/
structure CalibrationData where
  isCalibrated : Int
  year : Int
  month : Int
  applied1 : Int
  measured1 : Int
  applied2 : Int
  measured2 : Int
  deriving DecidableEq, Repr

/-- `PDTester::GetCalibrationData` (lines 1610-1646); `channel` is the value of
the enumerator, `out` holds the values behind the seven pointers on entry. -/
def GetCalibrationData (s : PDTester) (cBuf : Nat → Nat) (channel : Nat) (out : CalibrationData)
    (w1 w2 : List SerialEvent) : OutResult CalibrationData :=
  let pre := [Effect.EnterCriticalSection,
    Effect.sendData (bufferBytes (setByte_cBuf cBuf GET_CALIB_DATA (channel % 256)) 6)]
  let r1 := WaitForMultipleObjects s ComSignal.COM_PACKET_SENT s.TIME_OUT_MS w1
  if r1.status = WaitStatus.WAIT_OBJECT_0 then
    let r2 := WaitForMultipleObjects r1.s ComSignal.COM_PACKET_ARRIVED r1.s.TIME_OUT_MS
      (r1.rest ++ w2)
    let fx := pre ++ r1.fx ++ r2.fx
    if r2.status = WaitStatus.WAIT_OBJECT_0 then
      if r2.s.RcvData 0 = GET_CALIB_DATA then
        ⟨r2.s, fx ++ [Effect.LeaveCriticalSection], true,
          { isCalibrated := r2.s.RcvData 1,
            year := (r2.s.RcvData 2 : Int) + 2020,
            month := r2.s.RcvData 3,
            applied1 := toINT16 (((r2.s.RcvData 5) <<< 8) ||| r2.s.RcvData 4),
            measured1 := toINT16 (((r2.s.RcvData 7) <<< 8) ||| r2.s.RcvData 6),
            applied2 := toINT16 (((r2.s.RcvData 9) <<< 8) ||| r2.s.RcvData 8),
            measured2 := toINT16 (((r2.s.RcvData 11) <<< 8) ||| r2.s.RcvData 10) }⟩
      else
        ⟨r2.s, fx ++ [Effect.LeaveCriticalSection], false, out⟩
    else
      ⟨r2.s, fx ++ [Effect.LeaveCriticalSection], false, out⟩
  else
    ⟨r1.s, pre ++ r1.fx ++ [Effect.LeaveCriticalSection], false, out⟩

/-- `PDTester::StartPDAnalyzer` (lines 1751-1783); `callback` tells whether the
pointer passed is not `NULL`. The two assignments precede
`EnterCriticalSection`; the rest has the shape of `waitAckNested`. -/
def StartPDAnalyzer (s : PDTester) (cBuf : Nat → Nat) (callback : Bool)
    (w1 w2 : List SerialEvent) : CmdResult :=
  waitAckNested { s with PDAnalyzerCallback := callback, TIME_OUT_MS := 3000 }
    (bufferBytes (setByte_cBuf cBuf SET_PD_ANALYZER 0x01) 6) SET_PD_ANALYZER w1 w2

/-- `PDTester::StopPDAnalyzer` (lines 1785-1818): `PDAnalyzerCallback = NULL`
follows `EnterCriticalSection`, the request and the waits have the shape of
`waitAckNested`, and `TIME_OUT_MS = 500` precedes `LeaveCriticalSection` on
both paths. -/
def StopPDAnalyzer (s : PDTester) (cBuf : Nat → Nat) (w1 w2 : List SerialEvent) : CmdResult :=
  let r := waitAckNested { s with PDAnalyzerCallback := false }
    (bufferBytes (setByte_cBuf cBuf SET_PD_ANALYZER 0x00) 6) SET_PD_ANALYZER w1 w2
  ⟨{ r.s with TIME_OUT_MS := 500 }, r.fx, r.retVal⟩

/-- Frame buffer of `InjectPDMsgRaw` and the number of bytes handed to
`sendData` (lines 1883-1907); `numBytes` is the number of bytes of `rawMsg`.
As for `InjectPDMsg_cBuf` the buffer is followed without its capacity: the
source declares `UCHAR cBuf[64]` (line 1878), so an index of 64 or more is
outside the array. -/
def InjectPDMsgRaw_cBuf (cBuf : Nat → Nat) (rawMsg : Nat → Nat) (numBytes : Nat) :
    (Nat → Nat) × Nat :=
  let numPadZeros := 10
  let padZeros := decide (numBytes > 24)
  let numBytes := if numBytes > MAX_MSG_INJECT_LENGTH then MAX_MSG_INJECT_LENGTH else numBytes
  let cBuf := Function.update cBuf 0 0x02
  let cBuf := Function.update cBuf 1 ((numBytes + 1) % 256)
  let cBuf := Function.update cBuf 2 INJECT_PD_MSG_RAW
  let cBuf := memcpyAt cBuf 3 rawMsg numBytes
  let cBuf := if padZeros then memcpyAt cBuf (5 + numBytes) (fun _ => 0) numPadZeros else cBuf
  let numBytes := if padZeros then numBytes + numPadZeros else numBytes
  let cBuf := if padZeros then Function.update cBuf 1 ((numBytes + 3) % 256) else cBuf
  let ck := checksum cBuf
  let cBuf := Function.update ck.2 (3 + numBytes) ck.1
  let cBuf := Function.update cBuf (4 + numBytes) 0x03
  (cBuf, 5 + numBytes)

/-- `PDTester::InjectPDMsgRaw` (lines 1876-1930). -/
def InjectPDMsgRaw (s : PDTester) (cBuf : Nat → Nat) (rawMsg : Nat → Nat) (numBytes : Nat)
    (w1 w2 : List SerialEvent) : CmdResult :=
  let b := InjectPDMsgRaw_cBuf cBuf rawMsg numBytes
  let pre := [Effect.EnterCriticalSection, Effect.sendData (bufferBytes b.1 b.2)]
  let r1 := WaitForMultipleObjects s ComSignal.COM_PACKET_SENT s.TIME_OUT_MS w1
  if r1.status = WaitStatus.WAIT_OBJECT_0 then
    let r2 := WaitForMultipleObjects r1.s ComSignal.COM_PACKET_ARRIVED r1.s.TIME_OUT_MS
      (r1.rest ++ w2)
    let fx := pre ++ r1.fx ++ r2.fx ++ [Effect.LeaveCriticalSection]
    if r2.status = WaitStatus.WAIT_OBJECT_0 then
      if r2.s.RcvData 0 = INJECT_PD_MSG_RAW then
        if r2.s.RcvData 1 = 0 then
          ⟨r2.s, fx, true⟩
        else
          ⟨r2.s, fx, false⟩
      else
        ⟨r2.s, fx, false⟩
    else
      ⟨r2.s, fx, false⟩
  else
    ⟨r1.s, pre ++ r1.fx ++ [Effect.LeaveCriticalSection], false⟩

/-! ## `GetStepResponse` (lines 1566-1608) -/

/-- Frame buffer of `GetStepResponse` when `sendData` is called
(lines 1574-1582). -/
def GetStepResponse_cBuf (cBuf : Nat → Nat) (start_current end_current : Nat) : Nat → Nat :=
  let cBuf := Function.update cBuf 0 0x02
  let cBuf := Function.update cBuf 1 0x05
  let cBuf := Function.update cBuf 2 GET_STEP_RESPONSE
  let cBuf := Function.update cBuf 3 (start_current &&& 0xff)
  let cBuf := Function.update cBuf 4 ((start_current >>> 8) &&& 0xff)
  let cBuf := Function.update cBuf 5 (end_current &&& 0xff)
  let cBuf := Function.update cBuf 6 ((end_current >>> 8) &&& 0xff)
  let ck := checksum cBuf
  let cBuf := Function.update ck.2 7 ck.1
  Function.update cBuf 8 0x03

/-- The call `memcpy(&voltages[offset], &RcvData[2], n * 2)` into an array of
`UINT16`: entry `offset + k` receives the bytes `RcvData[2 + 2k]` and
`RcvData[3 + 2k]`, the first as its low byte (the byte order of the host, a
Windows machine). -/
def memcpyU16 (voltages : Nat → Nat) (offset : Nat) (RcvData : Nat → Nat) (n : Nat) :
    Nat → Nat :=
  fun j =>
    if offset ≤ j ∧ j < offset + n then
      RcvData (2 + 2 * (j - offset)) + 256 * RcvData (3 + 2 * (j - offset))
    else
      voltages j

/-- Values behind the pointers of `GetStepResponse`: the array `voltages` and
the byte behind `sample_time_us`, `none` when that pointer is `NULL`. -/
structure StepResponse where
  voltages : Nat → Nat
  sample_time_us : Option Nat

/-- State of `GetStepResponse` between two passes of its loop: the object, the
effects so far, the notifications not yet handled when the last wait returned,
the local `retVal` and the values behind the pointers. -/
structure StepRun where
  s : PDTester
  fx : List Effect
  pending : List SerialEvent
  retVal : Bool
  out : StepResponse

/-- One pass of the loop `for (int i = 0; i < 3 && retVal == TRUE; i++)` of
lines 1588-1600, with the test `retVal == TRUE` of the loop condition; `iw`
holds the loop index `i` and the window of the wait. -/
def GetStepResponse_pass (r : StepRun) (iw : Nat × List SerialEvent) : StepRun :=
  if r.retVal = true then
    let voltages_per_message := 25
    let rw := WaitForMultipleObjects r.s ComSignal.COM_PACKET_ARRIVED 6000 (r.pending ++ iw.2)
    if rw.status = WaitStatus.WAIT_OBJECT_0 ∧ rw.s.RcvData 0 = GET_STEP_RESPONSE then
      let offset := iw.1 * voltages_per_message
      ⟨rw.s, r.fx ++ rw.fx, rw.rest, true,
        { voltages := memcpyU16 r.out.voltages offset rw.s.RcvData voltages_per_message,
          sample_time_us := r.out.sample_time_us.map (fun _ => rw.s.RcvData 1) }⟩
    else
      ⟨rw.s, r.fx ++ rw.fx, rw.rest, false, r.out⟩
  else
    r

/-- `PDTester::GetStepResponse` (lines 1566-1608); `out` holds the values behind
the two pointers on entry, `w1` is the window of the wait for send-complete and
`w2`, `w3`, `w4` are the windows of the waits of the three passes of the
loop. -/
def GetStepResponse (s : PDTester) (cBuf : Nat → Nat) (start_current end_current : Nat)
    (out : StepResponse) (w1 w2 w3 w4 : List SerialEvent) : OutResult StepResponse :=
  let pre := [Effect.EnterCriticalSection,
    Effect.sendData (bufferBytes (GetStepResponse_cBuf cBuf start_current end_current) 9)]
  let r1 := WaitForMultipleObjects s ComSignal.COM_PACKET_SENT 4000 w1
  if r1.status = WaitStatus.WAIT_OBJECT_0 then
    let r := [(0, w2), (1, w3), (2, w4)].foldl GetStepResponse_pass
      ⟨r1.s, pre ++ r1.fx, r1.rest, true, out⟩
    ⟨r.s, r.fx ++ [Effect.LeaveCriticalSection], r.retVal, r.out⟩
  else
    ⟨r1.s, pre ++ r1.fx ++ [Effect.LeaveCriticalSection], false, out⟩

/-! ## The command operations as one family -/

/-- A call of one of the public command operations, with its arguments and the
inputs of its embedding (initial content of the local frame buffer, values
behind its pointers on entry, windows of its waits). -/
inductive Command
  | GetDevInfo (cBuf : Nat → Nat) (HW_Ver SW_Ver : Nat) (w1 w2 : List SerialEvent)
  | GetSubRev (cBuf : Nat → Nat) (w1 w2 : List SerialEvent)
  | GetConfig (cBuf : Nat → Nat) (ws : List (List SerialEvent × List SerialEvent))
  | SetConfig (FORCE_LIMIT : Nat) (cBuf : Nat → Nat)
      (ws : List (List SerialEvent × List SerialEvent))
  | GetConnectionStatus (cBuf : Nat → Nat) (out : ConnectionStatus) (w1 w2 : List SerialEvent)
  | GetCapabilities (decl : CapabilitiesDecl) (cBuf : Nat → Nat)
      (SourceCapabilities : USBPD_Capabilities_TypeDef) (w1 w2 w3 : List SerialEvent)
  | GetStatistics (cBuf : Nat → Nat) (out : Statistics) (w1 w2 : List SerialEvent)
  | SetVoltage (cBuf : Nat → Nat) (index voltage : Nat) (w1 w2 : List SerialEvent)
  | SetLoad (cBuf : Nat → Nat) (set_current : Nat) (w1 w2 : List SerialEvent)
  | SetLoadFast (cBuf : Nat → Nat) (set_current slope : Nat) (w1 w2 : List SerialEvent)
  | SetDefaultVoltage (cBuf : Nat → Nat) (voltage_mv : Nat) (w1 w2 : List SerialEvent)
  | SetDefaultLoad (cBuf : Nat → Nat) (current_ma : Nat) (w1 w2 : List SerialEvent)
  | GetStepResponse (cBuf : Nat → Nat) (start_current end_current : Nat) (out : StepResponse)
      (w1 w2 w3 w4 : List SerialEvent)
  | GetCalibrationData (cBuf : Nat → Nat) (channel : Nat) (out : CalibrationData)
      (w1 w2 : List SerialEvent)
  | SetCalibrationData (cBuf : Nat → Nat) (channel : Nat)
      (year month applied1 measured1 applied2 measured2 : Int) (w1 w2 : List SerialEvent)
  | ResetCalibrationData (cBuf : Nat → Nat) (channel : Nat) (w1 w2 : List SerialEvent)
  | SetUsbConnection (cBuf : Nat → Nat) (isConnected : Bool) (w1 w2 : List SerialEvent)
  | StartPDAnalyzer (cBuf : Nat → Nat) (callback : Bool) (w1 w2 : List SerialEvent)
  | StopPDAnalyzer (cBuf : Nat → Nat) (w1 w2 : List SerialEvent)
  | InjectPDMsg (cBuf : Nat → Nat) (type : Nat) (data : Nat → Nat) (dataLen : Nat)
      (w1 w2 : List SerialEvent)
  | InjectPDMsgRaw (cBuf : Nat → Nat) (rawMsg : Nat → Nat) (numBytes : Nat)
      (w1 w2 : List SerialEvent)

/-- State and recorded effects when the called operation returns, `s` being the
state on entry. -/
def Command.run (s : PDTester) : Command → PDTester × List Effect
  | Command.GetDevInfo cBuf HW_Ver SW_Ver w1 w2 =>
      ((PDTesterAPI.GetDevInfo s cBuf HW_Ver SW_Ver w1 w2).s,
        (PDTesterAPI.GetDevInfo s cBuf HW_Ver SW_Ver w1 w2).fx)
  | Command.GetSubRev cBuf w1 w2 =>
      ((PDTesterAPI.GetSubRev s cBuf w1 w2).s, (PDTesterAPI.GetSubRev s cBuf w1 w2).fx)
  | Command.GetConfig cBuf ws =>
      ((PDTesterAPI.GetConfig s cBuf ws).s, (PDTesterAPI.GetConfig s cBuf ws).fx)
  | Command.SetConfig FORCE_LIMIT cBuf ws =>
      ((PDTesterAPI.SetConfig FORCE_LIMIT s cBuf ws).s,
        (PDTesterAPI.SetConfig FORCE_LIMIT s cBuf ws).fx)
  | Command.GetConnectionStatus cBuf out w1 w2 =>
      ((PDTesterAPI.GetConnectionStatus s cBuf out w1 w2).s,
        (PDTesterAPI.GetConnectionStatus s cBuf out w1 w2).fx)
  | Command.GetCapabilities decl cBuf SourceCapabilities w1 w2 w3 =>
      ((PDTesterAPI.GetCapabilities decl s cBuf SourceCapabilities w1 w2 w3).s,
        (PDTesterAPI.GetCapabilities decl s cBuf SourceCapabilities w1 w2 w3).fx)
  | Command.GetStatistics cBuf out w1 w2 =>
      ((PDTesterAPI.GetStatistics s cBuf out w1 w2).s,
        (PDTesterAPI.GetStatistics s cBuf out w1 w2).fx)
  | Command.SetVoltage cBuf index voltage w1 w2 =>
      ((PDTesterAPI.SetVoltage s cBuf index voltage w1 w2).s,
        (PDTesterAPI.SetVoltage s cBuf index voltage w1 w2).fx)
  | Command.SetLoad cBuf set_current w1 w2 =>
      ((PDTesterAPI.SetLoad s cBuf set_current w1 w2).s,
        (PDTesterAPI.SetLoad s cBuf set_current w1 w2).fx)
  | Command.SetLoadFast cBuf set_current slope w1 w2 =>
      ((PDTesterAPI.SetLoadFast s cBuf set_current slope w1 w2).s,
        (PDTesterAPI.SetLoadFast s cBuf set_current slope w1 w2).fx)
  | Command.SetDefaultVoltage cBuf voltage_mv w1 w2 =>
      ((PDTesterAPI.SetDefaultVoltage s cBuf voltage_mv w1 w2).s,
        (PDTesterAPI.SetDefaultVoltage s cBuf voltage_mv w1 w2).fx)
  | Command.SetDefaultLoad cBuf current_ma w1 w2 =>
      ((PDTesterAPI.SetDefaultLoad s cBuf current_ma w1 w2).s,
        (PDTesterAPI.SetDefaultLoad s cBuf current_ma w1 w2).fx)
  | Command.GetStepResponse cBuf start_current end_current out w1 w2 w3 w4 =>
      ((PDTesterAPI.GetStepResponse s cBuf start_current end_current out w1 w2 w3 w4).s,
        (PDTesterAPI.GetStepResponse s cBuf start_current end_current out w1 w2 w3 w4).fx)
  | Command.GetCalibrationData cBuf channel out w1 w2 =>
      ((PDTesterAPI.GetCalibrationData s cBuf channel out w1 w2).s,
        (PDTesterAPI.GetCalibrationData s cBuf channel out w1 w2).fx)
  | Command.SetCalibrationData cBuf channel year month applied1 measured1 applied2 measured2
      w1 w2 =>
      ((PDTesterAPI.SetCalibrationData s cBuf channel year month applied1 measured1 applied2
          measured2 w1 w2).s,
        (PDTesterAPI.SetCalibrationData s cBuf channel year month applied1 measured1 applied2
          measured2 w1 w2).fx)
  | Command.ResetCalibrationData cBuf channel w1 w2 =>
      ((PDTesterAPI.ResetCalibrationData s cBuf channel w1 w2).s,
        (PDTesterAPI.ResetCalibrationData s cBuf channel w1 w2).fx)
  | Command.SetUsbConnection cBuf isConnected w1 w2 =>
      ((PDTesterAPI.SetUsbConnection s cBuf isConnected w1 w2).s,
        (PDTesterAPI.SetUsbConnection s cBuf isConnected w1 w2).fx)
  | Command.StartPDAnalyzer cBuf callback w1 w2 =>
      ((PDTesterAPI.StartPDAnalyzer s cBuf callback w1 w2).s,
        (PDTesterAPI.StartPDAnalyzer s cBuf callback w1 w2).fx)
  | Command.StopPDAnalyzer cBuf w1 w2 =>
      ((PDTesterAPI.StopPDAnalyzer s cBuf w1 w2).s, (PDTesterAPI.StopPDAnalyzer s cBuf w1 w2).fx)
  | Command.InjectPDMsg cBuf type data dataLen w1 w2 =>
      ((PDTesterAPI.InjectPDMsg s cBuf type data dataLen w1 w2).s,
        (PDTesterAPI.InjectPDMsg s cBuf type data dataLen w1 w2).fx)
  | Command.InjectPDMsgRaw cBuf rawMsg numBytes w1 w2 =>
      ((PDTesterAPI.InjectPDMsgRaw s cBuf rawMsg numBytes w1 w2).s,
        (PDTesterAPI.InjectPDMsgRaw s cBuf rawMsg numBytes w1 w2).fx)

/-- Modelled from the spec: the command lock (the critical section
`DeviceCritSection`) as explicit state, the number of times it is held.
`EnterCriticalSection` acquires it, `LeaveCriticalSection` releases it and is
an error (`none`) when the lock is not held; no other effect touches it. -/
def lockStep (held : Option Nat) (e : Effect) : Option Nat :=
  match held, e with
  | some n, Effect.EnterCriticalSection => some (n + 1)
  | some 0, Effect.LeaveCriticalSection => none
  | some (n + 1), Effect.LeaveCriticalSection => some n
  | some n, _ => some n
  | none, _ => none

/-- The lock after a sequence of effects, started with the lock held `n`
times. -/
def lockAfter (n : Nat) (fx : List Effect) : Option Nat :=
  fx.foldl lockStep (some n)

/-- The acquisitions and releases of the lock among recorded effects, in
order. -/
def lockEvents (fx : List Effect) : List Effect :=
  fx.filter
    (fun e => decide (e = Effect.EnterCriticalSection ∨ e = Effect.LeaveCriticalSection))

/-- The part of `PDTester::InjectPDMsg` up to `LeaveCriticalSection`
(lines 1823-1862 and 1870): the returned boolean tells whether the path taken
is the one of line 1862, on which `RcvData[1]` is read after the lock has been
released. -/
def InjectPDMsg_locked (s : PDTester) (cBuf : Nat → Nat) (type : Nat) (data : Nat → Nat)
    (dataLen : Nat) (w1 w2 : List SerialEvent) : CmdResult :=
  let b := InjectPDMsg_cBuf cBuf type data dataLen
  let pre := [Effect.EnterCriticalSection, Effect.sendData (bufferBytes b.1 b.2)]
  let r1 := WaitForMultipleObjects s ComSignal.COM_PACKET_SENT s.TIME_OUT_MS w1
  if r1.status = WaitStatus.WAIT_OBJECT_0 then
    let r2 := WaitForMultipleObjects r1.s ComSignal.COM_PACKET_ARRIVED r1.s.TIME_OUT_MS
      (r1.rest ++ w2)
    let fx := pre ++ r1.fx ++ r2.fx ++ [Effect.LeaveCriticalSection]
    if r2.status = WaitStatus.WAIT_OBJECT_0 then
      if r2.s.RcvData 0 = INJECT_PD_MSG then
        ⟨r2.s, fx, true⟩
      else
        ⟨r2.s, fx, false⟩
    else
      ⟨r2.s, fx, false⟩
  else
    ⟨r1.s, pre ++ r1.fx ++ [Effect.LeaveCriticalSection], false⟩

/-- The end of `PDTester::InjectPDMsg` after `LeaveCriticalSection`: on the path
of line 1862 the test `RcvData[1] == 0` of lines 1863-1866, made on the state
`s` that the object has at that moment; on the other paths `return FALSE`
(line 1871). -/
def InjectPDMsg_return (tagMatched : Bool) (s : PDTester) : Bool :=
  if tagMatched = true then
    if s.RcvData 1 = 0 then true else false
  else
    false

/-- The parameter ids of the blocks of `GetConfig` or `SetConfig` among a list
of parts, in order. -/
def blockIds : List CfgItem → List Nat
  | [] => []
  | CfgItem.get id _ _ :: rest => id :: blockIds rest
  | CfgItem.set id _ :: rest => id :: blockIds rest
  | _ :: rest => blockIds rest

/-- The frame `02 01 E1 E1 03`: a response with the tag 0xE1 and no value
byte. -/
def sampleBareGetWindow : List SerialEvent × List SerialEvent :=
  ([SerialEvent.SERIAL_DATA_SENT],
    [SerialEvent.SERIAL_DATA_ARRIVAL [0x02, 0x01, 0xE1, 0xE1, 0x03]])

/-- A response of `GetStepResponse`: the tag 0x13, the sample time `t` and fifty
bytes `n`, `n + 1`, ... -/
def sampleStepFrame (t n : Nat) : List Nat :=
  frameBytes 52 (GET_STEP_RESPONSE :: t :: (List.range 50).map (fun i => i + n)) 0x00 0x03

/-- The parameter ids of the blocks of `GetConfig` whose test of the response
includes `RcvDataLen > 1`, among a list of parts. -/
def lengthTestedIds : List CfgItem → List Nat
  | [] => []
  | CfgItem.get id true _ :: rest => id :: lengthTestedIds rest
  | _ :: rest => lengthTestedIds rest

/-- A run of `GetConfig` with firmware version 42 in which every exchange
completes with a response tagged 0xE1: the first twenty-two responses are
`02 02 E1 07 00 03`, the last one is `02 01 E1 E1 03`, the tag without a value
byte. -/
def sampleBareGetConfig : CfgResult :=
  GetConfig { PDTester.ctor with FW_Ver := 42 } (fun _ => 0)
    (List.replicate 22 sampleGetWindow ++ [sampleBareGetWindow])

/-! ## `Connect` (lines 93-134) -/

/-- Lines 117-124 of `Connect`: `HW_SubVer = HW_Ver`, and for a hardware
version from 20 to 29 with firmware version 46 or above the call of
`GetSubRev` (frame buffer `cBuf`, windows `w1`, `w2`) followed by
`HW_SubVer = HW_Ver + HW_SubRevNumber`; the result is the state and the
effects recorded. -/
def Connect_subRevision (s : PDTester) (cBuf : Nat → Nat) (w1 w2 : List SerialEvent) :
    PDTester × List Effect :=
  let s : PDTester := { s with HW_SubVer := s.HW_Ver }
  if s.HW_Ver ≥ 20 ∧ s.HW_Ver < 30 then
    if s.FW_Ver ≥ 46 then
      let r := GetSubRev s cBuf w1 w2
      ({ r.s with HW_SubVer := r.s.HW_Ver + r.s.HW_SubRevNumber }, r.fx)
    else
      (s, [])
  else
    (s, [])

/-- Lines 126-129 of `Connect`: a hardware version from 20 to 29 is replaced
by 20. -/
def Connect_normalise (s : PDTester) : PDTester :=
  if s.HW_Ver ≥ 20 ∧ s.HW_Ver < 30 then { s with HW_Ver := 20 } else s

/-- `PDTester::Connect` (lines 93-134) for a transport object that `new` has
delivered. `SERIAL_MAX_RX` is the constant of the transport's header, which is
not among the sources; `status` is the value that `com->connect(port)`
returns; `cBuf1`, `w1`, `w2` are the frame buffer and the windows of
`GetDevInfo`, `cBuf2`, `w3`, `w4` those of `GetSubRev`, and `cBuf3`, `ws` those
of `GetConfig`. The members `HW_Ver` and `FW_Ver` are the targets of the two
pointers handed to `GetDevInfo`. The assignment of `EventCallback` has no
counterpart: the callback is recorded as an effect whenever it is called. -/
def Connect (SERIAL_MAX_RX : Int) (s : PDTester) (status : Int) (cBuf1 cBuf2 cBuf3 : Nat → Nat)
    (w1 w2 w3 w4 : List SerialEvent) (ws : List (List SerialEvent × List SerialEvent)) :
    CmdResult :=
  let pre := [Effect.setRxSize SERIAL_MAX_RX]
  if status = 0 then
    ⟨s, pre ++ [Effect.setRxSize 1, Effect.dataHasBeenRead], false⟩
  else
    let d := GetDevInfo s cBuf1 s.HW_Ver s.FW_Ver w1 w2
    let s1 : PDTester := { d.s with HW_Ver := d.HW_Ver, FW_Ver := d.SW_Ver }
    if d.retVal = false then
      ⟨s1, pre ++ d.fx, false⟩
    else
      let g := Connect_subRevision s1 cBuf2 w3 w4
      let c := GetConfig (Connect_normalise g.1) cBuf3 ws
      ⟨c.s, pre ++ d.fx ++ g.2 ++ c.fx, true⟩

/-- The frame that `GetSubRev` hands to the transport. -/
def GetSubRev_frame (cBuf : Nat → Nat) : List Nat :=
  bufferBytes (query_cBuf cBuf GET_SUB_HW_REV) 5

/-! ## Operations in parts, for interleavings of two callers -/

/-- The statements of `StartPDAnalyzer` that precede `EnterCriticalSection`
(lines 1753-1755). -/
def StartPDAnalyzer_unlocked (s : PDTester) (callback : Bool) : PDTester :=
  { s with PDAnalyzerCallback := callback, TIME_OUT_MS := 3000 }

/-- `StartPDAnalyzer` from `EnterCriticalSection` on (lines 1759-1782). -/
def StartPDAnalyzer_locked (s : PDTester) (cBuf : Nat → Nat) (w1 w2 : List SerialEvent) :
    CmdResult :=
  waitAckNested s (bufferBytes (setByte_cBuf cBuf SET_PD_ANALYZER 0x01) 6) SET_PD_ANALYZER w1 w2

/-- `GetDevInfo` from `EnterCriticalSection` to the return of the wait for
send-complete (lines 297-305): state, effects so far, notifications not yet
handled and status of the wait. -/
def GetDevInfo_sent (s : PDTester) (cBuf : Nat → Nat) (w1 : List SerialEvent) : WaitResult :=
  let pre := [Effect.EnterCriticalSection, Effect.sendData (bufferBytes (GetDevInfo_cBuf cBuf) 5)]
  let r1 := WaitForMultipleObjects s ComSignal.COM_PACKET_SENT s.TIME_OUT_MS w1
  ⟨r1.s, pre ++ r1.fx, r1.rest, r1.status⟩

/-- `GetDevInfo` from the test of the first wait on (lines 306-331), entered
with the state, effects, pending notifications and status `r1`. -/
def GetDevInfo_rest (r1 : WaitResult) (HW_Ver SW_Ver : Nat) (w2 : List SerialEvent) :
    DevInfoResult :=
  if r1.status = WaitStatus.WAIT_OBJECT_0 then
    let r2 := WaitForMultipleObjects r1.s ComSignal.COM_PACKET_ARRIVED r1.s.TIME_OUT_MS
      (r1.rest ++ w2)
    let fx := r1.fx ++ r2.fx ++ [Effect.LeaveCriticalSection]
    if r2.status = WaitStatus.WAIT_OBJECT_0 then
      if r2.s.RcvData 0 = GET_DEV_INFO then
        ⟨r2.s, fx, true, r2.s.RcvData 1, r2.s.RcvData 2⟩
      else
        ⟨r2.s, fx, false, HW_Ver, SW_Ver⟩
    else
      ⟨r2.s, fx, false, 10, 0⟩
  else
    ⟨r1.s, r1.fx ++ [Effect.LeaveCriticalSection], false, HW_Ver, SW_Ver⟩

/-! ## The reassembler members between two bytes -/

/-- Relation between the reassembler members `NumRcvBytes`, `NumRemaingBytes`
and `RcvDataLen`: no more than the start marker is buffered and one byte is
asked for, or the length byte `RcvDataLen` has been read and the frame of
`RcvDataLen + 4` bytes is partly buffered. -/
def reassemblerInv (s : PDTester) : Prop :=
  (s.NumRcvBytes ≤ 1 ∧ s.NumRemaingBytes = 1) ∨
    (2 ≤ s.NumRcvBytes ∧ s.NumRcvBytes ≤ s.RcvDataLen + 3 ∧
      (s.NumRcvBytes : Int) + s.NumRemaingBytes = (s.RcvDataLen : Int) + 4 ∧ s.RcvDataLen ≤ 255)

instance (s : PDTester) : Decidable (reassemblerInv s) := by
  unfold reassemblerInv
  infer_instance

/-- The values handed to `setRxSize` among recorded effects, in order. -/
def rxSizes : List Effect → List Int
  | [] => []
  | Effect.setRxSize n :: fx => n :: rxSizes fx
  | _ :: fx => rxSizes fx

/-! ## Calibration record on the wire -/

/-- A response to `GetCalibrationData` that carries a record as
`SetCalibrationData` sends it: the tag 0xE4, the flag `flag`, and the ten
bytes that stand at indices 4..13 of the request buffer `request` (payload
offsets 2..11 of the request), with the checksum byte `c`. -/
def calibrationResponse (request : Nat → Nat) (flag c : Nat) : List Nat :=
  frameBytes 12 (GET_CALIB_DATA :: flag :: bufferBytes (fun i => request (4 + i)) 10) c 0x03

/-- Sample response payload of 59 bytes to the capabilities request: the tag
0x0B, the declared count `n`, one byte that `GetCapabilities` does not read,
and seven objects of eight bytes whose 56 bytes count up from `first`. -/
def sampleCapsPayload (n first : Nat) : List Nat :=
  [GET_PORT_CAPABILITIES, n, 0x00] ++ (List.range 56).map (fun i => first + i)

/-! ## `InjectPDMsg` with the capacity of its frame buffer

`InjectPDMsg` declares `UCHAR cBuf[64]` (line 1825). `InjectPDMsg_cBuf` above
follows the stores of the function on a buffer without a capacity, which
shows where each store lands; the definitions below follow the same statements
on an array of 64 bytes, where a store, a copy or a read that leaves the array
has no defined result. -/

/-- A store `buf[i] = v` into an array of `cap` bytes: it has a result only for
`i < cap`. -/
def storeIn (cap : Nat) (buf : Nat → Nat) (i v : Nat) : Option (Nat → Nat) :=
  if i < cap then some (Function.update buf i v) else none

/-- The call `memcpy(&buf[off], src, n)` into an array of `cap` bytes: it has a
result only when the `n` bytes from `off` lie within the array. -/
def memcpyIn (cap : Nat) (buf : Nat → Nat) (off : Nat) (src : Nat → Nat) (n : Nat) :
    Option (Nat → Nat) :=
  if off + n ≤ cap then some (memcpyAt buf off src n) else none

/-- The call `checksum(buf)` on an array of `cap` bytes: the store
`buf[DataLen + 2] = 0` and the reads `buf[0 .. DataLen + 2)` lie within the
array only for `DataLen + 2 < cap`. -/
def checksumIn (cap : Nat) (buf : Nat → Nat) : Option (Nat × (Nat → Nat)) :=
  if buf 1 + 2 < cap then some (checksum buf) else none

/-- Frame buffer of `InjectPDMsg` and the number of bytes handed to `sendData`
(lines 1825-1852) with the array `UCHAR cBuf[64]`: statement by statement as
`InjectPDMsg_cBuf`; the last test is the read of `7 + dataLen` bytes by
`sendData`. The result is `none` when a store, a copy or that read leaves the
64 bytes of the array. -/
def InjectPDMsg_cBuf64 (cBuf : Nat → Nat) (type : Nat) (data : Nat → Nat) (dataLen : Nat) :
    Option ((Nat → Nat) × Nat) :=
  let numPadZeros := 10
  let padZeros := decide (dataLen > 24)
  (storeIn 64 cBuf 0 0x02).bind fun cBuf =>
  (storeIn 64 cBuf 1 ((dataLen + 3) % 256)).bind fun cBuf =>
  (storeIn 64 cBuf 2 INJECT_PD_MSG).bind fun cBuf =>
  (storeIn 64 cBuf 3 ((type % 256) &&& 0x1F)).bind fun cBuf =>
  (storeIn 64 cBuf 4 ((type % 256) >>> 5)).bind fun cBuf =>
  (memcpyIn 64 cBuf 5 data dataLen).bind fun cBuf =>
  (if padZeros then memcpyIn 64 cBuf (5 + dataLen) (fun _ => 0) numPadZeros
    else some cBuf).bind fun cBuf =>
  let dataLen := if padZeros then dataLen + numPadZeros else dataLen
  (if padZeros then storeIn 64 cBuf 1 ((dataLen + 3) % 256) else some cBuf).bind fun cBuf =>
  (checksumIn 64 cBuf).bind fun ck =>
  (storeIn 64 ck.2 (5 + dataLen) ck.1).bind fun cBuf =>
  (storeIn 64 cBuf (6 + dataLen) 0x03).bind fun cBuf =>
  if 7 + dataLen ≤ 64 then some (cBuf, 7 + dataLen) else none

/-- The configuration members `x` with the member, or the two members, that the
block of `GetConfig` for the parameter `id` assigns replaced by those of `c`;
for an id that `GetConfig` does not request, `x` itself. -/
def fetchedMember (c : ConfigShadow) (id : Nat) (x : ConfigShadow) : ConfigShadow :=
  if id = 0x00 then { x with bLoopbackPortEnabled := c.bLoopbackPortEnabled }
  else if id = 0x02 then { x with MaxSDPCurrent := c.MaxSDPCurrent }
  else if id = 0x03 then { x with bEstimatePortVoltage := c.bEstimatePortVoltage }
  else if id = 0x04 then { x with CableResistance := c.CableResistance }
  else if id = 0x05 then { x with DefaultProfileIndex := c.DefaultProfileIndex }
  else if id = 0x06 then { x with DefaultVoltage := c.DefaultVoltage }
  else if id = 0x07 then { x with DefaultLoad := c.DefaultLoad }
  else if id = 0x08 then { x with OperatingCurrent := c.OperatingCurrent }
  else if id = 0x09 then { x with SinkCapMV := c.SinkCapMV, SinkCapMA := c.SinkCapMA }
  else if id = 0x0A then { x with ProfilePDLimit := c.ProfilePDLimit }
  else if id = 0x0B then { x with ProfileUCLimit := c.ProfileUCLimit }
  else if id = 0x0C then { x with ProfileBCLimit := c.ProfileBCLimit }
  else if id = 0x0D then { x with ProfileQC5Limit := c.ProfileQC5Limit }
  else if id = 0x0E then { x with ProfileQC9Limit := c.ProfileQC9Limit }
  else if id = 0x0F then { x with ProfileQC12Limit := c.ProfileQC12Limit }
  else if id = 0x10 then { x with ProfileQC20Limit := c.ProfileQC20Limit }
  else if id = 0x11 then { x with ProfileAppleLimit := c.ProfileAppleLimit }
  else if id = 0x12 then { x with ProfileSamsung2ALimit := c.ProfileSamsung2ALimit }
  else if id = 0x16 then { x with bHoldLoadOnVChange := c.bHoldLoadOnVChange }
  else if id = 0x17 then { x with bPPSEnabled := c.bPPSEnabled }
  else if id = 0x18 then { x with bApplyDefaultConfigOnCap := c.bApplyDefaultConfigOnCap }
  else if id = 0x19 then { x with bDefaultConfigFailOnVolt := c.bDefaultConfigFailOnVolt }
  else if id = 0x1A then { x with bDefaultConfigFailOnCurr := c.bDefaultConfigFailOnCurr }
  else x

/-- A block of `GetConfig` whose response, the payload `payloadOf id` with tag
0xE1 and at least one more byte, makes its assignment store the values of `c`
in the members of the block, whatever the configuration members held. -/
def getItemFetches (c : ConfigShadow) (payloadOf : Nat → List Nat) : CfgItem → Prop
  | CfgItem.get id _ store =>
      1 < (payloadOf id).length ∧ (payloadOf id).getD 0 0 = GET_CONFIG ∧
        ∀ d : Nat → Nat,
          (∀ i, i < (payloadOf id).length → i < 64 → d i = (payloadOf id).getD i 0) →
          ∀ x : ConfigShadow, store d x = fetchedMember c id x
  | CfgItem.set _ _ => False
  | _ => True

/-- `SetConfig` followed by `GetConfig` against the modelled device, as
`SetConfig_then_GetConfig`, with the configuration members of the object
replaced by `c0` between the two operations: what `GetConfig` then leaves in a
member is what it has fetched, or what `c0` held. -/
def SetConfig_then_GetConfig_from (FORCE_LIMIT : Nat) (s : PDTester) (c0 : ConfigShadow)
    (cBuf1 cBuf2 : Nat → Nat) : CfgResult × CfgResult :=
  let rs := SetConfig FORCE_LIMIT s cBuf1 (List.replicate 24 (completing deviceAck))
  let rg := GetConfig { rs.s with cfg := c0 } cBuf2
    (GetConfig_requests.map (fun q => completing (deviceAnswer (sentFrames rs.fx) q)))
  (rs, rg)

/-- Configuration members used as an example of what an object holds before
`GetConfig`: the value 7 in every member. -/
def sampleStaleConfig : ConfigShadow :=
  ⟨7, 7, 7, 7, 7, 7, 7, 7, 7, 7, 7, 7, 7, 7, 7, 7, 7, 7, 7, 7, 7, 7, 7, 7, 7, 7⟩

/-! ## Helper lemmas: the byte loop -/

theorem writeList_lt (l : List Nat) : ∀ (buf : Nat → Nat) (k j : Nat), j < k →
    writeList buf k l j = buf j := by
  induction l with
  | nil => intro buf k j _; rfl
  | cons x l ih =>
    intro buf k j hj
    rw [writeList, ih _ _ _ (Nat.lt_succ_of_lt hj)]
    exact Function.update_noteq (Nat.ne_of_lt hj) _ _

theorem writeList_get (l : List Nat) : ∀ (buf : Nat → Nat) (k i : Nat), i < l.length →
    writeList buf k l (k + i) = l.getD i 0 := by
  induction l with
  | nil => intro buf k i hi; simp at hi
  | cons x l ih =>
    intro buf k i hi
    cases i with
    | zero =>
      show writeList (Function.update buf k x) (k + 1) l k = x
      rw [writeList_lt l _ _ _ (Nat.lt_succ_self k)]
      simp
    | succ i =>
      have hi2 : i < l.length := by simpa using hi
      have := ih (Function.update buf k x) (k + 1) i hi2
      rw [writeList]
      have e : k + (i + 1) = k + 1 + i := by omega
      rw [e, this]
      simp

theorem rxByte_flag (s : PDTester) (f : Bool) (b : Nat) :
    rxByte (s, f) b = ((rxByte (s, false) b).1, f || (rxByte (s, false) b).2) := by
  unfold rxByte
  dsimp only
  split_ifs <;> simp

theorem foldl_rxByte_flag (data : List Nat) : ∀ (s : PDTester) (f : Bool),
    data.foldl rxByte (s, f) = ((rxBytes s data).1, f || (rxBytes s data).2) := by
  induction data with
  | nil => intro s f; simp [rxBytes]
  | cons b data ih =>
    intro s f
    simp only [rxBytes, List.foldl_cons]
    rw [rxByte_flag s f b, ih, ih (rxByte (s, false) b).1 (rxByte (s, false) b).2]
    simp [Bool.or_assoc]

theorem rxBytes_append (s : PDTester) (l1 l2 : List Nat) :
    rxBytes s (l1 ++ l2) =
      ((rxBytes (rxBytes s l1).1 l2).1, (rxBytes s l1).2 || (rxBytes (rxBytes s l1).1 l2).2) := by
  have h : rxBytes s (l1 ++ l2) = l2.foldl rxByte (rxBytes s l1) := by
    simp [rxBytes, List.foldl_append]
  rw [h, ← foldl_rxByte_flag]

theorem rxBytes_flag_initial (s : PDTester) (l1 l2 : List Nat)
    (h : (rxBytes s (l1 ++ l2)).2 = false) : (rxBytes s l1).2 = false := by
  rw [rxBytes_append] at h
  simp only [Bool.or_eq_false_iff] at h
  exact h.1

theorem rxBytes_append_quiet (s : PDTester) (l1 l2 : List Nat)
    (h : (rxBytes s l1).2 = false) : rxBytes s (l1 ++ l2) = rxBytes (rxBytes s l1).1 l2 := by
  rw [rxBytes_append, h]
  simp

theorem onDataArrival_nonempty (s : PDTester) (data : List Nat) (hne : data ≠ []) :
    onDataArrival s data =
      if (rxBytes s data).2 then
        ((routePacket (rxBytes s data).1).1,
          [Effect.setRxSize (rxBytes s data).1.NumRemaingBytes, Effect.dataHasBeenRead] ++
            (routePacket (rxBytes s data).1).2)
      else
        ((rxBytes s data).1,
          [Effect.setRxSize (rxBytes s data).1.NumRemaingBytes, Effect.dataHasBeenRead]) := by
  have hl : data.length ≠ 0 := by
    intro h0
    exact hne (List.length_eq_zero.mp h0)
  simp only [onDataArrival, hl, if_false]

theorem deliveries_append (a b : List Effect) :
    deliveries (a ++ b) = deliveries a ++ deliveries b := by
  induction a with
  | nil => rfl
  | cons e a ih => cases e <;> simp [deliveries, ih]

theorem feedChunks_cons (s : PDTester) (c : List Nat) (chunks : List (List Nat)) :
    feedChunks s (c :: chunks) =
      ((feedChunks (onDataArrival s c).1 chunks).1,
        (onDataArrival s c).2 ++ (feedChunks (onDataArrival s c).1 chunks).2) := by
  simp [feedChunks, onSerialEvents, onSerialEvent]

theorem feedChunks_append (c1 : List (List Nat)) : ∀ (s : PDTester) (c2 : List (List Nat)),
    feedChunks s (c1 ++ c2) =
      ((feedChunks (feedChunks s c1).1 c2).1,
        (feedChunks s c1).2 ++ (feedChunks (feedChunks s c1).1 c2).2) := by
  induction c1 with
  | nil => intro s c2; simp [feedChunks, onSerialEvents]
  | cons c c1 ih =>
    intro s c2
    rw [List.cons_append, feedChunks_cons, ih, feedChunks_cons]
    simp

/-- Chunks in which no packet completes leave the state that the byte loop
alone produces, and deliver nothing. -/
theorem feedChunks_quiet (chunks : List (List Nat)) : ∀ (s : PDTester),
    (∀ c ∈ chunks, c ≠ []) → (rxBytes s chunks.flatten).2 = false →
    (feedChunks s chunks).1 = (rxBytes s chunks.flatten).1 ∧
      deliveries (feedChunks s chunks).2 = [] := by
  induction chunks with
  | nil => intro s _ _; simp [feedChunks, onSerialEvents, rxBytes, deliveries]
  | cons c chunks ih =>
    intro s hne hq
    have hc : c ≠ [] := hne c (List.mem_cons_self _ _)
    rw [List.flatten_cons] at hq
    have hq1 : (rxBytes s c).2 = false := rxBytes_flag_initial s _ _ hq
    have hd : onDataArrival s c =
        ((rxBytes s c).1,
          [Effect.setRxSize (rxBytes s c).1.NumRemaingBytes, Effect.dataHasBeenRead]) := by
      rw [onDataArrival_nonempty s c hc, hq1]
      simp
    rw [rxBytes_append_quiet s _ _ hq1] at hq
    have := ih (rxBytes s c).1 (fun c' hc' => hne c' (List.mem_cons_of_mem _ hc')) hq
    rw [feedChunks_cons, hd, List.flatten_cons, rxBytes_append_quiet s _ _ hq1]
    refine ⟨this.1, ?_⟩
    rw [deliveries_append, this.2]
    rfl

/-- Chunk invariance of the reassembler for a byte stream in which no packet
completes before the last byte. -/
theorem feedChunks_single_completion (s : PDTester) (chunks : List (List Nat))
    (hne : ∀ c ∈ chunks, c ≠ []) (hnil : chunks ≠ [])
    (hq : (rxBytes s chunks.flatten.dropLast).2 = false) :
    (feedChunks s chunks).1 = (onDataArrival s chunks.flatten).1 ∧
      deliveries (feedChunks s chunks).2 = deliveries (onDataArrival s chunks.flatten).2 := by
  obtain ⟨init, cl, rfl⟩ : ∃ init cl, chunks = init ++ [cl] :=
    ⟨chunks.dropLast, chunks.getLast hnil, (List.dropLast_append_getLast hnil).symm⟩
  have hcl : cl ≠ [] := hne cl (by simp)
  have hj : (init ++ [cl]).flatten = init.flatten ++ cl := by simp
  have hjne : init.flatten ++ cl ≠ [] := by
    intro h
    exact hcl (List.append_eq_nil.mp h).2
  have hdl : (init.flatten ++ cl).dropLast = init.flatten ++ cl.dropLast :=
    List.dropLast_append_of_ne_nil _ hcl
  rw [hj] at hq ⊢
  rw [hdl] at hq
  have hqi : (rxBytes s init.flatten).2 = false := rxBytes_flag_initial s _ _ hq
  have hi := feedChunks_quiet init s (fun c hc => hne c (by simp [hc])) hqi
  have hlast : feedChunks (feedChunks s init).1 [cl] =
      onDataArrival (rxBytes s init.flatten).1 cl := by
    rw [hi.1]
    simp [feedChunks, onSerialEvents, onSerialEvent]
  have hsame : onDataArrival (rxBytes s init.flatten).1 cl = onDataArrival s (init.flatten ++ cl) := by
    rw [onDataArrival_nonempty _ cl hcl, onDataArrival_nonempty _ _ hjne,
      rxBytes_append_quiet s _ _ hqi]
  rw [feedChunks_append, hlast, hsame]
  refine ⟨rfl, ?_⟩
  rw [deliveries_append, hi.2]
  rfl

/-! ## Helper lemmas: one frame through the byte loop -/

theorem writeList_append (l1 : List Nat) : ∀ (buf : Nat → Nat) (k : Nat) (l2 : List Nat),
    writeList buf k (l1 ++ l2) = writeList (writeList buf k l1) (k + l1.length) l2 := by
  induction l1 with
  | nil => intro buf k l2; rfl
  | cons x l1 ih =>
    intro buf k l2
    show writeList (Function.update buf k x) (k + 1) (l1 ++ l2) =
      writeList (writeList (Function.update buf k x) (k + 1) l1) (k + (l1.length + 1)) l2
    rw [ih]
    have e : k + 1 + l1.length = k + (l1.length + 1) := by omega
    rw [e]

/-- Bytes stored while more than `body.length` bytes remain: nothing completes. -/
theorem foldl_rxByte_accumulate (body : List Nat) : ∀ (s : PDTester) (f : Bool),
    2 ≤ s.NumRcvBytes → (body.length : Int) < s.NumRemaingBytes →
    body.foldl rxByte (s, f) =
      ({ s with ComRcvBuffer := writeList s.ComRcvBuffer s.NumRcvBytes body,
                NumRcvBytes := s.NumRcvBytes + body.length,
                NumRemaingBytes := s.NumRemaingBytes - body.length }, f) := by
  induction body with
  | nil => intro s f _ _; simp [writeList]
  | cons b body ih =>
    intro s f h2 hrem
    have h0 : s.NumRcvBytes ≠ 0 := by omega
    have h1 : s.NumRcvBytes ≠ 1 := by omega
    have hlen : ((b :: body).length : Int) = (body.length : Int) + 1 := by simp
    rw [hlen] at hrem
    have hr : ¬ (s.NumRemaingBytes - 1 = 0) := by omega
    have step : rxByte (s, f) b =
        ({ s with ComRcvBuffer := Function.update s.ComRcvBuffer s.NumRcvBytes b,
                  NumRcvBytes := s.NumRcvBytes + 1,
                  NumRemaingBytes := s.NumRemaingBytes - 1 }, f) := by
      simp [rxByte, h0, h1, hr]
    rw [List.foldl_cons, step, ih _ f (by simp; omega) (by simp; omega)]
    simp only [writeList, List.length_cons, Nat.cast_add, Nat.cast_one]
    congr 2
    · omega
    · omega

/-- State after start marker, length byte, payload and checksum byte. -/
theorem rxBytes_frame_body (s : PDTester) (L : Nat) (payload : List Nat) (c : Nat)
    (h0 : s.NumRcvBytes = 0) (hL : payload.length = L) :
    rxBytes s (0x02 :: L :: (payload ++ [c])) =
      ({ s with ComRcvBuffer := writeList s.ComRcvBuffer 0 (0x02 :: L :: (payload ++ [c])),
                RcvDataLen := L,
                NumRcvBytes := L + 3,
                NumRemaingBytes := 1 }, false) := by
  have s1 : rxByte (s, false) 0x02 =
      ({ s with ComRcvBuffer := Function.update s.ComRcvBuffer 0 0x02,
                NumRcvBytes := 1, NumRemaingBytes := 1 }, false) := by
    simp [rxByte, h0]
  have s2 : rxByte
      ({ s with ComRcvBuffer := Function.update s.ComRcvBuffer 0 0x02,
                NumRcvBytes := 1, NumRemaingBytes := 1 }, false) L =
      ({ s with ComRcvBuffer := Function.update (Function.update s.ComRcvBuffer 0 0x02) 1 L,
                NumRcvBytes := 2, RcvDataLen := L, NumRemaingBytes := (L : Int) + 2 }, false) := by
    simp [rxByte]
  simp only [rxBytes, List.foldl_cons]
  rw [s1, s2, foldl_rxByte_accumulate _ _ _ (by simp) (by simp [hL])]
  simp only [writeList, List.length_append, List.length_singleton, hL]
  congr 2
  · omega
  · push_cast
    omega

theorem frameBytes_dropLast (L : Nat) (payload : List Nat) (c e : Nat) :
    (frameBytes L payload c e).dropLast = 0x02 :: L :: (payload ++ [c]) := by
  have : frameBytes L payload c e = (0x02 :: L :: (payload ++ [c])) ++ [e] := by
    simp [frameBytes]
  rw [this, List.dropLast_concat]

theorem frameBytes_eq_concat (L : Nat) (payload : List Nat) (c e : Nat) :
    frameBytes L payload c e = (0x02 :: L :: (payload ++ [c])) ++ [e] := by
  simp [frameBytes]

/-- No packet completes before the last byte of a frame. -/
theorem rxBytes_frame_dropLast_quiet (s : PDTester) (L : Nat) (payload : List Nat)
    (c e : Nat) (h0 : s.NumRcvBytes = 0) (hL : payload.length = L) :
    (rxBytes s (frameBytes L payload c e).dropLast).2 = false := by
  rw [frameBytes_dropLast, rxBytes_frame_body s L payload c h0 hL]

theorem writeList_frame_payload (buf : Nat → Nat) (L : Nat) (payload : List Nat)
    (c e : Nat) (i : Nat) (hi : i < payload.length) :
    writeList buf 0 (frameBytes L payload c e) (2 + i) = payload.getD i 0 := by
  have hlen : 2 + i < (frameBytes L payload c e).length := by
    simp [frameBytes]
    omega
  have := writeList_get (frameBytes L payload c e) buf 0 (2 + i) hlen
  rw [Nat.zero_add] at this
  rw [this]
  have e2 : 2 + i = i + 1 + 1 := by omega
  simp only [frameBytes, e2, List.getD_cons_succ]
  simp [List.getD_eq_getElem?_getD, List.getElem?_append_left hi]

/-- The byte loop on a frame whose last byte is the terminator 0x03. -/
theorem rxBytes_frame_accept (s : PDTester) (L : Nat) (payload : List Nat) (c : Nat)
    (h0 : s.NumRcvBytes = 0) (hL : payload.length = L) :
    rxBytes s (frameBytes L payload c 0x03) = (acceptState s L payload c, true) := by
  rw [frameBytes_eq_concat, rxBytes_append_quiet _ _ _ (by rw [rxBytes_frame_body s L payload c h0 hL]),
    rxBytes_frame_body s L payload c h0 hL]
  have hw : writeList s.ComRcvBuffer 0 (frameBytes L payload c 0x03) =
      Function.update (writeList s.ComRcvBuffer 0 (0x02 :: L :: (payload ++ [c]))) (L + 3) 0x03 := by
    rw [frameBytes_eq_concat, writeList_append]
    simp [writeList, hL]
  have hm : memcpy s.RcvDataTmp (fun i => payload.getD i 0) L =
      memcpy s.RcvDataTmp
        (fun i => Function.update (writeList s.ComRcvBuffer 0 (0x02 :: L :: (payload ++ [c])))
          (L + 3) 0x03 (2 + i)) L := by
    funext i
    unfold memcpy
    split_ifs with hi
    · beta_reduce
      rw [← hw, writeList_frame_payload _ _ _ _ _ _ (by omega)]
    · rfl
  unfold acceptState
  rw [hw, hm]
  simp [rxBytes, rxByte]

/-- The byte loop on a frame whose last byte is not the terminator. -/
theorem rxBytes_frame_reject (s : PDTester) (L : Nat) (payload : List Nat) (c e : Nat)
    (h0 : s.NumRcvBytes = 0) (hL : payload.length = L) (he : e ≠ 0x03) :
    rxBytes s (frameBytes L payload c e) = (rejectState s L payload c e, false) := by
  rw [frameBytes_eq_concat, rxBytes_append_quiet _ _ _ (by rw [rxBytes_frame_body s L payload c h0 hL]),
    rxBytes_frame_body s L payload c h0 hL]
  have hw : writeList s.ComRcvBuffer 0 (frameBytes L payload c e) =
      Function.update (writeList s.ComRcvBuffer 0 (0x02 :: L :: (payload ++ [c]))) (L + 3) e := by
    rw [frameBytes_eq_concat, writeList_append]
    simp [writeList, hL]
  unfold rejectState
  rw [hw]
  simp [rxBytes, rxByte, he]

/-! ## Helper lemmas: checksum -/

theorem xorLoop_congr (a b : Nat → Nat) (c : Nat) : ∀ n : Nat,
    (∀ i, i < n → a i = b i) → xorLoop a n c = xorLoop b n c := by
  intro n
  induction n with
  | zero => intro _; rfl
  | succ n ih =>
    intro h
    simp only [xorLoop]
    rw [ih (fun i hi => h i (Nat.lt_succ_of_lt hi)), h n (Nat.lt_succ_self n)]

theorem xorLoop_eq_foldl (buf : Nat → Nat) : ∀ n : Nat, (∀ i, i < n → buf i < 256) →
    xorLoop buf n 0 = (bufferBytes buf n).foldl (· ^^^ ·) 0 ∧ xorLoop buf n 0 < 256 := by
  intro n
  induction n with
  | zero => intro _; simp [xorLoop, bufferBytes]
  | succ n ih =>
    intro h
    obtain ⟨e, hlt⟩ := ih (fun i hi => h i (Nat.lt_succ_of_lt hi))
    have hx : xorLoop buf n 0 ^^^ buf n < 256 :=
      Nat.xor_lt_two_pow (n := 8) hlt (h n (Nat.lt_succ_self n))
    simp only [xorLoop, bufferBytes, List.range_succ, List.map_append, List.foldl_append,
      List.map_cons, List.map_nil, List.foldl_cons, List.foldl_nil]
    rw [Nat.mod_eq_of_lt hx]
    refine ⟨?_, hx⟩
    rw [e]
    rfl

theorem checksum_congr (buf buf' : Nat → Nat) (h : ∀ i, i < buf 1 + 2 → buf' i = buf i) :
    (checksum buf').1 = (checksum buf).1 := by
  have h1 : buf' 1 = buf 1 := h 1 (Nat.lt_of_lt_of_le (by decide : 1 < 2) (Nat.le_add_left 2 (buf 1)))
  simp only [checksum, h1]
  have : xorLoop (Function.update buf' (buf 1 + 2) 0) (buf 1 + 2) 0 =
      xorLoop (Function.update buf (buf 1 + 2) 0) (buf 1 + 2) 0 := by
    apply xorLoop_congr
    intro i hi
    rw [Function.update_noteq (Nat.ne_of_lt hi), Function.update_noteq (Nat.ne_of_lt hi)]
    exact h i hi
  rw [this]

/-- C2. For a buffer of bytes with `L = buf[1]`, `checksum` returns the XOR of
`buf[0] .. buf[L+1]` (start marker, length byte and the `L` payload bytes)
XORed with 0x03, and a buffer that agrees with `buf` on the indices below
`L + 2` has the same checksum: the bytes from index `L + 2` on do not matter. -/
theorem checksum_is_xor_of_frame_head (buf : Nat → Nat)
    (hb : ∀ i, i < buf 1 + 2 → buf i < 256) :
    (checksum buf).1 = (bufferBytes buf (buf 1 + 2)).foldl (· ^^^ ·) 0 ^^^ 0x03 ∧
      ∀ buf' : Nat → Nat, (∀ i, i < buf 1 + 2 → buf' i = buf i) →
        (checksum buf').1 = (checksum buf).1 := by
  refine ⟨?_, fun buf' h => checksum_congr buf buf' h⟩
  have hc : xorLoop (Function.update buf (buf 1 + 2) 0) (buf 1 + 2) 0 =
      xorLoop buf (buf 1 + 2) 0 := by
    apply xorLoop_congr
    intro i hi
    exact Function.update_noteq (Nat.ne_of_lt hi) _ _
  obtain ⟨e, hlt⟩ := xorLoop_eq_foldl buf (buf 1 + 2) hb
  have h3 : xorLoop buf (buf 1 + 2) 0 ^^^ 0x03 < 256 :=
    Nat.xor_lt_two_pow (n := 8) hlt (by decide)
  simp only [checksum]
  rw [hc, Nat.mod_eq_of_lt h3, e]

/-- Witness of C2: the buffer holding the device-info request `02 01 01`. -/
theorem checksum_is_xor_of_frame_head_witness :
    (∀ i, i < writeList (fun _ => 0) 0 [0x02, 0x01, 0x01] 1 + 2 →
        writeList (fun _ => 0) 0 [0x02, 0x01, 0x01] i < 256) ∧
      ((checksum (writeList (fun _ => 0) 0 [0x02, 0x01, 0x01])).1 =
          (bufferBytes (writeList (fun _ => 0) 0 [0x02, 0x01, 0x01])
            (writeList (fun _ => 0) 0 [0x02, 0x01, 0x01] 1 + 2)).foldl (· ^^^ ·) 0 ^^^ 0x03 ∧
        ∀ buf' : Nat → Nat,
          (∀ i, i < writeList (fun _ => 0) 0 [0x02, 0x01, 0x01] 1 + 2 →
            buf' i = writeList (fun _ => 0) 0 [0x02, 0x01, 0x01] i) →
          (checksum buf').1 = (checksum (writeList (fun _ => 0) 0 [0x02, 0x01, 0x01])).1) :=
  ⟨by decide, checksum_is_xor_of_frame_head _ (by decide)⟩

/-! ## Helper lemmas: accepted and rejected frames -/

theorem deliveries_routePacket (s : PDTester) :
    deliveries (routePacket s).2 = (routePacket s).2 := by
  unfold routePacket
  split_ifs <;> rfl

theorem routePacket_reassembler_fields (s : PDTester) :
    (routePacket s).1.NumPackets = s.NumPackets ∧
      (routePacket s).1.RcvDataTmp = s.RcvDataTmp ∧
      (routePacket s).1.NumRcvBytes = s.NumRcvBytes ∧
      (routePacket s).1.NumRemaingBytes = s.NumRemaingBytes := by
  unfold routePacket
  split_ifs <;> simp

theorem frameBytes_ne_nil (L : Nat) (payload : List Nat) (c e : Nat) :
    frameBytes L payload c e ≠ [] := by
  simp [frameBytes]

theorem onDataArrival_frame_accept (s : PDTester) (L : Nat) (payload : List Nat) (c : Nat)
    (h0 : s.NumRcvBytes = 0) (hL : payload.length = L) :
    onDataArrival s (frameBytes L payload c 0x03) =
      ((routePacket (acceptState s L payload c)).1,
        [Effect.setRxSize 1, Effect.dataHasBeenRead] ++
          (routePacket (acceptState s L payload c)).2) := by
  rw [onDataArrival_nonempty _ _ (frameBytes_ne_nil _ _ _ _), rxBytes_frame_accept s L payload c h0 hL]
  simp [acceptState]

theorem onDataArrival_frame_reject (s : PDTester) (L : Nat) (payload : List Nat) (c e : Nat)
    (h0 : s.NumRcvBytes = 0) (hL : payload.length = L) (he : e ≠ 0x03) :
    onDataArrival s (frameBytes L payload c e) =
      (rejectState s L payload c e, [Effect.setRxSize 1, Effect.dataHasBeenRead]) := by
  rw [onDataArrival_nonempty _ _ (frameBytes_ne_nil _ _ _ _),
    rxBytes_frame_reject s L payload c e h0 hL he]
  simp [rejectState]

/-- A frame ending in 0x03, delivered in any non-empty chunks from the
start-seeking state, is accepted and routed once, whatever its checksum byte. -/
theorem feedChunks_frame_accept (s : PDTester) (L : Nat) (payload : List Nat) (c : Nat)
    (chunks : List (List Nat)) (h0 : s.NumRcvBytes = 0) (hL : payload.length = L)
    (hne : ∀ ch ∈ chunks, ch ≠ []) (hfl : chunks.flatten = frameBytes L payload c 0x03) :
    (feedChunks s chunks).1 = (routePacket (acceptState s L payload c)).1 ∧
      deliveries (feedChunks s chunks).2 = (routePacket (acceptState s L payload c)).2 := by
  have hnil : chunks ≠ [] := by
    intro h
    rw [h] at hfl
    exact frameBytes_ne_nil _ _ _ _ hfl.symm
  have hq : (rxBytes s chunks.flatten.dropLast).2 = false := by
    rw [hfl]
    exact rxBytes_frame_dropLast_quiet s L payload c _ h0 hL
  obtain ⟨h1, h2⟩ := feedChunks_single_completion s chunks hne hnil hq
  rw [hfl, onDataArrival_frame_accept s L payload c h0 hL] at h1 h2
  refine ⟨h1, ?_⟩
  rw [h2, deliveries_append, deliveries_routePacket]
  rfl

theorem acceptState_payload (s : PDTester) (L : Nat) (payload : List Nat) (c : Nat)
    (i : Nat) (hi : i < L) :
    (routePacket (acceptState s L payload c)).1.RcvDataTmp i = payload.getD i 0 := by
  rw [(routePacket_reassembler_fields _).2.1]
  simp [acceptState, memcpy, hi]

/-- Bytes other than the start marker, read in the start-seeking state, change
at most `RcvDataLen` and `NumRemaingBytes`. -/
theorem rxBytes_garbage (garbage : List Nat) : ∀ (s : PDTester), s.NumRcvBytes = 0 →
    (∀ g ∈ garbage, g ≠ 0x02) →
    ∃ (x : Nat) (y : Int),
      rxBytes s garbage = ({ s with RcvDataLen := x, NumRemaingBytes := y }, false) := by
  induction garbage with
  | nil => intro s _ _; exact ⟨s.RcvDataLen, s.NumRemaingBytes, rfl⟩
  | cons g garbage ih =>
    intro s h0 hg
    have hg2 : g ≠ 0x02 := hg g (List.mem_cons_self _ _)
    have step : rxByte (s, false) g = ({ s with RcvDataLen := 0, NumRemaingBytes := 1 }, false) := by
      simp [rxByte, h0, hg2]
    obtain ⟨x, y, h⟩ := ih { s with RcvDataLen := 0, NumRemaingBytes := 1 } h0
      (fun g' hg' => hg g' (List.mem_cons_of_mem _ hg'))
    refine ⟨x, y, ?_⟩
    have : rxBytes s (g :: garbage) =
        rxBytes { s with RcvDataLen := 0, NumRemaingBytes := 1 } garbage := by
      simp only [rxBytes, List.foldl_cons, step]
    rw [this, h]

/-! ## Frame reassembler: claims -/

/-- C1 (counterexample). The frame `02 01 41 00 03` carries the checksum byte
0x00 although the XOR of its first three bytes with 0x03 is 0x41; fed as one
notification to a freshly constructed object it is accepted: the packet count
rises, the payload byte reaches the response buffer and the response-arrived
signal is raised. -/
theorem bad_checksum_frame_is_delivered :
    (0x00 : Nat) ≠ ([0x02, 0x01, 0x41].foldl (· ^^^ ·) 0) ^^^ 0x03 ∧
      (0x00 : Nat) ≠ frameChecksum 0x01 [0x41] ∧
      PDTester.ctor.NumRcvBytes = 0 ∧
      deliveries (feedChunks PDTester.ctor [frameBytes 0x01 [0x41] 0x00 0x03]).2 =
        [Effect.SetEvent ComSignal.COM_PACKET_ARRIVED] ∧
      PDTester.ctor.RcvData 0 = 0 ∧
      (feedChunks PDTester.ctor [frameBytes 0x01 [0x41] 0x00 0x03]).1.RcvData 0 = 0x41 ∧
      (feedChunks PDTester.ctor [frameBytes 0x01 [0x41] 0x00 0x03]).1.com_events
        ComSignal.COM_PACKET_ARRIVED = true ∧
      (feedChunks PDTester.ctor [frameBytes 0x01 [0x41] 0x00 0x03]).1.NumPackets = 1 := by
  decide

/-- C1 (amended). A byte sequence STX, `L`, `L` payload bytes, `c`, ETX whose
checksum byte `c` differs from the checksum of the frame is not rejected: fed
from the start-seeking state in any non-empty chunks, the reassembler never
inspects `c`; it counts one packet, copies the `L` payload bytes into the
received-payload buffer and routes the packet once, exactly as the router
does on the state of an accepted frame. -/
theorem bad_checksum_frame_accepted (s : PDTester) (L : Nat) (payload : List Nat)
    (c : Nat) (chunks : List (List Nat))
    (h0 : s.NumRcvBytes = 0) (hL : payload.length = L)
    (hc : c ≠ frameChecksum L payload)
    (hne : ∀ ch ∈ chunks, ch ≠ []) (hfl : chunks.flatten = frameBytes L payload c 0x03) :
    (feedChunks s chunks).1.NumPackets = s.NumPackets + 1 ∧
      (∀ i : Nat, i < L → (feedChunks s chunks).1.RcvDataTmp i = payload.getD i 0) ∧
      (feedChunks s chunks).1 = (routePacket (acceptState s L payload c)).1 ∧
      deliveries (feedChunks s chunks).2 = (routePacket (acceptState s L payload c)).2 := by
  have _ := hc
  obtain ⟨h1, h2⟩ := feedChunks_frame_accept s L payload c chunks h0 hL hne hfl
  refine ⟨?_, ?_, h1, h2⟩
  · rw [h1, (routePacket_reassembler_fields _).1]
    rfl
  · intro i hi
    rw [h1]
    exact acceptState_payload s L payload c i hi

/-- Witness of C1 (amended): the frame `02 01 41 00 03` split after its second
byte. -/
theorem bad_checksum_frame_accepted_witness :
    (PDTester.ctor.NumRcvBytes = 0 ∧ [0x41].length = 0x01 ∧
        (0x00 : Nat) ≠ frameChecksum 0x01 [0x41] ∧
        (∀ ch ∈ [[0x02, 0x01], [0x41, 0x00, 0x03]], ch ≠ ([] : List Nat)) ∧
        [[0x02, 0x01], [0x41, 0x00, 0x03]].flatten = frameBytes 0x01 [0x41] 0x00 0x03) ∧
      ((feedChunks PDTester.ctor [[0x02, 0x01], [0x41, 0x00, 0x03]]).1.NumPackets =
          PDTester.ctor.NumPackets + 1 ∧
        (∀ i : Nat, i < 0x01 →
          (feedChunks PDTester.ctor [[0x02, 0x01], [0x41, 0x00, 0x03]]).1.RcvDataTmp i =
            [0x41].getD i 0) ∧
        (feedChunks PDTester.ctor [[0x02, 0x01], [0x41, 0x00, 0x03]]).1 =
          (routePacket (acceptState PDTester.ctor 0x01 [0x41] 0x00)).1 ∧
        deliveries (feedChunks PDTester.ctor [[0x02, 0x01], [0x41, 0x00, 0x03]]).2 =
          (routePacket (acceptState PDTester.ctor 0x01 [0x41] 0x00)).2) :=
  ⟨⟨by decide, by decide, by decide, by decide, by decide⟩,
    bad_checksum_frame_accepted PDTester.ctor 0x01 [0x41] 0x00 [[0x02, 0x01], [0x41, 0x00, 0x03]]
      (by decide) (by decide) (by decide) (by decide) (by decide)⟩

/-- C5. Chunk invariance: a valid frame (STX, `L`, `L` payload bytes, the
checksum of the frame, ETX) split in any way into consecutive non-empty chunks,
each one data-arrival notification from the start-seeking state, ends in the
same state as the frame delivered in a single notification and makes the same
deliveries; exactly one packet is counted, its payload in the received-payload
buffer is bytes `[2, 2+L)` of the frame, and the router runs once on it. -/
theorem chunk_invariance (s : PDTester) (L : Nat) (payload : List Nat)
    (c : Nat) (chunks : List (List Nat))
    (h0 : s.NumRcvBytes = 0) (hL : payload.length = L)
    (hc : c = frameChecksum L payload)
    (hne : ∀ ch ∈ chunks, ch ≠ []) (hfl : chunks.flatten = frameBytes L payload c 0x03) :
    (feedChunks s chunks).1 = (onDataArrival s (frameBytes L payload c 0x03)).1 ∧
      deliveries (feedChunks s chunks).2 =
        deliveries (onDataArrival s (frameBytes L payload c 0x03)).2 ∧
      (feedChunks s chunks).1.NumPackets = s.NumPackets + 1 ∧
      (∀ i : Nat, i < L →
        (feedChunks s chunks).1.RcvDataTmp i = (frameBytes L payload c 0x03).getD (2 + i) 0) ∧
      deliveries (feedChunks s chunks).2 = (routePacket (acceptState s L payload c)).2 := by
  have _ := hc
  obtain ⟨h1, h2⟩ := feedChunks_frame_accept s L payload c chunks h0 hL hne hfl
  have hd := onDataArrival_frame_accept s L payload c h0 hL
  refine ⟨?_, ?_, ?_, ?_, h2⟩
  · rw [h1, hd]
  · rw [h2, hd, deliveries_append, deliveries_routePacket]
    rfl
  · rw [h1, (routePacket_reassembler_fields _).1]
    rfl
  · intro i hi
    rw [h1, acceptState_payload s L payload c i hi]
    have hi2 : i < payload.length := by omega
    have e2 : 2 + i = i + 1 + 1 := by omega
    simp only [frameBytes, e2, List.getD_cons_succ]
    simp [List.getD_eq_getElem?_getD, List.getElem?_append_left hi2]

/-- Witness of C5: the response `02 03 01 14 2E 39 03` in three chunks. -/
theorem chunk_invariance_witness :
    (PDTester.ctor.NumRcvBytes = 0 ∧ [0x01, 0x14, 0x2E].length = 0x03 ∧
        (0x39 : Nat) = frameChecksum 0x03 [0x01, 0x14, 0x2E] ∧
        (∀ ch ∈ [[0x02], [0x03, 0x01, 0x14], [0x2E, 0x39, 0x03]], ch ≠ ([] : List Nat)) ∧
        [[0x02], [0x03, 0x01, 0x14], [0x2E, 0x39, 0x03]].flatten =
          frameBytes 0x03 [0x01, 0x14, 0x2E] 0x39 0x03) ∧
      ((feedChunks PDTester.ctor [[0x02], [0x03, 0x01, 0x14], [0x2E, 0x39, 0x03]]).1 =
          (onDataArrival PDTester.ctor (frameBytes 0x03 [0x01, 0x14, 0x2E] 0x39 0x03)).1 ∧
        deliveries (feedChunks PDTester.ctor [[0x02], [0x03, 0x01, 0x14], [0x2E, 0x39, 0x03]]).2 =
          deliveries (onDataArrival PDTester.ctor (frameBytes 0x03 [0x01, 0x14, 0x2E] 0x39 0x03)).2 ∧
        (feedChunks PDTester.ctor [[0x02], [0x03, 0x01, 0x14], [0x2E, 0x39, 0x03]]).1.NumPackets =
          PDTester.ctor.NumPackets + 1 ∧
        (∀ i : Nat, i < 0x03 →
          (feedChunks PDTester.ctor [[0x02], [0x03, 0x01, 0x14], [0x2E, 0x39, 0x03]]).1.RcvDataTmp i =
            (frameBytes 0x03 [0x01, 0x14, 0x2E] 0x39 0x03).getD (2 + i) 0) ∧
        deliveries (feedChunks PDTester.ctor [[0x02], [0x03, 0x01, 0x14], [0x2E, 0x39, 0x03]]).2 =
          (routePacket (acceptState PDTester.ctor 0x03 [0x01, 0x14, 0x2E] 0x39)).2) :=
  ⟨⟨by decide, by decide, by decide, by decide, by decide⟩,
    chunk_invariance PDTester.ctor 0x03 [0x01, 0x14, 0x2E] 0x39
      [[0x02], [0x03, 0x01, 0x14], [0x2E, 0x39, 0x03]]
      (by decide) (by decide) (by decide) (by decide) (by decide)⟩

/-- C6 (amended). Resynchronisation: garbage bytes (none of them the start
marker 0x02) read while the reassembler seeks a start marker, followed by the bytes of a
valid frame, in any non-empty chunks: the reassembler ends in the same state
and makes the same deliveries as for the frame alone; one packet is counted
and the received-payload buffer holds the payload of that frame. -/
theorem resynchronisation (s : PDTester) (garbage : List Nat) (L : Nat)
    (payload : List Nat) (c : Nat) (chunks : List (List Nat))
    (h0 : s.NumRcvBytes = 0) (hg : ∀ g ∈ garbage, g ≠ 0x02)
    (hL : payload.length = L) (hc : c = frameChecksum L payload)
    (hne : ∀ ch ∈ chunks, ch ≠ [])
    (hfl : chunks.flatten = garbage ++ frameBytes L payload c 0x03) :
    (feedChunks s chunks).1 = (onDataArrival s (frameBytes L payload c 0x03)).1 ∧
      deliveries (feedChunks s chunks).2 =
        deliveries (onDataArrival s (frameBytes L payload c 0x03)).2 ∧
      (feedChunks s chunks).1.NumPackets = s.NumPackets + 1 ∧
      (∀ i : Nat, i < L → (feedChunks s chunks).1.RcvDataTmp i = payload.getD i 0) := by
  have _ := hc
  obtain ⟨x, y, hgb⟩ := rxBytes_garbage garbage s h0 hg
  have hq0 : (rxBytes s garbage).2 = false := by rw [hgb]
  have h0g : ({ s with RcvDataLen := x, NumRemaingBytes := y } : PDTester).NumRcvBytes = 0 := h0
  have hacc : acceptState { s with RcvDataLen := x, NumRemaingBytes := y } L payload c =
      acceptState s L payload c := rfl
  have hnil : chunks ≠ [] := by
    intro h
    rw [h] at hfl
    have := congrArg List.length hfl
    simp [frameBytes] at this
    omega
  have hq : (rxBytes s chunks.flatten.dropLast).2 = false := by
    rw [hfl, List.dropLast_append_of_ne_nil _ (frameBytes_ne_nil _ _ _ _),
      rxBytes_append_quiet s _ _ hq0, hgb]
    exact rxBytes_frame_dropLast_quiet _ L payload c _ h0g hL
  obtain ⟨h1, h2⟩ := feedChunks_single_completion s chunks hne hnil hq
  have hsame : onDataArrival s (garbage ++ frameBytes L payload c 0x03) =
      onDataArrival s (frameBytes L payload c 0x03) := by
    have hne2 : garbage ++ frameBytes L payload c 0x03 ≠ [] := by
      intro h
      exact frameBytes_ne_nil _ _ _ _ (List.append_eq_nil.mp h).2
    rw [onDataArrival_nonempty _ _ hne2, onDataArrival_nonempty _ _ (frameBytes_ne_nil _ _ _ _),
      rxBytes_append_quiet s _ _ hq0, hgb, rxBytes_frame_accept _ L payload c h0g hL, hacc,
      rxBytes_frame_accept s L payload c h0 hL]
  rw [hfl, hsame] at h1 h2
  refine ⟨h1, h2, ?_, ?_⟩
  · rw [h1, onDataArrival_frame_accept s L payload c h0 hL]
    show (routePacket (acceptState s L payload c)).1.NumPackets = s.NumPackets + 1
    rw [(routePacket_reassembler_fields _).1]
    rfl
  · intro i hi
    rw [h1, onDataArrival_frame_accept s L payload c h0 hL]
    exact acceptState_payload s L payload c i hi

/-- Witness of C6 (amended): three garbage bytes, then the response
`02 03 01 14 2E 39 03`, the chunk boundary inside the garbage and the frame. -/
theorem resynchronisation_witness :
    (PDTester.ctor.NumRcvBytes = 0 ∧ (∀ g ∈ [0xFF, 0x03, 0x00], g ≠ (0x02 : Nat)) ∧
        [0x01, 0x14, 0x2E].length = 0x03 ∧
        (0x39 : Nat) = frameChecksum 0x03 [0x01, 0x14, 0x2E] ∧
        (∀ ch ∈ [[0xFF, 0x03], [0x00, 0x02, 0x03, 0x01], [0x14, 0x2E, 0x39, 0x03]],
          ch ≠ ([] : List Nat)) ∧
        [[0xFF, 0x03], [0x00, 0x02, 0x03, 0x01], [0x14, 0x2E, 0x39, 0x03]].flatten =
          [0xFF, 0x03, 0x00] ++ frameBytes 0x03 [0x01, 0x14, 0x2E] 0x39 0x03) ∧
      ((feedChunks PDTester.ctor
            [[0xFF, 0x03], [0x00, 0x02, 0x03, 0x01], [0x14, 0x2E, 0x39, 0x03]]).1 =
          (onDataArrival PDTester.ctor (frameBytes 0x03 [0x01, 0x14, 0x2E] 0x39 0x03)).1 ∧
        deliveries (feedChunks PDTester.ctor
            [[0xFF, 0x03], [0x00, 0x02, 0x03, 0x01], [0x14, 0x2E, 0x39, 0x03]]).2 =
          deliveries (onDataArrival PDTester.ctor (frameBytes 0x03 [0x01, 0x14, 0x2E] 0x39 0x03)).2 ∧
        (feedChunks PDTester.ctor
            [[0xFF, 0x03], [0x00, 0x02, 0x03, 0x01], [0x14, 0x2E, 0x39, 0x03]]).1.NumPackets =
          PDTester.ctor.NumPackets + 1 ∧
        (∀ i : Nat, i < 0x03 →
          (feedChunks PDTester.ctor
            [[0xFF, 0x03], [0x00, 0x02, 0x03, 0x01], [0x14, 0x2E, 0x39, 0x03]]).1.RcvDataTmp i =
            [0x01, 0x14, 0x2E].getD i 0)) :=
  ⟨⟨by decide, by decide, by decide, by decide, by decide, by decide⟩,
    resynchronisation PDTester.ctor [0xFF, 0x03, 0x00] 0x03 [0x01, 0x14, 0x2E] 0x39
      [[0xFF, 0x03], [0x00, 0x02, 0x03, 0x01], [0x14, 0x2E, 0x39, 0x03]]
      (by decide) (by decide) (by decide) (by decide) (by decide) (by decide)⟩

/-- C7. In the start-seeking state (no byte buffered) a byte other than 0x02 is
discarded: the loop body leaves the byte count 0 and the remaining-bytes hint
1, stores nothing in the frame buffer, the received-payload buffer or the
response buffer, counts no packet and leaves `bPacketReceived` and the signals
as they were; a notification holding just that byte delivers nothing. -/
theorem seek_start_discards_byte (s : PDTester) (f : Bool) (b : Nat)
    (h0 : s.NumRcvBytes = 0) (hb : b ≠ 0x02) :
    (rxByte (s, f) b).1.NumRcvBytes = 0 ∧
      (rxByte (s, f) b).1.NumRemaingBytes = 1 ∧
      (rxByte (s, f) b).1.ComRcvBuffer = s.ComRcvBuffer ∧
      (rxByte (s, f) b).1.RcvDataTmp = s.RcvDataTmp ∧
      (rxByte (s, f) b).1.RcvData = s.RcvData ∧
      (rxByte (s, f) b).1.NumPackets = s.NumPackets ∧
      (rxByte (s, f) b).1.com_events = s.com_events ∧
      (rxByte (s, f) b).2 = f ∧
      (onDataArrival s [b]).2 = [Effect.setRxSize 1, Effect.dataHasBeenRead] ∧
      deliveries (onDataArrival s [b]).2 = [] ∧
      (onDataArrival s [b]).1 = (rxByte (s, false) b).1 := by
  have step : ∀ f : Bool,
      rxByte (s, f) b = ({ s with RcvDataLen := 0, NumRemaingBytes := 1 }, f) := by
    intro f
    simp [rxByte, h0, hb]
  have hd : onDataArrival s [b] =
      ({ s with RcvDataLen := 0, NumRemaingBytes := 1 },
        [Effect.setRxSize 1, Effect.dataHasBeenRead]) := by
    rw [onDataArrival_nonempty s [b] (by simp)]
    simp [rxBytes, step]
  rw [step f, step false, hd]
  exact ⟨h0, rfl, rfl, rfl, rfl, rfl, rfl, rfl, rfl, rfl, rfl⟩

/-- Witness of C7: the byte 0x03 arriving at a freshly constructed object. -/
theorem seek_start_discards_byte_witness :
    (PDTester.ctor.NumRcvBytes = 0 ∧ (0x03 : Nat) ≠ 0x02) ∧
      ((rxByte (PDTester.ctor, false) 0x03).1.NumRcvBytes = 0 ∧
        (rxByte (PDTester.ctor, false) 0x03).1.NumRemaingBytes = 1 ∧
        (rxByte (PDTester.ctor, false) 0x03).1.ComRcvBuffer = PDTester.ctor.ComRcvBuffer ∧
        (rxByte (PDTester.ctor, false) 0x03).1.RcvDataTmp = PDTester.ctor.RcvDataTmp ∧
        (rxByte (PDTester.ctor, false) 0x03).1.RcvData = PDTester.ctor.RcvData ∧
        (rxByte (PDTester.ctor, false) 0x03).1.NumPackets = PDTester.ctor.NumPackets ∧
        (rxByte (PDTester.ctor, false) 0x03).1.com_events = PDTester.ctor.com_events ∧
        (rxByte (PDTester.ctor, false) 0x03).2 = false ∧
        (onDataArrival PDTester.ctor [0x03]).2 = [Effect.setRxSize 1, Effect.dataHasBeenRead] ∧
        deliveries (onDataArrival PDTester.ctor [0x03]).2 = [] ∧
        (onDataArrival PDTester.ctor [0x03]).1 = (rxByte (PDTester.ctor, false) 0x03).1) :=
  ⟨⟨by decide, by decide⟩, seek_start_discards_byte PDTester.ctor false 0x03 (by decide) (by decide)⟩

/-- C8. A byte sequence 0x02, `L`, then `L + 2` further bytes whose last byte is
not 0x03, fed from the start-seeking state as one notification: nothing is
delivered (no callback, no signal, the response buffer is not written), the
previously copied payload and the packet count are untouched, and the
reassembler is back in the start-seeking state (byte count 0, remaining
hint 1). -/
theorem wrong_terminator_rejected (s : PDTester) (L : Nat) (payload : List Nat)
    (c e : Nat) (h0 : s.NumRcvBytes = 0) (hL : payload.length = L) (he : e ≠ 0x03) :
    (onDataArrival s (frameBytes L payload c e)).2 =
        [Effect.setRxSize 1, Effect.dataHasBeenRead] ∧
      deliveries (onDataArrival s (frameBytes L payload c e)).2 = [] ∧
      (onDataArrival s (frameBytes L payload c e)).1.RcvData = s.RcvData ∧
      (onDataArrival s (frameBytes L payload c e)).1.com_events = s.com_events ∧
      (onDataArrival s (frameBytes L payload c e)).1.RcvDataTmp = s.RcvDataTmp ∧
      (onDataArrival s (frameBytes L payload c e)).1.NumPackets = s.NumPackets ∧
      (onDataArrival s (frameBytes L payload c e)).1.NumRcvBytes = 0 ∧
      (onDataArrival s (frameBytes L payload c e)).1.NumRemaingBytes = 1 := by
  rw [onDataArrival_frame_reject s L payload c e h0 hL he]
  exact ⟨rfl, rfl, rfl, rfl, rfl, rfl, rfl, rfl⟩

/-- Witness of C8: the frame `02 01 41 41 04`, correct checksum, terminator
0x04. -/
theorem wrong_terminator_rejected_witness :
    (PDTester.ctor.NumRcvBytes = 0 ∧ [0x41].length = 0x01 ∧ (0x04 : Nat) ≠ 0x03) ∧
      ((onDataArrival PDTester.ctor (frameBytes 0x01 [0x41] 0x41 0x04)).2 =
          [Effect.setRxSize 1, Effect.dataHasBeenRead] ∧
        deliveries (onDataArrival PDTester.ctor (frameBytes 0x01 [0x41] 0x41 0x04)).2 = [] ∧
        (onDataArrival PDTester.ctor (frameBytes 0x01 [0x41] 0x41 0x04)).1.RcvData =
          PDTester.ctor.RcvData ∧
        (onDataArrival PDTester.ctor (frameBytes 0x01 [0x41] 0x41 0x04)).1.com_events =
          PDTester.ctor.com_events ∧
        (onDataArrival PDTester.ctor (frameBytes 0x01 [0x41] 0x41 0x04)).1.RcvDataTmp =
          PDTester.ctor.RcvDataTmp ∧
        (onDataArrival PDTester.ctor (frameBytes 0x01 [0x41] 0x41 0x04)).1.NumPackets =
          PDTester.ctor.NumPackets ∧
        (onDataArrival PDTester.ctor (frameBytes 0x01 [0x41] 0x41 0x04)).1.NumRcvBytes = 0 ∧
        (onDataArrival PDTester.ctor (frameBytes 0x01 [0x41] 0x41 0x04)).1.NumRemaingBytes = 1) :=
  ⟨⟨by decide, by decide, by decide⟩,
    wrong_terminator_rejected PDTester.ctor 0x01 [0x41] 0x41 0x04
      (by decide) (by decide) (by decide)⟩

/-! ## Helper lemmas: what the byte loop leaves alone -/

theorem rxByte_frame (st : PDTester × Bool) (b : Nat) :
    (rxByte st b).1.RcvData = st.1.RcvData ∧
      (rxByte st b).1.com_events = st.1.com_events ∧
      (rxByte st b).1.PDAnalyzerCallback = st.1.PDAnalyzerCallback ∧
      (rxByte st b).1.TIME_OUT_MS = st.1.TIME_OUT_MS := by
  unfold rxByte
  dsimp only
  split_ifs <;> simp

theorem foldl_rxByte_frame (data : List Nat) : ∀ (st : PDTester × Bool),
    (data.foldl rxByte st).1.RcvData = st.1.RcvData ∧
      (data.foldl rxByte st).1.com_events = st.1.com_events ∧
      (data.foldl rxByte st).1.PDAnalyzerCallback = st.1.PDAnalyzerCallback ∧
      (data.foldl rxByte st).1.TIME_OUT_MS = st.1.TIME_OUT_MS := by
  induction data with
  | nil => intro st; simp
  | cons b data ih =>
    intro st
    rw [List.foldl_cons]
    obtain ⟨a1, a2, a3, a4⟩ := ih (rxByte st b)
    obtain ⟨b1, b2, b3, b4⟩ := rxByte_frame st b
    exact ⟨a1.trans b1, a2.trans b2, a3.trans b3, a4.trans b4⟩

theorem rxBytes_frame (s : PDTester) (data : List Nat) :
    (rxBytes s data).1.RcvData = s.RcvData ∧
      (rxBytes s data).1.com_events = s.com_events ∧
      (rxBytes s data).1.PDAnalyzerCallback = s.PDAnalyzerCallback ∧
      (rxBytes s data).1.TIME_OUT_MS = s.TIME_OUT_MS :=
  foldl_rxByte_frame data (s, false)

/-- One byte either counts no packet and keeps `bPacketReceived`, or counts one
packet and sets it. -/
theorem rxByte_count (st : PDTester × Bool) (b : Nat) :
    ((rxByte st b).1.NumPackets = st.1.NumPackets ∧ (rxByte st b).2 = st.2) ∨
      ((rxByte st b).1.NumPackets = st.1.NumPackets + 1 ∧ (rxByte st b).2 = true) := by
  unfold rxByte
  dsimp only
  split_ifs <;> simp

/-- The packet count never decreases, and `bPacketReceived` is set at the end
of the loop exactly when it was set before or a packet was counted. -/
theorem foldl_rxByte_count (data : List Nat) : ∀ (st : PDTester × Bool),
    st.1.NumPackets ≤ (data.foldl rxByte st).1.NumPackets ∧
      ((data.foldl rxByte st).2 = true ↔
        (st.2 = true ∨ st.1.NumPackets < (data.foldl rxByte st).1.NumPackets)) := by
  induction data with
  | nil => intro st; simp
  | cons b data ih =>
    intro st
    rw [List.foldl_cons]
    obtain ⟨hle, hiff⟩ := ih (rxByte st b)
    rcases rxByte_count st b with ⟨hn, hf⟩ | ⟨hn, hf⟩
    · rw [hn] at hle hiff
      rw [hf] at hiff
      exact ⟨hle, hiff⟩
    · rw [hn] at hle hiff
      rw [hf] at hiff
      refine ⟨by omega, ?_⟩
      rw [hiff]
      constructor
      · intro _
        right
        omega
      · intro _
        left
        rfl

theorem rxBytes_flag_iff (s : PDTester) (data : List Nat) :
    (rxBytes s data).2 = true ↔ s.NumPackets < (rxBytes s data).1.NumPackets := by
  have h := (foldl_rxByte_count data (s, false)).2
  simpa [rxBytes] using h

theorem rxBytes_quiet_count (s : PDTester) (data : List Nat)
    (hq : (rxBytes s data).2 = false) : (rxBytes s data).1.NumPackets = s.NumPackets := by
  have hle := (foldl_rxByte_count data (s, false)).1
  have hiff := rxBytes_flag_iff s data
  have hnot : ¬ s.NumPackets < (rxBytes s data).1.NumPackets := by
    intro h
    rw [hiff.mpr h] at hq
    exact Bool.noConfusion hq
  have hle2 : s.NumPackets ≤ (rxBytes s data).1.NumPackets := hle
  omega

/-! ## Event router: claims -/

/-- C9. Router. First part: for every state and every data-arrival notification
in which exactly one frame completes (the packet count rises by one), with `t`
byte 0 of the received-payload buffer after the byte loop, the notification
does exactly this after the transport bookkeeping: `t` = 0x20, 0x21, 0x22, 0x23
calls the event callback once with port-attached, port-detached,
profile-changed, new-capability; `t` = 0x24 or 0x25 calls the PD-analyzer
callback with the 36 bytes at offsets 1..36 of the received-payload buffer
when a callback is registered and does nothing otherwise; in these cases the
response buffer and the signals are as before the notification. Every other
`t` copies the (first 64 bytes of the) received-payload buffer into the
response buffer and raises the response-arrived signal, with no callback.
Second part: for a frame with payload `t :: rest` arriving from the
start-seeking state in non-empty chunks, exactly one frame completes in the
last notification and the received-payload buffer then holds the payload, so
its byte 0 is the tag `t`. -/
theorem router_dispatch :
    (∀ (s : PDTester) (data : List Nat) (t : Nat),
      (rxBytes s data).1.NumPackets = s.NumPackets + 1 →
      t = (rxBytes s data).1.RcvDataTmp 0 →
      (rxBytes s data).1.RcvData = s.RcvData ∧
      (rxBytes s data).1.com_events = s.com_events ∧
      (t = EVENT_PORT_ATTACHED → onDataArrival s data =
        ((rxBytes s data).1,
          [Effect.setRxSize (rxBytes s data).1.NumRemaingBytes, Effect.dataHasBeenRead,
            Effect.EventCallback PDAPI_Event.PDAPI_EVENT_PORT_ATTACHED])) ∧
      (t = EVENT_PORT_DETACHED → onDataArrival s data =
        ((rxBytes s data).1,
          [Effect.setRxSize (rxBytes s data).1.NumRemaingBytes, Effect.dataHasBeenRead,
            Effect.EventCallback PDAPI_Event.PDAPI_EVENT_PORT_DETACHED])) ∧
      (t = EVENT_PROFILE_CHANGED → onDataArrival s data =
        ((rxBytes s data).1,
          [Effect.setRxSize (rxBytes s data).1.NumRemaingBytes, Effect.dataHasBeenRead,
            Effect.EventCallback PDAPI_Event.PDAPI_EVENT_PROFILE_CHANGED])) ∧
      (t = EVENT_NEW_CAPABILITY → onDataArrival s data =
        ((rxBytes s data).1,
          [Effect.setRxSize (rxBytes s data).1.NumRemaingBytes, Effect.dataHasBeenRead,
            Effect.EventCallback PDAPI_Event.PDAPI_EVENT_NEW_CAPABILITY])) ∧
      (t = EVENT_PD_MSG_RECV ∨ t = EVENT_PD_MSG_SENT → onDataArrival s data =
        ((rxBytes s data).1,
          [Effect.setRxSize (rxBytes s data).1.NumRemaingBytes, Effect.dataHasBeenRead] ++
            if s.PDAnalyzerCallback then
              [Effect.PDAnalyzerCallback
                (bufferBytes (fun i => (rxBytes s data).1.RcvDataTmp (1 + i)) 36)]
            else [])) ∧
      (t < 0x20 ∨ 0x25 < t → onDataArrival s data =
        ({ (rxBytes s data).1 with
            RcvData := memcpy s.RcvData (rxBytes s data).1.RcvDataTmp 64,
            com_events := Function.update s.com_events ComSignal.COM_PACKET_ARRIVED true },
          [Effect.setRxSize (rxBytes s data).1.NumRemaingBytes, Effect.dataHasBeenRead,
            Effect.SetEvent ComSignal.COM_PACKET_ARRIVED]))) ∧
    (∀ (s : PDTester) (L t : Nat) (rest : List Nat) (c : Nat)
        (init : List (List Nat)) (cl : List Nat),
      s.NumRcvBytes = 0 → (t :: rest).length = L → (∀ ch ∈ init, ch ≠ []) → cl ≠ [] →
      init.flatten ++ cl = frameBytes L (t :: rest) c 0x03 →
      (rxBytes (feedChunks s init).1 cl).1.NumPackets = (feedChunks s init).1.NumPackets + 1 ∧
      (rxBytes (feedChunks s init).1 cl).1.RcvDataTmp 0 = t ∧
      ∀ i : Nat, i < L →
        (rxBytes (feedChunks s init).1 cl).1.RcvDataTmp i = (t :: rest).getD i 0) := by
  constructor
  · intro s data t hN ht
    have hflag : (rxBytes s data).2 = true := (rxBytes_flag_iff s data).mpr (by omega)
    have hne : data ≠ [] := by
      intro h
      rw [h] at hN
      simp [rxBytes] at hN
    obtain ⟨f1, f2, f3, _⟩ := rxBytes_frame s data
    have hd := onDataArrival_nonempty s data hne
    rw [hflag] at hd
    simp only [if_true] at hd
    refine ⟨f1, f2, ?_, ?_, ?_, ?_, ?_, ?_⟩
    · intro h
      rw [hd]
      have h' : (rxBytes s data).1.RcvDataTmp 0 = EVENT_PORT_ATTACHED := by rw [← ht, h]
      simp [routePacket, h']
    · intro h
      rw [hd]
      have h' : (rxBytes s data).1.RcvDataTmp 0 = EVENT_PORT_DETACHED := by rw [← ht, h]
      simp [routePacket, h']
    · intro h
      rw [hd]
      have h' : (rxBytes s data).1.RcvDataTmp 0 = EVENT_PROFILE_CHANGED := by rw [← ht, h]
      simp [routePacket, h']
    · intro h
      rw [hd]
      have h' : (rxBytes s data).1.RcvDataTmp 0 = EVENT_NEW_CAPABILITY := by rw [← ht, h]
      simp [routePacket, h']
    · intro h
      rw [hd]
      rw [ht] at h
      rcases h with h' | h'
      · cases hcb : s.PDAnalyzerCallback <;> simp [routePacket, h', f3, hcb]
      · cases hcb : s.PDAnalyzerCallback <;> simp [routePacket, h', f3, hcb]
    · intro h
      rw [hd]
      rw [ht] at h
      have n0 : (rxBytes s data).1.RcvDataTmp 0 ≠ 0x20 := by omega
      have n1 : (rxBytes s data).1.RcvDataTmp 0 ≠ 0x21 := by omega
      have n2 : (rxBytes s data).1.RcvDataTmp 0 ≠ 0x22 := by omega
      have n3 : (rxBytes s data).1.RcvDataTmp 0 ≠ 0x23 := by omega
      have n4 : (rxBytes s data).1.RcvDataTmp 0 ≠ 0x24 := by omega
      have n5 : (rxBytes s data).1.RcvDataTmp 0 ≠ 0x25 := by omega
      simp [routePacket, n0, n1, n2, n3, n4, n5, f1, f2]
  · intro s L t rest c init cl h0 hL hne hcl hfl
    have hq : (rxBytes s init.flatten).2 = false := by
      have h1 := rxBytes_frame_dropLast_quiet s L (t :: rest) c 0x03 h0 hL
      rw [← hfl, List.dropLast_append_of_ne_nil _ hcl] at h1
      exact rxBytes_flag_initial s _ _ h1
    have hsm := (feedChunks_quiet init s hne hq).1
    have hrx : rxBytes (feedChunks s init).1 cl = (acceptState s L (t :: rest) c, true) := by
      rw [hsm, ← rxBytes_append_quiet s _ _ hq, hfl]
      exact rxBytes_frame_accept s L (t :: rest) c h0 hL
    have hpos : 0 < L := by
      rw [← hL]
      simp
    rw [hrx, hsm, rxBytes_quiet_count s _ hq]
    refine ⟨rfl, ?_, ?_⟩
    · simp [acceptState, memcpy, hpos]
    · intro i hi
      simp [acceptState, memcpy, hi]

/-- Witness of C9: the port-attached event frame `02 01 20 20 03`, whole and
split after its second byte, at a freshly constructed object. -/
theorem router_dispatch_witness :
    ((rxBytes PDTester.ctor (frameBytes 0x01 [0x20] 0x20 0x03)).1.NumPackets =
          PDTester.ctor.NumPackets + 1 ∧
        (0x20 : Nat) = (rxBytes PDTester.ctor (frameBytes 0x01 [0x20] 0x20 0x03)).1.RcvDataTmp 0) ∧
      onDataArrival PDTester.ctor (frameBytes 0x01 [0x20] 0x20 0x03) =
        ((rxBytes PDTester.ctor (frameBytes 0x01 [0x20] 0x20 0x03)).1,
          [Effect.setRxSize
              (rxBytes PDTester.ctor (frameBytes 0x01 [0x20] 0x20 0x03)).1.NumRemaingBytes,
            Effect.dataHasBeenRead,
            Effect.EventCallback PDAPI_Event.PDAPI_EVENT_PORT_ATTACHED]) ∧
      (PDTester.ctor.NumRcvBytes = 0 ∧ ([0x20] : List Nat).length = 0x01 ∧
        (∀ ch ∈ [[0x02, 0x01]], ch ≠ ([] : List Nat)) ∧ [0x20, 0x20, 0x03] ≠ ([] : List Nat) ∧
        [[0x02, 0x01]].flatten ++ [0x20, 0x20, 0x03] = frameBytes 0x01 [0x20] 0x20 0x03) ∧
      (rxBytes (feedChunks PDTester.ctor [[0x02, 0x01]]).1 [0x20, 0x20, 0x03]).1.RcvDataTmp 0 =
        0x20 :=
  ⟨⟨by decide, by decide⟩,
    (router_dispatch.1 PDTester.ctor (frameBytes 0x01 [0x20] 0x20 0x03) 0x20
      (by decide) (by decide)).2.2.1 rfl,
    ⟨by decide, by decide, by decide, by decide, by decide⟩,
    (router_dispatch.2 PDTester.ctor 0x01 0x20 [] 0x20 [[0x02, 0x01]] [0x20, 0x20, 0x03]
      (by decide) (by decide) (by decide) (by decide) (by decide)).2.1⟩

/-! ## Helper lemmas: effects of notifications and waits -/

theorem sentFrames_append (a b : List Effect) :
    sentFrames (a ++ b) = sentFrames a ++ sentFrames b := by
  induction a with
  | nil => rfl
  | cons e a ih => cases e <;> simp [sentFrames, ih]

theorem waitCalls_append (a b : List Effect) :
    waitCalls (a ++ b) = waitCalls a ++ waitCalls b := by
  induction a with
  | nil => rfl
  | cons e a ih => cases e <;> simp [waitCalls, ih]

theorem quiet_of_fromNotification (fx : List Effect)
    (h : ∀ e ∈ fx, fromNotification e = true) : sentFrames fx = [] ∧ waitCalls fx = [] := by
  induction fx with
  | nil => exact ⟨rfl, rfl⟩
  | cons e fx ih =>
    have he := h e (List.mem_cons_self _ _)
    have ih2 := ih (fun e' he' => h e' (List.mem_cons_of_mem _ he'))
    cases e <;> simp [fromNotification] at he <;> simp [sentFrames, waitCalls, ih2]

theorem routePacket_fromNotification (s : PDTester) :
    ∀ e ∈ (routePacket s).2, fromNotification e = true := by
  unfold routePacket
  split_ifs <;> simp [fromNotification]

theorem onSerialEvent_fromNotification (s : PDTester) (ev : SerialEvent) :
    ∀ e ∈ (onSerialEvent s ev).2, fromNotification e = true := by
  have base : ∀ n : Int, ∀ e ∈ [Effect.setRxSize n, Effect.dataHasBeenRead],
      fromNotification e = true := by
    intro n e he
    simp only [List.mem_cons, List.mem_singleton, List.mem_nil_iff, or_false] at he
    rcases he with he | he <;> rw [he] <;> rfl
  cases ev with
  | SERIAL_DATA_ARRIVAL data =>
    simp only [onSerialEvent, onDataArrival]
    split_ifs
    all_goals
      first
        | exact base _
        | (intro e he
           rcases List.mem_append.mp he with h | h
           · exact base _ e h
           · exact routePacket_fromNotification _ e h)
  | _ => simp [onSerialEvent, fromNotification]

theorem waitSignal_fromNotification (sig : ComSignal) (w : List SerialEvent) :
    ∀ (s : PDTester), ∀ e ∈ (waitSignal sig s w).fx, fromNotification e = true := by
  induction w with
  | nil =>
    intro s e he
    unfold waitSignal at he
    split_ifs at he <;> simp at he
  | cons ev w ih =>
    intro s e he
    unfold waitSignal at he
    split_ifs at he
    · simp at he
    · simp only [List.mem_append] at he
      rcases he with he | he
      · exact onSerialEvent_fromNotification s ev e he
      · exact ih _ e he

theorem WaitForMultipleObjects_sentFrames (s : PDTester) (sig : ComSignal) (timeout : Nat)
    (w : List SerialEvent) :
    sentFrames (WaitForMultipleObjects s sig timeout w).fx = [] ∧
      waitCalls (WaitForMultipleObjects s sig timeout w).fx = [(sig, timeout)] := by
  obtain ⟨h1, h2⟩ := quiet_of_fromNotification _ (waitSignal_fromNotification sig w s)
  simp [WaitForMultipleObjects, sentFrames, waitCalls, h1, h2]

theorem WaitForMultipleObjects_TIME_OUT_MS (s : PDTester) (sig : ComSignal) (timeout : Nat)
    (w : List SerialEvent) :
    (WaitForMultipleObjects s sig timeout w).s.TIME_OUT_MS = s.TIME_OUT_MS := by
  have key : ∀ (w : List SerialEvent) (s : PDTester),
      (waitSignal sig s w).s.TIME_OUT_MS = s.TIME_OUT_MS := by
    intro w
    induction w with
    | nil =>
      intro s
      unfold waitSignal
      split_ifs <;> rfl
    | cons ev w ih =>
      intro s
      unfold waitSignal
      split_ifs
      · rfl
      · simp only
        rw [ih]
        cases ev with
        | SERIAL_DATA_ARRIVAL data =>
          simp only [onSerialEvent, onDataArrival]
          split_ifs
          · simp only [routePacket]
            split_ifs <;> simp [(rxBytes_frame _ data).2.2.2]
          · simp [(rxBytes_frame _ data).2.2.2]
          · simp only [routePacket]
            split_ifs <;> simp [(rxBytes_frame _ data).2.2.2]
          · simp [(rxBytes_frame _ data).2.2.2]
        | _ => rfl
  exact key w s

/-! ## Command operations: claims -/

theorem bufferBytes_getD (buf : Nat → Nat) (n i : Nat) (hi : i < n) :
    (bufferBytes buf n).getD i 0 = buf i := by
  simp [bufferBytes, List.getD_eq_getElem?_getD, hi]

theorem waitSignal_quiet (sig : ComSignal) (s : PDTester) (w : List SerialEvent) :
    sentFrames (waitSignal sig s w).fx = [] ∧ waitCalls (waitSignal sig s w).fx = [] :=
  quiet_of_fromNotification _ (waitSignal_fromNotification sig w s)

theorem GetDevInfo_frame (cBuf : Nat → Nat) :
    bufferBytes (GetDevInfo_cBuf cBuf) 5 = [0x02, 0x01, 0x01, 0x01, 0x03] := by
  simp [bufferBytes, GetDevInfo_cBuf, checksum, xorLoop, List.range, List.range.loop,
    Function.update_apply, GET_DEV_INFO]

/-- C3 (counterexample). The frame that `GetDevInfo` hands to the transport at a
freshly constructed object is `02 01 01 01 03`: its checksum byte is 0x01, not
0x02. -/
theorem GetDevInfo_request_checksum_is_01 :
    sentFrames
        (GetDevInfo PDTester.ctor (fun _ => 0) 0 0 [SerialEvent.SERIAL_DATA_SENT] []).fx =
        [[0x02, 0x01, 0x01, 0x01, 0x03]] ∧
      ([0x02, 0x01, 0x01, 0x01, 0x03] : List Nat) ≠ [0x02, 0x01, 0x01, 0x02, 0x03] ∧
      (checksum (writeList (fun _ => 0) 0 [0x02, 0x01, 0x01])).1 = 0x01 := by
  decide

/-- C3 (amended). Whatever the state, the content of the local buffer, the
values behind the two pointers and the notifications that arrive, `GetDevInfo`
hands the transport exactly one frame, the five bytes `02 01 01 01 03` (start,
len = 1, cmd = 0x01, checksum = 0x02 xor 0x01 xor 0x01 xor 0x03 = 0x01, end). -/
theorem GetDevInfo_request_bytes (s : PDTester) (cBuf : Nat → Nat) (HW_Ver SW_Ver : Nat)
    (w1 w2 : List SerialEvent) :
    sentFrames (GetDevInfo s cBuf HW_Ver SW_Ver w1 w2).fx = [[0x02, 0x01, 0x01, 0x01, 0x03]] := by
  unfold GetDevInfo
  simp only [GetDevInfo_frame]
  split_ifs <;>
    simp [sentFrames_append, sentFrames, (WaitForMultipleObjects_sentFrames _ _ _ _).1,
      (waitSignal_quiet _ _ _).1]

theorem waitAck_contract (s : PDTester) (frame : List Nat) (cmd : Nat)
    (w1 w2 : List SerialEvent) (hcmd : frame.getD 2 0 = cmd) :
    AckContract s cmd w1 w2 (waitAck s frame cmd w1 w2) := by
  have ht := WaitForMultipleObjects_TIME_OUT_MS s ComSignal.COM_PACKET_SENT s.TIME_OUT_MS w1
  have hcmd2 : frame[2]?.getD 0 = cmd := by
    simpa [List.getD_eq_getElem?_getD] using hcmd
  unfold AckContract waitAck
  simp only [ht]
  split_ifs with h1 h2
  · refine ⟨?_, fun h => absurd h1 h, fun _ => ?_, ?_⟩
    · constructor
      · intro h
        simp at h
      · intro h
        rcases h2 with h2 | h2
        · exact absurd h.2.1 h2
        · exact absurd h.2.2 h2
    · simp [waitCalls_append, waitCalls, (WaitForMultipleObjects_sentFrames _ _ _ _).2,
      (waitSignal_quiet _ _ _).2]
    · simp [sentFrames_append, sentFrames, (WaitForMultipleObjects_sentFrames _ _ _ _).1,
      (waitSignal_quiet _ _ _).1, hcmd2]
  · refine ⟨?_, fun h => absurd h1 h, fun _ => ?_, ?_⟩
    · constructor
      · intro _
        refine ⟨h1, ?_, ?_⟩
        · by_contra hc
          exact h2 (Or.inl hc)
        · by_contra hc
          exact h2 (Or.inr hc)
      · intro _
        trivial
    · simp [waitCalls_append, waitCalls, (WaitForMultipleObjects_sentFrames _ _ _ _).2,
      (waitSignal_quiet _ _ _).2]
    · simp [sentFrames_append, sentFrames, (WaitForMultipleObjects_sentFrames _ _ _ _).1,
      (waitSignal_quiet _ _ _).1, hcmd2]
  · refine ⟨?_, fun _ => ?_, fun h => absurd h h1, ?_⟩
    · constructor
      · intro h
        simp at h
      · intro h
        exact absurd h.1 h1
    · simp [waitCalls_append, waitCalls, (WaitForMultipleObjects_sentFrames _ _ _ _).2,
      (waitSignal_quiet _ _ _).2]
    · simp [sentFrames_append, sentFrames, (WaitForMultipleObjects_sentFrames _ _ _ _).1,
      (waitSignal_quiet _ _ _).1, hcmd2]

theorem waitAckNested_contract (s : PDTester) (frame : List Nat) (cmd : Nat)
    (w1 w2 : List SerialEvent) (hcmd : frame.getD 2 0 = cmd) :
    AckContract s cmd w1 w2 (waitAckNested s frame cmd w1 w2) := by
  have ht := WaitForMultipleObjects_TIME_OUT_MS s ComSignal.COM_PACKET_SENT s.TIME_OUT_MS w1
  have hcmd2 : frame[2]?.getD 0 = cmd := by
    simpa [List.getD_eq_getElem?_getD] using hcmd
  unfold AckContract waitAckNested
  simp only [ht]
  split_ifs with h1 h2 h3
  · refine ⟨?_, fun h => absurd h1 h, fun _ => ?_, ?_⟩
    · constructor
      · intro _
        exact ⟨h1, h2, h3⟩
      · intro _
        trivial
    · simp [waitCalls_append, waitCalls, (WaitForMultipleObjects_sentFrames _ _ _ _).2,
      (waitSignal_quiet _ _ _).2]
    · simp [sentFrames_append, sentFrames, (WaitForMultipleObjects_sentFrames _ _ _ _).1,
      (waitSignal_quiet _ _ _).1, hcmd2]
  · refine ⟨?_, fun h => absurd h1 h, fun _ => ?_, ?_⟩
    · constructor
      · intro h
        simp at h
      · intro h
        exact absurd h.2.2 h3
    · simp [waitCalls_append, waitCalls, (WaitForMultipleObjects_sentFrames _ _ _ _).2,
      (waitSignal_quiet _ _ _).2]
    · simp [sentFrames_append, sentFrames, (WaitForMultipleObjects_sentFrames _ _ _ _).1,
      (waitSignal_quiet _ _ _).1, hcmd2]
  · refine ⟨?_, fun h => absurd h1 h, fun _ => ?_, ?_⟩
    · constructor
      · intro h
        simp at h
      · intro h
        exact absurd h.2.1 h2
    · simp [waitCalls_append, waitCalls, (WaitForMultipleObjects_sentFrames _ _ _ _).2,
      (waitSignal_quiet _ _ _).2]
    · simp [sentFrames_append, sentFrames, (WaitForMultipleObjects_sentFrames _ _ _ _).1,
      (waitSignal_quiet _ _ _).1, hcmd2]
  · refine ⟨?_, fun _ => ?_, fun h => absurd h h1, ?_⟩
    · constructor
      · intro h
        simp at h
      · intro h
        exact absurd h.1 h1
    · simp [waitCalls_append, waitCalls, (WaitForMultipleObjects_sentFrames _ _ _ _).2,
      (waitSignal_quiet _ _ _).2]
    · simp [sentFrames_append, sentFrames, (WaitForMultipleObjects_sentFrames _ _ _ _).1,
      (waitSignal_quiet _ _ _).1, hcmd2]

/-- C10. Each of `SetVoltage`, `SetLoad`, `SetDefaultVoltage`, `SetDefaultLoad`,
`SetUsbConnection`, `SetCalibrationData` and `ResetCalibrationData` meets the
acknowledge contract for the command id it issues: it returns TRUE if and only
if the wait for the send-complete signal succeeds, the wait for the
response-arrived signal that follows succeeds, and byte 0 of the response
buffer equals the issued command id; when the send wait fails, no response
wait is made. -/
theorem set_operations_ack_contract (s : PDTester) (cBuf : Nat → Nat)
    (w1 w2 : List SerialEvent) (index voltage set_current voltage_mv current_ma channel : Nat)
    (year month applied1 measured1 applied2 measured2 : Int) (isConnected : Bool) :
    AckContract s SET_PORT_VOLTAGE w1 w2 (SetVoltage s cBuf index voltage w1 w2) ∧
      AckContract s SET_CURRENT w1 w2 (SetLoad s cBuf set_current w1 w2) ∧
      AckContract s SET_DEF_VOLTAGE w1 w2 (SetDefaultVoltage s cBuf voltage_mv w1 w2) ∧
      AckContract s SET_DEF_CURRENT w1 w2 (SetDefaultLoad s cBuf current_ma w1 w2) ∧
      AckContract s SET_USB_CONNECTION w1 w2 (SetUsbConnection s cBuf isConnected w1 w2) ∧
      AckContract s SET_CALIB_DATA w1 w2
        (SetCalibrationData s cBuf channel year month applied1 measured1 applied2 measured2
          w1 w2) ∧
      AckContract s RESET_CALIB_DATA w1 w2 (ResetCalibrationData s cBuf channel w1 w2) := by
  refine ⟨?_, ?_, ?_, ?_, ?_, ?_, ?_⟩
  · apply waitAck_contract
    rw [bufferBytes_getD _ _ _ (by decide)]
    simp [SetVoltage_cBuf, checksum, Function.update_apply]
  · apply waitAck_contract
    rw [bufferBytes_getD _ _ _ (by decide)]
    simp [setU16_cBuf, checksum, Function.update_apply]
  · apply waitAck_contract
    rw [bufferBytes_getD _ _ _ (by decide)]
    simp [setU16_cBuf, checksum, Function.update_apply]
  · apply waitAck_contract
    rw [bufferBytes_getD _ _ _ (by decide)]
    simp [setU16_cBuf, checksum, Function.update_apply]
  · apply waitAckNested_contract
    rw [bufferBytes_getD _ _ _ (by decide)]
    simp [setByte_cBuf, checksum, Function.update_apply]
  · apply waitAckNested_contract
    rw [bufferBytes_getD _ _ _ (by decide)]
    simp [SetCalibrationData_cBuf, checksum, Function.update_apply]
  · apply waitAckNested_contract
    rw [bufferBytes_getD _ _ _ (by decide)]
    simp [setByte_cBuf, checksum, Function.update_apply]

/-- Witness of C10: `SetVoltage(1, 5000)` at a freshly constructed object, the
send-complete notification arriving in the first window and the acknowledge
frame `02 01 0D 0D 03` in the second: both waits succeed, byte 0 of the
response buffer is 0x0D and the operation returns TRUE. -/
theorem set_operations_ack_contract_witness :
    (SetVoltage PDTester.ctor (fun _ => 0) 1 5000 [SerialEvent.SERIAL_DATA_SENT]
      [SerialEvent.SERIAL_DATA_ARRIVAL [0x02, 0x01, 0x0D, 0x0D, 0x03]]).retVal = true :=
  (set_operations_ack_contract PDTester.ctor (fun _ => 0) [SerialEvent.SERIAL_DATA_SENT]
    [SerialEvent.SERIAL_DATA_ARRIVAL [0x02, 0x01, 0x0D, 0x0D, 0x03]]
    1 5000 0 0 0 0 0 0 0 0 0 0 false).1.1.mpr ⟨by decide, by decide, by decide⟩

/-! ## Helper lemmas: a response frame arriving during a wait -/

theorem waitSignal_cons_unset (sig : ComSignal) (s : PDTester) (ev : SerialEvent)
    (rest : List SerialEvent) (h : s.com_events sig = false) :
    waitSignal sig s (ev :: rest) =
      ⟨(waitSignal sig (onSerialEvent s ev).1 rest).s,
        (onSerialEvent s ev).2 ++ (waitSignal sig (onSerialEvent s ev).1 rest).fx,
        (waitSignal sig (onSerialEvent s ev).1 rest).rest,
        (waitSignal sig (onSerialEvent s ev).1 rest).status⟩ := by
  rw [waitSignal]
  simp [h]

theorem waitSignal_nil_set (sig : ComSignal) (s : PDTester) (h : s.com_events sig = true) :
    waitSignal sig s [] =
      ⟨{ s with com_events := Function.update s.com_events sig false }, [], [],
        WaitStatus.WAIT_OBJECT_0⟩ := by
  rw [waitSignal]
  simp [h]

/-- Notifications in which no packet completes pass a wait without ending it. -/
theorem waitSignal_chunks_quiet (sig : ComSignal) (init : List (List Nat)) :
    ∀ (s : PDTester) (tail : List SerialEvent), s.com_events sig = false →
      (∀ ch ∈ init, ch ≠ []) → (rxBytes s init.flatten).2 = false →
      waitSignal sig s (init.map SerialEvent.SERIAL_DATA_ARRIVAL ++ tail) =
        ⟨(waitSignal sig (rxBytes s init.flatten).1 tail).s,
          (feedChunks s init).2 ++ (waitSignal sig (rxBytes s init.flatten).1 tail).fx,
          (waitSignal sig (rxBytes s init.flatten).1 tail).rest,
          (waitSignal sig (rxBytes s init.flatten).1 tail).status⟩ := by
  induction init with
  | nil =>
    intro s tail _ _ _
    simp [feedChunks, onSerialEvents, rxBytes]
  | cons ch init ih =>
    intro s tail hsig hne hq
    have hch : ch ≠ [] := hne ch (List.mem_cons_self _ _)
    rw [List.flatten_cons] at hq
    have hq1 : (rxBytes s ch).2 = false := rxBytes_flag_initial s _ _ hq
    have hd : onDataArrival s ch =
        ((rxBytes s ch).1,
          [Effect.setRxSize (rxBytes s ch).1.NumRemaingBytes, Effect.dataHasBeenRead]) := by
      rw [onDataArrival_nonempty s ch hch, hq1]
      simp
    rw [rxBytes_append_quiet s _ _ hq1] at hq
    have hsig2 : (rxBytes s ch).1.com_events sig = false := by
      rw [(rxBytes_frame s ch).2.1]
      exact hsig
    have := ih (rxBytes s ch).1 tail hsig2 (fun c hc => hne c (List.mem_cons_of_mem _ hc)) hq
    rw [List.map_cons, List.cons_append, waitSignal_cons_unset sig s _ _ hsig]
    simp only [onSerialEvent, hd]
    rw [this, feedChunks_cons, hd, List.flatten_cons, rxBytes_append_quiet s _ _ hq1]
    simp

theorem routePacket_response (s : PDTester)
    (h : s.RcvDataTmp 0 < 0x20 ∨ 0x25 < s.RcvDataTmp 0) :
    routePacket s =
      ({ s with RcvData := memcpy s.RcvData s.RcvDataTmp 64,
                com_events := Function.update s.com_events ComSignal.COM_PACKET_ARRIVED true },
        [Effect.SetEvent ComSignal.COM_PACKET_ARRIVED]) := by
  have n0 : s.RcvDataTmp 0 ≠ 0x20 := by omega
  have n1 : s.RcvDataTmp 0 ≠ 0x21 := by omega
  have n2 : s.RcvDataTmp 0 ≠ 0x22 := by omega
  have n3 : s.RcvDataTmp 0 ≠ 0x23 := by omega
  have n4 : s.RcvDataTmp 0 ≠ 0x24 := by omega
  have n5 : s.RcvDataTmp 0 ≠ 0x25 := by omega
  simp [routePacket, n0, n1, n2, n3, n4, n5]

/-- A frame whose tag is not an event tag, arriving in non-empty chunks during a
wait for the response-arrived signal that starts in the start-seeking state
with the signal unset: the wait succeeds when the frame is complete and the
response buffer then holds the payload (its first 64 bytes). -/
theorem waitSignal_response_frame (s : PDTester) (L : Nat) (payload : List Nat) (c : Nat)
    (chunks : List (List Nat)) (h0 : s.NumRcvBytes = 0)
    (ha : s.com_events ComSignal.COM_PACKET_ARRIVED = false)
    (hL : payload.length = L) (hpos : 0 < L)
    (htag : payload.getD 0 0 < 0x20 ∨ 0x25 < payload.getD 0 0)
    (hne : ∀ ch ∈ chunks, ch ≠ []) (hfl : chunks.flatten = frameBytes L payload c 0x03) :
    (waitSignal ComSignal.COM_PACKET_ARRIVED s
        (chunks.map SerialEvent.SERIAL_DATA_ARRIVAL)).status = WaitStatus.WAIT_OBJECT_0 ∧
      (waitSignal ComSignal.COM_PACKET_ARRIVED s
        (chunks.map SerialEvent.SERIAL_DATA_ARRIVAL)).rest = [] ∧
      ∀ i : Nat, i < L → i < 64 →
        (waitSignal ComSignal.COM_PACKET_ARRIVED s
          (chunks.map SerialEvent.SERIAL_DATA_ARRIVAL)).s.RcvData i = payload.getD i 0 := by
  have hnil : chunks ≠ [] := by
    intro h
    rw [h] at hfl
    exact frameBytes_ne_nil _ _ _ _ hfl.symm
  obtain ⟨init, cl, rfl⟩ : ∃ init cl, chunks = init ++ [cl] :=
    ⟨chunks.dropLast, chunks.getLast hnil, (List.dropLast_append_getLast hnil).symm⟩
  have hcl : cl ≠ [] := hne cl (by simp)
  have hfl2 : init.flatten ++ cl = frameBytes L payload c 0x03 := by
    rw [← hfl]
    simp
  have hq : (rxBytes s init.flatten).2 = false := by
    have h1 := rxBytes_frame_dropLast_quiet s L payload c 0x03 h0 hL
    rw [← hfl2, List.dropLast_append_of_ne_nil _ hcl] at h1
    exact rxBytes_flag_initial s _ _ h1
  have hrx : rxBytes (rxBytes s init.flatten).1 cl = (acceptState s L payload c, true) := by
    rw [← rxBytes_append_quiet s _ _ hq, hfl2]
    exact rxBytes_frame_accept s L payload c h0 hL
  have hsm : (rxBytes s init.flatten).1.com_events ComSignal.COM_PACKET_ARRIVED = false := by
    rw [(rxBytes_frame s _).2.1]
    exact ha
  have htag2 : (acceptState s L payload c).RcvDataTmp 0 < 0x20 ∨
      0x25 < (acceptState s L payload c).RcvDataTmp 0 := by
    simpa [acceptState, memcpy, hpos] using htag
  have hd : onDataArrival (rxBytes s init.flatten).1 cl =
      ((routePacket (acceptState s L payload c)).1,
        [Effect.setRxSize 1, Effect.dataHasBeenRead] ++
          (routePacket (acceptState s L payload c)).2) := by
    rw [onDataArrival_nonempty _ _ hcl, hrx]
    simp [acceptState]
  have hw := waitSignal_chunks_quiet ComSignal.COM_PACKET_ARRIVED init s
    [SerialEvent.SERIAL_DATA_ARRIVAL cl] ha (fun ch hch => hne ch (by simp [hch])) hq
  rw [List.map_append, List.map_singleton, hw,
    waitSignal_cons_unset _ _ _ _ hsm]
  simp only [onSerialEvent, hd]
  rw [routePacket_response _ htag2, waitSignal_nil_set _ _ (by simp)]
  refine ⟨rfl, rfl, ?_⟩
  intro i hi hi64
  simp [acceptState, memcpy, hi, hi64]

/-- C4. Device-info response. With both signals unset and the reassembler in
the start-seeking state on entry, when the send-complete notification arrives
within the send window and the reassembler then receives, in any non-empty
chunks, the frame `02 03 01 h f chk 03` with `chk` its checksum, `GetDevInfo`
returns TRUE and reports hardware version `h` and firmware version `f`. -/
theorem GetDevInfo_decodes_response (s : PDTester) (cBuf : Nat → Nat) (HW_Ver SW_Ver : Nat)
    (h f chk : Nat) (chunks : List (List Nat))
    (h0 : s.NumRcvBytes = 0)
    (hs : s.com_events ComSignal.COM_PACKET_SENT = false)
    (ha : s.com_events ComSignal.COM_PACKET_ARRIVED = false)
    (hc : chk = frameChecksum 0x03 [0x01, h, f])
    (hne : ∀ ch ∈ chunks, ch ≠ [])
    (hfl : chunks.flatten = frameBytes 0x03 [0x01, h, f] chk 0x03) :
    (GetDevInfo s cBuf HW_Ver SW_Ver [SerialEvent.SERIAL_DATA_SENT]
        (chunks.map SerialEvent.SERIAL_DATA_ARRIVAL)).retVal = true ∧
      (GetDevInfo s cBuf HW_Ver SW_Ver [SerialEvent.SERIAL_DATA_SENT]
        (chunks.map SerialEvent.SERIAL_DATA_ARRIVAL)).HW_Ver = h ∧
      (GetDevInfo s cBuf HW_Ver SW_Ver [SerialEvent.SERIAL_DATA_SENT]
        (chunks.map SerialEvent.SERIAL_DATA_ARRIVAL)).SW_Ver = f := by
  have _ := hc
  have hr1 : waitSignal ComSignal.COM_PACKET_SENT s [SerialEvent.SERIAL_DATA_SENT] =
      ⟨{ s with
          com_events :=
            Function.update (Function.update s.com_events ComSignal.COM_PACKET_SENT true)
              ComSignal.COM_PACKET_SENT false },
        [Effect.SetEvent ComSignal.COM_PACKET_SENT], [], WaitStatus.WAIT_OBJECT_0⟩ := by
    rw [waitSignal_cons_unset _ _ _ _ hs]
    simp only [onSerialEvent]
    rw [waitSignal_nil_set _ _ (by simp)]
    simp
  have ha1 :
      ({ s with
          com_events :=
            Function.update (Function.update s.com_events ComSignal.COM_PACKET_SENT true)
              ComSignal.COM_PACKET_SENT false } : PDTester).com_events
        ComSignal.COM_PACKET_ARRIVED = false := by
    simp [Function.update_apply, ha]
  obtain ⟨hst, _, hdata⟩ := waitSignal_response_frame _ 0x03 [0x01, h, f] chk chunks
    (show
      ({ s with
          com_events :=
            Function.update (Function.update s.com_events ComSignal.COM_PACKET_SENT true)
              ComSignal.COM_PACKET_SENT false } : PDTester).NumRcvBytes = 0 from h0)
    ha1 rfl (by decide) (Or.inl (by simp)) hne hfl
  have d0 := hdata 0 (by decide) (by decide)
  have d1 := hdata 1 (by decide) (by decide)
  have d2 := hdata 2 (by decide) (by decide)
  simp only [List.getD_cons_zero, List.getD_cons_succ] at d0 d1 d2
  simp only [GetDevInfo, WaitForMultipleObjects, hr1, List.nil_append, hst, d0, d1, d2]
  simp

/-- Witness of C4: the spec's instance `h = 0x14`, `f = 0x2E` (checksum 0x39),
the response split after its third byte. -/
theorem GetDevInfo_decodes_response_witness :
    (PDTester.ctor.NumRcvBytes = 0 ∧
        PDTester.ctor.com_events ComSignal.COM_PACKET_SENT = false ∧
        PDTester.ctor.com_events ComSignal.COM_PACKET_ARRIVED = false ∧
        (0x39 : Nat) = frameChecksum 0x03 [0x01, 0x14, 0x2E] ∧
        (∀ ch ∈ [[0x02, 0x03, 0x01], [0x14, 0x2E, 0x39, 0x03]], ch ≠ ([] : List Nat)) ∧
        [[0x02, 0x03, 0x01], [0x14, 0x2E, 0x39, 0x03]].flatten =
          frameBytes 0x03 [0x01, 0x14, 0x2E] 0x39 0x03) ∧
      ((GetDevInfo PDTester.ctor (fun _ => 0) 0 0 [SerialEvent.SERIAL_DATA_SENT]
          ([[0x02, 0x03, 0x01], [0x14, 0x2E, 0x39, 0x03]].map
            SerialEvent.SERIAL_DATA_ARRIVAL)).retVal = true ∧
        (GetDevInfo PDTester.ctor (fun _ => 0) 0 0 [SerialEvent.SERIAL_DATA_SENT]
          ([[0x02, 0x03, 0x01], [0x14, 0x2E, 0x39, 0x03]].map
            SerialEvent.SERIAL_DATA_ARRIVAL)).HW_Ver = 0x14 ∧
        (GetDevInfo PDTester.ctor (fun _ => 0) 0 0 [SerialEvent.SERIAL_DATA_SENT]
          ([[0x02, 0x03, 0x01], [0x14, 0x2E, 0x39, 0x03]].map
            SerialEvent.SERIAL_DATA_ARRIVAL)).SW_Ver = 0x2E) :=
  ⟨⟨by decide, by decide, by decide, by decide, by decide, by decide⟩,
    GetDevInfo_decodes_response PDTester.ctor (fun _ => 0) 0 0 0x14 0x2E 0x39
      [[0x02, 0x03, 0x01], [0x14, 0x2E, 0x39, 0x03]]
      (by decide) (by decide) (by decide) (by decide) (by decide) (by decide)⟩

/-! ## `SetLoadFast` and `isConfigSupported`: claims -/

/-- C11 (the code at the failing input). `SetLoadFast(1000, 10)` at a freshly
constructed object hands the transport the frame `02 05 11 E8 03 0A 00 F4 03`,
whose command id is `SET_CURRENT_FAST` = 0x11. When both waits complete and
the response carries that id 0x11 in byte 0, the operation returns FALSE; when
the response carries `SET_CURRENT` = 0x10 instead, it returns TRUE. -/
theorem SetLoadFast_compares_with_SET_CURRENT :
    sentFrames
        (SetLoadFast PDTester.ctor (fun _ => 0) 1000 10 [SerialEvent.SERIAL_DATA_SENT]
          [SerialEvent.SERIAL_DATA_ARRIVAL [0x02, 0x01, 0x11, 0x11, 0x03]]).fx =
        [[0x02, 0x05, 0x11, 0xE8, 0x03, 0x0A, 0x00, 0xF4, 0x03]] ∧
      waitCalls
        (SetLoadFast PDTester.ctor (fun _ => 0) 1000 10 [SerialEvent.SERIAL_DATA_SENT]
          [SerialEvent.SERIAL_DATA_ARRIVAL [0x02, 0x01, 0x11, 0x11, 0x03]]).fx =
        [(ComSignal.COM_PACKET_SENT, 500), (ComSignal.COM_PACKET_ARRIVED, 500)] ∧
      (SetLoadFast PDTester.ctor (fun _ => 0) 1000 10 [SerialEvent.SERIAL_DATA_SENT]
          [SerialEvent.SERIAL_DATA_ARRIVAL [0x02, 0x01, 0x11, 0x11, 0x03]]).s.RcvData 0 = 0x11 ∧
      (SetLoadFast PDTester.ctor (fun _ => 0) 1000 10 [SerialEvent.SERIAL_DATA_SENT]
          [SerialEvent.SERIAL_DATA_ARRIVAL [0x02, 0x01, 0x11, 0x11, 0x03]]).retVal = false ∧
      (SetLoadFast PDTester.ctor (fun _ => 0) 1000 10 [SerialEvent.SERIAL_DATA_SENT]
          [SerialEvent.SERIAL_DATA_ARRIVAL [0x02, 0x01, 0x10, 0x10, 0x03]]).retVal = true := by
  decide

/-- C17 (counterexample). With hardware version 30 (a revision later than 2)
`isConfigSupported` returns FALSE, for instance for the loopback-enable
option. -/
theorem isConfigSupported_false_at_HW_Ver_30 :
    (20 : Nat) ≤ ({ PDTester.ctor with HW_Ver := 30 } : PDTester).HW_Ver ∧
      isConfigSupported { PDTester.ctor with HW_Ver := 30 }
        ConfigOption.bLoopbackPortEnabled = false := by
  decide

/-- C17 (amended). `isConfigSupported`: with `HW_Ver = 10` (revision 1) it
returns TRUE exactly for the seven options loopback-enable,
estimate-port-voltage, current-limit type, max current, cable resistance,
default voltage and default load; with `HW_Ver = 20` (revision 2) it returns
TRUE for every option; with any other hardware version it returns FALSE for
every option. -/
theorem isConfigSupported_by_revision (s : PDTester) (config_option : ConfigOption) :
    (s.HW_Ver = 10 →
      (isConfigSupported s config_option = true ↔
        config_option ∈ [ConfigOption.bLoopbackPortEnabled, ConfigOption.bEstimatePortVoltage,
          ConfigOption.CurrentLimitType, ConfigOption.MaxCurrent, ConfigOption.CableResistance,
          ConfigOption.DefaultVoltage, ConfigOption.DefaultLoad])) ∧
      (s.HW_Ver = 20 → isConfigSupported s config_option = true) ∧
      (s.HW_Ver ≠ 10 → s.HW_Ver ≠ 20 → isConfigSupported s config_option = false) := by
  refine ⟨?_, ?_, ?_⟩
  · intro h
    cases config_option <;> simp [isConfigSupported, h]
  · intro h
    simp [isConfigSupported, h]
  · intro h1 h2
    simp [isConfigSupported, h1, h2]

/-- Witness of C17 (amended): revision 1 and the option max SDP current, which
is not among the seven; revision 2; hardware version 30. -/
theorem isConfigSupported_by_revision_witness :
    ({ PDTester.ctor with HW_Ver := 10 } : PDTester).HW_Ver = 10 ∧
      isConfigSupported { PDTester.ctor with HW_Ver := 10 } ConfigOption.MaxSDPCurrent ≠ true ∧
      ({ PDTester.ctor with HW_Ver := 20 } : PDTester).HW_Ver = 20 ∧
      isConfigSupported { PDTester.ctor with HW_Ver := 20 } ConfigOption.MaxSDPCurrent = true ∧
      (({ PDTester.ctor with HW_Ver := 30 } : PDTester).HW_Ver ≠ 10 ∧
        ({ PDTester.ctor with HW_Ver := 30 } : PDTester).HW_Ver ≠ 20) ∧
      isConfigSupported { PDTester.ctor with HW_Ver := 30 } ConfigOption.MaxSDPCurrent = false :=
  ⟨by decide,
    fun h => absurd
      (((isConfigSupported_by_revision { PDTester.ctor with HW_Ver := 10 }
        ConfigOption.MaxSDPCurrent).1 (by decide)).mp h) (by decide),
    by decide,
    (isConfigSupported_by_revision { PDTester.ctor with HW_Ver := 20 }
      ConfigOption.MaxSDPCurrent).2.1 (by decide),
    ⟨by decide, by decide⟩,
    (isConfigSupported_by_revision { PDTester.ctor with HW_Ver := 30 }
      ConfigOption.MaxSDPCurrent).2.2 (by decide) (by decide)⟩

/-! ## `ParsePDData`: claims -/

theorem field_extract (h k w : Nat) :
    (h &&& ((2 ^ w - 1) <<< k)) >>> k = (h / 2 ^ k) % 2 ^ w := by
  apply Nat.eq_of_testBit_eq
  intro j
  rw [← Nat.shiftRight_eq_div_pow]
  simp only [Nat.testBit_shiftRight, Nat.testBit_and, Nat.testBit_shiftLeft,
    Nat.testBit_two_pow_sub_one, Nat.testBit_mod_two_pow]
  have e : k + j - k = j := by omega
  have hk : k + j ≥ k := by omega
  rw [e]
  simp [hk, Bool.and_comm]

theorem header_eq_add (a b : Nat) (ha : a < 256) (hb : b < 256) :
    ((b <<< 8) ||| a) % 65536 = a + 256 * b := by
  have h1 : 2 ^ 8 * b + a = 2 ^ 8 * b ||| a := Nat.mul_add_lt_is_or (i := 8) ha b
  have h2 : b <<< 8 = 2 ^ 8 * b := by rw [Nat.shiftLeft_eq, Nat.mul_comm]
  rw [h2, ← h1]
  omega

/-- C18. Header layout of `ParsePDData`: for input bytes `pd_data[0]`,
`pd_data[1]` and the header `h = pd_data[0] + 256 * pd_data[1]`, the result has
`MessageType = h mod 32`, `DataRole` = bit 5, `SpecRev` = bits 6..7,
`PowerRole` = bit 8, `MessageID` = bits 9..11, `NumDataObj` = bits 12..14 and
`Extended` = bit 15 of `h`; the fields add up to `h` with their weights, and
an input whose result has the same seven fields has the same header. -/
theorem ParsePDData_header_layout (pd_data Data0 : Nat → Nat)
    (h0 : pd_data 0 < 256) (h1 : pd_data 1 < 256) :
    (ParsePDData pd_data Data0).MessageType = (pd_data 0 + 256 * pd_data 1) % 32 ∧
      (ParsePDData pd_data Data0).DataRole = (pd_data 0 + 256 * pd_data 1) / 32 % 2 ∧
      (ParsePDData pd_data Data0).SpecRev = (pd_data 0 + 256 * pd_data 1) / 64 % 4 ∧
      (ParsePDData pd_data Data0).PowerRole = (pd_data 0 + 256 * pd_data 1) / 256 % 2 ∧
      (ParsePDData pd_data Data0).MessageID = (pd_data 0 + 256 * pd_data 1) / 512 % 8 ∧
      (ParsePDData pd_data Data0).NumDataObj = (pd_data 0 + 256 * pd_data 1) / 4096 % 8 ∧
      (ParsePDData pd_data Data0).Extended = (pd_data 0 + 256 * pd_data 1) / 32768 % 2 ∧
      (ParsePDData pd_data Data0).MessageType + 32 * (ParsePDData pd_data Data0).DataRole +
          64 * (ParsePDData pd_data Data0).SpecRev + 256 * (ParsePDData pd_data Data0).PowerRole +
          512 * (ParsePDData pd_data Data0).MessageID +
          4096 * (ParsePDData pd_data Data0).NumDataObj +
          32768 * (ParsePDData pd_data Data0).Extended =
        pd_data 0 + 256 * pd_data 1 ∧
      ∀ (pd_data2 Data2 : Nat → Nat), pd_data2 0 < 256 → pd_data2 1 < 256 →
        (ParsePDData pd_data2 Data2).MessageType = (ParsePDData pd_data Data0).MessageType →
        (ParsePDData pd_data2 Data2).DataRole = (ParsePDData pd_data Data0).DataRole →
        (ParsePDData pd_data2 Data2).SpecRev = (ParsePDData pd_data Data0).SpecRev →
        (ParsePDData pd_data2 Data2).PowerRole = (ParsePDData pd_data Data0).PowerRole →
        (ParsePDData pd_data2 Data2).MessageID = (ParsePDData pd_data Data0).MessageID →
        (ParsePDData pd_data2 Data2).NumDataObj = (ParsePDData pd_data Data0).NumDataObj →
        (ParsePDData pd_data2 Data2).Extended = (ParsePDData pd_data Data0).Extended →
        pd_data2 0 + 256 * pd_data2 1 = pd_data 0 + 256 * pd_data 1 := by
  have fields : ∀ (p D : Nat → Nat), p 0 < 256 → p 1 < 256 →
      (ParsePDData p D).MessageType = (p 0 + 256 * p 1) % 32 ∧
      (ParsePDData p D).DataRole = (p 0 + 256 * p 1) / 32 % 2 ∧
      (ParsePDData p D).SpecRev = (p 0 + 256 * p 1) / 64 % 4 ∧
      (ParsePDData p D).PowerRole = (p 0 + 256 * p 1) / 256 % 2 ∧
      (ParsePDData p D).MessageID = (p 0 + 256 * p 1) / 512 % 8 ∧
      (ParsePDData p D).NumDataObj = (p 0 + 256 * p 1) / 4096 % 8 ∧
      (ParsePDData p D).Extended = (p 0 + 256 * p 1) / 32768 % 2 := by
    intro p D hp0 hp1
    have hh := header_eq_add (p 0) (p 1) hp0 hp1
    have e1 := Nat.and_pow_two_sub_one_eq_mod (p 0 + 256 * p 1) 5
    have e2 := field_extract (p 0 + 256 * p 1) 5 1
    have e3 := field_extract (p 0 + 256 * p 1) 6 2
    have e4 := field_extract (p 0 + 256 * p 1) 8 1
    have e5 := field_extract (p 0 + 256 * p 1) 9 3
    have e6 := field_extract (p 0 + 256 * p 1) 12 3
    have e7 := Nat.and_pow_two_sub_one_eq_mod ((p 0 + 256 * p 1) >>> 15) 1
    rw [Nat.shiftRight_eq_div_pow] at e7
    norm_num at e1 e2 e3 e4 e5 e6 e7
    have hle : ¬ ((p 0 + 256 * p 1) / 4096 % 8 > 8) := by omega
    simp only [ParsePDData, hh]
    norm_num
    rw [e6]
    exact ⟨e1, e2, e3, e4, e5, by simp [hle], by rw [Nat.shiftRight_eq_div_pow]⟩
  obtain ⟨f1, f2, f3, f4, f5, f6, f7⟩ := fields pd_data Data0 h0 h1
  refine ⟨f1, f2, f3, f4, f5, f6, f7, ?_, ?_⟩
  · rw [f1, f2, f3, f4, f5, f6, f7]
    omega
  · intro p D hp0 hp1 g1 g2 g3 g4 g5 g6 g7
    obtain ⟨q1, q2, q3, q4, q5, q6, q7⟩ := fields p D hp0 hp1
    rw [q1, f1] at g1
    rw [q2, f2] at g2
    rw [q3, f3] at g3
    rw [q4, f4] at g4
    rw [q5, f5] at g5
    rw [q6, f6] at g6
    rw [q7, f7] at g7
    omega

/-- Witness of C18: the header bytes `61 23` (header 0x2361: message type 1,
data role 1, spec revision 1, power role 1, message id 1, two data objects). -/
theorem ParsePDData_header_layout_witness :
    (samplePDData 0 < 256 ∧ samplePDData 1 < 256) ∧
      ((ParsePDData samplePDData (fun _ => 0)).MessageType = (samplePDData 0 + 256 * samplePDData 1) % 32 ∧
      (ParsePDData samplePDData (fun _ => 0)).DataRole = (samplePDData 0 + 256 * samplePDData 1) / 32 % 2 ∧
      (ParsePDData samplePDData (fun _ => 0)).SpecRev = (samplePDData 0 + 256 * samplePDData 1) / 64 % 4 ∧
      (ParsePDData samplePDData (fun _ => 0)).PowerRole = (samplePDData 0 + 256 * samplePDData 1) / 256 % 2 ∧
      (ParsePDData samplePDData (fun _ => 0)).MessageID = (samplePDData 0 + 256 * samplePDData 1) / 512 % 8 ∧
      (ParsePDData samplePDData (fun _ => 0)).NumDataObj = (samplePDData 0 + 256 * samplePDData 1) / 4096 % 8 ∧
      (ParsePDData samplePDData (fun _ => 0)).Extended = (samplePDData 0 + 256 * samplePDData 1) / 32768 % 2 ∧
      (ParsePDData samplePDData (fun _ => 0)).MessageType + 32 * (ParsePDData samplePDData (fun _ => 0)).DataRole +
          64 * (ParsePDData samplePDData (fun _ => 0)).SpecRev + 256 * (ParsePDData samplePDData (fun _ => 0)).PowerRole +
          512 * (ParsePDData samplePDData (fun _ => 0)).MessageID +
          4096 * (ParsePDData samplePDData (fun _ => 0)).NumDataObj +
          32768 * (ParsePDData samplePDData (fun _ => 0)).Extended =
        samplePDData 0 + 256 * samplePDData 1 ∧
      ∀ (pd_data2 Data2 : Nat → Nat), pd_data2 0 < 256 → pd_data2 1 < 256 →
        (ParsePDData pd_data2 Data2).MessageType = (ParsePDData samplePDData (fun _ => 0)).MessageType →
        (ParsePDData pd_data2 Data2).DataRole = (ParsePDData samplePDData (fun _ => 0)).DataRole →
        (ParsePDData pd_data2 Data2).SpecRev = (ParsePDData samplePDData (fun _ => 0)).SpecRev →
        (ParsePDData pd_data2 Data2).PowerRole = (ParsePDData samplePDData (fun _ => 0)).PowerRole →
        (ParsePDData pd_data2 Data2).MessageID = (ParsePDData samplePDData (fun _ => 0)).MessageID →
        (ParsePDData pd_data2 Data2).NumDataObj = (ParsePDData samplePDData (fun _ => 0)).NumDataObj →
        (ParsePDData pd_data2 Data2).Extended = (ParsePDData samplePDData (fun _ => 0)).Extended →
        pd_data2 0 + 256 * pd_data2 1 = samplePDData 0 + 256 * samplePDData 1) :=
  ⟨⟨by decide, by decide⟩,
    ParsePDData_header_layout samplePDData (fun _ => 0) (by decide) (by decide)⟩

/-- C19. Data objects of `ParsePDData`: for every input the resulting object
count `n` is at most 8; it is the count decoded from bits 12..14 of the header,
replaced by 0 when that is above 8; the `4 * n` bytes `pd_data[2 .. 2 + 4n)`
are copied in order into the first `4 * n` bytes of the data-object array and
nothing else of the array is written (nothing at all when `n = 0`). -/
theorem ParsePDData_data_objects (pd_data Data0 : Nat → Nat) :
    (ParsePDData pd_data Data0).NumDataObj ≤ 8 ∧
      (ParsePDData pd_data Data0).NumDataObj =
        (if ((((pd_data 1) <<< 8) ||| (pd_data 0)) % 65536 &&& (0x07 <<< 12)) >>> 12 > 8 then 0
          else ((((pd_data 1) <<< 8) ||| (pd_data 0)) % 65536 &&& (0x07 <<< 12)) >>> 12) ∧
      (∀ i : Nat, i < 4 * (ParsePDData pd_data Data0).NumDataObj →
        (ParsePDData pd_data Data0).Data i = pd_data (2 + i)) ∧
      (∀ i : Nat, 4 * (ParsePDData pd_data Data0).NumDataObj ≤ i →
        (ParsePDData pd_data Data0).Data i = Data0 i) := by
  refine ⟨?_, rfl, ?_, ?_⟩
  · simp only [ParsePDData]
    split_ifs with h
    · exact Nat.zero_le _
    · omega
  · intro i hi
    simp only [ParsePDData, memcpy] at hi ⊢
    rw [if_pos (by omega)]
  · intro i hi
    simp only [ParsePDData, memcpy] at hi ⊢
    rw [if_neg (by omega)]

/-! ## Helper lemmas: frame buffers as lists -/

theorem update_writeList_lt (l : List Nat) : ∀ (buf : Nat → Nat) (k j v : Nat), j < k →
    Function.update (writeList buf k l) j v = writeList (Function.update buf j v) k l := by
  induction l with
  | nil => intro buf k j v _; rfl
  | cons x l ih =>
    intro buf k j v hj
    simp only [writeList]
    rw [ih _ _ _ _ (Nat.lt_succ_of_lt hj), Function.update_comm (Nat.ne_of_lt hj)]

theorem update_writeList_end (buf : Nat → Nat) (k : Nat) (l : List Nat) (v : Nat) :
    Function.update (writeList buf k l) (k + l.length) v = writeList buf k (l ++ [v]) := by
  rw [writeList_append]
  rfl

theorem update_writeList_end_zero (buf : Nat → Nat) (l : List Nat) (n v : Nat)
    (hn : n = l.length) :
    Function.update (writeList buf 0 l) n v = writeList buf 0 (l ++ [v]) := by
  have := update_writeList_end buf 0 l v
  rw [Nat.zero_add] at this
  rw [hn, this]

theorem writeList_bufferBytes (n : Nat) : ∀ (buf src : Nat → Nat) (k : Nat),
    writeList buf k (bufferBytes src n) = memcpyAt buf k src n := by
  induction n with
  | zero =>
    intro buf src k
    funext i
    have h : ¬ (k ≤ i ∧ i < k) := by omega
    simp [bufferBytes, writeList, memcpyAt, h]
  | succ n ih =>
    intro buf src k
    have hb : bufferBytes src (n + 1) = bufferBytes src n ++ [src n] := by
      simp [bufferBytes, List.range_succ]
    rw [hb, writeList_append, ih]
    funext i
    have hl : (bufferBytes src n).length = n := by simp [bufferBytes]
    simp only [writeList, hl, memcpyAt, Function.update_apply]
    by_cases h1 : i = k + n
    · subst h1
      simp
    · by_cases h2 : k ≤ i ∧ i < k + n
      · have h3 : k ≤ i ∧ i < k + (n + 1) := by omega
        simp [h1, h2, h3]
      · have h3 : ¬ (k ≤ i ∧ i < k + (n + 1)) := by omega
        simp [h1, h2, h3]

theorem memcpyAt_writeList_end (buf : Nat → Nat) (l : List Nat) (off : Nat) (src : Nat → Nat)
    (n : Nat) (hoff : off = l.length) :
    memcpyAt (writeList buf 0 l) off src n = writeList buf 0 (l ++ bufferBytes src n) := by
  rw [writeList_append, Nat.zero_add, writeList_bufferBytes, hoff]

theorem bufferBytes_writeList (buf : Nat → Nat) (l : List Nat) (n : Nat) (hn : n = l.length) :
    bufferBytes (writeList buf 0 l) n = l := by
  subst hn
  apply List.ext_getElem
  · simp [bufferBytes]
  · intro i h1 h2
    have := writeList_get l buf 0 i h2
    rw [Nat.zero_add] at this
    simp [bufferBytes, this, List.getD_eq_getElem?_getD, h2]

theorem bufferBytes_writeList_take (buf : Nat → Nat) (l : List Nat) (n : Nat)
    (hn : n ≤ l.length) : bufferBytes (writeList buf 0 l) n = l.take n := by
  have e : writeList buf 0 l = writeList buf 0 (l.take n ++ l.drop n) := by
    rw [List.take_append_drop]
  rw [e, writeList_append]
  apply List.ext_getElem
  · simp [bufferBytes, hn]
  · intro i h1 h2
    have hi : i < n := by simpa [bufferBytes] using h1
    have hlt : i < 0 + (l.take n).length := by simp [hn]; exact hi
    simp only [bufferBytes, List.getElem_map, List.getElem_range]
    rw [writeList_lt _ _ _ _ hlt]
    have := writeList_get (l.take n) buf 0 i (by simp [hn]; exact hi)
    rw [Nat.zero_add] at this
    rw [this]
    simp [List.getD_eq_getElem?_getD, hi, hn]

/-- Value of `checksum` on a buffer whose first `L + 2` entries are bytes. -/
theorem checksum_value (buf : Nat → Nat) (hb : ∀ i, i < buf 1 + 2 → buf i < 256) :
    (checksum buf).1 = (bufferBytes buf (buf 1 + 2)).foldl (· ^^^ ·) 0 ^^^ 0x03 := by
  have hc : xorLoop (Function.update buf (buf 1 + 2) 0) (buf 1 + 2) 0 =
      xorLoop buf (buf 1 + 2) 0 := by
    apply xorLoop_congr
    intro i hi
    exact Function.update_noteq (Nat.ne_of_lt hi) _ _
  obtain ⟨e, hlt⟩ := xorLoop_eq_foldl buf (buf 1 + 2) hb
  have h3 : xorLoop buf (buf 1 + 2) 0 ^^^ 0x03 < 256 :=
    Nat.xor_lt_two_pow (n := 8) hlt (by decide)
  simp only [checksum]
  rw [hc, Nat.mod_eq_of_lt h3, e]

/-- The checksum of a frame head laid out from index 0 of a buffer. -/
theorem checksum_writeList (buf : Nat → Nat) (L : Nat) (body : List Nat)
    (hL : L = body.length) (hL256 : L < 256) (hbody : ∀ b ∈ body, b < 256) :
    (checksum (writeList buf 0 (0x02 :: L :: body))).1 =
        (0x02 :: L :: body).foldl (· ^^^ ·) 0 ^^^ 0x03 ∧
      (checksum (writeList buf 0 (0x02 :: L :: body))).2 =
        writeList buf 0 (0x02 :: L :: body ++ [0]) := by
  have h1 : writeList buf 0 (0x02 :: L :: body) 1 = L := by
    have := writeList_get (0x02 :: L :: body) buf 0 1 (by simp)
    simpa using this
  have hbytes : bufferBytes (writeList buf 0 (0x02 :: L :: body)) (L + 2) = 0x02 :: L :: body :=
    bufferBytes_writeList _ _ _ (by simp [hL])
  constructor
  · rw [checksum_value, h1, hbytes]
    intro i hi
    rw [h1] at hi
    have := writeList_get (0x02 :: L :: body) buf 0 i (by simp; omega)
    rw [Nat.zero_add] at this
    rw [this]
    have hmem : (0x02 :: L :: body).getD i 0 ∈ 0x02 :: L :: body := by
      rw [List.getD_eq_getElem _ _ (by simp; omega)]
      exact List.getElem_mem _
    simp only [List.mem_cons] at hmem
    rcases hmem with h | h | h
    · rw [h]; decide
    · rw [h]; exact hL256
    · exact hbody _ h
  · simp only [checksum, h1]
    have := update_writeList_end_zero buf (0x02 :: L :: body) (L + 2) 0 (by simp [hL])
    simpa using this

theorem update_writeList_last (buf : Nat → Nat) (l : List Nat) (x v n : Nat)
    (hn : n = l.length) :
    Function.update (writeList buf 0 (l ++ [x])) n v = writeList buf 0 (l ++ [v]) := by
  rw [← update_writeList_end_zero buf l n x hn, Function.update_idem,
    update_writeList_end_zero buf l n v hn]

/-- A frame head laid out from index 0 of a buffer, completed with its checksum
and the terminator, read back as the bytes handed to the transport. -/
theorem finish_frame (buf : Nat → Nat) (L : Nat) (body : List Nat) (i1 i2 n : Nat)
    (hL : L = body.length) (hi1 : i1 = body.length + 2) (hi2 : i2 = body.length + 3)
    (hn : n = body.length + 4) (hL256 : L < 256) (hbody : ∀ b ∈ body, b < 256) :
    bufferBytes
        (Function.update
          (Function.update (checksum (writeList buf 0 (0x02 :: L :: body))).2 i1
            (checksum (writeList buf 0 (0x02 :: L :: body))).1) i2 0x03) n =
      0x02 :: L :: (body ++ [(0x02 :: L :: body).foldl (· ^^^ ·) 0 ^^^ 0x03, 0x03]) := by
  obtain ⟨hv, hb⟩ := checksum_writeList buf L body hL hL256 hbody
  rw [hb, hv]
  have e1 : (0x02 :: L :: body ++ [0] : List Nat) = (0x02 :: L :: body) ++ [0] := rfl
  rw [e1, update_writeList_last _ _ _ _ _ (by simp [hi1]),
    update_writeList_end_zero _ _ _ _ (by simp [hi2]),
    bufferBytes_writeList _ _ _ (by simp [hn])]
  simp

theorem InjectPDMsg_frame_short (cBuf : Nat → Nat) (type : Nat) (data : Nat → Nat)
    (dataLen : Nat) (htype : type < 256) (hdata : ∀ i, i < dataLen → data i < 256)
    (hlen : dataLen ≤ 24) :
    bufferBytes (InjectPDMsg_cBuf cBuf type data dataLen).1
        (InjectPDMsg_cBuf cBuf type data dataLen).2 =
      0x02 :: (dataLen + 3) ::
        (([INJECT_PD_MSG, type &&& 0x1F, type >>> 5] ++ bufferBytes data dataLen) ++
          [(0x02 :: (dataLen + 3) ::
              ([INJECT_PD_MSG, type &&& 0x1F, type >>> 5] ++ bufferBytes data dataLen)).foldl
              (· ^^^ ·) 0 ^^^ 0x03, 0x03]) := by
  have hpad : ¬ (dataLen > 24) := by omega
  have hmod : (dataLen + 3) % 256 = dataLen + 3 := Nat.mod_eq_of_lt (by omega)
  have htm : type % 256 = type := Nat.mod_eq_of_lt htype
  have hbuf : memcpyAt
      (Function.update (Function.update (Function.update (Function.update
        (Function.update cBuf 0 0x02) 1 (dataLen + 3)) 2 INJECT_PD_MSG) 3 (type &&& 0x1F)) 4
        (type >>> 5)) 5 data dataLen =
      writeList cBuf 0 (0x02 :: (dataLen + 3) ::
        ([INJECT_PD_MSG, type &&& 0x1F, type >>> 5] ++ bufferBytes data dataLen)) := by
    have e0 : Function.update cBuf 0 0x02 = writeList cBuf 0 [0x02] := rfl
    rw [e0, update_writeList_end_zero _ _ _ _ (by simp),
      update_writeList_end_zero _ _ _ _ (by simp),
      update_writeList_end_zero _ _ _ _ (by simp),
      update_writeList_end_zero _ _ _ _ (by simp),
      memcpyAt_writeList_end _ _ _ _ _ (by simp)]
    simp
  simp only [InjectPDMsg_cBuf, hpad, decide_False, hmod, htm, Bool.false_eq_true, if_false]
  rw [hbuf]
  have hbl : ([INJECT_PD_MSG, type &&& 0x1F, type >>> 5] ++ bufferBytes data dataLen).length =
      dataLen + 3 := by
    simp [bufferBytes]
  apply finish_frame
  · rw [hbl]
  · rw [hbl]; omega
  · rw [hbl]; omega
  · rw [hbl]; omega
  · omega
  · intro b hb
    have h5 : type &&& 0x1F < 256 := Nat.lt_of_le_of_lt Nat.and_le_left htype
    have h6 : type >>> 5 < 256 := by
      rw [Nat.shiftRight_eq_div_pow]
      exact Nat.lt_of_le_of_lt (Nat.div_le_self _ _) htype
    simp only [List.cons_append, List.nil_append, List.mem_cons, bufferBytes, List.mem_map,
      List.mem_range] at hb
    rcases hb with h | h | h | ⟨i, hi, h⟩
    · rw [h]; decide
    · rw [h]; exact h5
    · rw [h]; exact h6
    · rw [← h]; exact hdata i hi

theorem update_writeList_length_byte (buf : Nat → Nat) (a b v : Nat) (rest : List Nat) :
    Function.update (writeList buf 0 (a :: b :: rest)) 1 v = writeList buf 0 (a :: v :: rest) := by
  simp only [writeList]
  rw [update_writeList_lt _ _ _ _ _ (by omega), Function.update_idem]

theorem InjectPDMsg_frame_padded (cBuf : Nat → Nat) (type : Nat) (data : Nat → Nat)
    (dataLen : Nat) (htype : type < 256) (hdata : ∀ i, i < dataLen → data i < 256)
    (hlen : 24 < dataLen) (hmax : dataLen ≤ 50) :
    bufferBytes (InjectPDMsg_cBuf cBuf type data dataLen).1
        (InjectPDMsg_cBuf cBuf type data dataLen).2 =
      0x02 :: (dataLen + 13) ::
        (([INJECT_PD_MSG, type &&& 0x1F, type >>> 5] ++ bufferBytes data dataLen ++
            List.replicate 10 0) ++
          [(0x02 :: (dataLen + 13) ::
              ([INJECT_PD_MSG, type &&& 0x1F, type >>> 5] ++ bufferBytes data dataLen ++
                List.replicate 10 0)).foldl (· ^^^ ·) 0 ^^^ 0x03, 0x03]) := by
  have hpad : dataLen > 24 := hlen
  have hmod : (dataLen + 3) % 256 = dataLen + 3 := Nat.mod_eq_of_lt (by omega)
  have hmod2 : (dataLen + 10 + 3) % 256 = dataLen + 13 := by
    rw [Nat.mod_eq_of_lt (by omega)]
  have htm : type % 256 = type := Nat.mod_eq_of_lt htype
  have hz : bufferBytes (fun _ => 0) 10 = List.replicate 10 0 := by decide
  have hbuf : Function.update (memcpyAt (memcpyAt
      (Function.update (Function.update (Function.update (Function.update
        (Function.update cBuf 0 0x02) 1 (dataLen + 3)) 2 INJECT_PD_MSG) 3 (type &&& 0x1F)) 4
        (type >>> 5)) 5 data dataLen) (5 + dataLen) (fun _ => 0) 10) 1 (dataLen + 13) =
      writeList cBuf 0 (0x02 :: (dataLen + 13) ::
        ([INJECT_PD_MSG, type &&& 0x1F, type >>> 5] ++ bufferBytes data dataLen ++
          List.replicate 10 0)) := by
    have e0 : Function.update cBuf 0 0x02 = writeList cBuf 0 [0x02] := rfl
    rw [e0, update_writeList_end_zero _ _ _ _ (by simp),
      update_writeList_end_zero _ _ _ _ (by simp),
      update_writeList_end_zero _ _ _ _ (by simp),
      update_writeList_end_zero _ _ _ _ (by simp),
      memcpyAt_writeList_end _ _ _ _ _ (by simp),
      memcpyAt_writeList_end _ _ _ _ _ (by simp [bufferBytes]; omega), hz]
    simp only [List.cons_append, List.nil_append, List.append_assoc]
    rw [update_writeList_length_byte]
  simp only [InjectPDMsg_cBuf, hpad, decide_True, hmod, hmod2, htm, if_true]
  rw [hbuf]
  have hbl : ([INJECT_PD_MSG, type &&& 0x1F, type >>> 5] ++ bufferBytes data dataLen ++
      List.replicate 10 0).length = dataLen + 13 := by
    simp [bufferBytes]
  apply finish_frame
  · rw [hbl]
  · rw [hbl]; omega
  · rw [hbl]; omega
  · rw [hbl]; omega
  · omega
  · intro b hb
    have h5 : type &&& 0x1F < 256 := Nat.lt_of_le_of_lt Nat.and_le_left htype
    have h6 : type >>> 5 < 256 := by
      rw [Nat.shiftRight_eq_div_pow]
      exact Nat.lt_of_le_of_lt (Nat.div_le_self _ _) htype
    simp only [List.cons_append, List.nil_append, List.mem_cons, List.mem_append, bufferBytes,
      List.mem_map, List.mem_range, List.mem_replicate] at hb
    rcases hb with h | h | h | ⟨i, hi, h⟩ | ⟨_, h⟩
    · rw [h]; decide
    · rw [h]; exact h5
    · rw [h]; exact h6
    · rw [← h]; exact hdata i hi
    · rw [h]; decide

theorem InjectPDMsg_sentFrames (s : PDTester) (cBuf : Nat → Nat) (type : Nat)
    (data : Nat → Nat) (dataLen : Nat) (w1 w2 : List SerialEvent) :
    sentFrames (InjectPDMsg s cBuf type data dataLen w1 w2).fx =
      [bufferBytes (InjectPDMsg_cBuf cBuf type data dataLen).1
        (InjectPDMsg_cBuf cBuf type data dataLen).2] := by
  unfold InjectPDMsg
  dsimp only
  split_ifs <;>
    simp [sentFrames_append, sentFrames, (WaitForMultipleObjects_sentFrames _ _ _ _).1,
      (waitSignal_quiet _ _ _).1]

/-- The frame that `InjectPDMsg` builds, on the buffer without a capacity, for
a message type that fits a byte and data bytes `data[0 .. dataLen)`: with
`dataLen <= 24` the bytes are `02`, `dataLen + 3`, `15`, `type AND 0x1F`,
`type >> 5`, the data, the checksum, `03`; with `24 < dataLen <= 50` the same
layout carries ten zero bytes after the data and the length byte
`dataLen + 13`. -/
theorem InjectPDMsg_frames (s : PDTester) (cBuf : Nat → Nat) (type : Nat)
    (data : Nat → Nat) (dataLen : Nat) (w1 w2 : List SerialEvent)
    (htype : type < 256) (hdata : ∀ i, i < dataLen → data i < 256) :
    (dataLen ≤ 24 →
      sentFrames (InjectPDMsg s cBuf type data dataLen w1 w2).fx =
        [0x02 :: (dataLen + 3) ::
          (([0x15, type &&& 0x1F, type >>> 5] ++ bufferBytes data dataLen) ++
            [(0x02 :: (dataLen + 3) ::
                ([0x15, type &&& 0x1F, type >>> 5] ++ bufferBytes data dataLen)).foldl
                (· ^^^ ·) 0 ^^^ 0x03, 0x03])] ∧
      ([0x15, type &&& 0x1F, type >>> 5] ++ bufferBytes data dataLen).length = dataLen + 3) ∧
    (24 < dataLen → dataLen ≤ 50 →
      sentFrames (InjectPDMsg s cBuf type data dataLen w1 w2).fx =
        [0x02 :: (dataLen + 13) ::
          (([0x15, type &&& 0x1F, type >>> 5] ++ bufferBytes data dataLen ++
              List.replicate 10 0) ++
            [(0x02 :: (dataLen + 13) ::
                ([0x15, type &&& 0x1F, type >>> 5] ++ bufferBytes data dataLen ++
                  List.replicate 10 0)).foldl (· ^^^ ·) 0 ^^^ 0x03, 0x03])] ∧
      ([0x15, type &&& 0x1F, type >>> 5] ++ bufferBytes data dataLen ++
        List.replicate 10 0).length = dataLen + 13) := by
  constructor
  · intro hlen
    rw [InjectPDMsg_sentFrames, InjectPDMsg_frame_short cBuf type data dataLen htype hdata hlen]
    exact ⟨rfl, by simp [bufferBytes]⟩
  · intro hlen hmax
    rw [InjectPDMsg_sentFrames,
      InjectPDMsg_frame_padded cBuf type data dataLen htype hdata hlen hmax]
    exact ⟨rfl, by simp [bufferBytes]⟩

/-! ## `GetCapabilities`: claims -/

/-- The loop of lines 1357-1362 run over the slots below `n`. -/
theorem avs_loop (decl : CapabilitiesDecl) (caps : USBPD_Capabilities_TypeDef) : ∀ n : Nat,
    ((List.range n).foldl (avsStep decl) caps).NumObjects = caps.NumObjects ∧
      (∀ i : Nat, ((List.range n).foldl (avsStep decl) caps).Object i =
        if i < n ∧ (caps.Object i).Profile_Type = decl.PROFILE_PD ∧
            (caps.Object i).Profile_SubType = decl.SUBTYPE_PD_AVS then
          { caps.Object i with MinVoltage := 9000 }
        else caps.Object i) ∧
      (∀ i : Nat, ((List.range n).foldl (avsStep decl) caps).objExtraDataField i =
        if i < n ∧ (caps.Object i).Profile_Type = decl.PROFILE_PD ∧
            (caps.Object i).Profile_SubType = decl.SUBTYPE_PD_AVS then
          (caps.Object i).MinVoltage
        else caps.objExtraDataField i) := by
  intro n
  induction n with
  | zero => simp
  | succ n ih =>
    obtain ⟨ih1, ih2, ih3⟩ := ih
    rw [List.range_succ, List.foldl_append]
    simp only [List.foldl_cons, List.foldl_nil]
    have hn : ((List.range n).foldl (avsStep decl) caps).Object n = caps.Object n := by
      rw [ih2 n]
      simp
    generalize (List.range n).foldl (avsStep decl) caps = X at ih1 ih2 ih3 hn ⊢
    unfold avsStep
    rw [hn]
    by_cases hc : (caps.Object n).Profile_Type = decl.PROFILE_PD ∧
        (caps.Object n).Profile_SubType = decl.SUBTYPE_PD_AVS
    · rw [if_pos hc]
      refine ⟨ih1, ?_, ?_⟩
      · intro i
        simp only [Function.update_apply]
        by_cases hi : i = n
        · subst hi
          simp [hc]
        · rw [if_neg hi, ih2 i]
          have hlt : i < n + 1 ↔ i < n := by omega
          simp only [hlt]
      · intro i
        simp only [Function.update_apply]
        by_cases hi : i = n
        · subst hi
          simp [hc]
        · rw [if_neg hi, ih3 i]
          have hlt : i < n + 1 ↔ i < n := by omega
          simp only [hlt]
    · rw [if_neg hc]
      refine ⟨ih1, ?_, ?_⟩
      · intro i
        rw [ih2 i]
        by_cases hi : i = n
        · subst hi
          simp [hc]
        · have hlt : i < n + 1 ↔ i < n := by omega
          simp only [hlt]
      · intro i
        rw [ih3 i]
        by_cases hi : i = n
        · subst hi
          simp [hc]
        · have hlt : i < n + 1 ↔ i < n := by omega
          simp only [hlt]

/-- C13. AVS post-processing in `GetCapabilities`, with the list as assembled
from the wire by the first part of the operation: for every slot
`i < MAX_PROFILES`, if object `i` has profile type `PROFILE_PD` and subtype
`SUBTYPE_PD_AVS`, then afterwards `objExtraDataField[i]` is the wire-decoded
`MinVoltage` of the object, its `MinVoltage` is 9000 and its other members are
unchanged; otherwise the object and `objExtraDataField[i]` are unchanged. -/
theorem GetCapabilities_avs_rewrite (decl : CapabilitiesDecl) (s : PDTester) (cBuf : Nat → Nat)
    (SourceCapabilities : USBPD_Capabilities_TypeDef) (w1 w2 w3 : List SerialEvent) (i : Nat)
    (hi : i < decl.MAX_PROFILES) :
    ((((GetCapabilities_receive decl s cBuf SourceCapabilities w1 w2 w3).caps.Object
            i).Profile_Type = decl.PROFILE_PD ∧
        ((GetCapabilities_receive decl s cBuf SourceCapabilities w1 w2 w3).caps.Object
            i).Profile_SubType = decl.SUBTYPE_PD_AVS) →
      (GetCapabilities decl s cBuf SourceCapabilities w1 w2 w3).caps.objExtraDataField i =
          ((GetCapabilities_receive decl s cBuf SourceCapabilities w1 w2 w3).caps.Object
            i).MinVoltage ∧
        ((GetCapabilities decl s cBuf SourceCapabilities w1 w2 w3).caps.Object i).MinVoltage =
          9000 ∧
        ((GetCapabilities decl s cBuf SourceCapabilities w1 w2 w3).caps.Object i).Profile_Type =
          ((GetCapabilities_receive decl s cBuf SourceCapabilities w1 w2 w3).caps.Object
            i).Profile_Type ∧
        ((GetCapabilities decl s cBuf SourceCapabilities w1 w2 w3).caps.Object
            i).Profile_SubType =
          ((GetCapabilities_receive decl s cBuf SourceCapabilities w1 w2 w3).caps.Object
            i).Profile_SubType ∧
        ((GetCapabilities decl s cBuf SourceCapabilities w1 w2 w3).caps.Object i).others =
          ((GetCapabilities_receive decl s cBuf SourceCapabilities w1 w2 w3).caps.Object
            i).others) ∧
    (¬ (((GetCapabilities_receive decl s cBuf SourceCapabilities w1 w2 w3).caps.Object
            i).Profile_Type = decl.PROFILE_PD ∧
        ((GetCapabilities_receive decl s cBuf SourceCapabilities w1 w2 w3).caps.Object
            i).Profile_SubType = decl.SUBTYPE_PD_AVS) →
      (GetCapabilities decl s cBuf SourceCapabilities w1 w2 w3).caps.Object i =
          (GetCapabilities_receive decl s cBuf SourceCapabilities w1 w2 w3).caps.Object i ∧
        (GetCapabilities decl s cBuf SourceCapabilities w1 w2 w3).caps.objExtraDataField i =
          (GetCapabilities_receive decl s cBuf SourceCapabilities w1 w2 w3).caps.objExtraDataField
            i) := by
  obtain ⟨_, h2, h3⟩ := avs_loop decl
    (GetCapabilities_receive decl s cBuf SourceCapabilities w1 w2 w3).caps decl.MAX_PROFILES
  have e2 := h2 i
  have e3 := h3 i
  constructor
  · intro hc
    rw [if_pos ⟨hi, hc⟩] at e2 e3
    simp only [GetCapabilities, GetCapabilities_avs]
    rw [e2, e3]
    exact ⟨rfl, rfl, rfl, rfl, rfl⟩
  · intro hc
    rw [if_neg (fun h => hc h.2)] at e2 e3
    simp only [GetCapabilities, GetCapabilities_avs]
    rw [e2, e3]
    exact ⟨rfl, rfl⟩

/-- Witness of C13: a first response declaring one object, whose slot 0 holds
an adjustable-voltage object (type 1, subtype 3) with wire minimum voltage
0x1388 = 5000. -/
theorem GetCapabilities_avs_rewrite_witness :
    0 < sampleDecl.MAX_PROFILES ∧
      (((GetCapabilities_receive sampleDecl PDTester.ctor (fun _ => 0) sampleCaps
            [SerialEvent.SERIAL_DATA_SENT]
            [SerialEvent.SERIAL_DATA_ARRIVAL
              [0x02, 0x0B, 0x0B, 0x01, 0x00, 0x01, 0x03, 0x88, 0x13, 0xAA, 0xBB, 0xCC, 0xDD,
                0x99, 0x03]] []).caps.Object 0).Profile_Type = sampleDecl.PROFILE_PD ∧
        ((GetCapabilities_receive sampleDecl PDTester.ctor (fun _ => 0) sampleCaps
            [SerialEvent.SERIAL_DATA_SENT]
            [SerialEvent.SERIAL_DATA_ARRIVAL
              [0x02, 0x0B, 0x0B, 0x01, 0x00, 0x01, 0x03, 0x88, 0x13, 0xAA, 0xBB, 0xCC, 0xDD,
                0x99, 0x03]] []).caps.Object 0).Profile_SubType = sampleDecl.SUBTYPE_PD_AVS) ∧
      (GetCapabilities sampleDecl PDTester.ctor (fun _ => 0) sampleCaps
          [SerialEvent.SERIAL_DATA_SENT]
          [SerialEvent.SERIAL_DATA_ARRIVAL
            [0x02, 0x0B, 0x0B, 0x01, 0x00, 0x01, 0x03, 0x88, 0x13, 0xAA, 0xBB, 0xCC, 0xDD,
              0x99, 0x03]] []).caps.objExtraDataField 0 = 5000 ∧
      ((GetCapabilities sampleDecl PDTester.ctor (fun _ => 0) sampleCaps
          [SerialEvent.SERIAL_DATA_SENT]
          [SerialEvent.SERIAL_DATA_ARRIVAL
            [0x02, 0x0B, 0x0B, 0x01, 0x00, 0x01, 0x03, 0x88, 0x13, 0xAA, 0xBB, 0xCC, 0xDD,
              0x99, 0x03]] []).caps.Object 0).MinVoltage = 9000 :=
  ⟨by decide, by decide,
    ((GetCapabilities_avs_rewrite sampleDecl PDTester.ctor (fun _ => 0) sampleCaps
      [SerialEvent.SERIAL_DATA_SENT]
      [SerialEvent.SERIAL_DATA_ARRIVAL
        [0x02, 0x0B, 0x0B, 0x01, 0x00, 0x01, 0x03, 0x88, 0x13, 0xAA, 0xBB, 0xCC, 0xDD,
          0x99, 0x03]] [] 0 (by decide)).1 (by decide)).1.trans (by decide),
    ((GetCapabilities_avs_rewrite sampleDecl PDTester.ctor (fun _ => 0) sampleCaps
      [SerialEvent.SERIAL_DATA_SENT]
      [SerialEvent.SERIAL_DATA_ARRIVAL
        [0x02, 0x0B, 0x0B, 0x01, 0x00, 0x01, 0x03, 0x88, 0x13, 0xAA, 0xBB, 0xCC, 0xDD,
          0x99, 0x03]] [] 0 (by decide)).1 (by decide)).2.1⟩

/-- The two branches of `GetCapabilities` on the declared count, in terms of
its three waits `r1`, `r2`, `r3`, for the list as assembled by lines 1314-1354
(before the AVS rewrite of lines 1356-1362). Let the wait for send-complete and
the wait for the first response succeed and the response buffer then carry the
tag 0x0B and the count `n` in byte 1. If `n <= 7` the operation returns TRUE
after these two waits and slots 0..6 are filled from the response buffer. If
`n > 7` a third wait is made: the operation returns TRUE exactly when that wait
succeeds and the response buffer then carries the tag 0x0B; slots 7..13 are
then filled from the response buffer as the third wait leaves it. -/
theorem GetCapabilities_branches (decl : CapabilitiesDecl) (s : PDTester)
    (cBuf : Nat → Nat) (SourceCapabilities : USBPD_Capabilities_TypeDef)
    (w1 w2 w3 : List SerialEvent) (r1 r2 r3 : WaitResult)
    (h1 : r1 = WaitForMultipleObjects s ComSignal.COM_PACKET_SENT s.TIME_OUT_MS w1)
    (h2 : r2 = WaitForMultipleObjects r1.s ComSignal.COM_PACKET_ARRIVED r1.s.TIME_OUT_MS
      (r1.rest ++ w2))
    (h3 : r3 = WaitForMultipleObjects r2.s ComSignal.COM_PACKET_ARRIVED r2.s.TIME_OUT_MS
      (r2.rest ++ w3))
    (hs1 : r1.status = WaitStatus.WAIT_OBJECT_0) (hs2 : r2.status = WaitStatus.WAIT_OBJECT_0)
    (htag : r2.s.RcvData 0 = GET_PORT_CAPABILITIES) :
    (r2.s.RcvData 1 ≤ 7 →
      (GetCapabilities decl s cBuf SourceCapabilities w1 w2 w3).retVal = true ∧
        waitCalls (GetCapabilities decl s cBuf SourceCapabilities w1 w2 w3).fx =
          [(ComSignal.COM_PACKET_SENT, s.TIME_OUT_MS),
            (ComSignal.COM_PACKET_ARRIVED, s.TIME_OUT_MS)] ∧
        (GetCapabilities_receive decl s cBuf SourceCapabilities w1 w2 w3).caps.NumObjects =
          r2.s.RcvData 1 ∧
        ∀ k : Nat, k < 7 →
          (GetCapabilities_receive decl s cBuf SourceCapabilities w1 w2 w3).caps.Object k =
            objectAt decl r2.s.RcvData k) ∧
    (7 < r2.s.RcvData 1 →
      waitCalls (GetCapabilities decl s cBuf SourceCapabilities w1 w2 w3).fx =
          [(ComSignal.COM_PACKET_SENT, s.TIME_OUT_MS),
            (ComSignal.COM_PACKET_ARRIVED, s.TIME_OUT_MS),
            (ComSignal.COM_PACKET_ARRIVED, s.TIME_OUT_MS)] ∧
        ((GetCapabilities decl s cBuf SourceCapabilities w1 w2 w3).retVal = true ↔
          (r3.status = WaitStatus.WAIT_OBJECT_0 ∧ r3.s.RcvData 0 = GET_PORT_CAPABILITIES)) ∧
        (∀ k : Nat, k < 7 →
          (GetCapabilities_receive decl s cBuf SourceCapabilities w1 w2 w3).caps.Object k =
            objectAt decl r2.s.RcvData k) ∧
        (r3.status = WaitStatus.WAIT_OBJECT_0 → r3.s.RcvData 0 = GET_PORT_CAPABILITIES →
          ∀ k : Nat, k < 7 →
            (GetCapabilities_receive decl s cBuf SourceCapabilities w1 w2 w3).caps.Object (7 + k) =
              objectAt decl r3.s.RcvData k)) := by
  have ht1 : r1.s.TIME_OUT_MS = s.TIME_OUT_MS := by
    rw [h1]
    exact WaitForMultipleObjects_TIME_OUT_MS _ _ _ _
  have ht2 : r2.s.TIME_OUT_MS = s.TIME_OUT_MS := by
    rw [h2, WaitForMultipleObjects_TIME_OUT_MS, ht1]
  have hobj0 : ∀ (O : Nat → USBPD_Object_TypeDef) (R : Nat → Nat) (k : Nat), k < 7 →
      memcpyObjects decl O 0 R k = objectAt decl R k := by
    intro O R k hk
    simp [memcpyObjects, hk]
  have hobj7lo : ∀ (O : Nat → USBPD_Object_TypeDef) (R : Nat → Nat) (k : Nat), k < 7 →
      memcpyObjects decl O 7 R k = O k := by
    intro O R k hk
    have : ¬ (7 ≤ k ∧ k < 7 + 7) := by omega
    simp [memcpyObjects, this]
  have hobj7 : ∀ (O : Nat → USBPD_Object_TypeDef) (R : Nat → Nat) (k : Nat), k < 7 →
      memcpyObjects decl O 7 R (7 + k) = objectAt decl R k := by
    intro O R k hk
    have : 7 ≤ 7 + k ∧ 7 + k < 7 + 7 := by omega
    simp [memcpyObjects, this]
  have hw : ∀ (s0 : PDTester) (sig : ComSignal) (t : Nat) (w : List SerialEvent),
      waitCalls (WaitForMultipleObjects s0 sig t w).fx = [(sig, t)] :=
    fun s0 sig t w => (WaitForMultipleObjects_sentFrames s0 sig t w).2
  subst h3
  subst h2
  subst h1
  constructor
  · intro hn
    have hn' : ¬ ((WaitForMultipleObjects
        (WaitForMultipleObjects s ComSignal.COM_PACKET_SENT s.TIME_OUT_MS w1).s
        ComSignal.COM_PACKET_ARRIVED
        (WaitForMultipleObjects s ComSignal.COM_PACKET_SENT s.TIME_OUT_MS w1).s.TIME_OUT_MS
        ((WaitForMultipleObjects s ComSignal.COM_PACKET_SENT s.TIME_OUT_MS w1).rest ++
          w2)).s.RcvData 1 > 7) := by omega
    simp only [GetCapabilities, GetCapabilities_receive, hs1, hs2, htag, hn', and_self,
      if_true, if_false]
    refine ⟨trivial, ?_, trivial, ?_⟩
    · simp [waitCalls_append, waitCalls, hw, (waitSignal_quiet _ _ _).2,
        WaitForMultipleObjects_TIME_OUT_MS]
    · intro k hk
      exact hobj0 _ _ k hk
  · intro hn
    have hn' : (WaitForMultipleObjects
        (WaitForMultipleObjects s ComSignal.COM_PACKET_SENT s.TIME_OUT_MS w1).s
        ComSignal.COM_PACKET_ARRIVED
        (WaitForMultipleObjects s ComSignal.COM_PACKET_SENT s.TIME_OUT_MS w1).s.TIME_OUT_MS
        ((WaitForMultipleObjects s ComSignal.COM_PACKET_SENT s.TIME_OUT_MS w1).rest ++
          w2)).s.RcvData 1 > 7 := hn
    simp only [GetCapabilities, GetCapabilities_receive, hs1, hs2, htag, hn', and_self, if_true]
    split_ifs with hc
    · refine ⟨?_, ?_, ?_, ?_⟩
      · simp [waitCalls_append, waitCalls, hw, (waitSignal_quiet _ _ _).2,
          WaitForMultipleObjects_TIME_OUT_MS]
      · simp [hc]
      · intro k hk
        show memcpyObjects decl _ 7 _ k = _
        rw [hobj7lo _ _ k hk, hobj0 _ _ k hk]
      · intro _ _ k hk
        exact hobj7 _ _ k hk
    · refine ⟨?_, ?_, ?_, ?_⟩
      · simp [waitCalls_append, waitCalls, hw, (waitSignal_quiet _ _ _).2,
          WaitForMultipleObjects_TIME_OUT_MS]
      · simp [hc]
      · intro k hk
        exact hobj0 _ _ k hk
      · intro hs3 htag3
        exact absurd ⟨hs3, htag3⟩ hc

/-! ## Helper lemmas: `GetConfig` and `SetConfig` -/

theorem rxByte_device (st : PDTester × Bool) (b : Nat) :
    (rxByte st b).1.cfg = st.1.cfg ∧ (rxByte st b).1.FW_Ver = st.1.FW_Ver ∧
      (rxByte st b).1.HW_Ver = st.1.HW_Ver := by
  unfold rxByte
  dsimp only
  split_ifs <;> simp

theorem foldl_rxByte_device (data : List Nat) : ∀ (st : PDTester × Bool),
    (data.foldl rxByte st).1.cfg = st.1.cfg ∧ (data.foldl rxByte st).1.FW_Ver = st.1.FW_Ver ∧
      (data.foldl rxByte st).1.HW_Ver = st.1.HW_Ver := by
  induction data with
  | nil => intro st; simp
  | cons b data ih =>
    intro st
    rw [List.foldl_cons]
    obtain ⟨a1, a2, a3⟩ := ih (rxByte st b)
    obtain ⟨b1, b2, b3⟩ := rxByte_device st b
    exact ⟨a1.trans b1, a2.trans b2, a3.trans b3⟩

theorem rxBytes_device (s : PDTester) (data : List Nat) :
    (rxBytes s data).1.cfg = s.cfg ∧ (rxBytes s data).1.FW_Ver = s.FW_Ver ∧
      (rxBytes s data).1.HW_Ver = s.HW_Ver :=
  foldl_rxByte_device data (s, false)

/-- Handling a notification leaves the configuration members and the device
versions alone. -/
theorem onSerialEvent_device (s : PDTester) (ev : SerialEvent) :
    (onSerialEvent s ev).1.cfg = s.cfg ∧ (onSerialEvent s ev).1.FW_Ver = s.FW_Ver ∧
      (onSerialEvent s ev).1.HW_Ver = s.HW_Ver := by
  cases ev with
  | SERIAL_DATA_ARRIVAL data =>
    simp only [onSerialEvent, onDataArrival]
    split_ifs
    · simp only [routePacket]
      split_ifs <;> simp [rxBytes_device]
    · simp [rxBytes_device]
    · simp only [routePacket]
      split_ifs <;> simp [rxBytes_device]
    · simp [rxBytes_device]
  | _ => exact ⟨rfl, rfl, rfl⟩

theorem waitSignal_device (sig : ComSignal) (w : List SerialEvent) : ∀ (s : PDTester),
    (waitSignal sig s w).s.cfg = s.cfg ∧ (waitSignal sig s w).s.FW_Ver = s.FW_Ver ∧
      (waitSignal sig s w).s.HW_Ver = s.HW_Ver := by
  induction w with
  | nil =>
    intro s
    unfold waitSignal
    split_ifs <;> exact ⟨rfl, rfl, rfl⟩
  | cons ev w ih =>
    intro s
    unfold waitSignal
    split_ifs
    · exact ⟨rfl, rfl, rfl⟩
    · obtain ⟨a1, a2, a3⟩ := ih (onSerialEvent s ev).1
      obtain ⟨b1, b2, b3⟩ := onSerialEvent_device s ev
      exact ⟨a1.trans b1, a2.trans b2, a3.trans b3⟩

/-- A wait leaves the configuration members and the device versions alone. -/
theorem WaitForMultipleObjects_device (s : PDTester) (sig : ComSignal) (timeout : Nat)
    (w : List SerialEvent) :
    (WaitForMultipleObjects s sig timeout w).s.cfg = s.cfg ∧
      (WaitForMultipleObjects s sig timeout w).s.FW_Ver = s.FW_Ver ∧
      (WaitForMultipleObjects s sig timeout w).s.HW_Ver = s.HW_Ver :=
  waitSignal_device sig w s

theorem waitSignal_sentFrames (sig : ComSignal) (s : PDTester) (w : List SerialEvent) :
    sentFrames (waitSignal sig s w).fx = [] :=
  (quiet_of_fromNotification _ (waitSignal_fromNotification sig w s)).1

/-- One block that is entered: it records its exchange, hands one frame to the
transport, and leaves the configuration members to its own assignments. -/
theorem cfgExchange_step (r : CfgRun) (id L : Nat) (body : List Nat)
    (accept : PDTester → Bool) (store : PDTester → PDTester) (hr : r.retVal = true) :
    (cfgExchange r id L body accept store).log =
        r.log ++ [(id, (cfgExchange r id L body accept store).retVal)] ∧
      sentFrames (cfgExchange r id L body accept store).fx =
        sentFrames r.fx ++ [bufferBytes (buildFrame r.cBuf L body) (4 + body.length)] ∧
      ∃ s2 : PDTester, s2.cfg = r.s.cfg ∧ s2.FW_Ver = r.s.FW_Ver ∧ s2.HW_Ver = r.s.HW_Ver ∧
        ((cfgExchange r id L body accept store).retVal = true →
          (cfgExchange r id L body accept store).s = store s2) ∧
        ((cfgExchange r id L body accept store).retVal = false →
          (cfgExchange r id L body accept store).s = s2) := by
  unfold cfgExchange
  simp only [hr, if_true]
  split_ifs with h1 h2
  · refine ⟨rfl, ?_, _, ?_, ?_, ?_, fun _ => rfl, fun h => ?_⟩
    · simp only [sentFrames_append, (WaitForMultipleObjects_sentFrames _ _ _ _).1, sentFrames,
        waitSignal_sentFrames, List.append_nil]
    · rw [(WaitForMultipleObjects_device _ _ _ _).1, (WaitForMultipleObjects_device _ _ _ _).1]
    · rw [(WaitForMultipleObjects_device _ _ _ _).2.1, (WaitForMultipleObjects_device _ _ _ _).2.1]
    · rw [(WaitForMultipleObjects_device _ _ _ _).2.2, (WaitForMultipleObjects_device _ _ _ _).2.2]
    · simp at h
  · refine ⟨rfl, ?_, _, ?_, ?_, ?_, fun h => ?_, fun _ => rfl⟩
    · simp only [sentFrames_append, (WaitForMultipleObjects_sentFrames _ _ _ _).1, sentFrames,
        waitSignal_sentFrames, List.append_nil]
    · rw [(WaitForMultipleObjects_device _ _ _ _).1, (WaitForMultipleObjects_device _ _ _ _).1]
    · rw [(WaitForMultipleObjects_device _ _ _ _).2.1, (WaitForMultipleObjects_device _ _ _ _).2.1]
    · rw [(WaitForMultipleObjects_device _ _ _ _).2.2, (WaitForMultipleObjects_device _ _ _ _).2.2]
    · simp at h
  · refine ⟨rfl, ?_, _, ?_, ?_, ?_, fun h => ?_, fun _ => rfl⟩
    · simp only [sentFrames_append, (WaitForMultipleObjects_sentFrames _ _ _ _).1, sentFrames,
        waitSignal_sentFrames, List.append_nil]
    · rw [(WaitForMultipleObjects_device _ _ _ _).1]
    · rw [(WaitForMultipleObjects_device _ _ _ _).2.1]
    · rw [(WaitForMultipleObjects_device _ _ _ _).2.2]
    · simp at h

theorem sentFrames_sleep (fx : List Effect) (ms : Nat) :
    sentFrames (fx ++ [Effect.Sleep ms]) = sentFrames fx := by
  simp [sentFrames_append, sentFrames]

/-- With `retVal` FALSE every later block is skipped. -/
theorem runItem_skip (r : CfgRun) (it : CfgItem) (hr : r.retVal = false) :
    (runItem r it).retVal = false ∧ (runItem r it).log = r.log ∧ (runItem r it).s = r.s ∧
      sentFrames (runItem r it).fx = sentFrames r.fx := by
  cases it with
  | get id lenCheck store => simp [runItem, cfgExchange, hr]
  | set id frame => simp [runItem, cfgExchange, hr]
  | gate minFw => simp [runItem, hr]
  | sleep ms => simp [runItem, hr, sentFrames_sleep]

theorem runItems_skip (items : List CfgItem) : ∀ (r : CfgRun), r.retVal = false →
    (runItems items r).retVal = false ∧ (runItems items r).log = r.log ∧
      (runItems items r).s = r.s ∧ sentFrames (runItems items r).fx = sentFrames r.fx := by
  induction items with
  | nil => intro r hr; exact ⟨hr, rfl, rfl, rfl⟩
  | cons it items ih =>
    intro r hr
    obtain ⟨a1, a2, a3, a4⟩ := runItem_skip r it hr
    obtain ⟨b1, b2, b3, b4⟩ := ih (runItem r it) a1
    simp only [runItems, List.foldl_cons] at b1 b2 b3 b4 ⊢
    exact ⟨b1, b2.trans a2, b3.trans a3, b4.trans a4⟩

/-- The record of exchanges only grows. -/
theorem runItem_log (r : CfgRun) (it : CfgItem) : ∃ l, (runItem r it).log = r.log ++ l := by
  cases it with
  | get id lenCheck store =>
    cases hr : r.retVal with
    | true => exact ⟨_, (cfgExchange_step r _ _ _ _ _ hr).1⟩
    | false => exact ⟨[], by simp [runItem, cfgExchange, hr]⟩
  | set id frame =>
    cases hr : r.retVal with
    | true => exact ⟨_, (cfgExchange_step r _ _ _ _ _ hr).1⟩
    | false => exact ⟨[], by simp [runItem, cfgExchange, hr]⟩
  | gate minFw => exact ⟨[], by simp [runItem]⟩
  | sleep ms => exact ⟨[], by simp [runItem]⟩

theorem runItems_log (items : List CfgItem) : ∀ (r : CfgRun),
    ∃ l, (runItems items r).log = r.log ++ l := by
  induction items with
  | nil => intro r; exact ⟨[], by simp [runItems]⟩
  | cons it items ih =>
    intro r
    obtain ⟨l1, h1⟩ := runItem_log r it
    obtain ⟨l2, h2⟩ := ih (runItem r it)
    refine ⟨l1 ++ l2, ?_⟩
    simp only [runItems, List.foldl_cons] at h2 ⊢
    rw [h2, h1, List.append_assoc]

/-- A run in which every issued exchange succeeds: the exchanges issued are
those of the blocks before the first failing firmware check, the result is
TRUE exactly when every firmware check passes, and the configuration members
are changed by the assignments of the issued blocks only. -/
theorem runItems_all_succeed (items : List CfgItem) : ∀ (r : CfgRun), r.retVal = true →
    (∀ e ∈ (runItems items r).log, e.2 = true) →
    (runItems items r).log =
        r.log ++ (issuedIds r.s.FW_Ver items).map (fun id => (id, true)) ∧
      (runItems items r).retVal = gatesPass r.s.FW_Ver items ∧
      (runItems items r).s.FW_Ver = r.s.FW_Ver ∧
      ∃ ds : List (Nat → Nat), ds.length = (issuedStores r.s.FW_Ver items).length ∧
        (runItems items r).s.cfg = applyStores (issuedStores r.s.FW_Ver items) ds r.s.cfg := by
  induction items with
  | nil =>
    intro r hr _
    exact ⟨by simp [runItems, issuedIds], by simp [runItems, gatesPass, hr], rfl, [],
      by simp [issuedStores], by simp [runItems, applyStores]⟩
  | cons it items ih =>
    intro r hr hall
    have hrun : runItems (it :: items) r = runItems items (runItem r it) := rfl
    rw [hrun] at hall ⊢
    obtain ⟨l2, hl2⟩ := runItems_log items (runItem r it)
    cases it with
    | get id lenCheck store =>
      have step := cfgExchange_step r id 0x02 [GET_CONFIG, id]
        (fun s => decide (s.RcvData 0 = GET_CONFIG ∧ (lenCheck = true → s.RcvDataLen > 1)))
        (fun s => { s with cfg := store s.RcvData s.cfg }) hr
      have hdef : cfgExchange r id 0x02 [GET_CONFIG, id]
          (fun s => decide (s.RcvData 0 = GET_CONFIG ∧ (lenCheck = true → s.RcvDataLen > 1)))
          (fun s => { s with cfg := store s.RcvData s.cfg }) =
          runItem r (CfgItem.get id lenCheck store) := rfl
      rw [hdef] at step
      obtain ⟨e1, -, s2, c1, c2, -, c4, -⟩ := step
      have hok : (runItem r (CfgItem.get id lenCheck store)).retVal = true := by
        have := hall (id, (runItem r (CfgItem.get id lenCheck store)).retVal) (by
          rw [hl2, e1]
          simp [runItem])
        exact this
      rw [hok] at e1
      replace c4 := c4 hok
      have hfw : (runItem r (CfgItem.get id lenCheck store)).s.FW_Ver = r.s.FW_Ver := by
        rw [c4]
        exact c2
      obtain ⟨i1, i2, i3, ds, i4, i5⟩ := ih _ hok hall
      rw [hfw] at i1 i2 i3 i4 i5
      refine ⟨?_, ?_, i3, s2.RcvData :: ds, ?_, ?_⟩
      · rw [i1, e1]
        simp [issuedIds]
      · rw [i2]
        simp [gatesPass]
      · simp [issuedStores, i4]
      · rw [i5, c4]
        simp [issuedStores, applyStores, c1]
    | set id frame =>
      have step := cfgExchange_step r id (frame r.s.cfg).1
        (SET_CONFIG :: id :: (frame r.s.cfg).2)
        (fun s => decide (s.RcvData 0 = SET_CONFIG)) (fun s => s) hr
      have hdef : cfgExchange r id (frame r.s.cfg).1 (SET_CONFIG :: id :: (frame r.s.cfg).2)
          (fun s => decide (s.RcvData 0 = SET_CONFIG)) (fun s => s) =
          runItem r (CfgItem.set id frame) := rfl
      rw [hdef] at step
      obtain ⟨e1, -, s2, c1, c2, -, c4, -⟩ := step
      have hok : (runItem r (CfgItem.set id frame)).retVal = true := by
        have := hall (id, (runItem r (CfgItem.set id frame)).retVal) (by
          rw [hl2, e1]
          simp [runItem])
        exact this
      rw [hok] at e1
      replace c4 := c4 hok
      have hfw : (runItem r (CfgItem.set id frame)).s.FW_Ver = r.s.FW_Ver := by
        rw [c4]
        exact c2
      obtain ⟨i1, i2, i3, ds, i4, i5⟩ := ih _ hok hall
      rw [hfw] at i1 i2 i3 i4 i5
      refine ⟨?_, ?_, i3, ds, ?_, ?_⟩
      · rw [i1, e1]
        simp [issuedIds]
      · rw [i2]
        simp [gatesPass]
      · simp [issuedStores, i4]
      · rw [i5, c4]
        simp [issuedStores, c1]
    | gate minFw =>
      by_cases hfw : r.s.FW_Ver < minFw
      · have hf : (runItem r (CfgItem.gate minFw)).retVal = false := by
          simp [runItem, hfw]
        obtain ⟨a1, a2, a3, -⟩ := runItems_skip items _ hf
        refine ⟨?_, ?_, ?_, [], ?_, ?_⟩
        · rw [a2]
          simp [runItem, issuedIds, hfw]
        · rw [a1]
          simp [gatesPass, hfw]
        · rw [a3]
          rfl
        · simp [issuedStores, hfw]
        · rw [a3]
          simp [issuedStores, hfw, applyStores, runItem]
      · have hok : (runItem r (CfgItem.gate minFw)).retVal = true := by
          simp [runItem, hfw, hr]
        obtain ⟨i1, i2, i3, ds, i4, i5⟩ := ih _ hok hall
        have hs : (runItem r (CfgItem.gate minFw)).s = r.s := rfl
        have hlg : (runItem r (CfgItem.gate minFw)).log = r.log := rfl
        rw [hs] at i1 i2 i3 i4 i5
        rw [hlg] at i1
        refine ⟨?_, ?_, i3, ds, ?_, ?_⟩
        · rw [i1]
          simp [issuedIds, hfw]
        · rw [i2]
          simp [gatesPass, hfw]
        · simp [issuedStores, hfw, i4]
        · rw [i5]
          simp [issuedStores, hfw]
    | sleep ms =>
      have hok : (runItem r (CfgItem.sleep ms)).retVal = true := hr
      obtain ⟨i1, i2, i3, ds, i4, i5⟩ := ih _ hok hall
      have hs : (runItem r (CfgItem.sleep ms)).s = r.s := rfl
      have hlg : (runItem r (CfgItem.sleep ms)).log = r.log := rfl
      rw [hs] at i1 i2 i3 i4 i5
      rw [hlg] at i1
      refine ⟨?_, ?_, i3, ds, ?_, ?_⟩
      · rw [i1]
        simp [issuedIds]
      · rw [i2]
        simp [gatesPass]
      · simp [issuedStores, i4]
      · rw [i5]
        simp [issuedStores]
/-- The frame a block builds and hands to the transport, as bytes. -/
theorem buildFrame_wire (cBuf : Nat → Nat) (L : Nat) (body : List Nat) (hL : L = body.length)
    (hL256 : L < 256) (hbody : ∀ b ∈ body, b < 256) :
    bufferBytes (buildFrame cBuf L body) (4 + body.length) = wireFrame L body := by
  unfold buildFrame wireFrame
  exact finish_frame cBuf L body (2 + body.length) (3 + body.length) (4 + body.length) hL
    (by omega) (by omega) (by omega) hL256 hbody

theorem runItem_get_frames (r : CfgRun) (it : CfgItem) (hok : getItemOK it = true)
    (hinv : sentFrames r.fx = r.log.map (fun e => wireFrame 0x02 [GET_CONFIG, e.1])) :
    sentFrames (runItem r it).fx =
      (runItem r it).log.map (fun e => wireFrame 0x02 [GET_CONFIG, e.1]) := by
  cases it with
  | get id lenCheck store =>
    cases hr : r.retVal with
    | true =>
      have step := cfgExchange_step r id 0x02 [GET_CONFIG, id]
        (fun s => decide (s.RcvData 0 = GET_CONFIG ∧ (lenCheck = true → s.RcvDataLen > 1)))
        (fun s => { s with cfg := store s.RcvData s.cfg }) hr
      have hdef : cfgExchange r id 0x02 [GET_CONFIG, id]
          (fun s => decide (s.RcvData 0 = GET_CONFIG ∧ (lenCheck = true → s.RcvDataLen > 1)))
          (fun s => { s with cfg := store s.RcvData s.cfg }) =
          runItem r (CfgItem.get id lenCheck store) := rfl
      rw [hdef] at step
      obtain ⟨e1, e2, -⟩ := step
      have hid : id < 256 := by simpa [getItemOK] using hok
      have hw := buildFrame_wire r.cBuf 0x02 [GET_CONFIG, id] rfl (by decide) (by
        intro b hb
        simp only [List.mem_cons, List.mem_singleton, List.not_mem_nil, or_false] at hb
        rcases hb with rfl | rfl
        · decide
        · exact hid)
      rw [e2, e1, hinv, hw]
      simp
    | false =>
      obtain ⟨-, a2, -, a4⟩ := runItem_skip r (CfgItem.get id lenCheck store) hr
      rw [a2, a4, hinv]
  | set id frame => simp [getItemOK] at hok
  | gate minFw => exact hinv
  | sleep ms =>
    have h1 : (runItem r (CfgItem.sleep ms)).fx = r.fx ++ [Effect.Sleep ms] := rfl
    have h2 : (runItem r (CfgItem.sleep ms)).log = r.log := rfl
    rw [h1, h2, sentFrames_sleep, hinv]

/-- Every frame that a run of blocks of `GetConfig` hands to the transport is the
request `02 02 E1 id chk 03` of an exchange of its record, in order. -/
theorem runItems_get_frames (items : List CfgItem) : ∀ (r : CfgRun),
    (∀ it ∈ items, getItemOK it = true) →
    sentFrames r.fx = r.log.map (fun e => wireFrame 0x02 [GET_CONFIG, e.1]) →
    sentFrames (runItems items r).fx =
      (runItems items r).log.map (fun e => wireFrame 0x02 [GET_CONFIG, e.1]) := by
  induction items with
  | nil => intro r _ h; exact h
  | cons it items ih =>
    intro r hok hinv
    exact ih (runItem r it) (fun i hi => hok i (List.mem_cons_of_mem _ hi))
      (runItem_get_frames r it (hok it (List.mem_cons_self _ _)) hinv)

theorem applyStores_preserve {α : Type} (P : ConfigShadow → α)
    (stores : List ((Nat → Nat) → ConfigShadow → ConfigShadow)) :
    (∀ st ∈ stores, ∀ d c, P (st d c) = P c) →
      ∀ (ds : List (Nat → Nat)) (c : ConfigShadow), P (applyStores stores ds c) = P c := by
  induction stores with
  | nil => intro _ ds c; simp [applyStores]
  | cons st stores ih =>
    intro h ds c
    cases ds with
    | nil => simp [applyStores]
    | cons d ds =>
      simp only [applyStores]
      rw [ih (fun s hs => h s (List.mem_cons_of_mem _ hs)) ds, h st (List.mem_cons_self _ _)]

theorem GetConfig_items_eq : GetConfig_items =
    [ CfgItem.get 0x00 false (fun d c => { c with bLoopbackPortEnabled := d 1 }),
      CfgItem.get 0x02 false (fun d c => { c with MaxSDPCurrent := rcvU16 d 1 }),
      CfgItem.get 0x03 false (fun d c => { c with bEstimatePortVoltage := d 1 }),
      CfgItem.get 0x04 false (fun d c => { c with CableResistance := rcvU16 d 1 }),
      CfgItem.gate 38,
      CfgItem.get 0x05 false (fun d c => { c with DefaultProfileIndex := d 1 }),
      CfgItem.get 0x06 true (fun d c => { c with DefaultVoltage := rcvU16 d 1 }),
      CfgItem.get 0x07 true (fun d c => { c with DefaultLoad := rcvU16 d 1 }),
      CfgItem.get 0x08 true (fun d c => { c with OperatingCurrent := rcvU16 d 1 }),
      CfgItem.gate 41,
      CfgItem.get 0x09 true
        (fun d c => { c with SinkCapMV := rcvU16 d 1, SinkCapMA := rcvU16 d 3 }),
      CfgItem.get 0x0A true (fun d c => storeProfileLimit 0 (rcvU16 d 1 % 65536) c),
      CfgItem.get 0x0B true (fun d c => storeProfileLimit 1 (rcvU16 d 1 % 65536) c),
      CfgItem.get 0x0C true (fun d c => storeProfileLimit 2 (rcvU16 d 1 % 65536) c),
      CfgItem.get 0x0D true (fun d c => storeProfileLimit 3 (rcvU16 d 1 % 65536) c),
      CfgItem.get 0x0E true (fun d c => storeProfileLimit 4 (rcvU16 d 1 % 65536) c),
      CfgItem.get 0x0F true (fun d c => storeProfileLimit 5 (rcvU16 d 1 % 65536) c),
      CfgItem.get 0x10 true (fun d c => storeProfileLimit 6 (rcvU16 d 1 % 65536) c),
      CfgItem.get 0x11 true (fun d c => storeProfileLimit 7 (rcvU16 d 1 % 65536) c),
      CfgItem.get 0x12 true (fun d c => storeProfileLimit 8 (rcvU16 d 1 % 65536) c),
      CfgItem.gate 42,
      CfgItem.get 0x16 true (fun d c => { c with bHoldLoadOnVChange := d 1 }),
      CfgItem.get 0x17 true (fun d c => { c with bPPSEnabled := d 1 }),
      CfgItem.get 0x18 true (fun d c => { c with bApplyDefaultConfigOnCap := d 1 }),
      CfgItem.get 0x19 true (fun d c => { c with bDefaultConfigFailOnVolt := d 1 }),
      CfgItem.get 0x1A true (fun d c => { c with bDefaultConfigFailOnCurr := d 1 }) ] := rfl

theorem GetConfig_items_ok : ∀ it ∈ GetConfig_items, getItemOK it = true := by
  rw [GetConfig_items_eq]
  decide
/-! ## `GetConfig` and `SetConfig`: claims -/

/-- C14. Firmware gating in `GetConfig`. When every exchange that is issued
succeeds: with a firmware version below 38 exactly the four exchanges for the
parameter ids 0x00, 0x02, 0x03, 0x04 are issued and the result is FALSE; with
a version in 38..40 exactly eight (0x05..0x08 added) and the result is FALSE;
with version 41 exactly eighteen (0x09 and 0x0A..0x12 added) and the result is
FALSE; with a version of 42 or more all twenty-three and the result is TRUE.
In the failing cases the members of the skipped groups keep their values. The
frames handed to the transport are the requests `02 02 E1 id chk 03` of the
recorded exchanges, in order, so no parameter of a skipped group is
requested. -/
theorem GetConfig_firmware_gating (s : PDTester) (cBuf : Nat → Nat)
    (ws : List (List SerialEvent × List SerialEvent))
    (hall : ∀ e ∈ (GetConfig s cBuf ws).log, e.2 = true) :
    (s.FW_Ver < 38 →
        (GetConfig s cBuf ws).log.map Prod.fst = [0x00, 0x02, 0x03, 0x04] ∧
        (GetConfig s cBuf ws).retVal = false ∧
        group38 (GetConfig s cBuf ws).s.cfg = group38 s.cfg ∧
        group41 (GetConfig s cBuf ws).s.cfg = group41 s.cfg ∧
        group42 (GetConfig s cBuf ws).s.cfg = group42 s.cfg) ∧
      (38 ≤ s.FW_Ver ∧ s.FW_Ver ≤ 40 →
        (GetConfig s cBuf ws).log.map Prod.fst =
          [0x00, 0x02, 0x03, 0x04, 0x05, 0x06, 0x07, 0x08] ∧
        (GetConfig s cBuf ws).retVal = false ∧
        group41 (GetConfig s cBuf ws).s.cfg = group41 s.cfg ∧
        group42 (GetConfig s cBuf ws).s.cfg = group42 s.cfg) ∧
      (s.FW_Ver = 41 →
        (GetConfig s cBuf ws).log.map Prod.fst =
          [0x00, 0x02, 0x03, 0x04, 0x05, 0x06, 0x07, 0x08, 0x09, 0x0A, 0x0B, 0x0C, 0x0D, 0x0E,
            0x0F, 0x10, 0x11, 0x12] ∧
        (GetConfig s cBuf ws).retVal = false ∧
        group42 (GetConfig s cBuf ws).s.cfg = group42 s.cfg) ∧
      (42 ≤ s.FW_Ver →
        (GetConfig s cBuf ws).log.map Prod.fst =
          [0x00, 0x02, 0x03, 0x04, 0x05, 0x06, 0x07, 0x08, 0x09, 0x0A, 0x0B, 0x0C, 0x0D, 0x0E,
            0x0F, 0x10, 0x11, 0x12, 0x16, 0x17, 0x18, 0x19, 0x1A] ∧
        (GetConfig s cBuf ws).retVal = true) ∧
      sentFrames (GetConfig s cBuf ws).fx =
        (GetConfig s cBuf ws).log.map (fun e => wireFrame 0x02 [GET_CONFIG, e.1]) := by
  have hfr := runItems_get_frames GetConfig_items
    ⟨s, cBuf, [Effect.EnterCriticalSection], [], ws, true, []⟩ GetConfig_items_ok rfl
  obtain ⟨hlog, hret, -, ds, -, hcfg⟩ := runItems_all_succeed GetConfig_items
    ⟨s, cBuf, [Effect.EnterCriticalSection], [], ws, true, []⟩ rfl hall
  have elog : (GetConfig s cBuf ws).log =
      (runItems GetConfig_items ⟨s, cBuf, [Effect.EnterCriticalSection], [], ws, true, []⟩).log :=
    rfl
  have eret : (GetConfig s cBuf ws).retVal =
      (runItems GetConfig_items
        ⟨s, cBuf, [Effect.EnterCriticalSection], [], ws, true, []⟩).retVal := rfl
  have ecfg : (GetConfig s cBuf ws).s.cfg =
      (runItems GetConfig_items
        ⟨s, cBuf, [Effect.EnterCriticalSection], [], ws, true, []⟩).s.cfg := rfl
  have efx : (GetConfig s cBuf ws).fx =
      (runItems GetConfig_items ⟨s, cBuf, [Effect.EnterCriticalSection], [], ws, true, []⟩).fx ++
        [Effect.LeaveCriticalSection] := rfl
  rw [elog, eret, ecfg, efx, hlog, hret, hcfg]
  simp only [List.nil_append]
  rw [hlog] at hfr
  simp only [List.nil_append] at hfr
  refine ⟨?_, ?_, ?_, ?_, ?_⟩
  · intro h
    have h41 : s.FW_Ver < 41 := by omega
    have h42 : s.FW_Ver < 42 := by omega
    refine ⟨by simp [GetConfig_items_eq, issuedIds, h], by simp [GetConfig_items_eq, gatesPass, h],
      ?_, ?_, ?_⟩ <;>
    · apply applyStores_preserve
      simp [GetConfig_items_eq, issuedStores, h, group38, group41, group42]
  · intro h
    have h38 : ¬ s.FW_Ver < 38 := by omega
    have h41 : s.FW_Ver < 41 := by omega
    refine ⟨by simp [GetConfig_items_eq, issuedIds, h38, h41],
      by simp [GetConfig_items_eq, gatesPass, h38, h41], ?_, ?_⟩ <;>
    · apply applyStores_preserve
      simp [GetConfig_items_eq, issuedStores, h38, h41, group41, group42]
  · intro h
    have h38 : ¬ s.FW_Ver < 38 := by omega
    have h41 : ¬ s.FW_Ver < 41 := by omega
    have h42 : s.FW_Ver < 42 := by omega
    refine ⟨by simp [GetConfig_items_eq, issuedIds, h38, h41, h42],
      by simp [GetConfig_items_eq, gatesPass, h38, h41, h42], ?_⟩
    apply applyStores_preserve
    simp [GetConfig_items_eq, issuedStores, h38, h41, h42, group42, storeProfileLimit]
  · intro h
    have h38 : ¬ s.FW_Ver < 38 := by omega
    have h41 : ¬ s.FW_Ver < 41 := by omega
    have h42 : ¬ s.FW_Ver < 42 := by omega
    exact ⟨by simp [GetConfig_items_eq, issuedIds, h38, h41, h42],
      by simp [GetConfig_items_eq, gatesPass, h38, h41, h42]⟩
  · simp only [sentFrames_append, sentFrames, List.append_nil]
    exact hfr

theorem GetConfig_firmware_gating_witness :
    (∀ e ∈ (GetConfig { PDTester.ctor with FW_Ver := 37 } (fun _ => 0)
        (List.replicate 4 sampleGetWindow)).log, e.2 = true) ∧
      (GetConfig { PDTester.ctor with FW_Ver := 37 } (fun _ => 0)
        (List.replicate 4 sampleGetWindow)).log.map Prod.fst = [0x00, 0x02, 0x03, 0x04] ∧
      (GetConfig { PDTester.ctor with FW_Ver := 37 } (fun _ => 0)
        (List.replicate 4 sampleGetWindow)).retVal = false :=
  ⟨by decide,
    ((GetConfig_firmware_gating { PDTester.ctor with FW_Ver := 37 } (fun _ => 0)
      (List.replicate 4 sampleGetWindow) (by decide)).1 (by decide)).1,
    ((GetConfig_firmware_gating { PDTester.ctor with FW_Ver := 37 } (fun _ => 0)
      (List.replicate 4 sampleGetWindow) (by decide)).1 (by decide)).2.1⟩
/-- A run of blocks of `SetConfig` leaves the configuration members alone, and
the frames it hands to the transport are the requests of its blocks, in order,
one for each exchange of its record. -/
theorem runItems_set_frames (c : ConfigShadow) (items : List CfgItem) : ∀ (r : CfgRun),
    (∀ it ∈ items, setItemOK c it) → r.s.cfg = c →
    (runItems items r).s.cfg = c ∧
      sentFrames (runItems items r).fx =
        sentFrames r.fx ++
          (setFrames c items).take ((runItems items r).log.length - r.log.length) := by
  induction items with
  | nil => intro r _ hc; exact ⟨hc, by simp [runItems, setFrames]⟩
  | cons it items ih =>
    intro r hok hc
    have hrun : runItems (it :: items) r = runItems items (runItem r it) := rfl
    rw [hrun]
    have hok1 := hok it (List.mem_cons_self _ _)
    have hok2 : ∀ i ∈ items, setItemOK c i := fun i hi => hok i (List.mem_cons_of_mem _ hi)
    obtain ⟨l2, hl2⟩ := runItems_log items (runItem r it)
    cases it with
    | get id lenCheck store => exact hok1.elim
    | set id frame =>
      cases hr : r.retVal with
      | true =>
        have step := cfgExchange_step r id (frame r.s.cfg).1
          (SET_CONFIG :: id :: (frame r.s.cfg).2)
          (fun s => decide (s.RcvData 0 = SET_CONFIG)) (fun s => s) hr
        have hdef : cfgExchange r id (frame r.s.cfg).1 (SET_CONFIG :: id :: (frame r.s.cfg).2)
            (fun s => decide (s.RcvData 0 = SET_CONFIG)) (fun s => s) =
            runItem r (CfgItem.set id frame) := rfl
        rw [hdef] at step
        obtain ⟨e1, e2, s2, c1, -, -, c4, c5⟩ := step
        obtain ⟨h1, h2, h3, h4⟩ := hok1
        have hw := buildFrame_wire r.cBuf (frame c).1 (SET_CONFIG :: id :: (frame c).2)
          (by simp [h2]) h3 (by
            intro b hb
            simp only [List.mem_cons] at hb
            rcases hb with rfl | rfl | hb
            · decide
            · exact h1
            · exact h4 b hb)
        have hc2 : (runItem r (CfgItem.set id frame)).s.cfg = c := by
          cases hv : (runItem r (CfgItem.set id frame)).retVal with
          | true => rw [c4 hv, c1, hc]
          | false => rw [c5 hv, c1, hc]
        obtain ⟨i1, i2⟩ := ih _ hok2 hc2
        refine ⟨i1, ?_⟩
        have hlen : (runItems items (runItem r (CfgItem.set id frame))).log.length - r.log.length =
            ((runItems items (runItem r (CfgItem.set id frame))).log.length -
              (runItem r (CfgItem.set id frame)).log.length) + 1 := by
          rw [hl2, e1]
          simp
          omega
        rw [i2, e2, hc, hw, hlen]
        simp [setFrames]
      | false =>
        obtain ⟨a1, a2, a3, a4⟩ := runItem_skip r (CfgItem.set id frame) hr
        obtain ⟨b1, b2, b3, b4⟩ := runItems_skip items _ a1
        rw [b2, b3, b4, a2, a3, a4]
        simp [hc]
    | gate minFw =>
      obtain ⟨i1, i2⟩ := ih (runItem r (CfgItem.gate minFw)) hok2 hc
      exact ⟨i1, by simpa [runItem, setFrames] using i2⟩
    | sleep ms =>
      obtain ⟨i1, i2⟩ := ih (runItem r (CfgItem.sleep ms)) hok2 hc
      refine ⟨i1, ?_⟩
      have h1 : (runItem r (CfgItem.sleep ms)).fx = r.fx ++ [Effect.Sleep ms] := rfl
      have h2 : (runItem r (CfgItem.sleep ms)).log = r.log := rfl
      rw [h1, h2, sentFrames_sleep] at i2
      rw [i2]
      simp [setFrames]

theorem SetConfig_items_eq (FORCE_LIMIT : Nat) : SetConfig_items FORCE_LIMIT =
    [ CfgItem.set 0x00 (fun c => (0x03, [c.bLoopbackPortEnabled % 256])),
      CfgItem.sleep 100,
      CfgItem.set 0x01
        (fun c =>
          if c.CurrentLimitType = FORCE_LIMIT then
            (0x05, [c.CurrentLimitType % 256, (c.MaxCurrent % 256) &&& 0xff,
              ((c.MaxCurrent >>> 8) &&& 0xff) % 256])
          else
            (0x03, [c.CurrentLimitType % 256])),
      CfgItem.sleep 100,
      CfgItem.set 0x02 (fun c => (0x04, lowHigh c.MaxSDPCurrent)),
      CfgItem.sleep 100,
      CfgItem.set 0x03 (fun c => (0x03, [c.bEstimatePortVoltage % 256])),
      CfgItem.sleep 100,
      CfgItem.set 0x04 (fun c => (0x04, lowHigh c.CableResistance)),
      CfgItem.set 0x05 (fun c => (0x03, [c.DefaultProfileIndex % 256])),
      CfgItem.set 0x06 (fun c => (0x04, lowHigh c.DefaultVoltage)),
      CfgItem.set 0x07 (fun c => (0x04, lowHigh c.DefaultLoad)),
      CfgItem.set 0x08 (fun c => (0x04, lowHigh c.OperatingCurrent)),
      CfgItem.set 0x09 (fun c => (0x06, lowHigh c.SinkCapMV ++ lowHigh c.SinkCapMA)),
      CfgItem.set 0x0A (fun c => (0x04, lowHigh (profileLimit 0 c))),
      CfgItem.set 0x0B (fun c => (0x04, lowHigh (profileLimit 1 c))),
      CfgItem.set 0x0C (fun c => (0x04, lowHigh (profileLimit 2 c))),
      CfgItem.set 0x0D (fun c => (0x04, lowHigh (profileLimit 3 c))),
      CfgItem.set 0x0E (fun c => (0x04, lowHigh (profileLimit 4 c))),
      CfgItem.set 0x0F (fun c => (0x04, lowHigh (profileLimit 5 c))),
      CfgItem.set 0x10 (fun c => (0x04, lowHigh (profileLimit 6 c))),
      CfgItem.set 0x11 (fun c => (0x04, lowHigh (profileLimit 7 c))),
      CfgItem.set 0x12 (fun c => (0x04, lowHigh (profileLimit 8 c))),
      CfgItem.set 0x16 (fun c => (0x03, [c.bHoldLoadOnVChange % 256])),
      CfgItem.set 0x17 (fun c => (0x03, [c.bPPSEnabled % 256])),
      CfgItem.set 0x18 (fun c => (0x03, [c.bApplyDefaultConfigOnCap % 256])),
      CfgItem.set 0x19 (fun c => (0x03, [c.bDefaultConfigFailOnVolt % 256])),
      CfgItem.set 0x1A (fun c => (0x03, [c.bDefaultConfigFailOnCurr % 256])) ] := rfl

theorem and_255_lt (x : Nat) : x &&& 255 < 256 :=
  Nat.lt_of_le_of_lt Nat.and_le_right (by decide)

theorem lowHigh_bytes (v : Nat) : (lowHigh v).length = 2 ∧ ∀ b ∈ lowHigh v, b < 256 := by
  refine ⟨rfl, ?_⟩
  intro b hb
  simp only [lowHigh, List.mem_cons, List.mem_singleton, List.not_mem_nil, or_false] at hb
  rcases hb with rfl | rfl <;> exact and_255_lt _

theorem SetConfig_items_ok (FORCE_LIMIT : Nat) (c : ConfigShadow) :
    ∀ it ∈ SetConfig_items FORCE_LIMIT, setItemOK c it := by
  have hm : ∀ x : Nat, x % 256 < 256 := fun x => Nat.mod_lt _ (by decide)
  have hl : ∀ v, ∀ b ∈ lowHigh v, b < 256 := fun v => (lowHigh_bytes v).2
  have hll : ∀ v, (lowHigh v).length = 2 := fun v => (lowHigh_bytes v).1
  intro it hit
  rw [SetConfig_items_eq] at hit
  simp only [List.mem_cons, List.mem_singleton, List.not_mem_nil, or_false] at hit
  rcases hit with rfl | rfl | rfl | rfl | rfl | rfl | rfl | rfl | rfl | rfl | rfl | rfl | rfl |
    rfl | rfl | rfl | rfl | rfl | rfl | rfl | rfl | rfl | rfl | rfl | rfl | rfl | rfl | rfl
  all_goals try simp only [setItemOK]
  all_goals try split_ifs
  all_goals try dsimp only
  all_goals
    refine ⟨by decide, by simp [hll], by decide, ?_⟩
    intro b hb
    try simp only [List.mem_cons, List.mem_append, List.mem_singleton, List.not_mem_nil,
      or_false] at hb
    first
      | exact hl _ b hb
      | (rcases hb with hb | hb <;> exact hl _ b hb)
      | (rcases hb with rfl | rfl | rfl <;> first | exact hm _ | exact and_255_lt _)
/-- C15, counterexample. With firmware version 37 and every exchange
acknowledged, `SetConfig` issues all twenty-four set exchanges, the one for the
default profile index (parameter id 0x05, frame `02 03 E0 05 00 E7 03`) and
every later one included, and returns TRUE. -/
theorem SetConfig_at_firmware_37_sets_every_parameter :
    (SetConfig 1 { PDTester.ctor with FW_Ver := 37 } (fun _ => 0)
        (List.replicate 24 sampleSetWindow)).retVal = true ∧
      (SetConfig 1 { PDTester.ctor with FW_Ver := 37 } (fun _ => 0)
        (List.replicate 24 sampleSetWindow)).log.map Prod.fst = SetConfig_ids ∧
      [0x02, 0x03, 0xE0, 0x05, 0x00, 0xE7, 0x03] ∈
        sentFrames (SetConfig 1 { PDTester.ctor with FW_Ver := 37 } (fun _ => 0)
          (List.replicate 24 sampleSetWindow)).fx := by
  decide

/-- C15, amended. `SetConfig` makes no firmware check: whatever the firmware
version, when every exchange that is issued succeeds, it issues the set
exchanges of all twenty-four parameters (ids 0x00..0x12 and 0x16..0x1A) in
source order, the frames handed to the transport are the requests of these
exchanges built from the configuration members, and the result is TRUE. -/
theorem SetConfig_has_no_firmware_gate (FORCE_LIMIT : Nat) (s : PDTester) (cBuf : Nat → Nat)
    (ws : List (List SerialEvent × List SerialEvent))
    (hall : ∀ e ∈ (SetConfig FORCE_LIMIT s cBuf ws).log, e.2 = true) :
    (SetConfig FORCE_LIMIT s cBuf ws).log.map Prod.fst = SetConfig_ids ∧
      (SetConfig FORCE_LIMIT s cBuf ws).retVal = true ∧
      sentFrames (SetConfig FORCE_LIMIT s cBuf ws).fx =
        setFrames s.cfg (SetConfig_items FORCE_LIMIT) ∧
      (sentFrames (SetConfig FORCE_LIMIT s cBuf ws).fx).map (fun f => (f.getD 2 0, f.getD 3 0)) =
        SetConfig_ids.map (fun id => (SET_CONFIG, id)) := by
  obtain ⟨hlog, hret, -, -⟩ := runItems_all_succeed (SetConfig_items FORCE_LIMIT)
    ⟨s, cBuf, [Effect.EnterCriticalSection], [], ws, true, []⟩ rfl hall
  obtain ⟨-, hfr⟩ := runItems_set_frames s.cfg (SetConfig_items FORCE_LIMIT)
    ⟨s, cBuf, [Effect.EnterCriticalSection], [], ws, true, []⟩
    (SetConfig_items_ok FORCE_LIMIT s.cfg) rfl
  dsimp only at hlog hret hfr
  have elog : (SetConfig FORCE_LIMIT s cBuf ws).log =
      (runItems (SetConfig_items FORCE_LIMIT)
        ⟨s, cBuf, [Effect.EnterCriticalSection], [], ws, true, []⟩).log := rfl
  have eret : (SetConfig FORCE_LIMIT s cBuf ws).retVal =
      (runItems (SetConfig_items FORCE_LIMIT)
        ⟨s, cBuf, [Effect.EnterCriticalSection], [], ws, true, []⟩).retVal := rfl
  have efx : (SetConfig FORCE_LIMIT s cBuf ws).fx =
      (runItems (SetConfig_items FORCE_LIMIT)
        ⟨s, cBuf, [Effect.EnterCriticalSection], [], ws, true, []⟩).fx ++
        [Effect.LeaveCriticalSection] := rfl
  have hids : issuedIds s.FW_Ver (SetConfig_items FORCE_LIMIT) = SetConfig_ids := by
    rw [SetConfig_items_eq]
    rfl
  have hgate : gatesPass s.FW_Ver (SetConfig_items FORCE_LIMIT) = true := by
    rw [SetConfig_items_eq]
    rfl
  have hfr2 : sentFrames (SetConfig FORCE_LIMIT s cBuf ws).fx =
      setFrames s.cfg (SetConfig_items FORCE_LIMIT) := by
    rw [efx, sentFrames_append, hfr, hlog, hids]
    have hlen : (setFrames s.cfg (SetConfig_items FORCE_LIMIT)).length = 24 := by
      rw [SetConfig_items_eq]
      rfl
    simp only [sentFrames, List.nil_append, List.append_nil, List.length_map]
    rw [List.take_of_length_le]
    rw [hlen]
    decide
  refine ⟨?_, ?_, hfr2, ?_⟩
  · rw [elog, hlog, hids]
    rfl
  · rw [eret, hret, hgate]
  · rw [hfr2, SetConfig_items_eq]
    simp only [setFrames, wireFrame]
    split_ifs <;> rfl

theorem SetConfig_has_no_firmware_gate_witness :
    (∀ e ∈ (SetConfig 1 { PDTester.ctor with FW_Ver := 37 } (fun _ => 0)
        (List.replicate 24 sampleSetWindow)).log, e.2 = true) ∧
      (SetConfig 1 { PDTester.ctor with FW_Ver := 37 } (fun _ => 0)
        (List.replicate 24 sampleSetWindow)).retVal = true :=
  ⟨by decide,
    (SetConfig_has_no_firmware_gate 1 { PDTester.ctor with FW_Ver := 37 } (fun _ => 0)
      (List.replicate 24 sampleSetWindow) (by decide)).2.1⟩
/-! ## Helper lemmas: exchanges that complete -/

theorem update_set_reset (f : ComSignal → Bool) (sig : ComSignal) (h : f sig = false) :
    Function.update (Function.update f sig true) sig false = f := by
  rw [Function.update_idem]
  funext x
  by_cases hx : x = sig
  · subst hx
    simp [h]
  · simp [Function.update_noteq hx]

/-- The send wait of an exchange that completes. -/
theorem WaitForMultipleObjects_sent (s : PDTester) (timeout : Nat)
    (hs : s.com_events ComSignal.COM_PACKET_SENT = false) :
    (WaitForMultipleObjects s ComSignal.COM_PACKET_SENT timeout
        [SerialEvent.SERIAL_DATA_SENT]).s = s ∧
      (WaitForMultipleObjects s ComSignal.COM_PACKET_SENT timeout
        [SerialEvent.SERIAL_DATA_SENT]).rest = [] ∧
      (WaitForMultipleObjects s ComSignal.COM_PACKET_SENT timeout
        [SerialEvent.SERIAL_DATA_SENT]).status = WaitStatus.WAIT_OBJECT_0 := by
  unfold WaitForMultipleObjects
  rw [waitSignal_cons_unset _ _ _ _ hs]
  simp only [onSerialEvent]
  rw [waitSignal_nil_set _ _ (by simp)]
  refine ⟨?_, rfl, rfl⟩
  simp only [update_set_reset _ _ hs]

/-- The response wait of an exchange that completes. -/
theorem WaitForMultipleObjects_response (s : PDTester) (timeout : Nat) (L : Nat)
    (payload : List Nat) (c : Nat) (h0 : s.NumRcvBytes = 0)
    (ha : s.com_events ComSignal.COM_PACKET_ARRIVED = false)
    (hL : payload.length = L) (hpos : 0 < L)
    (htag : payload.getD 0 0 < 0x20 ∨ 0x25 < payload.getD 0 0) :
    (WaitForMultipleObjects s ComSignal.COM_PACKET_ARRIVED timeout
        [SerialEvent.SERIAL_DATA_ARRIVAL (frameBytes L payload c 0x03)]).s =
        responseState s L payload c ∧
      (WaitForMultipleObjects s ComSignal.COM_PACKET_ARRIVED timeout
        [SerialEvent.SERIAL_DATA_ARRIVAL (frameBytes L payload c 0x03)]).rest = [] ∧
      (WaitForMultipleObjects s ComSignal.COM_PACKET_ARRIVED timeout
        [SerialEvent.SERIAL_DATA_ARRIVAL (frameBytes L payload c 0x03)]).status =
        WaitStatus.WAIT_OBJECT_0 := by
  have htag2 : (acceptState s L payload c).RcvDataTmp 0 < 0x20 ∨
      0x25 < (acceptState s L payload c).RcvDataTmp 0 := by
    simpa [acceptState, memcpy, hpos] using htag
  unfold WaitForMultipleObjects
  rw [waitSignal_cons_unset _ _ _ _ ha]
  simp only [onSerialEvent]
  rw [onDataArrival_frame_accept s L payload c h0 hL, routePacket_response _ htag2,
    waitSignal_nil_set _ _ (by simp)]
  refine ⟨?_, rfl, rfl⟩
  have hce : (acceptState s L payload c).com_events = s.com_events := rfl
  simp only [hce, update_set_reset _ _ ha]
  rfl

/-- A block whose exchange completes with a response that passes its test. -/
theorem cfgExchange_completing (r : CfgRun) (id Lb : Nat) (body : List Nat)
    (accept : PDTester → Bool) (store : PDTester → PDTester) (L : Nat) (payload : List Nat)
    (c : Nat) (rest : List (List SerialEvent × List SerialEvent))
    (hr : r.retVal = true) (hp : r.pending = [])
    (hws : r.ws = completing (frameBytes L payload c 0x03) :: rest)
    (h0 : r.s.NumRcvBytes = 0) (hs : r.s.com_events ComSignal.COM_PACKET_SENT = false)
    (ha : r.s.com_events ComSignal.COM_PACKET_ARRIVED = false)
    (hL : payload.length = L) (hpos : 0 < L)
    (htag : payload.getD 0 0 < 0x20 ∨ 0x25 < payload.getD 0 0)
    (hacc : accept (responseState r.s L payload c) = true) :
    (cfgExchange r id Lb body accept store).retVal = true ∧
      (cfgExchange r id Lb body accept store).pending = [] ∧
      (cfgExchange r id Lb body accept store).ws = rest ∧
      (cfgExchange r id Lb body accept store).s = store (responseState r.s L payload c) ∧
      (cfgExchange r id Lb body accept store).log = r.log ++ [(id, true)] := by
  obtain ⟨a1, a2, a3⟩ := WaitForMultipleObjects_sent r.s r.s.TIME_OUT_MS hs
  obtain ⟨b1, b2, b3⟩ := WaitForMultipleObjects_response r.s r.s.TIME_OUT_MS L payload c h0 ha
    hL hpos htag
  unfold cfgExchange
  simp only [hr, hp, hws, completing, List.headD_cons, List.nil_append, List.tail_cons, if_true]
  rw [a1, a2, a3]
  simp only [List.nil_append, if_true]
  rw [b1, b2, b3]
  simp [hacc]
theorem responseState_fields (s : PDTester) (L : Nat) (payload : List Nat) (c : Nat) :
    (responseState s L payload c).NumRcvBytes = 0 ∧
      (responseState s L payload c).com_events = s.com_events ∧
      (responseState s L payload c).FW_Ver = s.FW_Ver ∧
      (responseState s L payload c).cfg = s.cfg ∧
      (responseState s L payload c).RcvDataLen = L ∧
      ∀ i, i < L → i < 64 → (responseState s L payload c).RcvData i = payload.getD i 0 := by
  refine ⟨rfl, rfl, rfl, rfl, rfl, ?_⟩
  intro i h1 h2
  simp [responseState, memcpy, h1, h2]

/-- A run of blocks of `SetConfig` in which every exchange completes and is
acknowledged with a frame whose payload starts with the tag 0xE0. -/
theorem runItems_set_completing (L : Nat) (payload : List Nat) (c : Nat)
    (hL : payload.length = L) (hpos : 0 < L) (htag : payload.getD 0 0 = SET_CONFIG)
    (items : List CfgItem) : ∀ (r : CfgRun) (n : Nat),
    (∀ it ∈ items, setOnly it = true) → r.retVal = true → r.pending = [] →
    r.s.NumRcvBytes = 0 → r.s.com_events ComSignal.COM_PACKET_SENT = false →
    r.s.com_events ComSignal.COM_PACKET_ARRIVED = false →
    r.ws = List.replicate n (completing (frameBytes L payload c 0x03)) →
    (issuedIds r.s.FW_Ver items).length ≤ n → (∀ e ∈ r.log, e.2 = true) →
    (runItems items r).retVal = true ∧ (runItems items r).s.NumRcvBytes = 0 ∧
      (runItems items r).s.com_events ComSignal.COM_PACKET_SENT = false ∧
      (runItems items r).s.com_events ComSignal.COM_PACKET_ARRIVED = false ∧
      ∀ e ∈ (runItems items r).log, e.2 = true := by
  induction items with
  | nil => intro r n _ hr _ h0 hs ha _ _ hlog; exact ⟨hr, h0, hs, ha, hlog⟩
  | cons it items ih =>
    intro r n hok hr hp h0 hs ha hws hn hlog
    have hrun : runItems (it :: items) r = runItems items (runItem r it) := rfl
    rw [hrun]
    have hok2 : ∀ i ∈ items, setOnly i = true := fun i hi => hok i (List.mem_cons_of_mem _ hi)
    have hok1 := hok it (List.mem_cons_self _ _)
    cases it with
    | get id lenCheck store => simp [setOnly] at hok1
    | gate minFw => simp [setOnly] at hok1
    | sleep ms =>
      exact ih (runItem r (CfgItem.sleep ms)) n hok2 hr hp h0 hs ha hws
        (by simpa [issuedIds] using hn) hlog
    | set id frame =>
      simp only [issuedIds, List.length_cons] at hn
      obtain ⟨m, rfl⟩ : ∃ m, n = m + 1 := ⟨n - 1, by omega⟩
      rw [List.replicate_succ] at hws
      obtain ⟨f1, f2, f3, f4, f5, f6⟩ := responseState_fields r.s L payload c
      have hacc : (fun s : PDTester => decide (s.RcvData 0 = SET_CONFIG))
          (responseState r.s L payload c) = true := by
        simp only [decide_eq_true_eq]
        rw [f6 0 hpos (by decide), htag]
      obtain ⟨e1, e2, e3, e4, e5⟩ := cfgExchange_completing r id (frame r.s.cfg).1
        (SET_CONFIG :: id :: (frame r.s.cfg).2)
        (fun s => decide (s.RcvData 0 = SET_CONFIG)) (fun s => s) L payload c
        (List.replicate m (completing (frameBytes L payload c 0x03))) hr hp hws h0 hs ha hL hpos
        (by rw [htag]; right; decide) hacc
      have hdef : cfgExchange r id (frame r.s.cfg).1 (SET_CONFIG :: id :: (frame r.s.cfg).2)
          (fun s => decide (s.RcvData 0 = SET_CONFIG)) (fun s => s) =
          runItem r (CfgItem.set id frame) := rfl
      rw [hdef] at e1 e2 e3 e4 e5
      refine ih (runItem r (CfgItem.set id frame)) m hok2 e1 e2 ?_ ?_ ?_ e3 ?_ ?_
      · rw [e4]; exact f1
      · rw [e4, f2]; exact hs
      · rw [e4, f2]; exact ha
      · rw [e4, f3]; omega
      · intro e he
        rw [e5] at he
        simp only [List.mem_append, List.mem_singleton] at he
        rcases he with he | rfl
        · exact hlog e he
        · rfl

/-- A run of blocks of `GetConfig` that passes every firmware check, in which
every exchange completes and the response for each parameter carries the
values that the configuration members already have. -/
theorem runItems_get_completing (c : ConfigShadow) (payloadOf : Nat → List Nat)
    (chk : Nat → Nat) (items : List CfgItem) :
    ∀ (r : CfgRun) (rest : List (List SerialEvent × List SerialEvent)),
    (∀ it ∈ items, getItemFaithful c payloadOf it) → gatesPass r.s.FW_Ver items = true →
    r.retVal = true → r.pending = [] →
    r.s.NumRcvBytes = 0 → r.s.com_events ComSignal.COM_PACKET_SENT = false →
    r.s.com_events ComSignal.COM_PACKET_ARRIVED = false → r.s.cfg = c →
    r.ws = (issuedIds r.s.FW_Ver items).map
      (fun id => completing (frameBytes (payloadOf id).length (payloadOf id) (chk id) 0x03)) ++
        rest →
    (∀ e ∈ r.log, e.2 = true) →
    (runItems items r).retVal = true ∧ (runItems items r).s.cfg = c ∧
      ∀ e ∈ (runItems items r).log, e.2 = true := by
  induction items with
  | nil => intro r rest _ _ hr _ _ _ _ hc _ hlog; exact ⟨hr, hc, hlog⟩
  | cons it items ih =>
    intro r rest hok hg hr hp h0 hs ha hc hws hlog
    have hrun : runItems (it :: items) r = runItems items (runItem r it) := rfl
    rw [hrun]
    have hok2 : ∀ i ∈ items, getItemFaithful c payloadOf i :=
      fun i hi => hok i (List.mem_cons_of_mem _ hi)
    have hok1 := hok it (List.mem_cons_self _ _)
    cases it with
    | set id frame => exact hok1.elim
    | gate minFw =>
      have hfw : ¬ r.s.FW_Ver < minFw := by
        intro h
        simp [gatesPass, h] at hg
      have hg2 : gatesPass r.s.FW_Ver items = true := by simpa [gatesPass, hfw] using hg
      have hws2 : r.ws = (issuedIds r.s.FW_Ver items).map
          (fun id => completing (frameBytes (payloadOf id).length (payloadOf id) (chk id) 0x03)) ++
            rest := by simpa [issuedIds, hfw] using hws
      have hr2 : (runItem r (CfgItem.gate minFw)).retVal = true := by simp [runItem, hfw, hr]
      exact ih (runItem r (CfgItem.gate minFw)) rest hok2 hg2 hr2 hp h0 hs ha hc hws2 hlog
    | sleep ms =>
      exact ih (runItem r (CfgItem.sleep ms)) rest hok2 (by simpa [gatesPass] using hg) hr hp h0
        hs ha hc (by simpa [issuedIds] using hws) hlog
    | get id lenCheck store =>
      obtain ⟨p1, p2, p3⟩ := hok1
      simp only [issuedIds, List.map_cons, List.cons_append] at hws
      obtain ⟨f1, f2, f3, f4, f5, f6⟩ := responseState_fields r.s (payloadOf id).length
        (payloadOf id) (chk id)
      have hacc : (fun s : PDTester =>
          decide (s.RcvData 0 = GET_CONFIG ∧ (lenCheck = true → s.RcvDataLen > 1)))
          (responseState r.s (payloadOf id).length (payloadOf id) (chk id)) = true := by
        simp only [decide_eq_true_eq]
        rw [f6 0 (by omega) (by decide), f5]
        exact ⟨p2, fun _ => p1⟩
      obtain ⟨e1, e2, e3, e4, e5⟩ := cfgExchange_completing r id 0x02 [GET_CONFIG, id]
        (fun s => decide (s.RcvData 0 = GET_CONFIG ∧ (lenCheck = true → s.RcvDataLen > 1)))
        (fun s => { s with cfg := store s.RcvData s.cfg }) (payloadOf id).length (payloadOf id)
        (chk id) _ hr hp hws h0 hs ha rfl (by omega) (by rw [p2]; right; decide) hacc
      have hdef : cfgExchange r id 0x02 [GET_CONFIG, id]
          (fun s => decide (s.RcvData 0 = GET_CONFIG ∧ (lenCheck = true → s.RcvDataLen > 1)))
          (fun s => { s with cfg := store s.RcvData s.cfg }) =
          runItem r (CfgItem.get id lenCheck store) := rfl
      rw [hdef] at e1 e2 e3 e4 e5
      have hfw : (runItem r (CfgItem.get id lenCheck store)).s.FW_Ver = r.s.FW_Ver := by
        rw [e4]
        exact f3
      refine ih (runItem r (CfgItem.get id lenCheck store)) rest hok2 ?_ e1 e2 ?_ ?_ ?_ ?_ ?_ ?_
      · rw [hfw]
        simpa [gatesPass] using hg
      · rw [e4]; exact f1
      · rw [e4]
        show (responseState r.s (payloadOf id).length (payloadOf id) (chk id)).com_events _ = _
        rw [f2]; exact hs
      · rw [e4]
        show (responseState r.s (payloadOf id).length (payloadOf id) (chk id)).com_events _ = _
        rw [f2]; exact ha
      · rw [e4]
        show store (responseState r.s (payloadOf id).length (payloadOf id) (chk id)).RcvData
          (responseState r.s (payloadOf id).length (payloadOf id) (chk id)).cfg = c
        rw [f4, hc]
        exact p3 _ f6
      · rw [e3, hfw]
      · intro e he
        rw [e5] at he
        simp only [List.mem_append, List.mem_singleton] at he
        rcases he with he | rfl
        · exact hlog e he
        · rfl
/-! ## Helper lemmas: values on the wire -/

theorem and_255_eq_mod (x : Nat) : x &&& 255 = x % 256 :=
  Nat.and_pow_two_sub_one_eq_mod x 8

/-- The two bytes that `SetConfig` sends for a 16-bit value, read back the way
`GetConfig` reads them, give the value. -/
theorem lowHigh_decode (d : Nat → Nat) (k v : Nat) (hv : v < 65536)
    (h1 : d k = (lowHigh v).getD 0 0) (h2 : d (k + 1) = (lowHigh v).getD 1 0) :
    rcvU16 d k = v := by
  simp only [lowHigh, List.getD_cons_zero, List.getD_cons_succ] at h1 h2
  rw [and_255_eq_mod] at h1 h2
  simp only [rcvU16, h1, h2, Nat.shiftRight_eq_div_pow, Nat.shiftLeft_eq]
  omega

theorem faithful_byte (c : ConfigShadow) (payloadOf : Nat → List Nat) (id : Nat)
    (lenCheck : Bool) (set : Nat → ConfigShadow → ConfigShadow) (v : Nat) (hv : v < 256)
    (hp : payloadOf id = [GET_CONFIG, v % 256]) (hset : set v c = c) :
    getItemFaithful c payloadOf (CfgItem.get id lenCheck (fun d c => set (d 1) c)) := by
  refine ⟨by rw [hp]; simp [lowHigh], by rw [hp]; rfl, ?_⟩
  intro d hd
  have h1 := hd 1 (by rw [hp]; simp [lowHigh]) (by decide)
  rw [hp] at h1
  simp only [List.getD_cons_zero, List.getD_cons_succ] at h1
  show set (d 1) c = c
  rw [h1, Nat.mod_eq_of_lt hv]
  exact hset

theorem faithful_u16 (c : ConfigShadow) (payloadOf : Nat → List Nat) (id : Nat)
    (lenCheck : Bool) (set : Nat → ConfigShadow → ConfigShadow) (v : Nat) (hv : v < 65536)
    (hp : payloadOf id = GET_CONFIG :: lowHigh v) (hset : set v c = c) :
    getItemFaithful c payloadOf (CfgItem.get id lenCheck (fun d c => set (rcvU16 d 1) c)) := by
  refine ⟨by rw [hp]; simp [lowHigh], by rw [hp]; rfl, ?_⟩
  intro d hd
  have h1 := hd 1 (by rw [hp]; simp [lowHigh]) (by decide)
  have h2 := hd 2 (by rw [hp]; simp [lowHigh]) (by decide)
  rw [hp] at h1 h2
  simp only [List.getD_cons_succ] at h1 h2
  show set (rcvU16 d 1) c = c
  rw [lowHigh_decode d 1 v hv h1 h2]
  exact hset

theorem faithful_pair (c : ConfigShadow) (payloadOf : Nat → List Nat) (id : Nat)
    (lenCheck : Bool) (set : Nat → Nat → ConfigShadow → ConfigShadow) (v w : Nat)
    (hv : v < 65536) (hw : w < 65536)
    (hp : payloadOf id = GET_CONFIG :: (lowHigh v ++ lowHigh w)) (hset : set v w c = c) :
    getItemFaithful c payloadOf
      (CfgItem.get id lenCheck (fun d c => set (rcvU16 d 1) (rcvU16 d 3) c)) := by
  refine ⟨by rw [hp]; simp [lowHigh], by rw [hp]; rfl, ?_⟩
  intro d hd
  have h1 := hd 1 (by rw [hp]; simp [lowHigh]) (by decide)
  have h2 := hd 2 (by rw [hp]; simp [lowHigh]) (by decide)
  have h3 := hd 3 (by rw [hp]; simp [lowHigh]) (by decide)
  have h4 := hd 4 (by rw [hp]; simp [lowHigh]) (by decide)
  rw [hp] at h1 h2 h3 h4
  have e1 : (GET_CONFIG :: (lowHigh v ++ lowHigh w)).getD 1 0 = (lowHigh v).getD 0 0 := rfl
  have e2 : (GET_CONFIG :: (lowHigh v ++ lowHigh w)).getD 2 0 = (lowHigh v).getD 1 0 := rfl
  have e3 : (GET_CONFIG :: (lowHigh v ++ lowHigh w)).getD 3 0 = (lowHigh w).getD 0 0 := rfl
  have e4 : (GET_CONFIG :: (lowHigh v ++ lowHigh w)).getD 4 0 = (lowHigh w).getD 1 0 := rfl
  rw [e1] at h1
  rw [e2] at h2
  rw [e3] at h3
  rw [e4] at h4
  show set (rcvU16 d 1) (rcvU16 d 3) c = c
  rw [lowHigh_decode d 1 v hv h1 h2, lowHigh_decode d 3 w hw h3 h4]
  exact hset
/-- Every block of `GetConfig`, answered by the device that has recorded the
requests of `SetConfig` for the configuration members `c`, stores the values
that `c` already has. -/
theorem GetConfig_items_faithful (FORCE_LIMIT : Nat) (c : ConfigShadow) (hr : wireRange c) :
    ∀ it ∈ GetConfig_items, getItemFaithful c
      (fun id => GET_CONFIG :: deviceValues (setFrames c (SetConfig_items FORCE_LIMIT)) id) it := by
  obtain ⟨⟨b1, b2, b3, b4, b5, b6, b7, b8⟩, ⟨u1, u2, u3, u4, u5, u6, u7⟩,
    ⟨p1, p2, p3, p4, p5, p6, p7, p8, p9⟩⟩ := hr
  intro it hit
  rw [GetConfig_items_eq] at hit
  simp only [List.mem_cons, List.mem_singleton, List.not_mem_nil, or_false] at hit
  rcases hit with rfl | rfl | rfl | rfl | rfl | rfl | rfl | rfl | rfl | rfl | rfl | rfl | rfl |
    rfl | rfl | rfl | rfl | rfl | rfl | rfl | rfl | rfl | rfl | rfl | rfl | rfl
  · exact faithful_byte _ _ _ _ (fun v c => { c with bLoopbackPortEnabled := v })
      c.bLoopbackPortEnabled b1 rfl rfl
  · exact faithful_u16 _ _ _ _ (fun v c => { c with MaxSDPCurrent := v })
      c.MaxSDPCurrent u1 rfl rfl
  · exact faithful_byte _ _ _ _ (fun v c => { c with bEstimatePortVoltage := v })
      c.bEstimatePortVoltage b2 rfl rfl
  · exact faithful_u16 _ _ _ _ (fun v c => { c with CableResistance := v })
      c.CableResistance u2 rfl rfl
  · exact trivial
  · exact faithful_byte _ _ _ _ (fun v c => { c with DefaultProfileIndex := v })
      c.DefaultProfileIndex b3 rfl rfl
  · exact faithful_u16 _ _ _ _ (fun v c => { c with DefaultVoltage := v })
      c.DefaultVoltage u3 rfl rfl
  · exact faithful_u16 _ _ _ _ (fun v c => { c with DefaultLoad := v })
      c.DefaultLoad u4 rfl rfl
  · exact faithful_u16 _ _ _ _ (fun v c => { c with OperatingCurrent := v })
      c.OperatingCurrent u5 rfl rfl
  · exact trivial
  · exact faithful_pair _ _ _ _ (fun v w c => { c with SinkCapMV := v, SinkCapMA := w })
      c.SinkCapMV c.SinkCapMA u6 u7 rfl rfl
  · exact faithful_u16 _ _ _ _ (fun v c => storeProfileLimit 0 (v % 65536) c)
      c.ProfilePDLimit p1
      (by show GET_CONFIG :: lowHigh (c.ProfilePDLimit % 65536) = _; rw [Nat.mod_eq_of_lt p1])
      (by show storeProfileLimit 0 (c.ProfilePDLimit % 65536) c = c
          rw [Nat.mod_eq_of_lt p1]; rfl)
  · exact faithful_u16 _ _ _ _ (fun v c => storeProfileLimit 1 (v % 65536) c)
      c.ProfileUCLimit p2
      (by show GET_CONFIG :: lowHigh (c.ProfileUCLimit % 65536) = _; rw [Nat.mod_eq_of_lt p2])
      (by show storeProfileLimit 1 (c.ProfileUCLimit % 65536) c = c
          rw [Nat.mod_eq_of_lt p2]; rfl)
  · exact faithful_u16 _ _ _ _ (fun v c => storeProfileLimit 2 (v % 65536) c)
      c.ProfileBCLimit p3
      (by show GET_CONFIG :: lowHigh (c.ProfileBCLimit % 65536) = _; rw [Nat.mod_eq_of_lt p3])
      (by show storeProfileLimit 2 (c.ProfileBCLimit % 65536) c = c
          rw [Nat.mod_eq_of_lt p3]; rfl)
  · exact faithful_u16 _ _ _ _ (fun v c => storeProfileLimit 3 (v % 65536) c)
      c.ProfileQC5Limit p4
      (by show GET_CONFIG :: lowHigh (c.ProfileQC5Limit % 65536) = _; rw [Nat.mod_eq_of_lt p4])
      (by show storeProfileLimit 3 (c.ProfileQC5Limit % 65536) c = c
          rw [Nat.mod_eq_of_lt p4]; rfl)
  · exact faithful_u16 _ _ _ _ (fun v c => storeProfileLimit 4 (v % 65536) c)
      c.ProfileQC9Limit p5
      (by show GET_CONFIG :: lowHigh (c.ProfileQC9Limit % 65536) = _; rw [Nat.mod_eq_of_lt p5])
      (by show storeProfileLimit 4 (c.ProfileQC9Limit % 65536) c = c
          rw [Nat.mod_eq_of_lt p5]; rfl)
  · exact faithful_u16 _ _ _ _ (fun v c => storeProfileLimit 5 (v % 65536) c)
      c.ProfileQC12Limit p6
      (by show GET_CONFIG :: lowHigh (c.ProfileQC12Limit % 65536) = _; rw [Nat.mod_eq_of_lt p6])
      (by show storeProfileLimit 5 (c.ProfileQC12Limit % 65536) c = c
          rw [Nat.mod_eq_of_lt p6]; rfl)
  · exact faithful_u16 _ _ _ _ (fun v c => storeProfileLimit 6 (v % 65536) c)
      c.ProfileQC20Limit p7
      (by show GET_CONFIG :: lowHigh (c.ProfileQC20Limit % 65536) = _; rw [Nat.mod_eq_of_lt p7])
      (by show storeProfileLimit 6 (c.ProfileQC20Limit % 65536) c = c
          rw [Nat.mod_eq_of_lt p7]; rfl)
  · exact faithful_u16 _ _ _ _ (fun v c => storeProfileLimit 7 (v % 65536) c)
      c.ProfileAppleLimit p8
      (by show GET_CONFIG :: lowHigh (c.ProfileAppleLimit % 65536) = _; rw [Nat.mod_eq_of_lt p8])
      (by show storeProfileLimit 7 (c.ProfileAppleLimit % 65536) c = c
          rw [Nat.mod_eq_of_lt p8]; rfl)
  · exact faithful_u16 _ _ _ _ (fun v c => storeProfileLimit 8 (v % 65536) c)
      c.ProfileSamsung2ALimit p9
      (by show GET_CONFIG :: lowHigh (c.ProfileSamsung2ALimit % 65536) = _
          rw [Nat.mod_eq_of_lt p9])
      (by show storeProfileLimit 8 (c.ProfileSamsung2ALimit % 65536) c = c
          rw [Nat.mod_eq_of_lt p9]; rfl)
  · exact trivial
  · exact faithful_byte _ _ _ _ (fun v c => { c with bHoldLoadOnVChange := v })
      c.bHoldLoadOnVChange b4 rfl rfl
  · exact faithful_byte _ _ _ _ (fun v c => { c with bPPSEnabled := v })
      c.bPPSEnabled b5 rfl rfl
  · exact faithful_byte _ _ _ _ (fun v c => { c with bApplyDefaultConfigOnCap := v })
      c.bApplyDefaultConfigOnCap b6 rfl rfl
  · exact faithful_byte _ _ _ _ (fun v c => { c with bDefaultConfigFailOnVolt := v })
      c.bDefaultConfigFailOnVolt b7 rfl rfl
  · exact faithful_byte _ _ _ _ (fun v c => { c with bDefaultConfigFailOnCurr := v })
      c.bDefaultConfigFailOnCurr b8 rfl rfl
/-- `SetConfig` in which every exchange completes and is acknowledged: the
result, the state left behind and the frames handed to the transport. -/
theorem SetConfig_completing (FORCE_LIMIT : Nat) (s : PDTester) (cBuf : Nat → Nat)
    (h0 : s.NumRcvBytes = 0) (hs : s.com_events ComSignal.COM_PACKET_SENT = false)
    (ha : s.com_events ComSignal.COM_PACKET_ARRIVED = false) :
    (SetConfig FORCE_LIMIT s cBuf (List.replicate 24 (completing deviceAck))).retVal = true ∧
      (SetConfig FORCE_LIMIT s cBuf (List.replicate 24 (completing deviceAck))).s.NumRcvBytes =
        0 ∧
      (SetConfig FORCE_LIMIT s cBuf (List.replicate 24 (completing deviceAck))).s.com_events
        ComSignal.COM_PACKET_SENT = false ∧
      (SetConfig FORCE_LIMIT s cBuf (List.replicate 24 (completing deviceAck))).s.com_events
        ComSignal.COM_PACKET_ARRIVED = false ∧
      (SetConfig FORCE_LIMIT s cBuf (List.replicate 24 (completing deviceAck))).s.cfg = s.cfg ∧
      (SetConfig FORCE_LIMIT s cBuf (List.replicate 24 (completing deviceAck))).s.FW_Ver =
        s.FW_Ver ∧
      sentFrames (SetConfig FORCE_LIMIT s cBuf (List.replicate 24 (completing deviceAck))).fx =
        setFrames s.cfg (SetConfig_items FORCE_LIMIT) := by
  have hids : issuedIds s.FW_Ver (SetConfig_items FORCE_LIMIT) = SetConfig_ids := by
    rw [SetConfig_items_eq]
    rfl
  have honly : ∀ it ∈ SetConfig_items FORCE_LIMIT, setOnly it = true := by
    rw [SetConfig_items_eq]
    simp [setOnly]
  obtain ⟨a1, a2, a3, a4, a5⟩ := runItems_set_completing 1 [SET_CONFIG]
    (frameChecksum 1 [SET_CONFIG]) rfl (by decide) rfl (SetConfig_items FORCE_LIMIT)
    ⟨s, cBuf, [Effect.EnterCriticalSection], [], List.replicate 24 (completing deviceAck), true, []⟩
    24 honly rfl rfl h0 hs ha rfl (by
      show (issuedIds s.FW_Ver (SetConfig_items FORCE_LIMIT)).length ≤ 24
      rw [hids]
      decide) (by simp)
  obtain ⟨hlog, -, hfw, -⟩ := runItems_all_succeed (SetConfig_items FORCE_LIMIT)
    ⟨s, cBuf, [Effect.EnterCriticalSection], [], List.replicate 24 (completing deviceAck), true, []⟩
    rfl a5
  obtain ⟨hcfg, hfr⟩ := runItems_set_frames s.cfg (SetConfig_items FORCE_LIMIT)
    ⟨s, cBuf, [Effect.EnterCriticalSection], [], List.replicate 24 (completing deviceAck), true, []⟩
    (SetConfig_items_ok FORCE_LIMIT s.cfg) rfl
  dsimp only at hlog hfw hfr
  refine ⟨a1, a2, a3, a4, hcfg, hfw, ?_⟩
  have efx : (SetConfig FORCE_LIMIT s cBuf (List.replicate 24 (completing deviceAck))).fx =
      (runItems (SetConfig_items FORCE_LIMIT)
        ⟨s, cBuf, [Effect.EnterCriticalSection], [], List.replicate 24 (completing deviceAck),
          true, []⟩).fx ++ [Effect.LeaveCriticalSection] := rfl
  have hlen : (setFrames s.cfg (SetConfig_items FORCE_LIMIT)).length = 24 := by
    rw [SetConfig_items_eq]
    rfl
  rw [efx, sentFrames_append, hfr, hlog, hids]
  simp only [sentFrames, List.nil_append, List.append_nil, List.length_map]
  rw [List.take_of_length_le]
  rw [hlen]
  decide

/-- `GetConfig` in which every exchange completes with the answer of the device
that has recorded the requests of `SetConfig` for the configuration members
that the object holds. -/
theorem GetConfig_completing (FORCE_LIMIT : Nat) (s : PDTester) (cBuf : Nat → Nat)
    (hfw : 42 ≤ s.FW_Ver) (h0 : s.NumRcvBytes = 0)
    (hs : s.com_events ComSignal.COM_PACKET_SENT = false)
    (ha : s.com_events ComSignal.COM_PACKET_ARRIVED = false) (hr : wireRange s.cfg) :
    (GetConfig s cBuf (GetConfig_requests.map (fun q =>
        completing (deviceAnswer (setFrames s.cfg (SetConfig_items FORCE_LIMIT)) q)))).retVal =
        true ∧
      sentFrames (GetConfig s cBuf (GetConfig_requests.map (fun q =>
        completing (deviceAnswer (setFrames s.cfg (SetConfig_items FORCE_LIMIT)) q)))).fx =
        GetConfig_requests ∧
      (GetConfig s cBuf (GetConfig_requests.map (fun q =>
        completing (deviceAnswer (setFrames s.cfg (SetConfig_items FORCE_LIMIT)) q)))).s.cfg =
        s.cfg := by
  have h38 : ¬ s.FW_Ver < 38 := by omega
  have h41 : ¬ s.FW_Ver < 41 := by omega
  have h42 : ¬ s.FW_Ver < 42 := by omega
  have hids : issuedIds s.FW_Ver GetConfig_items = GetConfig_ids := by
    simp [GetConfig_items_eq, issuedIds, h38, h41, h42, GetConfig_ids]
  have hgate : gatesPass s.FW_Ver GetConfig_items = true := by
    simp [GetConfig_items_eq, gatesPass, h38, h41, h42]
  have hws : GetConfig_requests.map (fun q =>
        completing (deviceAnswer (setFrames s.cfg (SetConfig_items FORCE_LIMIT)) q)) =
      (issuedIds s.FW_Ver GetConfig_items).map
        (fun id => completing (frameBytes
          (GET_CONFIG :: deviceValues (setFrames s.cfg (SetConfig_items FORCE_LIMIT)) id).length
          (GET_CONFIG :: deviceValues (setFrames s.cfg (SetConfig_items FORCE_LIMIT)) id)
          (frameChecksum
            (1 + (deviceValues (setFrames s.cfg (SetConfig_items FORCE_LIMIT)) id).length)
            (GET_CONFIG :: deviceValues (setFrames s.cfg (SetConfig_items FORCE_LIMIT)) id))
          0x03)) ++ [] := by
    rw [hids, List.append_nil, GetConfig_requests, List.map_map]
    apply List.map_congr_left
    intro id _
    simp only [Function.comp, deviceAnswer, wireFrame, List.getD_cons_succ, List.getD_cons_zero,
      List.cons_append, List.nil_append, List.length_cons, Nat.add_comm 1]
  obtain ⟨a1, a2, a3⟩ := runItems_get_completing s.cfg
    (fun id => GET_CONFIG :: deviceValues (setFrames s.cfg (SetConfig_items FORCE_LIMIT)) id)
    (fun id => frameChecksum
      (1 + (deviceValues (setFrames s.cfg (SetConfig_items FORCE_LIMIT)) id).length)
      (GET_CONFIG :: deviceValues (setFrames s.cfg (SetConfig_items FORCE_LIMIT)) id))
    GetConfig_items
    ⟨s, cBuf, [Effect.EnterCriticalSection], [],
      GetConfig_requests.map (fun q =>
        completing (deviceAnswer (setFrames s.cfg (SetConfig_items FORCE_LIMIT)) q)), true, []⟩
    [] (GetConfig_items_faithful FORCE_LIMIT s.cfg hr) hgate rfl rfl h0 hs ha rfl hws (by simp)
  obtain ⟨hlog, -, -, -⟩ := runItems_all_succeed GetConfig_items
    ⟨s, cBuf, [Effect.EnterCriticalSection], [],
      GetConfig_requests.map (fun q =>
        completing (deviceAnswer (setFrames s.cfg (SetConfig_items FORCE_LIMIT)) q)), true, []⟩
    rfl a3
  have hfr := runItems_get_frames GetConfig_items
    ⟨s, cBuf, [Effect.EnterCriticalSection], [],
      GetConfig_requests.map (fun q =>
        completing (deviceAnswer (setFrames s.cfg (SetConfig_items FORCE_LIMIT)) q)), true, []⟩
    GetConfig_items_ok rfl
  dsimp only at hlog
  refine ⟨a1, ?_, a2⟩
  have efx : (GetConfig s cBuf (GetConfig_requests.map (fun q =>
        completing (deviceAnswer (setFrames s.cfg (SetConfig_items FORCE_LIMIT)) q)))).fx =
      (runItems GetConfig_items
        ⟨s, cBuf, [Effect.EnterCriticalSection], [],
          GetConfig_requests.map (fun q =>
            completing (deviceAnswer (setFrames s.cfg (SetConfig_items FORCE_LIMIT)) q)),
          true, []⟩).fx ++ [Effect.LeaveCriticalSection] := rfl
  rw [efx, sentFrames_append, hfr, hlog, hids]
  simp [sentFrames, GetConfig_requests, Function.comp]

/-- `SetConfig` followed by `GetConfig` on one object against the modelled
device. With a firmware version of 42 or more, the reassembler in the
start-seeking state and both signals unset on entry, the members that travel
as one byte being bytes and the others 16-bit values, and every exchange
completing: `SetConfig` returns TRUE, `GetConfig` run after it returns TRUE,
the frames that `GetConfig` hands to the transport are the twenty-three
requests that the device has answered, and afterwards every configuration
member has the value it had before `SetConfig`. -/
theorem SetConfig_GetConfig_same_shadow (FORCE_LIMIT : Nat) (s : PDTester)
    (cBuf1 cBuf2 : Nat → Nat)
    (hfw : 42 ≤ s.FW_Ver) (h0 : s.NumRcvBytes = 0)
    (hs : s.com_events ComSignal.COM_PACKET_SENT = false)
    (ha : s.com_events ComSignal.COM_PACKET_ARRIVED = false) (hr : wireRange s.cfg) :
    (SetConfig_then_GetConfig FORCE_LIMIT s cBuf1 cBuf2).1.retVal = true ∧
      (SetConfig_then_GetConfig FORCE_LIMIT s cBuf1 cBuf2).2.retVal = true ∧
      sentFrames (SetConfig_then_GetConfig FORCE_LIMIT s cBuf1 cBuf2).2.fx =
        GetConfig_requests ∧
      (SetConfig_then_GetConfig FORCE_LIMIT s cBuf1 cBuf2).2.s.cfg = s.cfg := by
  obtain ⟨a1, a2, a3, a4, a5, a6, a7⟩ := SetConfig_completing FORCE_LIMIT s cBuf1 h0 hs ha
  have b := GetConfig_completing FORCE_LIMIT
    (SetConfig FORCE_LIMIT s cBuf1 (List.replicate 24 (completing deviceAck))).s cBuf2
    (by rw [a6]; exact hfw) a2 a3 a4 (by rw [a5]; exact hr)
  rw [a5] at b
  simp only [SetConfig_then_GetConfig]
  rw [a7]
  exact ⟨a1, b⟩

/-! ## `InjectPDMsgRaw`, buffer bounds and the lock: claims -/

set_option maxRecDepth 8192

/-- C21 (the code at the failing input). `InjectPDMsgRaw` with the 25 message
bytes `01 .. 19` and a local buffer that holds 0xAA everywhere on entry hands
the transport 40 bytes: `02`, the length byte 38, `16`, the 25 message bytes,
the two bytes 0xAA that the buffer held at indices 28 and 29, eight zero
bytes, the checksum and `03`. The length byte is 38 although 36 payload bytes
follow it, the frame has 40 bytes and not 38 + 4, and the message is followed
by two bytes that were never written instead of ten zero bytes. With the four
message bytes `01 .. 04` the frame is well formed. -/
theorem InjectPDMsgRaw_padded_frame :
    sentFrames (InjectPDMsgRaw PDTester.ctor (fun _ => 0xAA) (fun i => i + 1) 25 [] []).fx =
        [[0x02, 38, 0x16, 1, 2, 3, 4, 5, 6, 7, 8, 9, 10, 11, 12, 13, 14, 15, 16, 17, 18, 19, 20,
          21, 22, 23, 24, 25, 0xAA, 0xAA, 0, 0, 0, 0, 0, 0, 0, 0, 48, 0x03]] ∧
      (sentFrames (InjectPDMsgRaw PDTester.ctor (fun _ => 0xAA) (fun i => i + 1) 25 [] []).fx).map
          (fun frame => (frame.length, frame.getD 1 0 + 4)) = [(40, 42)] ∧
      sentFrames (InjectPDMsgRaw PDTester.ctor (fun _ => 0xAA) (fun i => i + 1) 4 [] []).fx =
        [[0x02, 0x05, 0x16, 1, 2, 3, 4, 0x16, 0x03]] := by
  decide

/-- C26 (the code at the failing input). With a message of 50 bytes and a local
buffer that holds 0xAA everywhere on entry, `InjectPDMsg` stores the last
padding zero at index 64, the checksum at index 65 and the terminator at
index 66 of its buffer of 64 bytes and hands 67 bytes to the transport;
`InjectPDMsgRaw` stores a padding zero and then the terminator at index 64,
`checksum` zeroes index 65, and 65 bytes are handed to the transport. -/
theorem InjectPDMsg_writes_beyond_buffer :
    (InjectPDMsg_cBuf (fun _ => 0xAA) 0x43 (fun i => i + 1) 50).2 = 67 ∧
      (InjectPDMsg_cBuf (fun _ => 0xAA) 0x43 (fun i => i + 1) 50).1 64 = 0 ∧
      (InjectPDMsg_cBuf (fun _ => 0xAA) 0x43 (fun i => i + 1) 50).1 65 = 25 ∧
      (InjectPDMsg_cBuf (fun _ => 0xAA) 0x43 (fun i => i + 1) 50).1 66 = 0x03 ∧
      (InjectPDMsgRaw_cBuf (fun _ => 0xAA) (fun i => i + 1) 50).2 = 65 ∧
      (InjectPDMsgRaw_cBuf (fun _ => 0xAA) (fun i => i + 1) 50).1 64 = 0x03 ∧
      (InjectPDMsgRaw_cBuf (fun _ => 0xAA) (fun i => i + 1) 50).1 65 = 0 ∧
      (sentFrames (InjectPDMsg PDTester.ctor (fun _ => 0xAA) 0x43 (fun i => i + 1) 50 []
        []).fx).map List.length = [67] ∧
      (sentFrames (InjectPDMsgRaw PDTester.ctor (fun _ => 0xAA) (fun i => i + 1) 50 []
        []).fx).map List.length = [65] := by
  decide

/-- C27 (the code at the failing input). Thread A calls `InjectPDMsg`; its
exchange completes with the response `02 02 15 00 16 03` (tag 0x15, status 0)
and A releases the lock (line 1862) before it reads `RcvData[1]` (line 1863).
Thread B then runs `GetDevInfo` to its end, with the response
`02 03 01 14 2E 39 03`. When A goes on, `RcvData[1]` is B's byte 0x14 and A
returns FALSE; had A read `RcvData[1]` before B's command, it would have
returned TRUE. -/
theorem InjectPDMsg_reads_response_after_release :
    (InjectPDMsg_locked PDTester.ctor (fun _ => 0) 0x43 (fun i => i + 1) 4
        [SerialEvent.SERIAL_DATA_SENT]
        [SerialEvent.SERIAL_DATA_ARRIVAL [0x02, 0x02, 0x15, 0x00, 0x16, 0x03]]).retVal = true ∧
      (InjectPDMsg_locked PDTester.ctor (fun _ => 0) 0x43 (fun i => i + 1) 4
        [SerialEvent.SERIAL_DATA_SENT]
        [SerialEvent.SERIAL_DATA_ARRIVAL [0x02, 0x02, 0x15, 0x00, 0x16, 0x03]]).fx.getLast? =
        some Effect.LeaveCriticalSection ∧
      InjectPDMsg_return true
        (InjectPDMsg_locked PDTester.ctor (fun _ => 0) 0x43 (fun i => i + 1) 4
          [SerialEvent.SERIAL_DATA_SENT]
          [SerialEvent.SERIAL_DATA_ARRIVAL [0x02, 0x02, 0x15, 0x00, 0x16, 0x03]]).s = true ∧
      (GetDevInfo
        (InjectPDMsg_locked PDTester.ctor (fun _ => 0) 0x43 (fun i => i + 1) 4
          [SerialEvent.SERIAL_DATA_SENT]
          [SerialEvent.SERIAL_DATA_ARRIVAL [0x02, 0x02, 0x15, 0x00, 0x16, 0x03]]).s
        (fun _ => 0) 0 0 [SerialEvent.SERIAL_DATA_SENT]
        [SerialEvent.SERIAL_DATA_ARRIVAL [0x02, 0x03, 0x01, 0x14, 0x2E, 0x39, 0x03]]).retVal =
        true ∧
      sentFrames (GetDevInfo
        (InjectPDMsg_locked PDTester.ctor (fun _ => 0) 0x43 (fun i => i + 1) 4
          [SerialEvent.SERIAL_DATA_SENT]
          [SerialEvent.SERIAL_DATA_ARRIVAL [0x02, 0x02, 0x15, 0x00, 0x16, 0x03]]).s
        (fun _ => 0) 0 0 [SerialEvent.SERIAL_DATA_SENT]
        [SerialEvent.SERIAL_DATA_ARRIVAL [0x02, 0x03, 0x01, 0x14, 0x2E, 0x39, 0x03]]).fx =
        [[0x02, 0x01, 0x01, 0x01, 0x03]] ∧
      InjectPDMsg_return true
        (GetDevInfo
          (InjectPDMsg_locked PDTester.ctor (fun _ => 0) 0x43 (fun i => i + 1) 4
            [SerialEvent.SERIAL_DATA_SENT]
            [SerialEvent.SERIAL_DATA_ARRIVAL [0x02, 0x02, 0x15, 0x00, 0x16, 0x03]]).s
          (fun _ => 0) 0 0 [SerialEvent.SERIAL_DATA_SENT]
          [SerialEvent.SERIAL_DATA_ARRIVAL [0x02, 0x03, 0x01, 0x14, 0x2E, 0x39, 0x03]]).s =
        false := by
  decide
/-! ## Helper lemmas: the lock and the active timeout -/

theorem lockEvents_append (a b : List Effect) :
    lockEvents (a ++ b) = lockEvents a ++ lockEvents b := by
  simp [lockEvents]

theorem lockEvents_of_fromNotification (fx : List Effect)
    (h : ∀ e ∈ fx, fromNotification e = true) : lockEvents fx = [] := by
  induction fx with
  | nil => rfl
  | cons e fx ih =>
    have he := h e (List.mem_cons_self _ _)
    have ih2 := ih (fun e' he' => h e' (List.mem_cons_of_mem _ he'))
    have e0 : lockEvents (e :: fx) = lockEvents [e] ++ lockEvents fx :=
      lockEvents_append [e] fx
    rw [e0, ih2]
    cases e <;> simp [fromNotification] at he <;> simp [lockEvents]

/-- A wait neither acquires nor releases the lock. -/
theorem WaitForMultipleObjects_lockEvents (s : PDTester) (sig : ComSignal) (timeout : Nat)
    (w : List SerialEvent) : lockEvents (WaitForMultipleObjects s sig timeout w).fx = [] := by
  have h := lockEvents_of_fromNotification _ (waitSignal_fromNotification sig w s)
  have e0 : (WaitForMultipleObjects s sig timeout w).fx =
      [Effect.WaitForMultipleObjects sig timeout] ++ (waitSignal sig s w).fx := rfl
  rw [e0, lockEvents_append, h]
  rfl

theorem lockEvents_request (frame : List Nat) :
    lockEvents [Effect.EnterCriticalSection, Effect.sendData frame] =
      [Effect.EnterCriticalSection] := by
  simp [lockEvents]

theorem lockEvents_leave :
    lockEvents [Effect.LeaveCriticalSection] = [Effect.LeaveCriticalSection] := rfl

/-- Effects other than the acquisition and the release leave the lock as it
is. -/
theorem lockAfter_lockEvents (fx : List Effect) : ∀ (held : Option Nat),
    fx.foldl lockStep held = (lockEvents fx).foldl lockStep held := by
  induction fx with
  | nil => intro held; rfl
  | cons e fx ih =>
    intro held
    have e0 : lockEvents (e :: fx) = lockEvents [e] ++ lockEvents fx :=
      lockEvents_append [e] fx
    rw [e0, List.foldl_append, List.foldl_cons, ih]
    congr 1
    cases e <;> cases held with
      | none => simp [lockEvents, lockStep]
      | some n => cases n <;> simp [lockEvents, lockStep]

theorem waitAck_lockEvents (s : PDTester) (frame : List Nat) (cmd : Nat)
    (w1 w2 : List SerialEvent) :
    lockEvents (waitAck s frame cmd w1 w2).fx =
      [Effect.EnterCriticalSection, Effect.LeaveCriticalSection] := by
  unfold waitAck
  dsimp only
  split_ifs <;>
    simp only [lockEvents_append, lockEvents_request, lockEvents_leave,
      WaitForMultipleObjects_lockEvents, List.append_nil, List.singleton_append]

theorem waitAckNested_lockEvents (s : PDTester) (frame : List Nat) (cmd : Nat)
    (w1 w2 : List SerialEvent) :
    lockEvents (waitAckNested s frame cmd w1 w2).fx =
      [Effect.EnterCriticalSection, Effect.LeaveCriticalSection] := by
  unfold waitAckNested
  dsimp only
  split_ifs <;>
    simp only [lockEvents_append, lockEvents_request, lockEvents_leave,
      WaitForMultipleObjects_lockEvents, List.append_nil, List.singleton_append]

theorem waitAck_TIME_OUT_MS (s : PDTester) (frame : List Nat) (cmd : Nat)
    (w1 w2 : List SerialEvent) : (waitAck s frame cmd w1 w2).s.TIME_OUT_MS = s.TIME_OUT_MS := by
  unfold waitAck
  dsimp only
  split_ifs <;> simp only [WaitForMultipleObjects_TIME_OUT_MS]

theorem waitAckNested_TIME_OUT_MS (s : PDTester) (frame : List Nat) (cmd : Nat)
    (w1 w2 : List SerialEvent) :
    (waitAckNested s frame cmd w1 w2).s.TIME_OUT_MS = s.TIME_OUT_MS := by
  unfold waitAckNested
  dsimp only
  split_ifs <;> simp only [WaitForMultipleObjects_TIME_OUT_MS]

theorem lockEvents_send (frame : List Nat) : lockEvents [Effect.sendData frame] = [] := by
  simp [lockEvents]

theorem cfgExchange_quiet (r : CfgRun) (id L : Nat) (body : List Nat)
    (accept : PDTester → Bool) (store : PDTester → PDTester)
    (hstore : ∀ s, (store s).TIME_OUT_MS = s.TIME_OUT_MS) :
    lockEvents (cfgExchange r id L body accept store).fx = lockEvents r.fx ∧
      (cfgExchange r id L body accept store).s.TIME_OUT_MS = r.s.TIME_OUT_MS := by
  unfold cfgExchange
  dsimp only
  split_ifs <;> refine ⟨?_, ?_⟩ <;>
    simp only [lockEvents_append, lockEvents_send, WaitForMultipleObjects_lockEvents,
      List.append_nil, WaitForMultipleObjects_TIME_OUT_MS, hstore]

theorem runItem_quiet (r : CfgRun) (it : CfgItem) :
    lockEvents (runItem r it).fx = lockEvents r.fx ∧
      (runItem r it).s.TIME_OUT_MS = r.s.TIME_OUT_MS := by
  cases it with
  | get id lenCheck store => exact cfgExchange_quiet r _ _ _ _ _ (fun _ => rfl)
  | set id frame => exact cfgExchange_quiet r _ _ _ _ _ (fun _ => rfl)
  | gate minFw => exact ⟨rfl, rfl⟩
  | sleep ms => exact ⟨by simp [runItem, lockEvents_append, lockEvents], rfl⟩

/-- The blocks of `GetConfig` and `SetConfig` neither touch the lock nor change
the active timeout. -/
theorem runItems_quiet (items : List CfgItem) : ∀ (r : CfgRun),
    lockEvents (runItems items r).fx = lockEvents r.fx ∧
      (runItems items r).s.TIME_OUT_MS = r.s.TIME_OUT_MS := by
  induction items with
  | nil => intro r; exact ⟨rfl, rfl⟩
  | cons it items ih =>
    intro r
    obtain ⟨a1, a2⟩ := runItem_quiet r it
    obtain ⟨b1, b2⟩ := ih (runItem r it)
    exact ⟨b1.trans a1, b2.trans a2⟩

theorem GetStepResponse_pass_quiet (r : StepRun) (iw : Nat × List SerialEvent) :
    lockEvents (GetStepResponse_pass r iw).fx = lockEvents r.fx ∧
      (GetStepResponse_pass r iw).s.TIME_OUT_MS = r.s.TIME_OUT_MS := by
  unfold GetStepResponse_pass
  dsimp only
  split_ifs <;> refine ⟨?_, ?_⟩ <;>
    simp only [lockEvents_append, WaitForMultipleObjects_lockEvents, List.append_nil,
      WaitForMultipleObjects_TIME_OUT_MS]

theorem GetStepResponse_passes_quiet (l : List (Nat × List SerialEvent)) : ∀ (r : StepRun),
    lockEvents (l.foldl GetStepResponse_pass r).fx = lockEvents r.fx ∧
      (l.foldl GetStepResponse_pass r).s.TIME_OUT_MS = r.s.TIME_OUT_MS := by
  induction l with
  | nil => intro r; exact ⟨rfl, rfl⟩
  | cons iw l ih =>
    intro r
    obtain ⟨a1, a2⟩ := GetStepResponse_pass_quiet r iw
    obtain ⟨b1, b2⟩ := ih (GetStepResponse_pass r iw)
    exact ⟨b1.trans a1, b2.trans a2⟩

/-- Every command operation acquires the lock once, at its start, and releases
it once, as its last recorded effect among acquisitions and releases. -/
theorem Command_lockEvents (s : PDTester) (c : Command) :
    lockEvents (c.run s).2 = [Effect.EnterCriticalSection, Effect.LeaveCriticalSection] := by
  cases c with
  | GetDevInfo cBuf HW_Ver SW_Ver w1 w2 =>
    simp only [Command.run, GetDevInfo]
    split_ifs <;>
      simp only [lockEvents_append, lockEvents_request, lockEvents_leave,
        WaitForMultipleObjects_lockEvents, List.append_nil, List.singleton_append]
  | GetSubRev cBuf w1 w2 =>
    simp only [Command.run, GetSubRev]
    split_ifs <;>
      simp only [lockEvents_append, lockEvents_request, lockEvents_leave,
        WaitForMultipleObjects_lockEvents, List.append_nil, List.singleton_append]
  | GetConfig cBuf ws =>
    simp only [Command.run, GetConfig, lockEvents_append, (runItems_quiet _ _).1]
    rfl
  | SetConfig FORCE_LIMIT cBuf ws =>
    simp only [Command.run, SetConfig, lockEvents_append, (runItems_quiet _ _).1]
    rfl
  | GetConnectionStatus cBuf out w1 w2 =>
    simp only [Command.run, GetConnectionStatus]
    split_ifs <;>
      simp only [lockEvents_append, lockEvents_request, lockEvents_leave,
        WaitForMultipleObjects_lockEvents, List.append_nil, List.singleton_append]
  | GetCapabilities decl cBuf SourceCapabilities w1 w2 w3 =>
    simp only [Command.run, GetCapabilities, GetCapabilities_receive]
    split_ifs <;>
      simp only [lockEvents_append, lockEvents_request, lockEvents_leave,
        WaitForMultipleObjects_lockEvents, List.append_nil, List.singleton_append]
  | GetStatistics cBuf out w1 w2 =>
    simp only [Command.run, GetStatistics]
    split_ifs <;>
      simp only [lockEvents_append, lockEvents_request, lockEvents_leave,
        WaitForMultipleObjects_lockEvents, List.append_nil, List.singleton_append]
  | SetVoltage cBuf index voltage w1 w2 => exact waitAck_lockEvents _ _ _ _ _
  | SetLoad cBuf set_current w1 w2 => exact waitAck_lockEvents _ _ _ _ _
  | SetLoadFast cBuf set_current slope w1 w2 => exact waitAck_lockEvents _ _ _ _ _
  | SetDefaultVoltage cBuf voltage_mv w1 w2 => exact waitAck_lockEvents _ _ _ _ _
  | SetDefaultLoad cBuf current_ma w1 w2 => exact waitAck_lockEvents _ _ _ _ _
  | GetStepResponse cBuf start_current end_current out w1 w2 w3 w4 =>
    simp only [Command.run, GetStepResponse]
    split_ifs
    · simp only [lockEvents_append, (GetStepResponse_passes_quiet _ _).1, lockEvents_request,
        lockEvents_leave, WaitForMultipleObjects_lockEvents, List.append_nil,
        List.singleton_append]
    · simp only [lockEvents_append, lockEvents_request, lockEvents_leave,
        WaitForMultipleObjects_lockEvents, List.append_nil, List.singleton_append]
  | GetCalibrationData cBuf channel out w1 w2 =>
    simp only [Command.run, GetCalibrationData]
    split_ifs <;>
      simp only [lockEvents_append, lockEvents_request, lockEvents_leave,
        WaitForMultipleObjects_lockEvents, List.append_nil, List.singleton_append]
  | SetCalibrationData cBuf channel year month applied1 measured1 applied2 measured2 w1 w2 =>
    exact waitAckNested_lockEvents _ _ _ _ _
  | ResetCalibrationData cBuf channel w1 w2 => exact waitAckNested_lockEvents _ _ _ _ _
  | SetUsbConnection cBuf isConnected w1 w2 => exact waitAckNested_lockEvents _ _ _ _ _
  | StartPDAnalyzer cBuf callback w1 w2 => exact waitAckNested_lockEvents _ _ _ _ _
  | StopPDAnalyzer cBuf w1 w2 => exact waitAckNested_lockEvents _ _ _ _ _
  | InjectPDMsg cBuf type data dataLen w1 w2 =>
    simp only [Command.run, InjectPDMsg]
    split_ifs <;>
      simp only [lockEvents_append, lockEvents_request, lockEvents_leave,
        WaitForMultipleObjects_lockEvents, List.append_nil, List.singleton_append]
  | InjectPDMsgRaw cBuf rawMsg numBytes w1 w2 =>
    simp only [Command.run, InjectPDMsgRaw]
    split_ifs <;>
      simp only [lockEvents_append, lockEvents_request, lockEvents_leave,
        WaitForMultipleObjects_lockEvents, List.append_nil, List.singleton_append]
theorem onSerialEvent_TIME_OUT_MS (s : PDTester) (ev : SerialEvent) :
    (onSerialEvent s ev).1.TIME_OUT_MS = s.TIME_OUT_MS := by
  cases ev with
  | SERIAL_DATA_ARRIVAL data =>
    simp only [onSerialEvent, onDataArrival]
    split_ifs
    · simp only [routePacket]
      split_ifs <;> simp [(rxBytes_frame _ data).2.2.2]
    · simp [(rxBytes_frame _ data).2.2.2]
    · simp only [routePacket]
      split_ifs <;> simp [(rxBytes_frame _ data).2.2.2]
    · simp [(rxBytes_frame _ data).2.2.2]
  | _ => rfl

/-- The active timeout when a command operation returns. -/
theorem Command_TIME_OUT_MS (s : PDTester) (c : Command) :
    (c.run s).1.TIME_OUT_MS =
      match c with
      | Command.StartPDAnalyzer _ _ _ _ => 3000
      | Command.StopPDAnalyzer _ _ _ => 500
      | _ => s.TIME_OUT_MS := by
  cases c with
  | GetDevInfo cBuf HW_Ver SW_Ver w1 w2 =>
    simp only [Command.run, GetDevInfo]
    split_ifs <;> simp only [WaitForMultipleObjects_TIME_OUT_MS]
  | GetSubRev cBuf w1 w2 =>
    simp only [Command.run, GetSubRev]
    split_ifs <;> simp only [WaitForMultipleObjects_TIME_OUT_MS]
  | GetConfig cBuf ws =>
    simp only [Command.run, GetConfig, (runItems_quiet _ _).2]
  | SetConfig FORCE_LIMIT cBuf ws =>
    simp only [Command.run, SetConfig, (runItems_quiet _ _).2]
  | GetConnectionStatus cBuf out w1 w2 =>
    simp only [Command.run, GetConnectionStatus]
    split_ifs <;> simp only [WaitForMultipleObjects_TIME_OUT_MS]
  | GetCapabilities decl cBuf SourceCapabilities w1 w2 w3 =>
    simp only [Command.run, GetCapabilities, GetCapabilities_receive]
    split_ifs <;> simp only [WaitForMultipleObjects_TIME_OUT_MS]
  | GetStatistics cBuf out w1 w2 =>
    simp only [Command.run, GetStatistics]
    split_ifs <;> simp only [WaitForMultipleObjects_TIME_OUT_MS]
  | SetVoltage cBuf index voltage w1 w2 => exact waitAck_TIME_OUT_MS _ _ _ _ _
  | SetLoad cBuf set_current w1 w2 => exact waitAck_TIME_OUT_MS _ _ _ _ _
  | SetLoadFast cBuf set_current slope w1 w2 => exact waitAck_TIME_OUT_MS _ _ _ _ _
  | SetDefaultVoltage cBuf voltage_mv w1 w2 => exact waitAck_TIME_OUT_MS _ _ _ _ _
  | SetDefaultLoad cBuf current_ma w1 w2 => exact waitAck_TIME_OUT_MS _ _ _ _ _
  | GetStepResponse cBuf start_current end_current out w1 w2 w3 w4 =>
    simp only [Command.run, GetStepResponse]
    split_ifs
    · simp only [(GetStepResponse_passes_quiet _ _).2, WaitForMultipleObjects_TIME_OUT_MS]
    · simp only [WaitForMultipleObjects_TIME_OUT_MS]
  | GetCalibrationData cBuf channel out w1 w2 =>
    simp only [Command.run, GetCalibrationData]
    split_ifs <;> simp only [WaitForMultipleObjects_TIME_OUT_MS]
  | SetCalibrationData cBuf channel year month applied1 measured1 applied2 measured2 w1 w2 =>
    exact waitAckNested_TIME_OUT_MS _ _ _ _ _
  | ResetCalibrationData cBuf channel w1 w2 => exact waitAckNested_TIME_OUT_MS _ _ _ _ _
  | SetUsbConnection cBuf isConnected w1 w2 => exact waitAckNested_TIME_OUT_MS _ _ _ _ _
  | StartPDAnalyzer cBuf callback w1 w2 =>
    simp only [Command.run, StartPDAnalyzer, waitAckNested_TIME_OUT_MS]
  | StopPDAnalyzer cBuf w1 w2 =>
    simp only [Command.run, StopPDAnalyzer]
  | InjectPDMsg cBuf type data dataLen w1 w2 =>
    simp only [Command.run, InjectPDMsg]
    split_ifs <;> simp only [WaitForMultipleObjects_TIME_OUT_MS]
  | InjectPDMsgRaw cBuf rawMsg numBytes w1 w2 =>
    simp only [Command.run, InjectPDMsgRaw]
    split_ifs <;> simp only [WaitForMultipleObjects_TIME_OUT_MS]

/-- C22. Lock release on every exit path. With the command lock as explicit
state: for every public command operation (the twenty-one operations of
`Command`), every state on entry and every course of its waits, the
acquisitions and releases among its effects are one `EnterCriticalSection`
followed by one `LeaveCriticalSection`, and started with the lock free the
operation ends with the lock free, without ever releasing a lock that is not
held. -/
theorem lock_released_on_every_path (s : PDTester) (c : Command) :
    lockEvents (c.run s).2 = [Effect.EnterCriticalSection, Effect.LeaveCriticalSection] ∧
      lockAfter 0 (c.run s).2 = some 0 := by
  refine ⟨Command_lockEvents s c, ?_⟩
  unfold lockAfter
  rw [lockAfter_lockEvents, Command_lockEvents]
  rfl

/-- C23. Active timeout value. Whatever the course of its waits,
`StartPDAnalyzer` returns with `TIME_OUT_MS = 3000` and `StopPDAnalyzer` with
`TIME_OUT_MS = 500`; every other command operation returns with the value of
`TIME_OUT_MS` it was entered with, and the handling of a notification of the
transport leaves it alone. -/
theorem active_timeout_value (s : PDTester) :
    (∀ (cBuf : Nat → Nat) (callback : Bool) (w1 w2 : List SerialEvent),
        (StartPDAnalyzer s cBuf callback w1 w2).s.TIME_OUT_MS = 3000) ∧
      (∀ (cBuf : Nat → Nat) (w1 w2 : List SerialEvent),
        (StopPDAnalyzer s cBuf w1 w2).s.TIME_OUT_MS = 500) ∧
      (∀ c : Command,
        (c.run s).1.TIME_OUT_MS =
          match c with
          | Command.StartPDAnalyzer _ _ _ _ => 3000
          | Command.StopPDAnalyzer _ _ _ => 500
          | _ => s.TIME_OUT_MS) ∧
      (∀ ev : SerialEvent, (onSerialEvent s ev).1.TIME_OUT_MS = s.TIME_OUT_MS) :=
  ⟨fun cBuf callback w1 w2 => Command_TIME_OUT_MS s (Command.StartPDAnalyzer cBuf callback w1 w2),
    fun cBuf w1 w2 => Command_TIME_OUT_MS s (Command.StopPDAnalyzer cBuf w1 w2),
    Command_TIME_OUT_MS s, onSerialEvent_TIME_OUT_MS s⟩
/-! ## Two frames in one notification; capability list capacity: claims -/

/-- C24 (counterexample). The event frame `02 01 20 20 03` (port attached)
followed by the response frame `02 01 01 01 03`, arriving in one data-arrival
notification at a freshly constructed object: both frames are counted, the
response is delivered, and the event callback is not called. -/
theorem two_frames_one_notification_event_lost :
    (onSerialEvent PDTester.ctor
        (SerialEvent.SERIAL_DATA_ARRIVAL
          ([0x02, 0x01, 0x20, 0x20, 0x03] ++ [0x02, 0x01, 0x01, 0x01, 0x03]))).2 =
        [Effect.setRxSize 1, Effect.dataHasBeenRead,
          Effect.SetEvent ComSignal.COM_PACKET_ARRIVED] ∧
      (onSerialEvent PDTester.ctor
        (SerialEvent.SERIAL_DATA_ARRIVAL
          ([0x02, 0x01, 0x20, 0x20, 0x03] ++ [0x02, 0x01, 0x01, 0x01, 0x03]))).1.NumPackets = 2 ∧
      (onSerialEvent PDTester.ctor
        (SerialEvent.SERIAL_DATA_ARRIVAL [0x02, 0x01, 0x20, 0x20, 0x03])).2 =
        [Effect.setRxSize 1, Effect.dataHasBeenRead,
          Effect.EventCallback PDAPI_Event.PDAPI_EVENT_PORT_ATTACHED] := by
  decide

theorem routePacket_deliveries_le_one (s : PDTester) : (routePacket s).2.length ≤ 1 := by
  unfold routePacket
  split_ifs <;> simp

/-- C24 (amended). Two valid frames whose bytes arrive back to back inside a
single data-arrival notification, the reassembler being in the start-seeking
state: both frames are accepted and counted, the payload of the second is
copied over that of the first in the received-payload buffer, and the router
is run once, after the loop, on the result. So at most one delivery is made,
chosen by the tag of the second frame when that frame has a payload; the
first frame is never handed to the router. -/
theorem two_frames_one_notification (s : PDTester) (L1 L2 : Nat) (p1 p2 : List Nat)
    (c1 c2 : Nat) (h0 : s.NumRcvBytes = 0) (hL1 : p1.length = L1) (hL2 : p2.length = L2) :
    onSerialEvent s
        (SerialEvent.SERIAL_DATA_ARRIVAL (frameBytes L1 p1 c1 0x03 ++ frameBytes L2 p2 c2 0x03)) =
        ((routePacket (acceptState (acceptState s L1 p1 c1) L2 p2 c2)).1,
          [Effect.setRxSize 1, Effect.dataHasBeenRead] ++
            (routePacket (acceptState (acceptState s L1 p1 c1) L2 p2 c2)).2) ∧
      (acceptState (acceptState s L1 p1 c1) L2 p2 c2).NumPackets = s.NumPackets + 2 ∧
      (0 < L2 → (acceptState (acceptState s L1 p1 c1) L2 p2 c2).RcvDataTmp 0 = p2.getD 0 0) ∧
      (deliveries (onSerialEvent s
        (SerialEvent.SERIAL_DATA_ARRIVAL
          (frameBytes L1 p1 c1 0x03 ++ frameBytes L2 p2 c2 0x03))).2).length ≤ 1 := by
  have hrx : rxBytes s (frameBytes L1 p1 c1 0x03 ++ frameBytes L2 p2 c2 0x03) =
      (acceptState (acceptState s L1 p1 c1) L2 p2 c2, true) := by
    rw [rxBytes_append, rxBytes_frame_accept s L1 p1 c1 h0 hL1,
      rxBytes_frame_accept (acceptState s L1 p1 c1) L2 p2 c2 rfl hL2]
    rfl
  have hne : frameBytes L1 p1 c1 0x03 ++ frameBytes L2 p2 c2 0x03 ≠ [] := by
    simp [frameBytes]
  have hev : onSerialEvent s
      (SerialEvent.SERIAL_DATA_ARRIVAL (frameBytes L1 p1 c1 0x03 ++ frameBytes L2 p2 c2 0x03)) =
      ((routePacket (acceptState (acceptState s L1 p1 c1) L2 p2 c2)).1,
        [Effect.setRxSize 1, Effect.dataHasBeenRead] ++
          (routePacket (acceptState (acceptState s L1 p1 c1) L2 p2 c2)).2) := by
    simp only [onSerialEvent]
    rw [onDataArrival_nonempty _ _ hne, hrx]
    simp [acceptState]
  refine ⟨hev, ?_, ?_, ?_⟩
  · simp [acceptState]
  · intro hpos
    simp [acceptState, memcpy, hpos]
  · rw [hev]
    have h1 : deliveries ([Effect.setRxSize 1, Effect.dataHasBeenRead] ++
        (routePacket (acceptState (acceptState s L1 p1 c1) L2 p2 c2)).2) =
        deliveries (routePacket (acceptState (acceptState s L1 p1 c1) L2 p2 c2)).2 := by
      simp [deliveries]
    rw [h1, deliveries_routePacket]
    exact routePacket_deliveries_le_one _

theorem two_frames_one_notification_witness :
    (onSerialEvent PDTester.ctor
        (SerialEvent.SERIAL_DATA_ARRIVAL
          (frameBytes 1 [0x20] 0x20 0x03 ++ frameBytes 1 [0x01] 0x01 0x03))).2 =
      [Effect.setRxSize 1, Effect.dataHasBeenRead] ++
        (routePacket (acceptState (acceptState PDTester.ctor 1 [0x20] 0x20) 1 [0x01] 0x01)).2 :=
  congrArg Prod.snd
    (two_frames_one_notification PDTester.ctor 1 1 [0x20] [0x01] 0x20 0x01 rfl rfl rfl).1
/-- C25 (counterexample). The first response declares 15 objects and a second
response arrives, both tagged 0x0B: `GetCapabilities` returns TRUE with
`NumObjects = 15`, and object 14 of the list is the object that the caller's
list held in slot 14 on entry, not one received during the call. -/
theorem GetCapabilities_object_14_not_received :
    (GetCapabilities sampleDecl PDTester.ctor (fun _ => 0)
        { sampleCaps with Object := fun _ => ⟨7, 7, 7777, [7]⟩ }
        [SerialEvent.SERIAL_DATA_SENT]
        [SerialEvent.SERIAL_DATA_ARRIVAL
          [0x02, 0x0B, 0x0B, 0x0F, 0x00, 0x01, 0x02, 0x10, 0x27, 0x01, 0x02, 0x03, 0x04, 0x3E,
            0x03]]
        [SerialEvent.SERIAL_DATA_ARRIVAL
          [0x02, 0x0B, 0x0B, 0x0F, 0x00, 0x05, 0x06, 0x20, 0x4E, 0x09, 0x09, 0x09, 0x09, 0x63,
            0x03]]).retVal = true ∧
      (GetCapabilities sampleDecl PDTester.ctor (fun _ => 0)
        { sampleCaps with Object := fun _ => ⟨7, 7, 7777, [7]⟩ }
        [SerialEvent.SERIAL_DATA_SENT]
        [SerialEvent.SERIAL_DATA_ARRIVAL
          [0x02, 0x0B, 0x0B, 0x0F, 0x00, 0x01, 0x02, 0x10, 0x27, 0x01, 0x02, 0x03, 0x04, 0x3E,
            0x03]]
        [SerialEvent.SERIAL_DATA_ARRIVAL
          [0x02, 0x0B, 0x0B, 0x0F, 0x00, 0x05, 0x06, 0x20, 0x4E, 0x09, 0x09, 0x09, 0x09, 0x63,
            0x03]]).caps.NumObjects = 15 ∧
      (GetCapabilities sampleDecl PDTester.ctor (fun _ => 0)
        { sampleCaps with Object := fun _ => ⟨7, 7, 7777, [7]⟩ }
        [SerialEvent.SERIAL_DATA_SENT]
        [SerialEvent.SERIAL_DATA_ARRIVAL
          [0x02, 0x0B, 0x0B, 0x0F, 0x00, 0x01, 0x02, 0x10, 0x27, 0x01, 0x02, 0x03, 0x04, 0x3E,
            0x03]]
        [SerialEvent.SERIAL_DATA_ARRIVAL
          [0x02, 0x0B, 0x0B, 0x0F, 0x00, 0x05, 0x06, 0x20, 0x4E, 0x09, 0x09, 0x09, 0x09, 0x63,
            0x03]]).caps.Object 14 = ⟨7, 7, 7777, [7]⟩ ∧
      (GetCapabilities sampleDecl PDTester.ctor (fun _ => 0)
        { sampleCaps with Object := fun _ => ⟨7, 7, 7777, [7]⟩ }
        [SerialEvent.SERIAL_DATA_SENT]
        [SerialEvent.SERIAL_DATA_ARRIVAL
          [0x02, 0x0B, 0x0B, 0x0F, 0x00, 0x01, 0x02, 0x10, 0x27, 0x01, 0x02, 0x03, 0x04, 0x3E,
            0x03]]
        [SerialEvent.SERIAL_DATA_ARRIVAL
          [0x02, 0x0B, 0x0B, 0x0F, 0x00, 0x05, 0x06, 0x20, 0x4E, 0x09, 0x09, 0x09, 0x09, 0x63,
            0x03]]).caps.Object 7 = ⟨5, 6, 20000, [9, 9, 9, 9]⟩ := by
  decide

theorem memcpyObjects_lo (decl : CapabilitiesDecl) (O : Nat → USBPD_Object_TypeDef)
    (R : Nat → Nat) (k : Nat) (hk : k < 7) : memcpyObjects decl O 0 R k = objectAt decl R k := by
  simp [memcpyObjects, hk]

theorem memcpyObjects_hi (decl : CapabilitiesDecl) (O : Nat → USBPD_Object_TypeDef)
    (R : Nat → Nat) (k : Nat) (hk : 7 ≤ k) (hk2 : k < 14) :
    memcpyObjects decl O 7 R k = objectAt decl R (k - 7) := by
  have : 7 ≤ k ∧ k < 7 + 7 := by omega
  simp [memcpyObjects, this]

theorem memcpyObjects_out (decl : CapabilitiesDecl) (O : Nat → USBPD_Object_TypeDef)
    (first : Nat) (R : Nat → Nat) (k : Nat) (hk : k < first ∨ first + 7 ≤ k) :
    memcpyObjects decl O first R k = O k := by
  have : ¬ (first ≤ k ∧ k < first + 7) := by omega
  simp [memcpyObjects, this]

/-- The slots that `GetCapabilities` writes when it returns TRUE, in terms of
its three waits `r1`, `r2`, `r3` (list as assembled by lines 1329-1350, before
the AVS rewrite): `NumObjects` is byte 1 of the response buffer after the
second wait, slots 0..6 are filled from the response buffer as the second wait
leaves it, slots 7..13 (when the count is above 7) from the response buffer as
the third wait leaves it, and slots 14 and above are never written. -/
theorem GetCapabilities_slots (decl : CapabilitiesDecl) (s : PDTester) (cBuf : Nat → Nat)
    (SourceCapabilities : USBPD_Capabilities_TypeDef) (w1 w2 w3 : List SerialEvent)
    (r1 r2 r3 : WaitResult)
    (h1 : r1 = WaitForMultipleObjects s ComSignal.COM_PACKET_SENT s.TIME_OUT_MS w1)
    (h2 : r2 = WaitForMultipleObjects r1.s ComSignal.COM_PACKET_ARRIVED r1.s.TIME_OUT_MS
      (r1.rest ++ w2))
    (h3 : r3 = WaitForMultipleObjects r2.s ComSignal.COM_PACKET_ARRIVED r2.s.TIME_OUT_MS
      (r2.rest ++ w3))
    (hret : (GetCapabilities decl s cBuf SourceCapabilities w1 w2 w3).retVal = true) :
    (GetCapabilities_receive decl s cBuf SourceCapabilities w1 w2 w3).caps.NumObjects =
        r2.s.RcvData 1 ∧
      (r2.s.RcvData 1 ≤ 14 → ∀ k : Nat, k < r2.s.RcvData 1 →
        (GetCapabilities_receive decl s cBuf SourceCapabilities w1 w2 w3).caps.Object k =
          if k < 7 then objectAt decl r2.s.RcvData k else objectAt decl r3.s.RcvData (k - 7)) ∧
      (∀ k : Nat, 14 ≤ k →
        (GetCapabilities_receive decl s cBuf SourceCapabilities w1 w2 w3).caps.Object k =
          SourceCapabilities.Object k) := by
  subst h3
  subst h2
  subst h1
  simp only [GetCapabilities] at hret
  revert hret
  simp only [GetCapabilities_receive]
  split_ifs with c1 c2 c3 c4
  · intro _
    refine ⟨rfl, ?_, ?_⟩
    · intro _ k hk
      by_cases h7 : k < 7
      · rw [if_pos h7]
        show memcpyObjects decl _ 7 _ k = _
        rw [memcpyObjects_out _ _ _ _ _ (Or.inl h7), memcpyObjects_lo _ _ _ _ h7]
      · rw [if_neg h7]
        show memcpyObjects decl _ 7 _ k = _
        rw [memcpyObjects_hi _ _ _ _ (by omega) (by omega)]
    · intro k hk
      show memcpyObjects decl _ 7 _ k = _
      rw [memcpyObjects_out _ _ _ _ _ (Or.inr (by omega)),
        memcpyObjects_out _ _ _ _ _ (Or.inr (by omega))]
  · intro h
    exact absurd h (by simp)
  · intro _
    refine ⟨rfl, ?_, ?_⟩
    · intro _ k hk
      have h7 : k < 7 := by
        have : ¬ (_ > 7) := c3
        omega
      rw [if_pos h7]
      exact memcpyObjects_lo _ _ _ _ h7
    · intro k hk
      exact memcpyObjects_out _ _ _ _ _ (Or.inr (by omega))
  · intro h
    exact absurd h (by simp)
  · intro h
    exact absurd h (by simp)

/-! ## Helper lemmas: `GetConfig` and `SetConfig` fail fast -/

/-- The result of a block that is entered: TRUE exactly when both waits return
`WAIT_OBJECT_0` and the response passes the test of the block. -/
theorem cfgExchange_retVal (r : CfgRun) (id L : Nat) (body : List Nat)
    (accept : PDTester → Bool) (store : PDTester → PDTester) (hr : r.retVal = true) :
    (cfgExchange r id L body accept store).retVal = true ↔
      ((WaitForMultipleObjects r.s ComSignal.COM_PACKET_SENT r.s.TIME_OUT_MS
          (r.pending ++ (r.ws.headD ([], [])).1)).status = WaitStatus.WAIT_OBJECT_0 ∧
        (WaitForMultipleObjects
          (WaitForMultipleObjects r.s ComSignal.COM_PACKET_SENT r.s.TIME_OUT_MS
            (r.pending ++ (r.ws.headD ([], [])).1)).s
          ComSignal.COM_PACKET_ARRIVED
          (WaitForMultipleObjects r.s ComSignal.COM_PACKET_SENT r.s.TIME_OUT_MS
            (r.pending ++ (r.ws.headD ([], [])).1)).s.TIME_OUT_MS
          ((WaitForMultipleObjects r.s ComSignal.COM_PACKET_SENT r.s.TIME_OUT_MS
            (r.pending ++ (r.ws.headD ([], [])).1)).rest ++ (r.ws.headD ([], [])).2)).status =
          WaitStatus.WAIT_OBJECT_0 ∧
        accept (WaitForMultipleObjects
          (WaitForMultipleObjects r.s ComSignal.COM_PACKET_SENT r.s.TIME_OUT_MS
            (r.pending ++ (r.ws.headD ([], [])).1)).s
          ComSignal.COM_PACKET_ARRIVED
          (WaitForMultipleObjects r.s ComSignal.COM_PACKET_SENT r.s.TIME_OUT_MS
            (r.pending ++ (r.ws.headD ([], [])).1)).s.TIME_OUT_MS
          ((WaitForMultipleObjects r.s ComSignal.COM_PACKET_SENT r.s.TIME_OUT_MS
            (r.pending ++ (r.ws.headD ([], [])).1)).rest ++ (r.ws.headD ([], [])).2)).s =
          true) := by
  unfold cfgExchange
  simp only [hr, if_true]
  split_ifs with h1 h2
  · simp only [true_iff]
    exact ⟨h1, h2.1, h2.2⟩
  · constructor
    · intro h
      exact absurd h (by simp)
    · intro h
      exact absurd ⟨h.2.1, h.2.2⟩ h2
  · constructor
    · intro h
      exact absurd h (by simp)
    · intro h
      exact absurd h.1 h1

theorem runItem_failfast (r : CfgRun) (it : CfgItem)
    (h1 : r.retVal = true → ∀ e ∈ r.log, e.2 = true) (h2 : ∀ e ∈ r.log.dropLast, e.2 = true) :
    ((runItem r it).retVal = true → ∀ e ∈ (runItem r it).log, e.2 = true) ∧
      ∀ e ∈ (runItem r it).log.dropLast, e.2 = true := by
  have hex : ∀ (id L : Nat) (body : List Nat) (accept : PDTester → Bool)
      (store : PDTester → PDTester),
      ((cfgExchange r id L body accept store).retVal = true →
          ∀ e ∈ (cfgExchange r id L body accept store).log, e.2 = true) ∧
        ∀ e ∈ (cfgExchange r id L body accept store).log.dropLast, e.2 = true := by
    intro id L body accept store
    cases hr : r.retVal with
    | true =>
      obtain ⟨e1, -⟩ := cfgExchange_step r id L body accept store hr
      rw [e1]
      constructor
      · intro hv e he
        simp only [List.mem_append, List.mem_singleton] at he
        rcases he with he | rfl
        · exact h1 hr e he
        · exact hv
      · intro e he
        rw [List.dropLast_concat] at he
        exact h1 hr e he
    | false =>
      have hsame : cfgExchange r id L body accept store = r := by
        simp [cfgExchange, hr]
      rw [hsame]
      exact ⟨h1, h2⟩
  cases it with
  | get id lenCheck store => exact hex _ _ _ _ _
  | set id frame => exact hex _ _ _ _ _
  | gate minFw =>
    refine ⟨?_, h2⟩
    intro hv
    apply h1
    by_cases hfw : r.s.FW_Ver < minFw
    · simp [runItem, hfw] at hv
    · simpa [runItem, hfw] using hv
  | sleep ms => exact ⟨h1, h2⟩

/-- Among the exchanges of a run of blocks only the last one issued can have
failed, and none has failed when the result is TRUE. -/
theorem runItems_failfast (items : List CfgItem) : ∀ (r : CfgRun),
    (r.retVal = true → ∀ e ∈ r.log, e.2 = true) → (∀ e ∈ r.log.dropLast, e.2 = true) →
    ((runItems items r).retVal = true → ∀ e ∈ (runItems items r).log, e.2 = true) ∧
      ∀ e ∈ (runItems items r).log.dropLast, e.2 = true := by
  induction items with
  | nil => intro r h1 h2; exact ⟨h1, h2⟩
  | cons it items ih =>
    intro r h1 h2
    obtain ⟨a1, a2⟩ := runItem_failfast r it h1 h2
    exact ih (runItem r it) a1 a2

/-- The parameter ids of the exchanges of a run of blocks are the ids of the
first blocks of the list, in order. -/
theorem runItems_ids (items : List CfgItem) : ∀ (r : CfgRun),
    (runItems items r).log.map Prod.fst <+: r.log.map Prod.fst ++ blockIds items := by
  induction items with
  | nil => intro r; simp [runItems, blockIds]
  | cons it items ih =>
    intro r
    have hrun : runItems (it :: items) r = runItems items (runItem r it) := rfl
    rw [hrun]
    cases hr : r.retVal with
    | false =>
      obtain ⟨a1, a2, -, -⟩ := runItem_skip r it hr
      obtain ⟨-, b2, -, -⟩ := runItems_skip items _ a1
      rw [b2, a2]
      exact List.prefix_append _ _
    | true =>
      have hi := ih (runItem r it)
      cases it with
      | get id lenCheck store =>
        have e1 := (cfgExchange_step r id 0x02 [GET_CONFIG, id]
          (fun s => decide (s.RcvData 0 = GET_CONFIG ∧ (lenCheck = true → s.RcvDataLen > 1)))
          (fun s => { s with cfg := store s.RcvData s.cfg }) hr).1
        have hl : (runItem r (CfgItem.get id lenCheck store)).log.map Prod.fst =
            r.log.map Prod.fst ++ [id] := by
          show (cfgExchange r id 0x02 [GET_CONFIG, id] _ _).log.map Prod.fst = _
          rw [e1]
          simp
        rw [hl] at hi
        simpa [blockIds] using hi
      | set id frame =>
        have e1 := (cfgExchange_step r id (frame r.s.cfg).1
          (SET_CONFIG :: id :: (frame r.s.cfg).2)
          (fun s => decide (s.RcvData 0 = SET_CONFIG)) (fun s => s) hr).1
        have hl : (runItem r (CfgItem.set id frame)).log.map Prod.fst =
            r.log.map Prod.fst ++ [id] := by
          show (cfgExchange r id (frame r.s.cfg).1 _ _ _).log.map Prod.fst = _
          rw [e1]
          simp
        rw [hl] at hi
        simpa [blockIds] using hi
      | gate minFw => simpa [blockIds, runItem] using hi
      | sleep ms => simpa [blockIds, runItem] using hi

theorem issuedIds_of_gatesPass (fw : Nat) (items : List CfgItem) :
    gatesPass fw items = true → issuedIds fw items = blockIds items := by
  induction items with
  | nil => intro _; rfl
  | cons it items ih =>
    intro h
    cases it with
    | get id lenCheck store => simp [issuedIds, blockIds, ih (by simpa [gatesPass] using h)]
    | set id frame => simp [issuedIds, blockIds, ih (by simpa [gatesPass] using h)]
    | gate minFw =>
      by_cases hfw : fw < minFw
      · simp [gatesPass, hfw] at h
      · simp [issuedIds, blockIds, hfw, ih (by simpa [gatesPass, hfw] using h)]
    | sleep ms => simp [issuedIds, blockIds, ih (by simpa [gatesPass] using h)]

/-- A run of blocks that starts with an empty record and ends with the result
TRUE has issued the exchange of every block, and every exchange has
succeeded. -/
theorem runItems_true (items : List CfgItem) (r : CfgRun) (hlog : r.log = [])
    (hv : (runItems items r).retVal = true) :
    r.retVal = true ∧ gatesPass r.s.FW_Ver items = true ∧
      (runItems items r).log = (blockIds items).map (fun id => (id, true)) := by
  have hr : r.retVal = true := by
    cases h : r.retVal with
    | true => rfl
    | false =>
      rw [(runItems_skip items r h).1] at hv
      exact absurd hv (by simp)
  have hall := (runItems_failfast items r (by rw [hlog]; simp) (by rw [hlog]; simp)).1 hv
  obtain ⟨a1, a2, -, -⟩ := runItems_all_succeed items r hr hall
  have hg : gatesPass r.s.FW_Ver items = true := by rw [← a2]; exact hv
  refine ⟨hr, hg, ?_⟩
  rw [a1, hlog, issuedIds_of_gatesPass _ _ hg]
  rfl

/-! ## `GetConfig` is sequential and fails fast: claim -/

/-- C28 (counterexample). Firmware version 42; every one of the twenty-three
exchanges of `GetConfig` completes (no wait times out: both signals are set
twenty-three times) with a response tagged 0xE1; the response to the last
request (parameter id 0x1A) is `02 01 E1 E1 03`, which carries the tag and no
value byte. All twenty-three requests are issued, no send wait or response
wait has timed out and no tag differs from 0xE1, and the result is FALSE: the
block of parameter 0x1A also tests `RcvDataLen > 1`. -/
theorem GetConfig_fails_on_bare_response :
    sampleBareGetConfig.retVal = false ∧
      sampleBareGetConfig.log.map Prod.fst = GetConfig_ids ∧
      (sentFrames sampleBareGetConfig.fx).length = 23 ∧
      (waitCalls sampleBareGetConfig.fx).length = 46 ∧
      sampleBareGetConfig.fx.count (Effect.SetEvent ComSignal.COM_PACKET_SENT) = 23 ∧
      sampleBareGetConfig.fx.count (Effect.SetEvent ComSignal.COM_PACKET_ARRIVED) = 23 ∧
      sampleBareGetConfig.s.RcvData 0 = GET_CONFIG ∧
      sampleBareGetConfig.s.RcvDataLen = 1 := by
  decide

/-- C28 (amended). `GetConfig` is sequential and fails fast. On every run: the
parameter ids of the exchanges it issues are the first ids, in order, of the
list of its twenty-three blocks; the frames handed to the transport are the
requests `02 02 E1 id chk 03` of these exchanges; among the exchanges only
the last one issued can have failed, so no request follows a failed exchange;
and the result is TRUE exactly when all twenty-three exchanges were issued and
each succeeded. An exchange succeeds exactly when its send wait and its
response wait return `WAIT_OBJECT_0`, byte 0 of the response buffer is 0xE1
and, for the eighteen blocks of the parameters 0x06..0x12 and 0x16..0x1A, the
member `RcvDataLen` is above 1 when the block tests it. `RcvDataLen` is the
member of the reassembler, not the length of the response that was routed: it
is the length byte of the frame last begun, and a discarded byte, a rejected
frame or an empty notification sets it to 0. -/
theorem GetConfig_sequential_fail_fast (s : PDTester) (cBuf : Nat → Nat)
    (ws : List (List SerialEvent × List SerialEvent)) :
    (GetConfig s cBuf ws).log.map Prod.fst <+: GetConfig_ids ∧
      sentFrames (GetConfig s cBuf ws).fx =
        (GetConfig s cBuf ws).log.map (fun e => wireFrame 0x02 [GET_CONFIG, e.1]) ∧
      (∀ e ∈ (GetConfig s cBuf ws).log.dropLast, e.2 = true) ∧
      ((GetConfig s cBuf ws).retVal = true ↔
        (GetConfig s cBuf ws).log = GetConfig_ids.map (fun id => (id, true))) ∧
      lengthTestedIds GetConfig_items =
        [0x06, 0x07, 0x08, 0x09, 0x0A, 0x0B, 0x0C, 0x0D, 0x0E, 0x0F, 0x10, 0x11, 0x12, 0x16,
          0x17, 0x18, 0x19, 0x1A] ∧
      ∀ (r : CfgRun) (id : Nat) (lenCheck : Bool)
        (store : (Nat → Nat) → ConfigShadow → ConfigShadow), r.retVal = true →
        ((runItem r (CfgItem.get id lenCheck store)).log =
            r.log ++ [(id, (runItem r (CfgItem.get id lenCheck store)).retVal)] ∧
          ((runItem r (CfgItem.get id lenCheck store)).retVal = true ↔
            ((WaitForMultipleObjects r.s ComSignal.COM_PACKET_SENT r.s.TIME_OUT_MS
                (r.pending ++ (r.ws.headD ([], [])).1)).status = WaitStatus.WAIT_OBJECT_0 ∧
              (WaitForMultipleObjects
                (WaitForMultipleObjects r.s ComSignal.COM_PACKET_SENT r.s.TIME_OUT_MS
                  (r.pending ++ (r.ws.headD ([], [])).1)).s
                ComSignal.COM_PACKET_ARRIVED r.s.TIME_OUT_MS
                ((WaitForMultipleObjects r.s ComSignal.COM_PACKET_SENT r.s.TIME_OUT_MS
                  (r.pending ++ (r.ws.headD ([], [])).1)).rest ++
                  (r.ws.headD ([], [])).2)).status = WaitStatus.WAIT_OBJECT_0 ∧
              (WaitForMultipleObjects
                (WaitForMultipleObjects r.s ComSignal.COM_PACKET_SENT r.s.TIME_OUT_MS
                  (r.pending ++ (r.ws.headD ([], [])).1)).s
                ComSignal.COM_PACKET_ARRIVED r.s.TIME_OUT_MS
                ((WaitForMultipleObjects r.s ComSignal.COM_PACKET_SENT r.s.TIME_OUT_MS
                  (r.pending ++ (r.ws.headD ([], [])).1)).rest ++
                  (r.ws.headD ([], [])).2)).s.RcvData 0 = GET_CONFIG ∧
              (lenCheck = true →
                1 < (WaitForMultipleObjects
                  (WaitForMultipleObjects r.s ComSignal.COM_PACKET_SENT r.s.TIME_OUT_MS
                    (r.pending ++ (r.ws.headD ([], [])).1)).s
                  ComSignal.COM_PACKET_ARRIVED r.s.TIME_OUT_MS
                  ((WaitForMultipleObjects r.s ComSignal.COM_PACKET_SENT r.s.TIME_OUT_MS
                    (r.pending ++ (r.ws.headD ([], [])).1)).rest ++
                    (r.ws.headD ([], [])).2)).s.RcvDataLen)))) := by
  have hff := runItems_failfast GetConfig_items
    ⟨s, cBuf, [Effect.EnterCriticalSection], [], ws, true, []⟩ (by simp) (by simp)
  have hids := runItems_ids GetConfig_items
    ⟨s, cBuf, [Effect.EnterCriticalSection], [], ws, true, []⟩
  have hfr := runItems_get_frames GetConfig_items
    ⟨s, cBuf, [Effect.EnterCriticalSection], [], ws, true, []⟩ GetConfig_items_ok rfl
  have hb : blockIds GetConfig_items = GetConfig_ids := rfl
  refine ⟨?_, ?_, hff.2, ?_, rfl, ?_⟩
  · simpa [hb] using hids
  · have efx : (GetConfig s cBuf ws).fx =
        (runItems GetConfig_items
          ⟨s, cBuf, [Effect.EnterCriticalSection], [], ws, true, []⟩).fx ++
          [Effect.LeaveCriticalSection] := rfl
    rw [efx, sentFrames_append, hfr]
    simp [sentFrames, GetConfig]
  · constructor
    · intro hv
      have := (runItems_true GetConfig_items
        ⟨s, cBuf, [Effect.EnterCriticalSection], [], ws, true, []⟩ rfl hv).2.2
      rw [hb] at this
      exact this
    · intro hl
      have hall : ∀ e ∈ (runItems GetConfig_items
          ⟨s, cBuf, [Effect.EnterCriticalSection], [], ws, true, []⟩).log, e.2 = true := by
        intro e he
        have hl2 : (runItems GetConfig_items
            ⟨s, cBuf, [Effect.EnterCriticalSection], [], ws, true, []⟩).log =
            GetConfig_ids.map (fun id => (id, true)) := hl
        rw [hl2] at he
        simp only [List.mem_map] at he
        obtain ⟨i, -, rfl⟩ := he
        rfl
      obtain ⟨a1, a2, -, -⟩ := runItems_all_succeed GetConfig_items
        ⟨s, cBuf, [Effect.EnterCriticalSection], [], ws, true, []⟩ rfl hall
      dsimp only at a1 a2
      have hl2 : (runItems GetConfig_items
          ⟨s, cBuf, [Effect.EnterCriticalSection], [], ws, true, []⟩).log =
          GetConfig_ids.map (fun id => (id, true)) := hl
      rw [hl2, List.nil_append] at a1
      have hlen : (issuedIds s.FW_Ver GetConfig_items).length = 23 := by
        have := congrArg List.length a1
        simpa [GetConfig_ids] using this.symm
      show (runItems GetConfig_items
        ⟨s, cBuf, [Effect.EnterCriticalSection], [], ws, true, []⟩).retVal = true
      rw [a2]
      by_cases h38 : s.FW_Ver < 38
      · simp [GetConfig_items_eq, issuedIds, h38] at hlen
      · by_cases h41 : s.FW_Ver < 41
        · simp [GetConfig_items_eq, issuedIds, h38, h41] at hlen
        · by_cases h42 : s.FW_Ver < 42
          · simp [GetConfig_items_eq, issuedIds, h38, h41, h42] at hlen
          · simp [GetConfig_items_eq, gatesPass, h38, h41, h42]
  · intro r id lenCheck store hr
    have hdef : runItem r (CfgItem.get id lenCheck store) =
        cfgExchange r id 0x02 [GET_CONFIG, id]
          (fun s => decide (s.RcvData 0 = GET_CONFIG ∧ (lenCheck = true → s.RcvDataLen > 1)))
          (fun s => { s with cfg := store s.RcvData s.cfg }) := rfl
    rw [hdef]
    refine ⟨(cfgExchange_step r _ _ _ _ _ hr).1, ?_⟩
    rw [cfgExchange_retVal r _ _ _ _ _ hr]
    simp only [WaitForMultipleObjects_TIME_OUT_MS, decide_eq_true_eq, gt_iff_lt]

/-- Witness of C28 (amended): the first block of `GetConfig` entered at a freshly
constructed object, its exchange completing with the response
`02 02 E1 07 00 03`. -/
theorem GetConfig_sequential_fail_fast_witness :
    (⟨PDTester.ctor, fun _ => 0, [], [], [sampleGetWindow], true, []⟩ : CfgRun).retVal = true ∧
      (runItem ⟨PDTester.ctor, fun _ => 0, [], [], [sampleGetWindow], true, []⟩
        (CfgItem.get 0x00 false (fun d c => { c with bLoopbackPortEnabled := d 1 }))).log =
        [(0x00, true)] :=
  ⟨rfl,
    (((GetConfig_sequential_fail_fast PDTester.ctor (fun _ => 0) []).2.2.2.2.2
      ⟨PDTester.ctor, fun _ => 0, [], [], [sampleGetWindow], true, []⟩ 0x00 false
      (fun d c => { c with bLoopbackPortEnabled := d 1 }) rfl).1).trans (by decide)⟩


/-! ## Helper lemmas: the frames of `SetConfig` -/

/-- The entries of `voltages` after the three copies of `GetStepResponse`. -/
theorem memcpyU16_three (v R1 R2 R3 : Nat → Nat) :
    (∀ k, k < 25 →
      memcpyU16 (memcpyU16 (memcpyU16 v (0 * 25) R1 25) (1 * 25) R2 25) (2 * 25) R3 25 k =
          R1 (2 + 2 * k) + 256 * R1 (3 + 2 * k) ∧
        memcpyU16 (memcpyU16 (memcpyU16 v (0 * 25) R1 25) (1 * 25) R2 25) (2 * 25) R3 25
            (25 + k) = R2 (2 + 2 * k) + 256 * R2 (3 + 2 * k) ∧
        memcpyU16 (memcpyU16 (memcpyU16 v (0 * 25) R1 25) (1 * 25) R2 25) (2 * 25) R3 25
            (50 + k) = R3 (2 + 2 * k) + 256 * R3 (3 + 2 * k)) ∧
      ∀ j, 75 ≤ j →
        memcpyU16 (memcpyU16 (memcpyU16 v (0 * 25) R1 25) (1 * 25) R2 25) (2 * 25) R3 25 j =
          v j := by
  constructor
  · intro k hk
    refine ⟨?_, ?_, ?_⟩
    · unfold memcpyU16
      rw [if_neg (by omega), if_neg (by omega), if_pos (by omega)]
      simp
    · unfold memcpyU16
      rw [if_neg (by omega), if_pos (by omega)]
      simp
    · unfold memcpyU16
      rw [if_pos (by omega)]
      simp
  · intro j hj
    unfold memcpyU16
    rw [if_neg (by omega), if_neg (by omega), if_neg (by omega)]

/-- The operation `GetStepResponse` in terms of its four waits. -/
theorem GetStepResponse_eq (s : PDTester) (cBuf : Nat → Nat) (start_current end_current : Nat)
    (out : StepResponse) (w1 w2 w3 w4 : List SerialEvent) (r0 p1 p2 p3 : WaitResult)
    (h0 : r0 = WaitForMultipleObjects s ComSignal.COM_PACKET_SENT 4000 w1)
    (h1 : p1 = WaitForMultipleObjects r0.s ComSignal.COM_PACKET_ARRIVED 6000 (r0.rest ++ w2))
    (h2 : p2 = WaitForMultipleObjects p1.s ComSignal.COM_PACKET_ARRIVED 6000 (p1.rest ++ w3))
    (h3 : p3 = WaitForMultipleObjects p2.s ComSignal.COM_PACKET_ARRIVED 6000 (p2.rest ++ w4)) :
    ((GetStepResponse s cBuf start_current end_current out w1 w2 w3 w4).retVal = true ↔
        r0.status = WaitStatus.WAIT_OBJECT_0 ∧
          (p1.status = WaitStatus.WAIT_OBJECT_0 ∧ p1.s.RcvData 0 = GET_STEP_RESPONSE) ∧
          (p2.status = WaitStatus.WAIT_OBJECT_0 ∧ p2.s.RcvData 0 = GET_STEP_RESPONSE) ∧
          (p3.status = WaitStatus.WAIT_OBJECT_0 ∧ p3.s.RcvData 0 = GET_STEP_RESPONSE)) ∧
      (r0.status ≠ WaitStatus.WAIT_OBJECT_0 →
        waitCalls (GetStepResponse s cBuf start_current end_current out w1 w2 w3 w4).fx =
          [(ComSignal.COM_PACKET_SENT, 4000)]) ∧
      (r0.status = WaitStatus.WAIT_OBJECT_0 →
        ¬ (p1.status = WaitStatus.WAIT_OBJECT_0 ∧ p1.s.RcvData 0 = GET_STEP_RESPONSE) →
        waitCalls (GetStepResponse s cBuf start_current end_current out w1 w2 w3 w4).fx =
          [(ComSignal.COM_PACKET_SENT, 4000), (ComSignal.COM_PACKET_ARRIVED, 6000)]) ∧
      (r0.status = WaitStatus.WAIT_OBJECT_0 →
        (p1.status = WaitStatus.WAIT_OBJECT_0 ∧ p1.s.RcvData 0 = GET_STEP_RESPONSE) →
        ¬ (p2.status = WaitStatus.WAIT_OBJECT_0 ∧ p2.s.RcvData 0 = GET_STEP_RESPONSE) →
        waitCalls (GetStepResponse s cBuf start_current end_current out w1 w2 w3 w4).fx =
          [(ComSignal.COM_PACKET_SENT, 4000), (ComSignal.COM_PACKET_ARRIVED, 6000),
            (ComSignal.COM_PACKET_ARRIVED, 6000)]) ∧
      (r0.status = WaitStatus.WAIT_OBJECT_0 →
        (p1.status = WaitStatus.WAIT_OBJECT_0 ∧ p1.s.RcvData 0 = GET_STEP_RESPONSE) →
        (p2.status = WaitStatus.WAIT_OBJECT_0 ∧ p2.s.RcvData 0 = GET_STEP_RESPONSE) →
        waitCalls (GetStepResponse s cBuf start_current end_current out w1 w2 w3 w4).fx =
          [(ComSignal.COM_PACKET_SENT, 4000), (ComSignal.COM_PACKET_ARRIVED, 6000),
            (ComSignal.COM_PACKET_ARRIVED, 6000), (ComSignal.COM_PACKET_ARRIVED, 6000)]) ∧
      ((GetStepResponse s cBuf start_current end_current out w1 w2 w3 w4).retVal = true →
        (GetStepResponse s cBuf start_current end_current out w1 w2 w3 w4).out.voltages =
            memcpyU16 (memcpyU16 (memcpyU16 out.voltages (0 * 25) p1.s.RcvData 25) (1 * 25)
              p2.s.RcvData 25) (2 * 25) p3.s.RcvData 25 ∧
          (GetStepResponse s cBuf start_current end_current out w1 w2 w3 w4).out.sample_time_us =
            out.sample_time_us.map (fun _ => p3.s.RcvData 1)) := by
  subst h3 h2 h1 h0
  have hw := fun (s0 : PDTester) (sig : ComSignal) (t : Nat) (w : List SerialEvent) =>
    (WaitForMultipleObjects_sentFrames s0 sig t w).2
  have hpre : waitCalls [Effect.EnterCriticalSection,
      Effect.sendData (bufferBytes (GetStepResponse_cBuf cBuf start_current end_current) 9)] =
      [] := rfl
  have hpost : waitCalls [Effect.LeaveCriticalSection] = [] := rfl
  have hE : ∀ fx : List Effect, waitCalls (Effect.EnterCriticalSection :: fx) = waitCalls fx :=
    fun _ => rfl
  have hS : ∀ (b : List Nat) (fx : List Effect),
      waitCalls (Effect.sendData b :: fx) = waitCalls fx := fun _ _ => rfl
  by_cases c0 : (WaitForMultipleObjects s ComSignal.COM_PACKET_SENT 4000 w1).status =
      WaitStatus.WAIT_OBJECT_0
  · by_cases c1 : (WaitForMultipleObjects
          (WaitForMultipleObjects s ComSignal.COM_PACKET_SENT 4000 w1).s
          ComSignal.COM_PACKET_ARRIVED 6000
          ((WaitForMultipleObjects s ComSignal.COM_PACKET_SENT 4000 w1).rest ++ w2)).status =
          WaitStatus.WAIT_OBJECT_0 ∧
        (WaitForMultipleObjects
          (WaitForMultipleObjects s ComSignal.COM_PACKET_SENT 4000 w1).s
          ComSignal.COM_PACKET_ARRIVED 6000
          ((WaitForMultipleObjects s ComSignal.COM_PACKET_SENT 4000 w1).rest ++ w2)).s.RcvData 0 =
          GET_STEP_RESPONSE
    · generalize hp1 : WaitForMultipleObjects
          (WaitForMultipleObjects s ComSignal.COM_PACKET_SENT 4000 w1).s
          ComSignal.COM_PACKET_ARRIVED 6000
          ((WaitForMultipleObjects s ComSignal.COM_PACKET_SENT 4000 w1).rest ++ w2) = p1 at c1 ⊢
      by_cases c2 : (WaitForMultipleObjects p1.s ComSignal.COM_PACKET_ARRIVED 6000
            (p1.rest ++ w3)).status = WaitStatus.WAIT_OBJECT_0 ∧
          (WaitForMultipleObjects p1.s ComSignal.COM_PACKET_ARRIVED 6000
            (p1.rest ++ w3)).s.RcvData 0 = GET_STEP_RESPONSE
      · generalize hp2 : WaitForMultipleObjects p1.s ComSignal.COM_PACKET_ARRIVED 6000
            (p1.rest ++ w3) = p2 at c2 ⊢
        by_cases c3 : (WaitForMultipleObjects p2.s ComSignal.COM_PACKET_ARRIVED 6000
              (p2.rest ++ w4)).status = WaitStatus.WAIT_OBJECT_0 ∧
            (WaitForMultipleObjects p2.s ComSignal.COM_PACKET_ARRIVED 6000
              (p2.rest ++ w4)).s.RcvData 0 = GET_STEP_RESPONSE
        · simp only [GetStepResponse, List.foldl, GetStepResponse_pass, c0, hp1, c1, hp2, c2, c3,
            if_true, and_self]
          simp only [waitCalls_append, hw, hpre, hpost, hE, hS, ← hp1, ← hp2]
          simp only [Option.map_map]
          refine ⟨by simp, by simp, by simp, by simp, by simp, ?_⟩
          intro _
          constructor <;> trivial
        · simp only [GetStepResponse, List.foldl, GetStepResponse_pass, c0, hp1, c1, hp2, c2, c3,
            if_true, if_false, and_self, Bool.false_eq_true]
          simp only [waitCalls_append, hw, hpre, hpost, hE, hS, ← hp1, ← hp2]
          simp
      · simp only [GetStepResponse, List.foldl, GetStepResponse_pass, c0, hp1, c1, c2,
          if_true, if_false, and_self, Bool.false_eq_true]
        simp only [waitCalls_append, hw, hpre, hpost, hE, hS, ← hp1]
        simp
    · simp only [GetStepResponse, List.foldl, GetStepResponse_pass, c0, c1,
        if_true, if_false, and_self, Bool.false_eq_true]
      simp only [waitCalls_append, hw, hpre, hpost, hE, hS]
      simp
  · simp only [GetStepResponse, c0, if_false]
    simp only [waitCalls_append, hw, hpre, hpost, hE, hS]
    simp

/-- The waits of `GetStepResponse` when the send-complete notification arrives
during the send wait and three frames of 52 payload bytes, none with an
asynchronous tag, arrive one during each response wait: every wait returns
`WAIT_OBJECT_0` and the response buffer holds the payload of the frame that
has just arrived. -/
theorem GetStepResponse_waits (s : PDTester) (P0 P1 P2 : List Nat) (c0 c1 c2 : Nat)
    (r0 p1 p2 p3 : WaitResult)
    (h0 : r0 = WaitForMultipleObjects s ComSignal.COM_PACKET_SENT 4000
      [SerialEvent.SERIAL_DATA_SENT])
    (h1 : p1 = WaitForMultipleObjects r0.s ComSignal.COM_PACKET_ARRIVED 6000
      (r0.rest ++ [SerialEvent.SERIAL_DATA_ARRIVAL (frameBytes 52 P0 c0 0x03)]))
    (h2 : p2 = WaitForMultipleObjects p1.s ComSignal.COM_PACKET_ARRIVED 6000
      (p1.rest ++ [SerialEvent.SERIAL_DATA_ARRIVAL (frameBytes 52 P1 c1 0x03)]))
    (h3 : p3 = WaitForMultipleObjects p2.s ComSignal.COM_PACKET_ARRIVED 6000
      (p2.rest ++ [SerialEvent.SERIAL_DATA_ARRIVAL (frameBytes 52 P2 c2 0x03)]))
    (hn : s.NumRcvBytes = 0) (hs : s.com_events ComSignal.COM_PACKET_SENT = false)
    (ha : s.com_events ComSignal.COM_PACKET_ARRIVED = false)
    (hl0 : P0.length = 52) (hl1 : P1.length = 52) (hl2 : P2.length = 52)
    (ht0 : P0.getD 0 0 < 0x20 ∨ 0x25 < P0.getD 0 0)
    (ht1 : P1.getD 0 0 < 0x20 ∨ 0x25 < P1.getD 0 0)
    (ht2 : P2.getD 0 0 < 0x20 ∨ 0x25 < P2.getD 0 0) :
    r0.status = WaitStatus.WAIT_OBJECT_0 ∧ p1.status = WaitStatus.WAIT_OBJECT_0 ∧
      p2.status = WaitStatus.WAIT_OBJECT_0 ∧ p3.status = WaitStatus.WAIT_OBJECT_0 ∧
      ∀ i, i < 52 → p1.s.RcvData i = P0.getD i 0 ∧ p2.s.RcvData i = P1.getD i 0 ∧
        p3.s.RcvData i = P2.getD i 0 := by
  obtain ⟨a1, a2, a3⟩ := WaitForMultipleObjects_sent s 4000 hs
  rw [← h0] at a1 a2 a3
  rw [a1, a2, List.nil_append] at h1
  obtain ⟨b1, b2, b3⟩ := WaitForMultipleObjects_response s 6000 52 P0 c0 hn ha hl0 (by decide) ht0
  rw [← h1] at b1 b2 b3
  obtain ⟨f1, f2, -, -, -, f6⟩ := responseState_fields s 52 P0 c0
  rw [b1, b2, List.nil_append] at h2
  obtain ⟨d1, d2, d3⟩ := WaitForMultipleObjects_response (responseState s 52 P0 c0) 6000 52 P1 c1
    f1 (by rw [f2]; exact ha) hl1 (by decide) ht1
  rw [← h2] at d1 d2 d3
  obtain ⟨g1, g2, -, -, -, g6⟩ := responseState_fields (responseState s 52 P0 c0) 52 P1 c1
  rw [d1, d2, List.nil_append] at h3
  obtain ⟨e1, -, e3⟩ := WaitForMultipleObjects_response
    (responseState (responseState s 52 P0 c0) 52 P1 c1) 6000 52 P2 c2
    g1 (by rw [g2, f2]; exact ha) hl2 (by decide) ht2
  rw [← h3] at e1 e3
  obtain ⟨-, -, -, -, -, k6⟩ := responseState_fields
    (responseState (responseState s 52 P0 c0) 52 P1 c1) 52 P2 c2
  refine ⟨a3, b3, d3, e3, ?_⟩
  intro i hi
  rw [b1, d1, e1]
  exact ⟨f6 i hi (by omega), g6 i hi (by omega), k6 i hi (by omega)⟩

/-! ## `GetStepResponse`: claim -/

/-- C30. `GetStepResponse` waits with its own windows and takes three frames.
With `r0` the wait for send-complete and `p1`, `p2`, `p3` the three waits for a
response, each starting where the one before it ended: the result is TRUE
exactly when all four waits return `WAIT_OBJECT_0` and byte 0 of the response
buffer is 0x13 after each of the three response waits; the waits made are the
send wait with 4000 ms followed by response waits with 6000 ms each, whatever
the value of `TIME_OUT_MS`, and no wait follows the first wait that times out
or the first response with another tag; when the result is TRUE, for every
`k < 25` the entries `k`, `25 + k` and `50 + k` of `voltages` are the 16-bit
values whose low and high bytes are bytes `2 + 2k` and `3 + 2k` of the response
buffer after the first, second and third response wait, the entries from 75 on
are unchanged, and the byte behind a non-null `sample_time_us` is byte 1 of the
response buffer after the third response wait; and when the send-complete
notification and then three frames with 52 payload bytes and the tag 0x13
arrive, one during each wait, at an object with no frame in progress and both
signals unset, the result is TRUE, the entries of `voltages` are the
little-endian values at payload bytes 2 to 51 of the first, second and third
frame, and the sample time is payload byte 1 of the third frame. -/
theorem GetStepResponse_three_frames (s : PDTester) (cBuf : Nat → Nat)
    (start_current end_current : Nat) (out : StepResponse) (w1 w2 w3 w4 : List SerialEvent)
    (r0 p1 p2 p3 : WaitResult)
    (h0 : r0 = WaitForMultipleObjects s ComSignal.COM_PACKET_SENT 4000 w1)
    (h1 : p1 = WaitForMultipleObjects r0.s ComSignal.COM_PACKET_ARRIVED 6000 (r0.rest ++ w2))
    (h2 : p2 = WaitForMultipleObjects p1.s ComSignal.COM_PACKET_ARRIVED 6000 (p1.rest ++ w3))
    (h3 : p3 = WaitForMultipleObjects p2.s ComSignal.COM_PACKET_ARRIVED 6000 (p2.rest ++ w4)) :
    ((GetStepResponse s cBuf start_current end_current out w1 w2 w3 w4).retVal = true ↔
        r0.status = WaitStatus.WAIT_OBJECT_0 ∧
          (p1.status = WaitStatus.WAIT_OBJECT_0 ∧ p1.s.RcvData 0 = GET_STEP_RESPONSE) ∧
          (p2.status = WaitStatus.WAIT_OBJECT_0 ∧ p2.s.RcvData 0 = GET_STEP_RESPONSE) ∧
          (p3.status = WaitStatus.WAIT_OBJECT_0 ∧ p3.s.RcvData 0 = GET_STEP_RESPONSE)) ∧
      (r0.status ≠ WaitStatus.WAIT_OBJECT_0 →
        waitCalls (GetStepResponse s cBuf start_current end_current out w1 w2 w3 w4).fx =
          [(ComSignal.COM_PACKET_SENT, 4000)]) ∧
      (r0.status = WaitStatus.WAIT_OBJECT_0 →
        ¬ (p1.status = WaitStatus.WAIT_OBJECT_0 ∧ p1.s.RcvData 0 = GET_STEP_RESPONSE) →
        waitCalls (GetStepResponse s cBuf start_current end_current out w1 w2 w3 w4).fx =
          [(ComSignal.COM_PACKET_SENT, 4000), (ComSignal.COM_PACKET_ARRIVED, 6000)]) ∧
      (r0.status = WaitStatus.WAIT_OBJECT_0 →
        (p1.status = WaitStatus.WAIT_OBJECT_0 ∧ p1.s.RcvData 0 = GET_STEP_RESPONSE) →
        ¬ (p2.status = WaitStatus.WAIT_OBJECT_0 ∧ p2.s.RcvData 0 = GET_STEP_RESPONSE) →
        waitCalls (GetStepResponse s cBuf start_current end_current out w1 w2 w3 w4).fx =
          [(ComSignal.COM_PACKET_SENT, 4000), (ComSignal.COM_PACKET_ARRIVED, 6000),
            (ComSignal.COM_PACKET_ARRIVED, 6000)]) ∧
      (r0.status = WaitStatus.WAIT_OBJECT_0 →
        (p1.status = WaitStatus.WAIT_OBJECT_0 ∧ p1.s.RcvData 0 = GET_STEP_RESPONSE) →
        (p2.status = WaitStatus.WAIT_OBJECT_0 ∧ p2.s.RcvData 0 = GET_STEP_RESPONSE) →
        waitCalls (GetStepResponse s cBuf start_current end_current out w1 w2 w3 w4).fx =
          [(ComSignal.COM_PACKET_SENT, 4000), (ComSignal.COM_PACKET_ARRIVED, 6000),
            (ComSignal.COM_PACKET_ARRIVED, 6000), (ComSignal.COM_PACKET_ARRIVED, 6000)]) ∧
      ((GetStepResponse s cBuf start_current end_current out w1 w2 w3 w4).retVal = true →
        (∀ k, k < 25 →
          (GetStepResponse s cBuf start_current end_current out w1 w2 w3 w4).out.voltages k =
              p1.s.RcvData (2 + 2 * k) + 256 * p1.s.RcvData (3 + 2 * k) ∧
            (GetStepResponse s cBuf start_current end_current out w1 w2 w3 w4).out.voltages
                (25 + k) = p2.s.RcvData (2 + 2 * k) + 256 * p2.s.RcvData (3 + 2 * k) ∧
            (GetStepResponse s cBuf start_current end_current out w1 w2 w3 w4).out.voltages
                (50 + k) = p3.s.RcvData (2 + 2 * k) + 256 * p3.s.RcvData (3 + 2 * k)) ∧
          (∀ j, 75 ≤ j →
            (GetStepResponse s cBuf start_current end_current out w1 w2 w3 w4).out.voltages j =
              out.voltages j) ∧
          (GetStepResponse s cBuf start_current end_current out w1 w2 w3 w4).out.sample_time_us =
            out.sample_time_us.map (fun _ => p3.s.RcvData 1)) ∧
      ∀ (P0 P1 P2 : List Nat) (c0 c1 c2 : Nat),
        s.NumRcvBytes = 0 → s.com_events ComSignal.COM_PACKET_SENT = false →
        s.com_events ComSignal.COM_PACKET_ARRIVED = false →
        P0.length = 52 → P1.length = 52 → P2.length = 52 →
        P0.getD 0 0 = GET_STEP_RESPONSE → P1.getD 0 0 = GET_STEP_RESPONSE →
        P2.getD 0 0 = GET_STEP_RESPONSE →
        w1 = [SerialEvent.SERIAL_DATA_SENT] →
        w2 = [SerialEvent.SERIAL_DATA_ARRIVAL (frameBytes 52 P0 c0 0x03)] →
        w3 = [SerialEvent.SERIAL_DATA_ARRIVAL (frameBytes 52 P1 c1 0x03)] →
        w4 = [SerialEvent.SERIAL_DATA_ARRIVAL (frameBytes 52 P2 c2 0x03)] →
        (GetStepResponse s cBuf start_current end_current out w1 w2 w3 w4).retVal = true ∧
          (∀ k, k < 25 →
            (GetStepResponse s cBuf start_current end_current out w1 w2 w3 w4).out.voltages k =
                P0.getD (2 + 2 * k) 0 + 256 * P0.getD (3 + 2 * k) 0 ∧
              (GetStepResponse s cBuf start_current end_current out w1 w2 w3 w4).out.voltages
                  (25 + k) = P1.getD (2 + 2 * k) 0 + 256 * P1.getD (3 + 2 * k) 0 ∧
              (GetStepResponse s cBuf start_current end_current out w1 w2 w3 w4).out.voltages
                  (50 + k) = P2.getD (2 + 2 * k) 0 + 256 * P2.getD (3 + 2 * k) 0) ∧
          (GetStepResponse s cBuf start_current end_current out w1 w2 w3 w4).out.sample_time_us =
            out.sample_time_us.map (fun _ => P2.getD 1 0) := by
  obtain ⟨g1, g2, g3, g4, g5, g6⟩ := GetStepResponse_eq s cBuf start_current end_current out
    w1 w2 w3 w4 r0 p1 p2 p3 h0 h1 h2 h3
  have hval : (GetStepResponse s cBuf start_current end_current out w1 w2 w3 w4).retVal = true →
      (∀ k, k < 25 →
        (GetStepResponse s cBuf start_current end_current out w1 w2 w3 w4).out.voltages k =
            p1.s.RcvData (2 + 2 * k) + 256 * p1.s.RcvData (3 + 2 * k) ∧
          (GetStepResponse s cBuf start_current end_current out w1 w2 w3 w4).out.voltages
              (25 + k) = p2.s.RcvData (2 + 2 * k) + 256 * p2.s.RcvData (3 + 2 * k) ∧
          (GetStepResponse s cBuf start_current end_current out w1 w2 w3 w4).out.voltages
              (50 + k) = p3.s.RcvData (2 + 2 * k) + 256 * p3.s.RcvData (3 + 2 * k)) ∧
        (∀ j, 75 ≤ j →
          (GetStepResponse s cBuf start_current end_current out w1 w2 w3 w4).out.voltages j =
            out.voltages j) ∧
        (GetStepResponse s cBuf start_current end_current out w1 w2 w3 w4).out.sample_time_us =
          out.sample_time_us.map (fun _ => p3.s.RcvData 1) := by
    intro hv
    obtain ⟨e1, e2⟩ := g6 hv
    rw [e1, e2]
    exact ⟨(memcpyU16_three _ _ _ _).1, (memcpyU16_three _ _ _ _).2, rfl⟩
  refine ⟨g1, g2, g3, g4, g5, hval, ?_⟩
  intro P0 P1 P2 c0 c1 c2 hn hs ha hl0 hl1 hl2 ht0 ht1 ht2 e1 e2 e3 e4
  subst e1 e2 e3 e4
  obtain ⟨q0, q1, q2, q3, q4⟩ := GetStepResponse_waits s P0 P1 P2 c0 c1 c2 r0 p1 p2 p3
    h0 h1 h2 h3 hn hs ha hl0 hl1 hl2 (Or.inl (by rw [ht0]; decide)) (Or.inl (by rw [ht1]; decide))
    (Or.inl (by rw [ht2]; decide))
  have hv : (GetStepResponse s cBuf start_current end_current out
      [SerialEvent.SERIAL_DATA_SENT]
      [SerialEvent.SERIAL_DATA_ARRIVAL (frameBytes 52 P0 c0 0x03)]
      [SerialEvent.SERIAL_DATA_ARRIVAL (frameBytes 52 P1 c1 0x03)]
      [SerialEvent.SERIAL_DATA_ARRIVAL (frameBytes 52 P2 c2 0x03)]).retVal = true := by
    rw [g1]
    refine ⟨q0, ⟨q1, ?_⟩, ⟨q2, ?_⟩, ⟨q3, ?_⟩⟩
    · rw [(q4 0 (by decide)).1, ht0]
    · rw [(q4 0 (by decide)).2.1, ht1]
    · rw [(q4 0 (by decide)).2.2, ht2]
  obtain ⟨v1, -, v3⟩ := hval hv
  refine ⟨hv, ?_, ?_⟩
  · intro k hk
    obtain ⟨u1, u2, u3⟩ := v1 k hk
    rw [u1, u2, u3, (q4 (2 + 2 * k) (by omega)).1, (q4 (3 + 2 * k) (by omega)).1,
      (q4 (2 + 2 * k) (by omega)).2.1, (q4 (3 + 2 * k) (by omega)).2.1,
      (q4 (2 + 2 * k) (by omega)).2.2, (q4 (3 + 2 * k) (by omega)).2.2]
    exact ⟨rfl, rfl, rfl⟩
  · rw [v3, (q4 1 (by decide)).2.2]

/-- Witness of C30: a freshly constructed object, the send-complete
notification, and three frames with sample times 7, 8, 9 and data bytes
0..49, 50..99 and 100..149. -/
theorem GetStepResponse_three_frames_witness :
    (GetStepResponse PDTester.ctor (fun _ => 0) 100 2000 ⟨fun _ => 0, some 0⟩
        [SerialEvent.SERIAL_DATA_SENT]
        [SerialEvent.SERIAL_DATA_ARRIVAL (sampleStepFrame 7 0)]
        [SerialEvent.SERIAL_DATA_ARRIVAL (sampleStepFrame 8 50)]
        [SerialEvent.SERIAL_DATA_ARRIVAL (sampleStepFrame 9 100)]).retVal = true ∧
      (GetStepResponse PDTester.ctor (fun _ => 0) 100 2000 ⟨fun _ => 0, some 0⟩
        [SerialEvent.SERIAL_DATA_SENT]
        [SerialEvent.SERIAL_DATA_ARRIVAL (sampleStepFrame 7 0)]
        [SerialEvent.SERIAL_DATA_ARRIVAL (sampleStepFrame 8 50)]
        [SerialEvent.SERIAL_DATA_ARRIVAL (sampleStepFrame 9 100)]).out.voltages 74 =
        148 + 256 * 149 ∧
      (GetStepResponse PDTester.ctor (fun _ => 0) 100 2000 ⟨fun _ => 0, some 0⟩
        [SerialEvent.SERIAL_DATA_SENT]
        [SerialEvent.SERIAL_DATA_ARRIVAL (sampleStepFrame 7 0)]
        [SerialEvent.SERIAL_DATA_ARRIVAL (sampleStepFrame 8 50)]
        [SerialEvent.SERIAL_DATA_ARRIVAL (sampleStepFrame 9 100)]).out.sample_time_us =
        some 9 :=
  have h := (GetStepResponse_three_frames PDTester.ctor (fun _ => 0) 100 2000
    ⟨fun _ => 0, some 0⟩ [SerialEvent.SERIAL_DATA_SENT]
    [SerialEvent.SERIAL_DATA_ARRIVAL (sampleStepFrame 7 0)]
    [SerialEvent.SERIAL_DATA_ARRIVAL (sampleStepFrame 8 50)]
    [SerialEvent.SERIAL_DATA_ARRIVAL (sampleStepFrame 9 100)] _ _ _ _ rfl rfl rfl rfl).2.2.2.2.2.2
    (GET_STEP_RESPONSE :: 7 :: (List.range 50).map (fun i => i + 0))
    (GET_STEP_RESPONSE :: 8 :: (List.range 50).map (fun i => i + 50))
    (GET_STEP_RESPONSE :: 9 :: (List.range 50).map (fun i => i + 100)) 0 0 0
    rfl rfl rfl (by decide) (by decide) (by decide) rfl rfl rfl rfl rfl rfl rfl
  ⟨h.1, ((h.2.1 24 (by decide)).2.2).trans (by decide), h.2.2.trans rfl⟩

/-! ## `ParsePDData`: the object count -/

/-- C33. For every input, the object count that `ParsePDData` produces is the
3-bit field at bits 12..14 of the header and so at most 7: the value tested by
`if (msg.NumDataObj > 8)` is never above 8, the clamp never fires, a message
with 8 data objects is never produced, and `memcpy` copies at most 28 bytes:
the bytes of `msg.Data` from index 28 on are left as they were. -/
theorem ParsePDData_object_count_le_7 (pd_data Data0 : Nat → Nat) :
    (ParsePDData pd_data Data0).NumDataObj =
        ((((pd_data 1) <<< 8) ||| (pd_data 0)) % 65536) / 4096 % 8 ∧
      ¬ ((((((pd_data 1) <<< 8) ||| (pd_data 0)) % 65536) &&& (0x07 <<< 12)) >>> 12 > 8) ∧
      (ParsePDData pd_data Data0).NumDataObj ≤ 7 ∧
      (ParsePDData pd_data Data0).NumDataObj ≠ 8 ∧
      (ParsePDData pd_data Data0).NumDataObj * 4 ≤ 28 ∧
      (∀ i : Nat, (ParsePDData pd_data Data0).Data i =
        if i < (ParsePDData pd_data Data0).NumDataObj * 4 then pd_data (2 + i) else Data0 i) ∧
      ∀ i : Nat, 28 ≤ i → (ParsePDData pd_data Data0).Data i = Data0 i := by
  have e := field_extract ((((pd_data 1) <<< 8) ||| (pd_data 0)) % 65536) 12 3
  norm_num at e
  have hle : ¬ (((((pd_data 1) <<< 8) ||| (pd_data 0)) % 65536) / 4096 % 8 > 8) := by omega
  have hn : (ParsePDData pd_data Data0).NumDataObj =
      ((((pd_data 1) <<< 8) ||| (pd_data 0)) % 65536) / 4096 % 8 := by
    simp only [ParsePDData]
    norm_num
    rw [e]
    split_ifs <;> omega
  have hd : ∀ i : Nat, (ParsePDData pd_data Data0).Data i =
      if i < (ParsePDData pd_data Data0).NumDataObj * 4 then pd_data (2 + i) else Data0 i := by
    intro i
    rfl
  refine ⟨hn, ?_, by omega, by omega, by omega, hd, ?_⟩
  · norm_num
    rw [e]
    omega
  · intro i hi
    rw [hd i, if_neg (by omega)]

/-! ## Zero-length frames and empty notifications: claims -/

theorem memcpy_zero (dst src : Nat → Nat) : memcpy dst src 0 = dst := by
  funext i
  simp [memcpy]

/-- The deliveries of the router are determined by the received-payload buffer
and by the registration of the analyzer callback. -/
theorem routePacket_effects_congr (s t : PDTester) (h1 : t.RcvDataTmp = s.RcvDataTmp)
    (h2 : t.PDAnalyzerCallback = s.PDAnalyzerCallback) :
    (routePacket t).2 = (routePacket s).2 := by
  unfold routePacket
  rw [h1, h2]
  split_ifs <;> rfl

theorem routePacket_PDAnalyzerCallback (s : PDTester) :
    (routePacket s).1.PDAnalyzerCallback = s.PDAnalyzerCallback := by
  unfold routePacket
  split_ifs <;> rfl

/-- C35. Zero-length frame. Let a frame with `L >= 1` payload bytes `p1` be
completed in the start-seeking state, and let the frame `02 00 c 03` follow in
a notification of its own. When the second frame completes, no byte of the
received-payload buffer changes, both frames are counted, and the router acts
on the buffer left by the first frame: the effects of the second notification
are those of the first. So an event tag 0x20..0x23 in byte 0 of `p1` makes the
same event callback fire again, and for a tag outside 0x20..0x25 the
response-arrived signal is raised again and the response buffer again holds
the payload `p1`. -/
theorem zero_length_frame_repeats_previous (s : PDTester) (L : Nat) (p1 : List Nat)
    (c1 c : Nat) (h0 : s.NumRcvBytes = 0) (hL : p1.length = L) (hpos : 0 < L) :
    (onSerialEvent
        (onSerialEvent s (SerialEvent.SERIAL_DATA_ARRIVAL (frameBytes L p1 c1 0x03))).1
        (SerialEvent.SERIAL_DATA_ARRIVAL [0x02, 0x00, c, 0x03])).1.RcvDataTmp =
        (onSerialEvent s (SerialEvent.SERIAL_DATA_ARRIVAL (frameBytes L p1 c1 0x03))).1.RcvDataTmp ∧
      (onSerialEvent s (SerialEvent.SERIAL_DATA_ARRIVAL
        (frameBytes L p1 c1 0x03))).1.RcvDataTmp 0 = p1.getD 0 0 ∧
      (onSerialEvent
        (onSerialEvent s (SerialEvent.SERIAL_DATA_ARRIVAL (frameBytes L p1 c1 0x03))).1
        (SerialEvent.SERIAL_DATA_ARRIVAL [0x02, 0x00, c, 0x03])).1.NumPackets =
        s.NumPackets + 2 ∧
      (onSerialEvent
        (onSerialEvent s (SerialEvent.SERIAL_DATA_ARRIVAL (frameBytes L p1 c1 0x03))).1
        (SerialEvent.SERIAL_DATA_ARRIVAL [0x02, 0x00, c, 0x03])).2 =
        (onSerialEvent s (SerialEvent.SERIAL_DATA_ARRIVAL (frameBytes L p1 c1 0x03))).2 ∧
      (p1.getD 0 0 = EVENT_PORT_ATTACHED →
        deliveries (onSerialEvent
          (onSerialEvent s (SerialEvent.SERIAL_DATA_ARRIVAL (frameBytes L p1 c1 0x03))).1
          (SerialEvent.SERIAL_DATA_ARRIVAL [0x02, 0x00, c, 0x03])).2 =
          [Effect.EventCallback PDAPI_Event.PDAPI_EVENT_PORT_ATTACHED]) ∧
      (p1.getD 0 0 = EVENT_PORT_DETACHED →
        deliveries (onSerialEvent
          (onSerialEvent s (SerialEvent.SERIAL_DATA_ARRIVAL (frameBytes L p1 c1 0x03))).1
          (SerialEvent.SERIAL_DATA_ARRIVAL [0x02, 0x00, c, 0x03])).2 =
          [Effect.EventCallback PDAPI_Event.PDAPI_EVENT_PORT_DETACHED]) ∧
      (p1.getD 0 0 = EVENT_PROFILE_CHANGED →
        deliveries (onSerialEvent
          (onSerialEvent s (SerialEvent.SERIAL_DATA_ARRIVAL (frameBytes L p1 c1 0x03))).1
          (SerialEvent.SERIAL_DATA_ARRIVAL [0x02, 0x00, c, 0x03])).2 =
          [Effect.EventCallback PDAPI_Event.PDAPI_EVENT_PROFILE_CHANGED]) ∧
      (p1.getD 0 0 = EVENT_NEW_CAPABILITY →
        deliveries (onSerialEvent
          (onSerialEvent s (SerialEvent.SERIAL_DATA_ARRIVAL (frameBytes L p1 c1 0x03))).1
          (SerialEvent.SERIAL_DATA_ARRIVAL [0x02, 0x00, c, 0x03])).2 =
          [Effect.EventCallback PDAPI_Event.PDAPI_EVENT_NEW_CAPABILITY]) ∧
      (p1.getD 0 0 < 0x20 ∨ 0x25 < p1.getD 0 0 →
        deliveries (onSerialEvent
          (onSerialEvent s (SerialEvent.SERIAL_DATA_ARRIVAL (frameBytes L p1 c1 0x03))).1
          (SerialEvent.SERIAL_DATA_ARRIVAL [0x02, 0x00, c, 0x03])).2 =
          [Effect.SetEvent ComSignal.COM_PACKET_ARRIVED] ∧
        (onSerialEvent
          (onSerialEvent s (SerialEvent.SERIAL_DATA_ARRIVAL (frameBytes L p1 c1 0x03))).1
          (SerialEvent.SERIAL_DATA_ARRIVAL [0x02, 0x00, c, 0x03])).1.com_events
            ComSignal.COM_PACKET_ARRIVED = true ∧
        ∀ i : Nat, i < L → i < 64 →
          (onSerialEvent
            (onSerialEvent s (SerialEvent.SERIAL_DATA_ARRIVAL (frameBytes L p1 c1 0x03))).1
            (SerialEvent.SERIAL_DATA_ARRIVAL [0x02, 0x00, c, 0x03])).1.RcvData i =
            p1.getD i 0) := by
  have hz : ([0x02, 0x00, c, 0x03] : List Nat) = frameBytes 0 [] c 0x03 := rfl
  have e1 : onSerialEvent s (SerialEvent.SERIAL_DATA_ARRIVAL (frameBytes L p1 c1 0x03)) =
      ((routePacket (acceptState s L p1 c1)).1,
        [Effect.setRxSize 1, Effect.dataHasBeenRead] ++
          (routePacket (acceptState s L p1 c1)).2) :=
    onDataArrival_frame_accept s L p1 c1 h0 hL
  obtain ⟨f1, f2, f3, -⟩ := routePacket_reassembler_fields (acceptState s L p1 c1)
  have e2 : onSerialEvent (routePacket (acceptState s L p1 c1)).1
      (SerialEvent.SERIAL_DATA_ARRIVAL (frameBytes 0 [] c 0x03)) =
      ((routePacket (acceptState (routePacket (acceptState s L p1 c1)).1 0 [] c)).1,
        [Effect.setRxSize 1, Effect.dataHasBeenRead] ++
          (routePacket (acceptState (routePacket (acceptState s L p1 c1)).1 0 [] c)).2) :=
    onDataArrival_frame_accept _ 0 [] c (f3.trans rfl) rfl
  have t2 : (acceptState (routePacket (acceptState s L p1 c1)).1 0 [] c).RcvDataTmp =
      (acceptState s L p1 c1).RcvDataTmp := by
    show memcpy (routePacket (acceptState s L p1 c1)).1.RcvDataTmp
      (fun i => ([] : List Nat).getD i 0) 0 = _
    rw [memcpy_zero, f2]
  have t0 : (acceptState s L p1 c1).RcvDataTmp 0 = p1.getD 0 0 := by
    show memcpy s.RcvDataTmp (fun i => p1.getD i 0) L 0 = _
    simp only [memcpy, hpos, if_true]
  have hfx : (routePacket (acceptState (routePacket (acceptState s L p1 c1)).1 0 [] c)).2 =
      (routePacket (acceptState s L p1 c1)).2 :=
    routePacket_effects_congr _ _ t2 (routePacket_PDAnalyzerCallback _)
  obtain ⟨g1, g2, -, -⟩ := routePacket_reassembler_fields
    (acceptState (routePacket (acceptState s L p1 c1)).1 0 [] c)
  have hdel : deliveries ([Effect.setRxSize 1, Effect.dataHasBeenRead] ++
      (routePacket (acceptState s L p1 c1)).2) = (routePacket (acceptState s L p1 c1)).2 := by
    rw [deliveries_append, deliveries_routePacket]
    rfl
  rw [hz, e1]
  dsimp only
  rw [e2]
  dsimp only
  rw [hfx, hdel]
  refine ⟨?_, ?_, ?_, rfl, ?_, ?_, ?_, ?_, ?_⟩
  · rw [g2, t2, f2]
  · rw [f2, t0]
  · rw [g1]
    show (routePacket (acceptState s L p1 c1)).1.NumPackets + 1 = _
    rw [f1]
    rfl
  · intro h
    simp [routePacket, t0.trans h]
  · intro h
    simp [routePacket, t0.trans h]
  · intro h
    simp [routePacket, t0.trans h]
  · intro h
    simp [routePacket, t0.trans h]
  · intro h
    have h' : (acceptState s L p1 c1).RcvDataTmp 0 < 0x20 ∨
        0x25 < (acceptState s L p1 c1).RcvDataTmp 0 := by
      rw [t0]
      exact h
    have h'' : (acceptState (routePacket (acceptState s L p1 c1)).1 0 [] c).RcvDataTmp 0 < 0x20 ∨
        0x25 < (acceptState (routePacket (acceptState s L p1 c1)).1 0 [] c).RcvDataTmp 0 := by
      rw [t2]
      exact h'
    refine ⟨?_, ?_, ?_⟩
    · rw [routePacket_response _ h']
    · rw [routePacket_response _ h'']
      simp
    · intro i hi hi64
      rw [routePacket_response _ h'']
      show memcpy (acceptState (routePacket (acceptState s L p1 c1)).1 0 [] c).RcvData
        (acceptState (routePacket (acceptState s L p1 c1)).1 0 [] c).RcvDataTmp 64 i = _
      rw [t2]
      simp only [memcpy, hi64, acceptState, hi, if_true]

/-- Witness of C35: the event frame `02 01 20 20 03` (port attached) followed
by the frame `02 00 01 03` at a freshly constructed object. -/
theorem zero_length_frame_repeats_previous_witness :
    PDTester.ctor.NumRcvBytes = 0 ∧
      deliveries (onSerialEvent
        (onSerialEvent PDTester.ctor
          (SerialEvent.SERIAL_DATA_ARRIVAL (frameBytes 1 [0x20] 0x20 0x03))).1
        (SerialEvent.SERIAL_DATA_ARRIVAL [0x02, 0x00, 0x01, 0x03])).2 =
        [Effect.EventCallback PDAPI_Event.PDAPI_EVENT_PORT_ATTACHED] :=
  ⟨rfl,
    (zero_length_frame_repeats_previous PDTester.ctor 1 [0x20] 0x20 0x01 rfl rfl
      (by decide)).2.2.2.2.1 rfl⟩

/-- C38. `GetCapabilities` is not atomic on failure. With `r1`, `r2`, `r3` its
three waits: when the first response is accepted (tag 0x0B) with a declared
count above 7 and the wait for the continuation times out or ends with another
tag, the operation returns FALSE although `NumObjects` has been overwritten
with the declared count and objects 0..6 with the seven objects of the first
response; when the send wait or the first response fails, the list is left as
the caller passed it up to `LeaveCriticalSection`. On every path the loop of
lines 1357-1362 then rewrites every slot below `MAX_PROFILES` whose content is
tagged (`PROFILE_PD`, `SUBTYPE_PD_AVS`): `MinVoltage` becomes 9000 and the
extra-data field receives the old `MinVoltage`, whatever `NumObjects` is. -/
theorem GetCapabilities_not_atomic (decl : CapabilitiesDecl) (s : PDTester) (cBuf : Nat → Nat)
    (SourceCapabilities : USBPD_Capabilities_TypeDef) (w1 w2 w3 : List SerialEvent)
    (r1 r2 r3 : WaitResult)
    (h1 : r1 = WaitForMultipleObjects s ComSignal.COM_PACKET_SENT s.TIME_OUT_MS w1)
    (h2 : r2 = WaitForMultipleObjects r1.s ComSignal.COM_PACKET_ARRIVED r1.s.TIME_OUT_MS
      (r1.rest ++ w2))
    (h3 : r3 = WaitForMultipleObjects r2.s ComSignal.COM_PACKET_ARRIVED r2.s.TIME_OUT_MS
      (r2.rest ++ w3)) :
    (r1.status = WaitStatus.WAIT_OBJECT_0 →
        r2.status = WaitStatus.WAIT_OBJECT_0 ∧ r2.s.RcvData 0 = GET_PORT_CAPABILITIES →
        7 < r2.s.RcvData 1 →
        ¬ (r3.status = WaitStatus.WAIT_OBJECT_0 ∧ r3.s.RcvData 0 = GET_PORT_CAPABILITIES) →
        (GetCapabilities decl s cBuf SourceCapabilities w1 w2 w3).retVal = false ∧
          (GetCapabilities decl s cBuf SourceCapabilities w1 w2 w3).caps.NumObjects =
            r2.s.RcvData 1 ∧
          (GetCapabilities_receive decl s cBuf SourceCapabilities w1 w2 w3).caps.NumObjects =
            r2.s.RcvData 1 ∧
          (∀ k : Nat, k < 7 →
            (GetCapabilities_receive decl s cBuf SourceCapabilities w1 w2 w3).caps.Object k =
              objectAt decl r2.s.RcvData k) ∧
          ∀ k : Nat, 7 ≤ k →
            (GetCapabilities_receive decl s cBuf SourceCapabilities w1 w2 w3).caps.Object k =
              SourceCapabilities.Object k) ∧
      (r1.status ≠ WaitStatus.WAIT_OBJECT_0 ∨
          ¬ (r2.status = WaitStatus.WAIT_OBJECT_0 ∧ r2.s.RcvData 0 = GET_PORT_CAPABILITIES) →
        (GetCapabilities decl s cBuf SourceCapabilities w1 w2 w3).retVal = false ∧
          (GetCapabilities_receive decl s cBuf SourceCapabilities w1 w2 w3).caps.NumObjects =
            SourceCapabilities.NumObjects ∧
          (GetCapabilities_receive decl s cBuf SourceCapabilities w1 w2 w3).caps.Object =
            SourceCapabilities.Object ∧
          (GetCapabilities_receive decl s cBuf SourceCapabilities w1 w2 w3).caps.objExtraDataField =
            SourceCapabilities.objExtraDataField) ∧
      (GetCapabilities decl s cBuf SourceCapabilities w1 w2 w3).caps.NumObjects =
        (GetCapabilities_receive decl s cBuf SourceCapabilities w1 w2 w3).caps.NumObjects ∧
      (∀ i : Nat,
        (GetCapabilities decl s cBuf SourceCapabilities w1 w2 w3).caps.Object i =
          if i < decl.MAX_PROFILES ∧
              ((GetCapabilities_receive decl s cBuf SourceCapabilities w1 w2 w3).caps.Object
                i).Profile_Type = decl.PROFILE_PD ∧
              ((GetCapabilities_receive decl s cBuf SourceCapabilities w1 w2 w3).caps.Object
                i).Profile_SubType = decl.SUBTYPE_PD_AVS then
            { (GetCapabilities_receive decl s cBuf SourceCapabilities w1 w2 w3).caps.Object i with
                MinVoltage := 9000 }
          else
            (GetCapabilities_receive decl s cBuf SourceCapabilities w1 w2 w3).caps.Object i) ∧
      ∀ i : Nat,
        (GetCapabilities decl s cBuf SourceCapabilities w1 w2 w3).caps.objExtraDataField i =
          if i < decl.MAX_PROFILES ∧
              ((GetCapabilities_receive decl s cBuf SourceCapabilities w1 w2 w3).caps.Object
                i).Profile_Type = decl.PROFILE_PD ∧
              ((GetCapabilities_receive decl s cBuf SourceCapabilities w1 w2 w3).caps.Object
                i).Profile_SubType = decl.SUBTYPE_PD_AVS then
            ((GetCapabilities_receive decl s cBuf SourceCapabilities w1 w2 w3).caps.Object
              i).MinVoltage
          else
            (GetCapabilities_receive decl s cBuf SourceCapabilities w1 w2 w3).caps.objExtraDataField
              i := by
  subst h3
  subst h2
  subst h1
  obtain ⟨a1, a2, a3⟩ := avs_loop decl
    (GetCapabilities_receive decl s cBuf SourceCapabilities w1 w2 w3).caps decl.MAX_PROFILES
  have hret : (GetCapabilities decl s cBuf SourceCapabilities w1 w2 w3).retVal =
      (GetCapabilities_receive decl s cBuf SourceCapabilities w1 w2 w3).retVal := rfl
  refine ⟨?_, ?_, a1, a2, a3⟩
  · intro c1 c2 c3 c4
    have hn : (GetCapabilities decl s cBuf SourceCapabilities w1 w2 w3).caps.NumObjects =
        (GetCapabilities_receive decl s cBuf SourceCapabilities w1 w2 w3).caps.NumObjects := a1
    rw [hret, hn]
    have c3' : (WaitForMultipleObjects
        (WaitForMultipleObjects s ComSignal.COM_PACKET_SENT s.TIME_OUT_MS w1).s
        ComSignal.COM_PACKET_ARRIVED
        (WaitForMultipleObjects s ComSignal.COM_PACKET_SENT s.TIME_OUT_MS w1).s.TIME_OUT_MS
        ((WaitForMultipleObjects s ComSignal.COM_PACKET_SENT s.TIME_OUT_MS w1).rest ++
          w2)).s.RcvData 1 > 7 := c3
    simp only [GetCapabilities_receive, c1, c2, c3', c4, if_true, if_false, and_self]
    refine ⟨trivial, trivial, trivial, ?_, ?_⟩
    · intro k hk
      exact memcpyObjects_lo _ _ _ _ hk
    · intro k hk
      exact memcpyObjects_out _ _ _ _ _ (Or.inr (by omega))
  · intro c
    rw [hret]
    rcases c with c | c
    · simp only [GetCapabilities_receive, c, if_false]
      exact ⟨trivial, trivial, trivial, trivial⟩
    · by_cases c1 : (WaitForMultipleObjects s ComSignal.COM_PACKET_SENT s.TIME_OUT_MS w1).status =
          WaitStatus.WAIT_OBJECT_0
      · simp only [GetCapabilities_receive, c1, c, if_true, if_false]
        exact ⟨trivial, trivial, trivial, trivial⟩
      · simp only [GetCapabilities_receive, c1, if_false]
        exact ⟨trivial, trivial, trivial, trivial⟩

/-- Witness of C38: a first response that declares 8 objects, the first of them
tagged as an adjustable-voltage profile with a minimum voltage of 10000, and
no continuation: the result is FALSE, the count and object 0 have been
overwritten, and object 0 has been rewritten. -/
theorem GetCapabilities_not_atomic_witness :
    (GetCapabilities sampleDecl PDTester.ctor (fun _ => 0) sampleCaps
        [SerialEvent.SERIAL_DATA_SENT]
        [SerialEvent.SERIAL_DATA_ARRIVAL
          [0x02, 0x0B, 0x0B, 0x08, 0x00, 0x01, 0x03, 0x10, 0x27, 0x01, 0x02, 0x03, 0x04, 0x38,
            0x03]]
        []).retVal = false ∧
      (GetCapabilities sampleDecl PDTester.ctor (fun _ => 0) sampleCaps
        [SerialEvent.SERIAL_DATA_SENT]
        [SerialEvent.SERIAL_DATA_ARRIVAL
          [0x02, 0x0B, 0x0B, 0x08, 0x00, 0x01, 0x03, 0x10, 0x27, 0x01, 0x02, 0x03, 0x04, 0x38,
            0x03]]
        []).caps.NumObjects = 8 ∧
      ((GetCapabilities sampleDecl PDTester.ctor (fun _ => 0) sampleCaps
        [SerialEvent.SERIAL_DATA_SENT]
        [SerialEvent.SERIAL_DATA_ARRIVAL
          [0x02, 0x0B, 0x0B, 0x08, 0x00, 0x01, 0x03, 0x10, 0x27, 0x01, 0x02, 0x03, 0x04, 0x38,
            0x03]]
        []).caps.Object 0).MinVoltage = 9000 :=
  have h := GetCapabilities_not_atomic sampleDecl PDTester.ctor (fun _ => 0) sampleCaps
    [SerialEvent.SERIAL_DATA_SENT]
    [SerialEvent.SERIAL_DATA_ARRIVAL
      [0x02, 0x0B, 0x0B, 0x08, 0x00, 0x01, 0x03, 0x10, 0x27, 0x01, 0x02, 0x03, 0x04, 0x38,
        0x03]]
    [] _ _ _ rfl rfl rfl
  ⟨(h.1 (by decide) (by decide) (by decide) (by decide)).1,
    ((h.1 (by decide) (by decide) (by decide) (by decide)).2.1).trans (by decide),
    (congrArg USBPD_Object_TypeDef.MinVoltage (h.2.2.2.1 0)).trans (by decide)⟩

/-! ## Helper lemmas: the calibration record -/

theorem toINT16_toUINT16 (v : Int) (h1 : -32768 ≤ v) (h2 : v ≤ 32767) :
    toINT16 (toUINT16 v) = v := by
  unfold toINT16 toUINT16
  have hnn : 0 ≤ v % 65536 := Int.emod_nonneg v (by decide)
  have hlt : v % 65536 < 65536 := Int.emod_lt_of_pos v (by decide)
  have hc : (((v % 65536).toNat : Nat) : Int) = v % 65536 := Int.toNat_of_nonneg hnn
  split_ifs <;> omega

theorem toINT16_of_bytes (u : Nat) :
    toINT16 ((((u >>> 8) &&& 0xff) <<< 8) ||| (u &&& 0xff)) = toINT16 u := by
  have e1 : u &&& 0xff = u % 256 := and_255_eq_mod u
  have e2 : (u >>> 8) &&& 0xff = u / 256 % 256 := by
    rw [and_255_eq_mod, Nat.shiftRight_eq_div_pow]
  have e3 := header_eq_add (u % 256) (u / 256 % 256) (by omega) (by omega)
  unfold toINT16
  rw [e1, e2, e3]
  have e4 : u % 256 + 256 * (u / 256 % 256) = u % 65536 := by omega
  rw [e4]

/-- The bytes that `SetCalibrationData` places at indices 4..13 of its frame
buffer. -/
theorem SetCalibrationData_cBuf_record (cBuf : Nat → Nat) (channel : Nat)
    (year month applied1 measured1 applied2 measured2 : Int) :
    bufferBytes
        (fun i => SetCalibrationData_cBuf cBuf channel year month applied1 measured1 applied2
          measured2 (4 + i)) 10 =
      [toUCHAR (year - 2020), toUCHAR month,
        toUINT16 applied1 &&& 0xff, (toUINT16 applied1 >>> 8) &&& 0xff,
        toUINT16 measured1 &&& 0xff, (toUINT16 measured1 >>> 8) &&& 0xff,
        toUINT16 applied2 &&& 0xff, (toUINT16 applied2 >>> 8) &&& 0xff,
        toUINT16 measured2 &&& 0xff, (toUINT16 measured2 >>> 8) &&& 0xff] := by
  simp [bufferBytes, List.range, List.range.loop, SetCalibrationData_cBuf, checksum,
    Function.update_apply]

/-! ## Calibration record round trip: claim -/

/-- C40. Calibration record round trip. Let `year` be in 2020..2275, `month` in
0..255 and the four values in -32768..32767, and let `request` be the frame
buffer that `SetCalibrationData` builds for them. Its bytes at indices 4..13
(payload offsets 2..11) are `year - 2020`, `month` and the four values as
16-bit values, low byte first. When the send-complete notification arrives
and the device answers `GetCalibrationData` with the tag 0xE4, a flag byte and
these ten bytes, at an object with no frame in progress and both signals
unset, `GetCalibrationData` returns TRUE and leaves the flag, the same year,
the same month and the same four values behind its pointers. -/
theorem calibration_round_trip (s : PDTester) (cBuf request : Nat → Nat)
    (channel setChannel : Nat) (out : CalibrationData)
    (year month applied1 measured1 applied2 measured2 : Int) (flag c : Nat)
    (h0 : s.NumRcvBytes = 0) (hs : s.com_events ComSignal.COM_PACKET_SENT = false)
    (ha : s.com_events ComSignal.COM_PACKET_ARRIVED = false)
    (hy : 2020 ≤ year ∧ year ≤ 2275) (hm : 0 ≤ month ∧ month ≤ 255)
    (ha1 : -32768 ≤ applied1 ∧ applied1 ≤ 32767) (hm1 : -32768 ≤ measured1 ∧ measured1 ≤ 32767)
    (ha2 : -32768 ≤ applied2 ∧ applied2 ≤ 32767)
    (hm2 : -32768 ≤ measured2 ∧ measured2 ≤ 32767) :
    bufferBytes
        (fun i => SetCalibrationData_cBuf request setChannel year month applied1 measured1
          applied2 measured2 (4 + i)) 10 =
        [(year - 2020).toNat, month.toNat,
          toUINT16 applied1 % 256, toUINT16 applied1 / 256 % 256,
          toUINT16 measured1 % 256, toUINT16 measured1 / 256 % 256,
          toUINT16 applied2 % 256, toUINT16 applied2 / 256 % 256,
          toUINT16 measured2 % 256, toUINT16 measured2 / 256 % 256] ∧
      (GetCalibrationData s cBuf channel out [SerialEvent.SERIAL_DATA_SENT]
        [SerialEvent.SERIAL_DATA_ARRIVAL
          (calibrationResponse
            (SetCalibrationData_cBuf request setChannel year month applied1 measured1 applied2
              measured2) flag c)]).retVal = true ∧
      (GetCalibrationData s cBuf channel out [SerialEvent.SERIAL_DATA_SENT]
        [SerialEvent.SERIAL_DATA_ARRIVAL
          (calibrationResponse
            (SetCalibrationData_cBuf request setChannel year month applied1 measured1 applied2
              measured2) flag c)]).out =
        { isCalibrated := flag, year := year, month := month, applied1 := applied1,
          measured1 := measured1, applied2 := applied2, measured2 := measured2 } := by
  have hrec := SetCalibrationData_cBuf_record request setChannel year month applied1 measured1
    applied2 measured2
  have hyear : toUCHAR (year - 2020) = (year - 2020).toNat := by
    unfold toUCHAR
    congr 1
    omega
  have hmonth : toUCHAR month = month.toNat := by
    unfold toUCHAR
    congr 1
    omega
  have hsh : ∀ u : Nat, (u >>> 8) &&& 0xff = u / 256 % 256 := by
    intro u
    rw [and_255_eq_mod, Nat.shiftRight_eq_div_pow]
  refine ⟨?_, ?_⟩
  · rw [hrec, hyear, hmonth]
    simp only [and_255_eq_mod, hsh]
  obtain ⟨p1, p2, p3⟩ := WaitForMultipleObjects_sent s s.TIME_OUT_MS hs
  have hlen : (GET_CALIB_DATA :: flag ::
      bufferBytes
        (fun i => SetCalibrationData_cBuf request setChannel year month applied1 measured1
          applied2 measured2 (4 + i)) 10).length = 12 := by
    rw [hrec]
    rfl
  obtain ⟨q1, q2, q3⟩ := WaitForMultipleObjects_response s s.TIME_OUT_MS 12
    (GET_CALIB_DATA :: flag ::
      bufferBytes
        (fun i => SetCalibrationData_cBuf request setChannel year month applied1 measured1
          applied2 measured2 (4 + i)) 10) c h0 ha hlen (by decide)
    (Or.inr (by rw [List.getD_cons_zero]; decide))
  obtain ⟨-, -, -, -, -, q6⟩ := responseState_fields s 12
    (GET_CALIB_DATA :: flag ::
      bufferBytes
        (fun i => SetCalibrationData_cBuf request setChannel year month applied1 measured1
          applied2 measured2 (4 + i)) 10) c
  rw [hrec] at q1 q3 q6
  have d0 := q6 0 (by decide) (by decide)
  have d1 := q6 1 (by decide) (by decide)
  have d2 := q6 2 (by decide) (by decide)
  have d3 := q6 3 (by decide) (by decide)
  have d4 := q6 4 (by decide) (by decide)
  have d5 := q6 5 (by decide) (by decide)
  have d6 := q6 6 (by decide) (by decide)
  have d7 := q6 7 (by decide) (by decide)
  have d8 := q6 8 (by decide) (by decide)
  have d9 := q6 9 (by decide) (by decide)
  have d10 := q6 10 (by decide) (by decide)
  have d11 := q6 11 (by decide) (by decide)
  simp only [List.getD_cons_zero, List.getD_cons_succ] at d0 d1 d2 d3 d4 d5 d6 d7 d8 d9 d10 d11
  have hyear2 : ((toUCHAR (year - 2020) : Nat) : Int) + 2020 = year := by
    rw [hyear]
    omega
  have hmonth2 : ((toUCHAR month : Nat) : Int) = month := by
    rw [hmonth]
    omega
  unfold GetCalibrationData calibrationResponse
  rw [hrec]
  simp only [p1, p2, p3, List.nil_append, if_true, q1, q3, d0, d1, d2, d3, d4, d5, d6, d7, d8,
    d9, d10, d11, toINT16_of_bytes, toINT16_toUINT16 _ ha1.1 ha1.2,
    toINT16_toUINT16 _ hm1.1 hm1.2, toINT16_toUINT16 _ ha2.1 ha2.2,
    toINT16_toUINT16 _ hm2.1 hm2.2, hyear2, hmonth2]
  exact ⟨trivial, trivial⟩

/-- Witness of C40: the record of July 2024 with the values 1000, -3, -32768
and 32767, read back at a freshly constructed object. -/
theorem calibration_round_trip_witness :
    (GetCalibrationData PDTester.ctor (fun _ => 0) 0 ⟨0, 0, 0, 0, 0, 0, 0⟩
        [SerialEvent.SERIAL_DATA_SENT]
        [SerialEvent.SERIAL_DATA_ARRIVAL
          (calibrationResponse
            (SetCalibrationData_cBuf (fun _ => 0) 0 2024 7 1000 (-3) (-32768) 32767) 1 0)]).retVal =
        true ∧
      (GetCalibrationData PDTester.ctor (fun _ => 0) 0 ⟨0, 0, 0, 0, 0, 0, 0⟩
        [SerialEvent.SERIAL_DATA_SENT]
        [SerialEvent.SERIAL_DATA_ARRIVAL
          (calibrationResponse
            (SetCalibrationData_cBuf (fun _ => 0) 0 2024 7 1000 (-3) (-32768) 32767) 1 0)]).out =
        ⟨1, 2024, 7, 1000, -3, -32768, 32767⟩ :=
  (calibration_round_trip PDTester.ctor (fun _ => 0) (fun _ => 0) 0 0 ⟨0, 0, 0, 0, 0, 0, 0⟩
    2024 7 1000 (-3) (-32768) 32767 1 0 rfl rfl rfl (by decide) (by decide) (by decide)
    (by decide) (by decide) (by decide)).2

/-! ## A decoded response and the frames before it: claims -/

/-- `GetDevInfo` when the send-complete notification arrives during the send
wait and a frame tagged 0x01 arrives in one piece during the response wait:
the versions reported are bytes 1 and 2 of the response buffer, which come
from the frame as far as its payload reaches and from the received-payload
buffer as left by earlier frames beyond that. -/
theorem GetDevInfo_short_response (s : PDTester) (cBuf : Nat → Nat) (HW_Ver SW_Ver : Nat)
    (L : Nat) (payload : List Nat) (c : Nat) (h0 : s.NumRcvBytes = 0)
    (hs : s.com_events ComSignal.COM_PACKET_SENT = false)
    (ha : s.com_events ComSignal.COM_PACKET_ARRIVED = false)
    (hL : payload.length = L) (hpos : 0 < L) (htag : payload.getD 0 0 = GET_DEV_INFO) :
    (GetDevInfo s cBuf HW_Ver SW_Ver [SerialEvent.SERIAL_DATA_SENT]
        [SerialEvent.SERIAL_DATA_ARRIVAL (frameBytes L payload c 0x03)]).retVal = true ∧
      (GetDevInfo s cBuf HW_Ver SW_Ver [SerialEvent.SERIAL_DATA_SENT]
        [SerialEvent.SERIAL_DATA_ARRIVAL (frameBytes L payload c 0x03)]).HW_Ver =
        (if 1 < L then payload.getD 1 0 else s.RcvDataTmp 1) ∧
      (GetDevInfo s cBuf HW_Ver SW_Ver [SerialEvent.SERIAL_DATA_SENT]
        [SerialEvent.SERIAL_DATA_ARRIVAL (frameBytes L payload c 0x03)]).SW_Ver =
        (if 2 < L then payload.getD 2 0 else s.RcvDataTmp 2) := by
  obtain ⟨p1, p2, p3⟩ := WaitForMultipleObjects_sent s s.TIME_OUT_MS hs
  obtain ⟨q1, -, q3⟩ := WaitForMultipleObjects_response s s.TIME_OUT_MS L payload c h0 ha hL hpos
    (Or.inl (by rw [htag]; decide))
  have d0 : (responseState s L payload c).RcvData 0 = GET_DEV_INFO := by
    rw [(responseState_fields s L payload c).2.2.2.2.2 0 hpos (by decide), htag]
  have d1 : (responseState s L payload c).RcvData 1 =
      (if 1 < L then payload.getD 1 0 else s.RcvDataTmp 1) := by
    simp only [responseState, memcpy]
    rw [if_pos (by decide)]
  have d2 : (responseState s L payload c).RcvData 2 =
      (if 2 < L then payload.getD 2 0 else s.RcvDataTmp 2) := by
    simp only [responseState, memcpy]
    rw [if_pos (by decide)]
  unfold GetDevInfo
  simp only [p1, p2, p3, List.nil_append, if_true, q1, q3, d0, d1, d2]
  exact ⟨trivial, trivial, trivial⟩

/-- C37 (counterexample). Two runs at a freshly constructed object that differ
only in the response to a first `GetDevInfo`: `02 03 01 14 2E 39 03` (versions
20 and 46) in the first run, `02 03 01 0A 25 2C 03` (versions 10 and 37) in the
second. In both runs a second `GetDevInfo` is answered with the same valid
frame `02 01 01 01 03`, tagged 0x01 with declared length 1. It returns TRUE in
both runs, and reports the versions 20 and 46 in the first run, 10 and 37 in
the second. -/
theorem GetDevInfo_reports_stale_versions :
    (GetDevInfo
        (GetDevInfo PDTester.ctor (fun _ => 0) 0 0 [SerialEvent.SERIAL_DATA_SENT]
          [SerialEvent.SERIAL_DATA_ARRIVAL [0x02, 0x03, 0x01, 0x14, 0x2E, 0x39, 0x03]]).s
        (fun _ => 0) 0 0 [SerialEvent.SERIAL_DATA_SENT]
        [SerialEvent.SERIAL_DATA_ARRIVAL [0x02, 0x01, 0x01, 0x01, 0x03]]).retVal = true ∧
      (GetDevInfo
        (GetDevInfo PDTester.ctor (fun _ => 0) 0 0 [SerialEvent.SERIAL_DATA_SENT]
          [SerialEvent.SERIAL_DATA_ARRIVAL [0x02, 0x03, 0x01, 0x14, 0x2E, 0x39, 0x03]]).s
        (fun _ => 0) 0 0 [SerialEvent.SERIAL_DATA_SENT]
        [SerialEvent.SERIAL_DATA_ARRIVAL [0x02, 0x01, 0x01, 0x01, 0x03]]).HW_Ver = 0x14 ∧
      (GetDevInfo
        (GetDevInfo PDTester.ctor (fun _ => 0) 0 0 [SerialEvent.SERIAL_DATA_SENT]
          [SerialEvent.SERIAL_DATA_ARRIVAL [0x02, 0x03, 0x01, 0x14, 0x2E, 0x39, 0x03]]).s
        (fun _ => 0) 0 0 [SerialEvent.SERIAL_DATA_SENT]
        [SerialEvent.SERIAL_DATA_ARRIVAL [0x02, 0x01, 0x01, 0x01, 0x03]]).SW_Ver = 0x2E ∧
      (GetDevInfo
        (GetDevInfo PDTester.ctor (fun _ => 0) 0 0 [SerialEvent.SERIAL_DATA_SENT]
          [SerialEvent.SERIAL_DATA_ARRIVAL [0x02, 0x03, 0x01, 0x0A, 0x25, 0x2C, 0x03]]).s
        (fun _ => 0) 0 0 [SerialEvent.SERIAL_DATA_SENT]
        [SerialEvent.SERIAL_DATA_ARRIVAL [0x02, 0x01, 0x01, 0x01, 0x03]]).retVal = true ∧
      (GetDevInfo
        (GetDevInfo PDTester.ctor (fun _ => 0) 0 0 [SerialEvent.SERIAL_DATA_SENT]
          [SerialEvent.SERIAL_DATA_ARRIVAL [0x02, 0x03, 0x01, 0x0A, 0x25, 0x2C, 0x03]]).s
        (fun _ => 0) 0 0 [SerialEvent.SERIAL_DATA_SENT]
        [SerialEvent.SERIAL_DATA_ARRIVAL [0x02, 0x01, 0x01, 0x01, 0x03]]).HW_Ver = 0x0A ∧
      (GetDevInfo
        (GetDevInfo PDTester.ctor (fun _ => 0) 0 0 [SerialEvent.SERIAL_DATA_SENT]
          [SerialEvent.SERIAL_DATA_ARRIVAL [0x02, 0x03, 0x01, 0x0A, 0x25, 0x2C, 0x03]]).s
        (fun _ => 0) 0 0 [SerialEvent.SERIAL_DATA_SENT]
        [SerialEvent.SERIAL_DATA_ARRIVAL [0x02, 0x01, 0x01, 0x01, 0x03]]).SW_Ver = 0x25 := by
  decide

/-- C37 (amended). A decoded device-info response depends only on the frame
just received when that frame declares at least three payload bytes. For two
objects, each with no frame in progress and both signals unset, whatever
frames they completed before: when the send-complete notification arrives and
the same frame with tag 0x01 and declared length `L` arrives in one piece in
answer to `GetDevInfo`, the operation returns TRUE in both; with `L >= 3` it
reports payload bytes 1 and 2 as hardware and firmware version in both; with
`L = 2` the firmware version, and with `L = 1` both versions, are the bytes at
indices 2 and 1 of the received-payload buffer as earlier frames left them. -/
theorem GetDevInfo_depends_on_frame (s s2 : PDTester) (cBuf cBuf2 : Nat → Nat)
    (HW_Ver SW_Ver HW_Ver2 SW_Ver2 : Nat) (L : Nat) (payload : List Nat) (c : Nat)
    (h0 : s.NumRcvBytes = 0) (hs : s.com_events ComSignal.COM_PACKET_SENT = false)
    (ha : s.com_events ComSignal.COM_PACKET_ARRIVED = false)
    (k0 : s2.NumRcvBytes = 0) (ks : s2.com_events ComSignal.COM_PACKET_SENT = false)
    (ka : s2.com_events ComSignal.COM_PACKET_ARRIVED = false)
    (hL : payload.length = L) (hpos : 0 < L) (htag : payload.getD 0 0 = GET_DEV_INFO) :
    ((GetDevInfo s cBuf HW_Ver SW_Ver [SerialEvent.SERIAL_DATA_SENT]
          [SerialEvent.SERIAL_DATA_ARRIVAL (frameBytes L payload c 0x03)]).retVal = true ∧
        (GetDevInfo s2 cBuf2 HW_Ver2 SW_Ver2 [SerialEvent.SERIAL_DATA_SENT]
          [SerialEvent.SERIAL_DATA_ARRIVAL (frameBytes L payload c 0x03)]).retVal = true) ∧
      (3 ≤ L →
        (GetDevInfo s cBuf HW_Ver SW_Ver [SerialEvent.SERIAL_DATA_SENT]
            [SerialEvent.SERIAL_DATA_ARRIVAL (frameBytes L payload c 0x03)]).HW_Ver =
            payload.getD 1 0 ∧
          (GetDevInfo s cBuf HW_Ver SW_Ver [SerialEvent.SERIAL_DATA_SENT]
            [SerialEvent.SERIAL_DATA_ARRIVAL (frameBytes L payload c 0x03)]).SW_Ver =
            payload.getD 2 0 ∧
          (GetDevInfo s2 cBuf2 HW_Ver2 SW_Ver2 [SerialEvent.SERIAL_DATA_SENT]
            [SerialEvent.SERIAL_DATA_ARRIVAL (frameBytes L payload c 0x03)]).HW_Ver =
            payload.getD 1 0 ∧
          (GetDevInfo s2 cBuf2 HW_Ver2 SW_Ver2 [SerialEvent.SERIAL_DATA_SENT]
            [SerialEvent.SERIAL_DATA_ARRIVAL (frameBytes L payload c 0x03)]).SW_Ver =
            payload.getD 2 0) ∧
      (L = 2 →
        (GetDevInfo s cBuf HW_Ver SW_Ver [SerialEvent.SERIAL_DATA_SENT]
            [SerialEvent.SERIAL_DATA_ARRIVAL (frameBytes L payload c 0x03)]).HW_Ver =
            payload.getD 1 0 ∧
          (GetDevInfo s cBuf HW_Ver SW_Ver [SerialEvent.SERIAL_DATA_SENT]
            [SerialEvent.SERIAL_DATA_ARRIVAL (frameBytes L payload c 0x03)]).SW_Ver =
            s.RcvDataTmp 2) ∧
      (L = 1 →
        (GetDevInfo s cBuf HW_Ver SW_Ver [SerialEvent.SERIAL_DATA_SENT]
            [SerialEvent.SERIAL_DATA_ARRIVAL (frameBytes L payload c 0x03)]).HW_Ver =
            s.RcvDataTmp 1 ∧
          (GetDevInfo s cBuf HW_Ver SW_Ver [SerialEvent.SERIAL_DATA_SENT]
            [SerialEvent.SERIAL_DATA_ARRIVAL (frameBytes L payload c 0x03)]).SW_Ver =
            s.RcvDataTmp 2) := by
  obtain ⟨a1, a2, a3⟩ := GetDevInfo_short_response s cBuf HW_Ver SW_Ver L payload c h0 hs ha hL
    hpos htag
  obtain ⟨b1, b2, b3⟩ := GetDevInfo_short_response s2 cBuf2 HW_Ver2 SW_Ver2 L payload c k0 ks ka
    hL hpos htag
  refine ⟨⟨a1, b1⟩, ?_, ?_, ?_⟩
  · intro h
    have h1 : 1 < L := by omega
    have h2 : 2 < L := by omega
    rw [a2, a3, b2, b3]
    simp only [h1, h2, if_true]
    exact ⟨trivial, trivial, trivial, trivial⟩
  · intro h
    rw [a2, a3, if_pos (by omega), if_neg (by omega)]
    exact ⟨rfl, rfl⟩
  · intro h
    rw [a2, a3, if_neg (by omega), if_neg (by omega)]
    exact ⟨rfl, rfl⟩

/-- Witness of C37 (amended): the response `02 03 01 14 2E 39 03` at a freshly
constructed object and at an object that has completed a device-info exchange
with another answer before. -/
theorem GetDevInfo_depends_on_frame_witness :
    (GetDevInfo
        (GetDevInfo PDTester.ctor (fun _ => 0) 0 0 [SerialEvent.SERIAL_DATA_SENT]
          [SerialEvent.SERIAL_DATA_ARRIVAL [0x02, 0x03, 0x01, 0x0A, 0x25, 0x2C, 0x03]]).s
        (fun _ => 0) 0 0 [SerialEvent.SERIAL_DATA_SENT]
        [SerialEvent.SERIAL_DATA_ARRIVAL (frameBytes 3 [0x01, 0x14, 0x2E] 0x39 0x03)]).HW_Ver =
        0x14 ∧
      (GetDevInfo
        (GetDevInfo PDTester.ctor (fun _ => 0) 0 0 [SerialEvent.SERIAL_DATA_SENT]
          [SerialEvent.SERIAL_DATA_ARRIVAL [0x02, 0x03, 0x01, 0x0A, 0x25, 0x2C, 0x03]]).s
        (fun _ => 0) 0 0 [SerialEvent.SERIAL_DATA_SENT]
        [SerialEvent.SERIAL_DATA_ARRIVAL (frameBytes 3 [0x01, 0x14, 0x2E] 0x39 0x03)]).SW_Ver =
        0x2E :=
  have h := (GetDevInfo_depends_on_frame PDTester.ctor
    (GetDevInfo PDTester.ctor (fun _ => 0) 0 0 [SerialEvent.SERIAL_DATA_SENT]
      [SerialEvent.SERIAL_DATA_ARRIVAL [0x02, 0x03, 0x01, 0x0A, 0x25, 0x2C, 0x03]]).s
    (fun _ => 0) (fun _ => 0) 0 0 0 0 3 [0x01, 0x14, 0x2E] 0x39 rfl rfl rfl
    (by decide) (by decide) (by decide) rfl (by decide) rfl).2.1 (by decide)
  ⟨h.2.2.1, h.2.2.2⟩

/-! ## The write to the active timeout and the lock: claim -/

/-- C32 (the code at the failing input). `StartPDAnalyzer` is its two
assignments `PDAnalyzerCallback = callback` and `TIME_OUT_MS = 3000`
(lines 1753-1755) followed by the part that starts with
`EnterCriticalSection` (line 1759), and that part never writes `TIME_OUT_MS`:
the only write of the operation to the active timeout is made before the lock
is acquired. So the write can fall into the locked region of another caller.
Thread A calls `GetDevInfo` at a freshly constructed object (timeout 500) and
its wait for send-complete returns; A holds the lock. Thread B calls
`StartPDAnalyzer`, executes the two assignments and blocks at
`EnterCriticalSection`. A goes on: its wait for the response is made with
3000 ms, where the same call without B waits 500 ms both times. -/
theorem StartPDAnalyzer_writes_timeout_before_lock :
    (∀ (s : PDTester) (cBuf : Nat → Nat) (callback : Bool) (w1 w2 : List SerialEvent),
        StartPDAnalyzer s cBuf callback w1 w2 =
          StartPDAnalyzer_locked (StartPDAnalyzer_unlocked s callback) cBuf w1 w2) ∧
      (∀ (s : PDTester) (callback : Bool),
        (StartPDAnalyzer_unlocked s callback).TIME_OUT_MS = 3000) ∧
      (∀ (s : PDTester) (cBuf : Nat → Nat) (w1 w2 : List SerialEvent),
        (StartPDAnalyzer_locked s cBuf w1 w2).fx.head? = some Effect.EnterCriticalSection ∧
          (StartPDAnalyzer_locked s cBuf w1 w2).s.TIME_OUT_MS = s.TIME_OUT_MS) ∧
      (∀ (s : PDTester) (cBuf : Nat → Nat) (HW_Ver SW_Ver : Nat) (w1 w2 : List SerialEvent),
        GetDevInfo s cBuf HW_Ver SW_Ver w1 w2 =
          GetDevInfo_rest (GetDevInfo_sent s cBuf w1) HW_Ver SW_Ver w2) ∧
      PDTester.ctor.TIME_OUT_MS = 500 ∧
      lockAfter 0 (GetDevInfo_sent PDTester.ctor (fun _ => 0) [SerialEvent.SERIAL_DATA_SENT]).fx =
        some 1 ∧
      waitCalls
        (GetDevInfo_rest
          { GetDevInfo_sent PDTester.ctor (fun _ => 0) [SerialEvent.SERIAL_DATA_SENT] with
            s := StartPDAnalyzer_unlocked
              (GetDevInfo_sent PDTester.ctor (fun _ => 0) [SerialEvent.SERIAL_DATA_SENT]).s true }
          0 0 []).fx =
        [(ComSignal.COM_PACKET_SENT, 500), (ComSignal.COM_PACKET_ARRIVED, 3000)] ∧
      waitCalls
        (GetDevInfo PDTester.ctor (fun _ => 0) 0 0 [SerialEvent.SERIAL_DATA_SENT] []).fx =
        [(ComSignal.COM_PACKET_SENT, 500), (ComSignal.COM_PACKET_ARRIVED, 500)] := by
  refine ⟨fun _ _ _ _ _ => rfl, fun _ _ => rfl, ?_, ?_, rfl, by decide, by decide, by decide⟩
  · intro s cBuf w1 w2
    refine ⟨?_, waitAckNested_TIME_OUT_MS _ _ _ _ _⟩
    unfold StartPDAnalyzer_locked waitAckNested
    dsimp only
    split_ifs <;> rfl
  · intro s cBuf HW_Ver SW_Ver w1 w2
    unfold GetDevInfo GetDevInfo_rest GetDevInfo_sent
    dsimp only

/-! ## Helper lemmas: the reassembler invariant -/

theorem rxByte_inv (st : PDTester × Bool) (b : Nat) (hb : b < 256)
    (h : reassemblerInv st.1) : reassemblerInv (rxByte st b).1 := by
  unfold reassemblerInv at h ⊢
  unfold rxByte
  dsimp only
  split_ifs with c0 c2 c1 c3 c4 <;> dsimp only <;> omega

theorem foldl_rxByte_inv (data : List Nat) : ∀ (st : PDTester × Bool),
    (∀ b ∈ data, b < 256) → reassemblerInv st.1 → reassemblerInv (data.foldl rxByte st).1 := by
  induction data with
  | nil => intro st _ h; exact h
  | cons b data ih =>
    intro st hb h
    rw [List.foldl_cons]
    exact ih (rxByte st b) (fun x hx => hb x (List.mem_cons_of_mem _ hx))
      (rxByte_inv st b (hb b (List.mem_cons_self _ _)) h)

theorem rxBytes_inv (s : PDTester) (data : List Nat) (hb : ∀ b ∈ data, b < 256)
    (h : reassemblerInv s) : reassemblerInv (rxBytes s data).1 :=
  foldl_rxByte_inv data (s, false) hb h

theorem routePacket_inv (s : PDTester) (h : reassemblerInv s) :
    reassemblerInv (routePacket s).1 := by
  unfold routePacket
  split_ifs <;> exact h

theorem reassemblerInv_hint (s : PDTester) (h : reassemblerInv s) :
    1 ≤ s.NumRemaingBytes ∧ s.NumRemaingBytes ≤ 257 := by
  unfold reassemblerInv at h
  omega

theorem rxSizes_routePacket (s : PDTester) : rxSizes (routePacket s).2 = [] := by
  unfold routePacket
  split_ifs <;> rfl

/-- A non-empty data-arrival notification keeps the invariant and hands the
transport a hint between 1 and 257. -/
theorem onDataArrival_inv (s : PDTester) (data : List Nat) (hne : data ≠ [])
    (hb : ∀ b ∈ data, b < 256) (h : reassemblerInv s) :
    reassemblerInv (onDataArrival s data).1 ∧
      ∀ n ∈ rxSizes (onDataArrival s data).2, 1 ≤ n ∧ n ≤ 257 := by
  have hr := rxBytes_inv s data hb h
  have hh := reassemblerInv_hint _ hr
  rw [onDataArrival_nonempty s data hne]
  split_ifs
  · refine ⟨routePacket_inv _ hr, ?_⟩
    intro n hn
    have e : rxSizes ([Effect.setRxSize (rxBytes s data).1.NumRemaingBytes,
        Effect.dataHasBeenRead] ++ (routePacket (rxBytes s data).1).2) =
        [(rxBytes s data).1.NumRemaingBytes] := by
      show (rxBytes s data).1.NumRemaingBytes :: rxSizes (routePacket (rxBytes s data).1).2 = _
      rw [rxSizes_routePacket]
    rw [e] at hn
    rw [List.mem_singleton.1 hn]
    exact hh
  · refine ⟨hr, ?_⟩
    intro n hn
    have e : rxSizes [Effect.setRxSize (rxBytes s data).1.NumRemaingBytes,
        Effect.dataHasBeenRead] = [(rxBytes s data).1.NumRemaingBytes] := rfl
    rw [e] at hn
    rw [List.mem_singleton.1 hn]
    exact hh

theorem rxSizes_append (a b : List Effect) : rxSizes (a ++ b) = rxSizes a ++ rxSizes b := by
  induction a with
  | nil => rfl
  | cons e a ih => cases e <;> simp [rxSizes, ih]

theorem feedChunks_inv (chunks : List (List Nat)) : ∀ (s : PDTester),
    (∀ ch ∈ chunks, ch ≠ []) → (∀ ch ∈ chunks, ∀ b ∈ ch, b < 256) → reassemblerInv s →
    reassemblerInv (feedChunks s chunks).1 ∧
      ∀ n ∈ rxSizes (feedChunks s chunks).2, 1 ≤ n ∧ n ≤ 257 := by
  induction chunks with
  | nil =>
    intro s _ _ h
    exact ⟨h, fun n hn => absurd hn (List.not_mem_nil n)⟩
  | cons ch chunks ih =>
    intro s hne hb h
    obtain ⟨a1, a2⟩ := onDataArrival_inv s ch (hne ch (List.mem_cons_self _ _))
      (hb ch (List.mem_cons_self _ _)) h
    obtain ⟨b1, b2⟩ := ih (onDataArrival s ch).1
      (fun x hx => hne x (List.mem_cons_of_mem _ hx))
      (fun x hx => hb x (List.mem_cons_of_mem _ hx)) a1
    rw [feedChunks_cons]
    refine ⟨b1, ?_⟩
    intro n hn
    rw [rxSizes_append, List.mem_append] at hn
    rcases hn with hn | hn
    · exact a2 n hn
    · exact b2 n hn

/-! ## Reassembler state invariant: claim -/

/-- C34. Reassembler state invariant. Start from the constructor's state, feed
any sequence `chunks` of non-empty data-arrival notifications, and then the
bytes `part` of a further notification, all bytes being below 256: after every
byte, either at most the start marker is buffered (`NumRcvBytes` is 0 or 1)
and `NumRemaingBytes` is 1, or `2 <= NumRcvBytes <= L + 3` and
`NumRcvBytes + NumRemaingBytes = L + 4`, where `L = RcvDataLen <= 255` is the
length byte of the frame in progress: the byte consumed with one byte
buffered becomes `RcvDataLen`, and no later byte of the same frame changes
it. Hence every value handed to `setRxSize` is at least 1 and at most 257. -/
theorem reassembler_invariant (chunks : List (List Nat)) (part : List Nat)
    (hne : ∀ ch ∈ chunks, ch ≠ []) (hb : ∀ ch ∈ chunks, ∀ b ∈ ch, b < 256)
    (hp : ∀ b ∈ part, b < 256) :
    reassemblerInv PDTester.ctor ∧
      reassemblerInv (rxBytes (feedChunks PDTester.ctor chunks).1 part).1 ∧
      (∀ n ∈ rxSizes (feedChunks PDTester.ctor chunks).2, 1 ≤ n ∧ n ≤ 257) ∧
      (∀ (s : PDTester) (flag : Bool) (b : Nat), s.NumRcvBytes = 1 →
        (rxByte (s, flag) b).1.NumRcvBytes = 2 ∧ (rxByte (s, flag) b).1.RcvDataLen = b) ∧
      ∀ (s : PDTester) (flag : Bool) (b : Nat), 2 ≤ s.NumRcvBytes →
        2 ≤ (rxByte (s, flag) b).1.NumRcvBytes →
        (rxByte (s, flag) b).1.RcvDataLen = s.RcvDataLen := by
  have hc : reassemblerInv PDTester.ctor := by decide
  obtain ⟨a1, a2⟩ := feedChunks_inv chunks PDTester.ctor hne hb hc
  refine ⟨hc, rxBytes_inv _ part hp a1, a2, ?_, ?_⟩
  · intro s flag b h1
    unfold rxByte
    dsimp only
    rw [if_neg (by omega), if_pos h1]
    exact ⟨by dsimp only; omega, rfl⟩
  · intro s flag b h2
    unfold rxByte
    dsimp only
    rw [if_neg (by omega), if_neg (by omega)]
    split_ifs <;> dsimp only <;> intro h <;> first | rfl | omega

/-- Witness of C34: the bytes `02 05 01`, then `02`, then `03` at a freshly
constructed object: five bytes of a frame with length byte 5 are buffered and
four more are asked for. -/
theorem reassembler_invariant_witness :
    reassemblerInv
        (rxBytes (feedChunks PDTester.ctor [[0x02, 0x05, 0x01], [0x02]]).1 [0x03]).1 ∧
      ((rxBytes (feedChunks PDTester.ctor [[0x02, 0x05, 0x01], [0x02]]).1 [0x03]).1.NumRcvBytes,
        (rxBytes (feedChunks PDTester.ctor [[0x02, 0x05, 0x01], [0x02]]).1
          [0x03]).1.NumRemaingBytes,
        (rxBytes (feedChunks PDTester.ctor [[0x02, 0x05, 0x01], [0x02]]).1
          [0x03]).1.RcvDataLen) = (5, 4, 5) ∧
      rxSizes (feedChunks PDTester.ctor [[0x02, 0x05, 0x01], [0x02]]).2 = [6, 5] :=
  ⟨(reassembler_invariant [[0x02, 0x05, 0x01], [0x02]] [0x03] (by decide) (by decide)
      (by decide)).2.1,
    by decide, by decide⟩

/-! ## Helper lemmas: `Connect` -/

theorem rxByte_subrev (st : PDTester × Bool) (b : Nat) :
    (rxByte st b).1.HW_SubRevNumber = st.1.HW_SubRevNumber ∧
      (rxByte st b).1.HW_SubVer = st.1.HW_SubVer := by
  unfold rxByte
  dsimp only
  split_ifs <;> simp

theorem foldl_rxByte_subrev (data : List Nat) : ∀ (st : PDTester × Bool),
    (data.foldl rxByte st).1.HW_SubRevNumber = st.1.HW_SubRevNumber ∧
      (data.foldl rxByte st).1.HW_SubVer = st.1.HW_SubVer := by
  induction data with
  | nil => intro st; simp
  | cons b data ih =>
    intro st
    rw [List.foldl_cons]
    obtain ⟨a1, a2⟩ := ih (rxByte st b)
    obtain ⟨b1, b2⟩ := rxByte_subrev st b
    exact ⟨a1.trans b1, a2.trans b2⟩

theorem rxBytes_subrev (s : PDTester) (data : List Nat) :
    (rxBytes s data).1.HW_SubRevNumber = s.HW_SubRevNumber ∧
      (rxBytes s data).1.HW_SubVer = s.HW_SubVer :=
  foldl_rxByte_subrev data (s, false)

/-- Handling a notification leaves the sub-revision members alone. -/
theorem onSerialEvent_subrev (s : PDTester) (ev : SerialEvent) :
    (onSerialEvent s ev).1.HW_SubRevNumber = s.HW_SubRevNumber ∧
      (onSerialEvent s ev).1.HW_SubVer = s.HW_SubVer := by
  cases ev with
  | SERIAL_DATA_ARRIVAL data =>
    simp only [onSerialEvent, onDataArrival]
    split_ifs
    · simp only [routePacket]
      split_ifs <;> simp [rxBytes_subrev]
    · simp [rxBytes_subrev]
    · simp only [routePacket]
      split_ifs <;> simp [rxBytes_subrev]
    · simp [rxBytes_subrev]
  | _ => exact ⟨rfl, rfl⟩

theorem waitSignal_subrev (sig : ComSignal) (w : List SerialEvent) : ∀ (s : PDTester),
    (waitSignal sig s w).s.HW_SubRevNumber = s.HW_SubRevNumber ∧
      (waitSignal sig s w).s.HW_SubVer = s.HW_SubVer := by
  induction w with
  | nil =>
    intro s
    unfold waitSignal
    split_ifs <;> exact ⟨rfl, rfl⟩
  | cons ev w ih =>
    intro s
    unfold waitSignal
    split_ifs
    · exact ⟨rfl, rfl⟩
    · obtain ⟨a1, a2⟩ := ih (onSerialEvent s ev).1
      obtain ⟨b1, b2⟩ := onSerialEvent_subrev s ev
      exact ⟨a1.trans b1, a2.trans b2⟩

/-- A wait leaves the device versions and the sub-revision members alone. -/
theorem WaitForMultipleObjects_versions (s : PDTester) (sig : ComSignal) (timeout : Nat)
    (w : List SerialEvent) :
    (WaitForMultipleObjects s sig timeout w).s.HW_Ver = s.HW_Ver ∧
      (WaitForMultipleObjects s sig timeout w).s.FW_Ver = s.FW_Ver ∧
      (WaitForMultipleObjects s sig timeout w).s.HW_SubRevNumber = s.HW_SubRevNumber ∧
      (WaitForMultipleObjects s sig timeout w).s.HW_SubVer = s.HW_SubVer :=
  ⟨(waitSignal_device sig w s).2.2, (waitSignal_device sig w s).2.1,
    (waitSignal_subrev sig w s).1, (waitSignal_subrev sig w s).2⟩

theorem cfgExchange_versions (r : CfgRun) (id L : Nat) (body : List Nat)
    (accept : PDTester → Bool) (store : PDTester → PDTester)
    (hstore : ∀ s, (store s).HW_Ver = s.HW_Ver ∧ (store s).FW_Ver = s.FW_Ver ∧
      (store s).HW_SubRevNumber = s.HW_SubRevNumber ∧ (store s).HW_SubVer = s.HW_SubVer) :
    (cfgExchange r id L body accept store).s.HW_Ver = r.s.HW_Ver ∧
      (cfgExchange r id L body accept store).s.FW_Ver = r.s.FW_Ver ∧
      (cfgExchange r id L body accept store).s.HW_SubRevNumber = r.s.HW_SubRevNumber ∧
      (cfgExchange r id L body accept store).s.HW_SubVer = r.s.HW_SubVer := by
  unfold cfgExchange
  dsimp only
  split_ifs <;> refine ⟨?_, ?_, ?_, ?_⟩ <;>
    simp only [(hstore _).1, (hstore _).2.1, (hstore _).2.2.1, (hstore _).2.2.2,
      (WaitForMultipleObjects_versions _ _ _ _).1, (WaitForMultipleObjects_versions _ _ _ _).2.1,
      (WaitForMultipleObjects_versions _ _ _ _).2.2.1,
      (WaitForMultipleObjects_versions _ _ _ _).2.2.2]

theorem runItem_versions (r : CfgRun) (it : CfgItem) :
    (runItem r it).s.HW_Ver = r.s.HW_Ver ∧ (runItem r it).s.FW_Ver = r.s.FW_Ver ∧
      (runItem r it).s.HW_SubRevNumber = r.s.HW_SubRevNumber ∧
      (runItem r it).s.HW_SubVer = r.s.HW_SubVer := by
  cases it with
  | get id lenCheck store =>
    exact cfgExchange_versions r _ _ _ _ _ (fun _ => ⟨rfl, rfl, rfl, rfl⟩)
  | set id frame => exact cfgExchange_versions r _ _ _ _ _ (fun _ => ⟨rfl, rfl, rfl, rfl⟩)
  | gate minFw => exact ⟨rfl, rfl, rfl, rfl⟩
  | sleep ms => exact ⟨rfl, rfl, rfl, rfl⟩

theorem runItems_versions (items : List CfgItem) : ∀ (r : CfgRun),
    (runItems items r).s.HW_Ver = r.s.HW_Ver ∧ (runItems items r).s.FW_Ver = r.s.FW_Ver ∧
      (runItems items r).s.HW_SubRevNumber = r.s.HW_SubRevNumber ∧
      (runItems items r).s.HW_SubVer = r.s.HW_SubVer := by
  induction items with
  | nil => intro r; exact ⟨rfl, rfl, rfl, rfl⟩
  | cons it items ih =>
    intro r
    obtain ⟨a1, a2, a3, a4⟩ := runItem_versions r it
    obtain ⟨b1, b2, b3, b4⟩ := ih (runItem r it)
    exact ⟨b1.trans a1, b2.trans a2, b3.trans a3, b4.trans a4⟩

/-- `GetConfig` leaves the device versions and the sub-revision members
alone. -/
theorem GetConfig_versions (s : PDTester) (cBuf : Nat → Nat)
    (ws : List (List SerialEvent × List SerialEvent)) :
    (GetConfig s cBuf ws).s.HW_Ver = s.HW_Ver ∧ (GetConfig s cBuf ws).s.FW_Ver = s.FW_Ver ∧
      (GetConfig s cBuf ws).s.HW_SubRevNumber = s.HW_SubRevNumber ∧
      (GetConfig s cBuf ws).s.HW_SubVer = s.HW_SubVer :=
  runItems_versions GetConfig_items ⟨s, cBuf, [Effect.EnterCriticalSection], [], ws, true, []⟩

/-- Every frame that `GetConfig` hands to the transport has six bytes. -/
theorem GetConfig_frames_length (s : PDTester) (cBuf : Nat → Nat)
    (ws : List (List SerialEvent × List SerialEvent)) :
    ∀ fr ∈ sentFrames (GetConfig s cBuf ws).fx, fr.length = 6 := by
  have h := runItems_get_frames GetConfig_items
    ⟨s, cBuf, [Effect.EnterCriticalSection], [], ws, true, []⟩ GetConfig_items_ok rfl
  have efx : (GetConfig s cBuf ws).fx =
      (runItems GetConfig_items
        ⟨s, cBuf, [Effect.EnterCriticalSection], [], ws, true, []⟩).fx ++
        [Effect.LeaveCriticalSection] := rfl
  intro fr hfr
  rw [efx, sentFrames_append, h] at hfr
  have hl : sentFrames [Effect.LeaveCriticalSection] = [] := rfl
  rw [hl, List.append_nil, List.mem_map] at hfr
  obtain ⟨e, -, rfl⟩ := hfr
  simp [wireFrame]

theorem GetSubRev_frame_eq (cBuf : Nat → Nat) :
    GetSubRev_frame cBuf = [0x02, 0x01, 0xD1, 0xD1, 0x03] := by
  simp [GetSubRev_frame, bufferBytes, query_cBuf, checksum, xorLoop, List.range,
    List.range.loop, Function.update_apply, GET_SUB_HW_REV]

theorem GetDevInfo_sentFrames (s : PDTester) (cBuf : Nat → Nat) (HW_Ver SW_Ver : Nat)
    (w1 w2 : List SerialEvent) :
    sentFrames (GetDevInfo s cBuf HW_Ver SW_Ver w1 w2).fx = [[0x02, 0x01, 0x01, 0x01, 0x03]] := by
  have hpre : sentFrames [Effect.EnterCriticalSection,
      Effect.sendData (bufferBytes (GetDevInfo_cBuf cBuf) 5)] =
      [[0x02, 0x01, 0x01, 0x01, 0x03]] := by
    rw [GetDevInfo_frame]
    rfl
  have hl : sentFrames [Effect.LeaveCriticalSection] = [] := rfl
  unfold GetDevInfo
  dsimp only
  split_ifs <;>
    simp only [sentFrames_append, hpre, hl, (WaitForMultipleObjects_sentFrames _ _ _ _).1,
      List.append_nil]

theorem GetSubRev_sentFrames (s : PDTester) (cBuf : Nat → Nat) (w1 w2 : List SerialEvent) :
    sentFrames (GetSubRev s cBuf w1 w2).fx = [GetSubRev_frame cBuf] := by
  have hpre : sentFrames [Effect.EnterCriticalSection,
      Effect.sendData (bufferBytes (query_cBuf cBuf GET_SUB_HW_REV) 5)] =
      [GetSubRev_frame cBuf] := rfl
  have hl : sentFrames [Effect.LeaveCriticalSection] = [] := rfl
  unfold GetSubRev
  dsimp only
  split_ifs <;>
    simp only [sentFrames_append, hpre, hl, (WaitForMultipleObjects_sentFrames _ _ _ _).1,
      List.append_nil]

/-- `GetSubRev` leaves the device versions and `HW_SubVer` alone. -/
theorem GetSubRev_versions (s : PDTester) (cBuf : Nat → Nat) (w1 w2 : List SerialEvent) :
    (GetSubRev s cBuf w1 w2).s.HW_Ver = s.HW_Ver ∧ (GetSubRev s cBuf w1 w2).s.FW_Ver = s.FW_Ver ∧
      (GetSubRev s cBuf w1 w2).s.HW_SubVer = s.HW_SubVer := by
  unfold GetSubRev
  dsimp only
  split_ifs <;> refine ⟨?_, ?_, ?_⟩ <;>
    simp only [(WaitForMultipleObjects_versions _ _ _ _).1,
      (WaitForMultipleObjects_versions _ _ _ _).2.1,
      (WaitForMultipleObjects_versions _ _ _ _).2.2.2]

/-- The result of `Connect`: TRUE exactly when the transport connect and the
device-info exchange succeed. -/
theorem Connect_retVal (SERIAL_MAX_RX : Int) (s : PDTester) (status : Int)
    (cBuf1 cBuf2 cBuf3 : Nat → Nat) (w1 w2 w3 w4 : List SerialEvent)
    (ws : List (List SerialEvent × List SerialEvent)) :
    (Connect SERIAL_MAX_RX s status cBuf1 cBuf2 cBuf3 w1 w2 w3 w4 ws).retVal =
      (decide (status ≠ 0) && (GetDevInfo s cBuf1 s.HW_Ver s.FW_Ver w1 w2).retVal) := by
  by_cases c1 : status = 0
  · unfold Connect
    simp only [c1, if_true]
    simp
  · by_cases c2 : (GetDevInfo s cBuf1 s.HW_Ver s.FW_Ver w1 w2).retVal = false
    · unfold Connect
      simp only [c1, c2, if_true, if_false]
      simp
    · have c3 : (GetDevInfo s cBuf1 s.HW_Ver s.FW_Ver w1 w2).retVal = true := by
        simpa using c2
      unfold Connect
      simp only [c1, c2, if_false]
      simp [c1, c3]

/-- Lines 117-124 of `Connect` in terms of the versions on entry. -/
theorem Connect_subRevision_spec (s : PDTester) (cBuf : Nat → Nat) (w1 w2 : List SerialEvent) :
    (Connect_subRevision s cBuf w1 w2).1.HW_Ver = s.HW_Ver ∧
      (Connect_subRevision s cBuf w1 w2).1.FW_Ver = s.FW_Ver ∧
      (Connect_subRevision s cBuf w1 w2).1.HW_SubVer =
        (if (20 ≤ s.HW_Ver ∧ s.HW_Ver < 30) ∧ 46 ≤ s.FW_Ver then
          s.HW_Ver + (Connect_subRevision s cBuf w1 w2).1.HW_SubRevNumber
        else s.HW_Ver) ∧
      sentFrames (Connect_subRevision s cBuf w1 w2).2 =
        (if (20 ≤ s.HW_Ver ∧ s.HW_Ver < 30) ∧ 46 ≤ s.FW_Ver then [GetSubRev_frame cBuf]
        else []) := by
  by_cases hr : 20 ≤ s.HW_Ver ∧ s.HW_Ver < 30
  · by_cases hf : 46 ≤ s.FW_Ver
    · have e : Connect_subRevision s cBuf w1 w2 =
          ({ (GetSubRev { s with HW_SubVer := s.HW_Ver } cBuf w1 w2).s with
              HW_SubVer := (GetSubRev { s with HW_SubVer := s.HW_Ver } cBuf w1 w2).s.HW_Ver +
                (GetSubRev { s with HW_SubVer := s.HW_Ver } cBuf w1 w2).s.HW_SubRevNumber },
            (GetSubRev { s with HW_SubVer := s.HW_Ver } cBuf w1 w2).fx) := by
        unfold Connect_subRevision
        simp only [ge_iff_le, hr, hf, and_self, if_true]
      obtain ⟨g1, g2, -⟩ := GetSubRev_versions { s with HW_SubVer := s.HW_Ver } cBuf w1 w2
      rw [e, if_pos ⟨hr, hf⟩, if_pos ⟨hr, hf⟩]
      exact ⟨g1, g2, by rw [g1], GetSubRev_sentFrames _ _ _ _⟩
    · have e : Connect_subRevision s cBuf w1 w2 = ({ s with HW_SubVer := s.HW_Ver }, []) := by
        unfold Connect_subRevision
        simp only [ge_iff_le, hr, hf, and_self, if_true, if_false]
      rw [e, if_neg (fun h => hf h.2), if_neg (fun h => hf h.2)]
      exact ⟨rfl, rfl, rfl, rfl⟩
  · have e : Connect_subRevision s cBuf w1 w2 = ({ s with HW_SubVer := s.HW_Ver }, []) := by
      unfold Connect_subRevision
      simp only [ge_iff_le, hr, if_false]
    rw [e, if_neg (fun h => hr h.1), if_neg (fun h => hr h.1)]
    exact ⟨rfl, rfl, rfl, rfl⟩

/-- Lines 126-129 of `Connect` in terms of the versions on entry. -/
theorem Connect_normalise_spec (s : PDTester) :
    (Connect_normalise s).HW_Ver = (if 20 ≤ s.HW_Ver ∧ s.HW_Ver < 30 then 20 else s.HW_Ver) ∧
      (Connect_normalise s).FW_Ver = s.FW_Ver ∧
      (Connect_normalise s).HW_SubVer = s.HW_SubVer ∧
      (Connect_normalise s).HW_SubRevNumber = s.HW_SubRevNumber := by
  unfold Connect_normalise
  simp only [ge_iff_le]
  split_ifs <;> exact ⟨rfl, rfl, rfl, rfl⟩

/-- The members and the frames after a `Connect` whose transport connect and
device-info exchange succeed. -/
theorem Connect_success (SERIAL_MAX_RX : Int) (s : PDTester) (status : Int)
    (cBuf1 cBuf2 cBuf3 : Nat → Nat) (w1 w2 w3 w4 : List SerialEvent)
    (ws : List (List SerialEvent × List SerialEvent)) (d : DevInfoResult)
    (hd : d = GetDevInfo s cBuf1 s.HW_Ver s.FW_Ver w1 w2)
    (hst : status ≠ 0) (hret : d.retVal = true) :
    (Connect SERIAL_MAX_RX s status cBuf1 cBuf2 cBuf3 w1 w2 w3 w4 ws).s.FW_Ver = d.SW_Ver ∧
      (Connect SERIAL_MAX_RX s status cBuf1 cBuf2 cBuf3 w1 w2 w3 w4 ws).s.HW_Ver =
        (if 20 ≤ d.HW_Ver ∧ d.HW_Ver < 30 then 20 else d.HW_Ver) ∧
      (Connect SERIAL_MAX_RX s status cBuf1 cBuf2 cBuf3 w1 w2 w3 w4 ws).s.HW_SubVer =
        (if (20 ≤ d.HW_Ver ∧ d.HW_Ver < 30) ∧ 46 ≤ d.SW_Ver then
          d.HW_Ver +
            (Connect SERIAL_MAX_RX s status cBuf1 cBuf2 cBuf3 w1 w2 w3 w4 ws).s.HW_SubRevNumber
        else d.HW_Ver) ∧
      (GetSubRev_frame cBuf2 ∈
          sentFrames (Connect SERIAL_MAX_RX s status cBuf1 cBuf2 cBuf3 w1 w2 w3 w4 ws).fx ↔
        (20 ≤ d.HW_Ver ∧ d.HW_Ver < 30) ∧ 46 ≤ d.SW_Ver) := by
  have hpre : sentFrames [Effect.setRxSize SERIAL_MAX_RX] = [] := rfl
  have h5 : GetSubRev_frame cBuf2 ≠ [0x02, 0x01, 0x01, 0x01, 0x03] := by
    rw [GetSubRev_frame_eq]
    decide
  have h6 : ∀ (s0 : PDTester), GetSubRev_frame cBuf2 ∉ sentFrames (GetConfig s0 cBuf3 ws).fx := by
    intro s0 hm
    have := GetConfig_frames_length s0 cBuf3 ws _ hm
    rw [GetSubRev_frame_eq] at this
    exact absurd this (by decide)
  have e : Connect SERIAL_MAX_RX s status cBuf1 cBuf2 cBuf3 w1 w2 w3 w4 ws =
      ⟨(GetConfig (Connect_normalise (Connect_subRevision
          { d.s with HW_Ver := d.HW_Ver, FW_Ver := d.SW_Ver } cBuf2 w3 w4).1) cBuf3 ws).s,
        [Effect.setRxSize SERIAL_MAX_RX] ++ d.fx ++
          (Connect_subRevision { d.s with HW_Ver := d.HW_Ver, FW_Ver := d.SW_Ver }
            cBuf2 w3 w4).2 ++
          (GetConfig (Connect_normalise (Connect_subRevision
            { d.s with HW_Ver := d.HW_Ver, FW_Ver := d.SW_Ver } cBuf2 w3 w4).1) cBuf3 ws).fx,
        true⟩ := by
    subst hd
    unfold Connect
    simp only [hst, hret, Bool.true_eq_false, if_false]
  obtain ⟨a1, a2, a3, a4⟩ := Connect_subRevision_spec
    { d.s with HW_Ver := d.HW_Ver, FW_Ver := d.SW_Ver } cBuf2 w3 w4
  obtain ⟨b1, b2, b3, b4⟩ := Connect_normalise_spec (Connect_subRevision
    { d.s with HW_Ver := d.HW_Ver, FW_Ver := d.SW_Ver } cBuf2 w3 w4).1
  obtain ⟨c1, c2, c3, c4⟩ := GetConfig_versions (Connect_normalise (Connect_subRevision
    { d.s with HW_Ver := d.HW_Ver, FW_Ver := d.SW_Ver } cBuf2 w3 w4).1) cBuf3 ws
  have hdf : sentFrames d.fx = [[0x02, 0x01, 0x01, 0x01, 0x03]] := by
    rw [hd]
    exact GetDevInfo_sentFrames _ _ _ _ _ _
  rw [e]
  dsimp only at a1 a2 a3 a4 ⊢
  rw [a1] at b1
  refine ⟨c2.trans (b2.trans a2), c1.trans b1, ?_, ?_⟩
  · rw [c4, b3, a3, c3, b4]
  · rw [sentFrames_append, sentFrames_append, sentFrames_append, hpre, hdf, a4]
    by_cases hc : (20 ≤ d.HW_Ver ∧ d.HW_Ver < 30) ∧ 46 ≤ d.SW_Ver
    · simp only [hc, and_self, if_true, iff_true]
      simp
    · simp only [hc, if_false, iff_false]
      simp [h5, h6]

/-- A `GetDevInfo` that returns TRUE reports bytes 1 and 2 of the response
buffer. -/
theorem GetDevInfo_true (s : PDTester) (cBuf : Nat → Nat) (HW_Ver SW_Ver : Nat)
    (w1 w2 : List SerialEvent) (h : (GetDevInfo s cBuf HW_Ver SW_Ver w1 w2).retVal = true) :
    (GetDevInfo s cBuf HW_Ver SW_Ver w1 w2).HW_Ver =
        (GetDevInfo s cBuf HW_Ver SW_Ver w1 w2).s.RcvData 1 ∧
      (GetDevInfo s cBuf HW_Ver SW_Ver w1 w2).SW_Ver =
        (GetDevInfo s cBuf HW_Ver SW_Ver w1 w2).s.RcvData 2 := by
  revert h
  unfold GetDevInfo
  dsimp only
  split_ifs <;> intro h <;> first | exact ⟨rfl, rfl⟩ | exact absurd h (by decide)

/-! ## `Connect`: claims -/

/-- C31. Hardware-version normalisation in `Connect`. Let `d` be the
device-info exchange that `Connect` makes. After a `Connect` that returns
TRUE, the exchange has succeeded, so the device has reported the hardware
version `h = d.HW_Ver` and the firmware version `f = d.SW_Ver` in bytes 1 and 2
of its response, and `FW_Ver = f`. If `20 <= h < 30` then `HW_Ver = 20`; with
`f >= 46` the sub-revision query is among the frames sent and
`HW_SubVer = h + HW_SubRevNumber`, with `f < 46` it is not and `HW_SubVer = h`.
If `h` is outside 20..29 then `HW_Ver = HW_SubVer = h` and no sub-revision
query is sent. -/
theorem Connect_hardware_version (SERIAL_MAX_RX : Int) (s : PDTester) (status : Int)
    (cBuf1 cBuf2 cBuf3 : Nat → Nat) (w1 w2 w3 w4 : List SerialEvent)
    (ws : List (List SerialEvent × List SerialEvent)) (d : DevInfoResult)
    (hd : d = GetDevInfo s cBuf1 s.HW_Ver s.FW_Ver w1 w2)
    (hret : (Connect SERIAL_MAX_RX s status cBuf1 cBuf2 cBuf3 w1 w2 w3 w4 ws).retVal = true) :
    (d.retVal = true ∧ d.HW_Ver = d.s.RcvData 1 ∧ d.SW_Ver = d.s.RcvData 2) ∧
      (Connect SERIAL_MAX_RX s status cBuf1 cBuf2 cBuf3 w1 w2 w3 w4 ws).s.FW_Ver = d.SW_Ver ∧
      (20 ≤ d.HW_Ver ∧ d.HW_Ver < 30 →
        (Connect SERIAL_MAX_RX s status cBuf1 cBuf2 cBuf3 w1 w2 w3 w4 ws).s.HW_Ver = 20 ∧
          (46 ≤ d.SW_Ver →
            (Connect SERIAL_MAX_RX s status cBuf1 cBuf2 cBuf3 w1 w2 w3 w4 ws).s.HW_SubVer =
                d.HW_Ver +
                  (Connect SERIAL_MAX_RX s status cBuf1 cBuf2 cBuf3 w1 w2 w3 w4
                    ws).s.HW_SubRevNumber ∧
              GetSubRev_frame cBuf2 ∈
                sentFrames (Connect SERIAL_MAX_RX s status cBuf1 cBuf2 cBuf3 w1 w2 w3 w4 ws).fx) ∧
          (d.SW_Ver < 46 →
            (Connect SERIAL_MAX_RX s status cBuf1 cBuf2 cBuf3 w1 w2 w3 w4 ws).s.HW_SubVer =
                d.HW_Ver ∧
              GetSubRev_frame cBuf2 ∉
                sentFrames
                  (Connect SERIAL_MAX_RX s status cBuf1 cBuf2 cBuf3 w1 w2 w3 w4 ws).fx)) ∧
      (¬ (20 ≤ d.HW_Ver ∧ d.HW_Ver < 30) →
        (Connect SERIAL_MAX_RX s status cBuf1 cBuf2 cBuf3 w1 w2 w3 w4 ws).s.HW_Ver = d.HW_Ver ∧
          (Connect SERIAL_MAX_RX s status cBuf1 cBuf2 cBuf3 w1 w2 w3 w4 ws).s.HW_SubVer =
            d.HW_Ver ∧
          GetSubRev_frame cBuf2 ∉
            sentFrames (Connect SERIAL_MAX_RX s status cBuf1 cBuf2 cBuf3 w1 w2 w3 w4 ws).fx) := by
  have hrv := Connect_retVal SERIAL_MAX_RX s status cBuf1 cBuf2 cBuf3 w1 w2 w3 w4 ws
  rw [hret] at hrv
  have hrv2 : status ≠ 0 ∧ (GetDevInfo s cBuf1 s.HW_Ver s.FW_Ver w1 w2).retVal = true := by
    simpa using hrv.symm
  have hdr : d.retVal = true := by
    rw [hd]
    exact hrv2.2
  obtain ⟨a1, a2, a3, a4⟩ := Connect_success SERIAL_MAX_RX s status cBuf1 cBuf2 cBuf3 w1 w2 w3
    w4 ws d hd hrv2.1 hdr
  have hb : d.HW_Ver = d.s.RcvData 1 ∧ d.SW_Ver = d.s.RcvData 2 := by
    rw [hd]
    exact GetDevInfo_true _ _ _ _ _ _ hrv2.2
  refine ⟨⟨hdr, hb.1, hb.2⟩, a1, ?_, ?_⟩
  · intro hr
    rw [if_pos hr] at a2
    refine ⟨a2, ?_, ?_⟩
    · intro hf
      rw [if_pos ⟨hr, hf⟩] at a3
      exact ⟨a3, a4.2 ⟨hr, hf⟩⟩
    · intro hf
      rw [if_neg (fun h => absurd h.2 (by omega))] at a3
      exact ⟨a3, fun hm => absurd (a4.1 hm).2 (by omega)⟩
  · intro hr
    rw [if_neg hr] at a2
    rw [if_neg (fun h => hr h.1)] at a3
    exact ⟨a2, a3, fun hm => hr (a4.1 hm).1⟩

/-- Witness of C31: the device reports hardware version 20 and firmware version
46 and answers the sub-revision query with 3; the configuration requests are
not answered. -/
theorem Connect_hardware_version_witness :
    (Connect 64 PDTester.ctor 1 (fun _ => 0) (fun _ => 0) (fun _ => 0)
        [SerialEvent.SERIAL_DATA_SENT]
        [SerialEvent.SERIAL_DATA_ARRIVAL [0x02, 0x03, 0x01, 0x14, 0x2E, 0x39, 0x03]]
        [SerialEvent.SERIAL_DATA_SENT]
        [SerialEvent.SERIAL_DATA_ARRIVAL [0x02, 0x02, 0xD1, 0x03, 0xD1, 0x03]] []).retVal = true ∧
      (Connect 64 PDTester.ctor 1 (fun _ => 0) (fun _ => 0) (fun _ => 0)
        [SerialEvent.SERIAL_DATA_SENT]
        [SerialEvent.SERIAL_DATA_ARRIVAL [0x02, 0x03, 0x01, 0x14, 0x2E, 0x39, 0x03]]
        [SerialEvent.SERIAL_DATA_SENT]
        [SerialEvent.SERIAL_DATA_ARRIVAL [0x02, 0x02, 0xD1, 0x03, 0xD1, 0x03]] []).s.HW_Ver = 20 ∧
      (Connect 64 PDTester.ctor 1 (fun _ => 0) (fun _ => 0) (fun _ => 0)
        [SerialEvent.SERIAL_DATA_SENT]
        [SerialEvent.SERIAL_DATA_ARRIVAL [0x02, 0x03, 0x01, 0x14, 0x2E, 0x39, 0x03]]
        [SerialEvent.SERIAL_DATA_SENT]
        [SerialEvent.SERIAL_DATA_ARRIVAL [0x02, 0x02, 0xD1, 0x03, 0xD1, 0x03]] []).s.HW_SubVer =
        23 :=
  have h := Connect_hardware_version 64 PDTester.ctor 1 (fun _ => 0) (fun _ => 0) (fun _ => 0)
    [SerialEvent.SERIAL_DATA_SENT]
    [SerialEvent.SERIAL_DATA_ARRIVAL [0x02, 0x03, 0x01, 0x14, 0x2E, 0x39, 0x03]]
    [SerialEvent.SERIAL_DATA_SENT]
    [SerialEvent.SERIAL_DATA_ARRIVAL [0x02, 0x02, 0xD1, 0x03, 0xD1, 0x03]] [] _ rfl (by decide)
  ⟨by decide, (h.2.2.1 (by decide)).1,
    (((h.2.2.1 (by decide)).2.1 (by decide)).1).trans (by decide)⟩

/-- C39. `Connect` returns TRUE exactly when the transport connect succeeds
(`status` is not 0) and the device-info exchange returns TRUE; the result is
the same whatever the frame buffers and the windows of the sub-revision query
and of `GetConfig` are, so it does not depend on their outcome. At a freshly
constructed object whose device answers the device-info request with the
versions 20 and 46 and nothing else, the sub-revision query and the first
configuration request are sent and each times out in its send wait, the
configuration members are as the constructor left them, and `Connect` returns
TRUE. -/
theorem Connect_result (SERIAL_MAX_RX : Int) (s : PDTester) (status : Int)
    (cBuf1 cBuf2 cBuf3 : Nat → Nat) (w1 w2 w3 w4 : List SerialEvent)
    (ws : List (List SerialEvent × List SerialEvent)) :
    (Connect SERIAL_MAX_RX s status cBuf1 cBuf2 cBuf3 w1 w2 w3 w4 ws).retVal =
        (decide (status ≠ 0) && (GetDevInfo s cBuf1 s.HW_Ver s.FW_Ver w1 w2).retVal) ∧
      (∀ (cBuf4 cBuf5 : Nat → Nat) (w5 w6 : List SerialEvent)
          (ws2 : List (List SerialEvent × List SerialEvent)),
        (Connect SERIAL_MAX_RX s status cBuf1 cBuf4 cBuf5 w1 w2 w5 w6 ws2).retVal =
          (Connect SERIAL_MAX_RX s status cBuf1 cBuf2 cBuf3 w1 w2 w3 w4 ws).retVal) ∧
      (Connect 64 PDTester.ctor 1 (fun _ => 0) (fun _ => 0) (fun _ => 0)
        [SerialEvent.SERIAL_DATA_SENT]
        [SerialEvent.SERIAL_DATA_ARRIVAL [0x02, 0x03, 0x01, 0x14, 0x2E, 0x39, 0x03]]
        [] [] []).retVal = true ∧
      sentFrames (Connect 64 PDTester.ctor 1 (fun _ => 0) (fun _ => 0) (fun _ => 0)
        [SerialEvent.SERIAL_DATA_SENT]
        [SerialEvent.SERIAL_DATA_ARRIVAL [0x02, 0x03, 0x01, 0x14, 0x2E, 0x39, 0x03]]
        [] [] []).fx =
        [[0x02, 0x01, 0x01, 0x01, 0x03], [0x02, 0x01, 0xD1, 0xD1, 0x03],
          [0x02, 0x02, 0xE1, 0x00, 0xE2, 0x03]] ∧
      waitCalls (Connect 64 PDTester.ctor 1 (fun _ => 0) (fun _ => 0) (fun _ => 0)
        [SerialEvent.SERIAL_DATA_SENT]
        [SerialEvent.SERIAL_DATA_ARRIVAL [0x02, 0x03, 0x01, 0x14, 0x2E, 0x39, 0x03]]
        [] [] []).fx =
        [(ComSignal.COM_PACKET_SENT, 500), (ComSignal.COM_PACKET_ARRIVED, 500),
          (ComSignal.COM_PACKET_SENT, 500), (ComSignal.COM_PACKET_SENT, 500)] ∧
      (Connect 64 PDTester.ctor 1 (fun _ => 0) (fun _ => 0) (fun _ => 0)
        [SerialEvent.SERIAL_DATA_SENT]
        [SerialEvent.SERIAL_DATA_ARRIVAL [0x02, 0x03, 0x01, 0x14, 0x2E, 0x39, 0x03]]
        [] [] []).s.cfg = PDTester.ctor.cfg := by
  refine ⟨Connect_retVal _ _ _ _ _ _ _ _ _ _ _, ?_, by decide, by decide, by decide, by decide⟩
  intro cBuf4 cBuf5 w5 w6 ws2
  rw [Connect_retVal, Connect_retVal]

/-- C6 (counterexample). A garbage byte equal to the start marker: on a freshly
constructed object (seeking a start marker) the garbage byte 0x02 followed by
the valid frame 02 03 01 14 2E 39 03, in one notification or in two, delivers
nothing and counts no packet, whereas the frame alone is accepted, counted and
its payload 01 14 2E staged. The garbage 0x02 is taken as the start marker
(line 189), the frame's own 02 as the length byte, and four bytes later 0x2E
fails the terminator test; the bytes 39 03 are then discarded. -/
theorem garbage_start_marker_loses_frame :
    PDTester.ctor.NumRcvBytes = 0 ∧
      (0x39 = frameChecksum 3 [0x01, 0x14, 0x2E]) ∧
      deliveries (feedChunks PDTester.ctor
        [[0x02] ++ frameBytes 3 [0x01, 0x14, 0x2E] 0x39 0x03]).2 = [] ∧
      (feedChunks PDTester.ctor
        [[0x02] ++ frameBytes 3 [0x01, 0x14, 0x2E] 0x39 0x03]).1.NumPackets = 0 ∧
      deliveries (feedChunks PDTester.ctor
        [[0x02], frameBytes 3 [0x01, 0x14, 0x2E] 0x39 0x03]).2 = [] ∧
      (feedChunks PDTester.ctor
        [[0x02], frameBytes 3 [0x01, 0x14, 0x2E] 0x39 0x03]).1.NumPackets = 0 ∧
      (feedChunks PDTester.ctor
        [[0x02], frameBytes 3 [0x01, 0x14, 0x2E] 0x39 0x03]).1.NumRcvBytes = 0 ∧
      deliveries (onDataArrival PDTester.ctor
        (frameBytes 3 [0x01, 0x14, 0x2E] 0x39 0x03)).2 ≠ [] ∧
      (onDataArrival PDTester.ctor
        (frameBytes 3 [0x01, 0x14, 0x2E] 0x39 0x03)).1.NumPackets = 1 ∧
      (feedChunks PDTester.ctor
        [[0x02], frameBytes 3 [0x01, 0x14, 0x2E] 0x39 0x03]).1.NumPackets ≠
        (onDataArrival PDTester.ctor
          (frameBytes 3 [0x01, 0x14, 0x2E] 0x39 0x03)).1.NumPackets := by
  decide

/-! ## Empty notifications: what they do to a frame in progress -/

/-- An object slot of the response buffer that lies within the payload of the
frame last routed holds the bytes of that payload. -/
theorem objectAt_of_payload (decl : CapabilitiesDecl) (R : Nat → Nat) (L : Nat)
    (payload : List Nat) (k : Nat) (hL : payload.length = L)
    (hR : ∀ i, i < L → i < 64 → R i = payload.getD i 0)
    (h1 : 3 + (k + 1) * decl.sizeofObject ≤ L) (h2 : 3 + (k + 1) * decl.sizeofObject ≤ 64) :
    objectAt decl R k =
      decl.objectOfBytes
        ((payload.drop (3 + k * decl.sizeofObject)).take decl.sizeofObject) := by
  have e : (k + 1) * decl.sizeofObject = k * decl.sizeofObject + decl.sizeofObject := by ring
  rw [e] at h1 h2
  unfold objectAt
  congr 1
  apply List.ext_getElem
  · simp only [bufferBytes, List.length_map, List.length_range, List.length_take,
      List.length_drop, hL]
    omega
  · intro i hi1 hi2
    simp only [bufferBytes, List.length_map, List.length_range] at hi1
    have hlt : 3 + k * decl.sizeofObject + i < payload.length := by omega
    simp only [bufferBytes, List.getElem_map, List.getElem_range, List.getElem_take,
      List.getElem_drop]
    rw [hR _ (by omega) (by omega), List.getD_eq_getElem?_getD, List.getElem?_eq_getElem hlt]
    rfl

/-- The router leaves the state alone when the tag is one of the six event
tags. -/
theorem routePacket_event (s : PDTester)
    (h : 0x20 ≤ s.RcvDataTmp 0 ∧ s.RcvDataTmp 0 ≤ 0x25) : (routePacket s).1 = s := by
  unfold routePacket
  split_ifs with a b c d e f
  all_goals first
    | rfl
    | (exfalso
       simp only [EVENT_PORT_ATTACHED, EVENT_PORT_DETACHED, EVENT_PROFILE_CHANGED,
         EVENT_NEW_CAPABILITY, EVENT_PD_MSG_RECV, EVENT_PD_MSG_SENT] at *
       omega)

/-- A frame with an event tag does not end a wait for a response. -/
theorem WaitForMultipleObjects_event_frame (s : PDTester) (timeout : Nat) (L : Nat)
    (payload : List Nat) (c : Nat) (h0 : s.NumRcvBytes = 0)
    (ha : s.com_events ComSignal.COM_PACKET_ARRIVED = false)
    (hL : payload.length = L) (hpos : 0 < L)
    (htag : 0x20 ≤ payload.getD 0 0 ∧ payload.getD 0 0 ≤ 0x25) :
    (WaitForMultipleObjects s ComSignal.COM_PACKET_ARRIVED timeout
        [SerialEvent.SERIAL_DATA_ARRIVAL (frameBytes L payload c 0x03)]).status =
      WaitStatus.WAIT_TIMEOUT := by
  have htag2 : 0x20 ≤ (acceptState s L payload c).RcvDataTmp 0 ∧
      (acceptState s L payload c).RcvDataTmp 0 ≤ 0x25 := by
    simpa [acceptState, memcpy, hpos] using htag
  have hce : (acceptState s L payload c).com_events ComSignal.COM_PACKET_ARRIVED = false := ha
  unfold WaitForMultipleObjects
  rw [waitSignal_cons_unset _ _ _ _ ha]
  simp only [onSerialEvent]
  rw [onDataArrival_frame_accept s L payload c h0 hL, routePacket_event _ htag2]
  simp [waitSignal, hce]

/-- What the result TRUE of `GetCapabilities` says about its waits. -/
theorem GetCapabilities_true (decl : CapabilitiesDecl) (s : PDTester) (cBuf : Nat → Nat)
    (SourceCapabilities : USBPD_Capabilities_TypeDef) (w1 w2 w3 : List SerialEvent)
    (r1 r2 r3 : WaitResult)
    (h1 : r1 = WaitForMultipleObjects s ComSignal.COM_PACKET_SENT s.TIME_OUT_MS w1)
    (h2 : r2 = WaitForMultipleObjects r1.s ComSignal.COM_PACKET_ARRIVED r1.s.TIME_OUT_MS
      (r1.rest ++ w2))
    (h3 : r3 = WaitForMultipleObjects r2.s ComSignal.COM_PACKET_ARRIVED r2.s.TIME_OUT_MS
      (r2.rest ++ w3))
    (hret : (GetCapabilities decl s cBuf SourceCapabilities w1 w2 w3).retVal = true) :
    r1.status = WaitStatus.WAIT_OBJECT_0 ∧ r2.status = WaitStatus.WAIT_OBJECT_0 ∧
      r2.s.RcvData 0 = GET_PORT_CAPABILITIES ∧
      (7 < r2.s.RcvData 1 →
        r3.status = WaitStatus.WAIT_OBJECT_0 ∧ r3.s.RcvData 0 = GET_PORT_CAPABILITIES) := by
  subst h3
  subst h2
  subst h1
  simp only [GetCapabilities] at hret
  revert hret
  simp only [GetCapabilities_receive]
  split_ifs with c1 c2 c3 c4
  · intro _
    exact ⟨c1, c2.1, c2.2, fun _ => c4⟩
  · intro h
    exact absurd h (by simp)
  · intro _
    exact ⟨c1, c2.1, c2.2, fun h => absurd h c3⟩
  · intro h
    exact absurd h (by simp)
  · intro h
    exact absurd h (by simp)

/-- C25 (amended). Capability list capacity, for the list as assembled by lines
1329-1350 (before the AVS rewrite). The object enters with the reassembler
seeking a start marker and both signals unset; the send-complete notification
arrives during the first wait, the frame with payload `P1` (two bytes or more)
in one piece during the second, and the frame with payload `P2` is offered to
the third. Object `k` of a frame is the object that the declaration reads from
the `sizeofObject` payload bytes at offset `3 + k * sizeofObject`; the frame
carries it when these bytes lie within the payload and within the 64 bytes of
the response buffer. When `GetCapabilities` returns TRUE: `NumObjects` is the
count `n = P1[1]` that the first frame declares; every object 0..6 that the
first frame carries is stored at its index; when `n` is above 7, every object
`k` that the second frame carries is stored at index `7 + k`; and the slots 14
and above hold what the caller's list held on entry, so for `n` of 15 or 16
the objects from index 14 on were not received. -/
theorem GetCapabilities_capacity (decl : CapabilitiesDecl) (s : PDTester) (cBuf : Nat → Nat)
    (SourceCapabilities : USBPD_Capabilities_TypeDef)
    (L1 : Nat) (P1 : List Nat) (c1 : Nat) (L2 : Nat) (P2 : List Nat) (c2 : Nat)
    (h0 : s.NumRcvBytes = 0)
    (hs : s.com_events ComSignal.COM_PACKET_SENT = false)
    (ha : s.com_events ComSignal.COM_PACKET_ARRIVED = false)
    (hL1 : P1.length = L1) (hlen1 : 2 ≤ L1) (hL2 : P2.length = L2) (hpos2 : 0 < L2)
    (hret : (GetCapabilities decl s cBuf SourceCapabilities [SerialEvent.SERIAL_DATA_SENT]
      [SerialEvent.SERIAL_DATA_ARRIVAL (frameBytes L1 P1 c1 0x03)]
      [SerialEvent.SERIAL_DATA_ARRIVAL (frameBytes L2 P2 c2 0x03)]).retVal = true) :
    (GetCapabilities_receive decl s cBuf SourceCapabilities [SerialEvent.SERIAL_DATA_SENT]
        [SerialEvent.SERIAL_DATA_ARRIVAL (frameBytes L1 P1 c1 0x03)]
        [SerialEvent.SERIAL_DATA_ARRIVAL (frameBytes L2 P2 c2 0x03)]).caps.NumObjects =
        P1.getD 1 0 ∧
      (∀ k : Nat, k < 7 → 3 + (k + 1) * decl.sizeofObject ≤ L1 →
        3 + (k + 1) * decl.sizeofObject ≤ 64 →
        (GetCapabilities_receive decl s cBuf SourceCapabilities [SerialEvent.SERIAL_DATA_SENT]
          [SerialEvent.SERIAL_DATA_ARRIVAL (frameBytes L1 P1 c1 0x03)]
          [SerialEvent.SERIAL_DATA_ARRIVAL (frameBytes L2 P2 c2 0x03)]).caps.Object k =
          decl.objectOfBytes
            ((P1.drop (3 + k * decl.sizeofObject)).take decl.sizeofObject)) ∧
      (7 < P1.getD 1 0 → ∀ k : Nat, k < 7 → 3 + (k + 1) * decl.sizeofObject ≤ L2 →
        3 + (k + 1) * decl.sizeofObject ≤ 64 →
        (GetCapabilities_receive decl s cBuf SourceCapabilities [SerialEvent.SERIAL_DATA_SENT]
          [SerialEvent.SERIAL_DATA_ARRIVAL (frameBytes L1 P1 c1 0x03)]
          [SerialEvent.SERIAL_DATA_ARRIVAL (frameBytes L2 P2 c2 0x03)]).caps.Object (7 + k) =
          decl.objectOfBytes
            ((P2.drop (3 + k * decl.sizeofObject)).take decl.sizeofObject)) ∧
      (∀ k : Nat, 14 ≤ k →
        (GetCapabilities_receive decl s cBuf SourceCapabilities [SerialEvent.SERIAL_DATA_SENT]
          [SerialEvent.SERIAL_DATA_ARRIVAL (frameBytes L1 P1 c1 0x03)]
          [SerialEvent.SERIAL_DATA_ARRIVAL (frameBytes L2 P2 c2 0x03)]).caps.Object k =
          SourceCapabilities.Object k) := by
  obtain ⟨a1, a2, a3⟩ := WaitForMultipleObjects_sent s s.TIME_OUT_MS hs
  have e2 : WaitForMultipleObjects
      (WaitForMultipleObjects s ComSignal.COM_PACKET_SENT s.TIME_OUT_MS
        [SerialEvent.SERIAL_DATA_SENT]).s
      ComSignal.COM_PACKET_ARRIVED
      (WaitForMultipleObjects s ComSignal.COM_PACKET_SENT s.TIME_OUT_MS
        [SerialEvent.SERIAL_DATA_SENT]).s.TIME_OUT_MS
      ((WaitForMultipleObjects s ComSignal.COM_PACKET_SENT s.TIME_OUT_MS
        [SerialEvent.SERIAL_DATA_SENT]).rest ++
        [SerialEvent.SERIAL_DATA_ARRIVAL (frameBytes L1 P1 c1 0x03)]) =
      WaitForMultipleObjects s ComSignal.COM_PACKET_ARRIVED s.TIME_OUT_MS
        [SerialEvent.SERIAL_DATA_ARRIVAL (frameBytes L1 P1 c1 0x03)] := by
    rw [a1, a2]
    rfl
  obtain ⟨t1, t2, t3, t4⟩ := GetCapabilities_true decl s cBuf SourceCapabilities
    [SerialEvent.SERIAL_DATA_SENT]
    [SerialEvent.SERIAL_DATA_ARRIVAL (frameBytes L1 P1 c1 0x03)]
    [SerialEvent.SERIAL_DATA_ARRIVAL (frameBytes L2 P2 c2 0x03)] _ _ _ rfl rfl rfl hret
  rw [e2] at t2 t3 t4
  have htagr : P1.getD 0 0 < 0x20 ∨ 0x25 < P1.getD 0 0 := by
    by_contra hcon
    have hev : 0x20 ≤ P1.getD 0 0 ∧ P1.getD 0 0 ≤ 0x25 := by omega
    have hst := WaitForMultipleObjects_event_frame s s.TIME_OUT_MS L1 P1 c1 h0 ha hL1
      (by omega) hev
    rw [hst] at t2
    exact absurd t2 (by decide)
  obtain ⟨b1, b2, b3⟩ := WaitForMultipleObjects_response s s.TIME_OUT_MS L1 P1 c1 h0 ha hL1
    (by omega) htagr
  obtain ⟨f1, f2, -, -, -, f6⟩ := responseState_fields s L1 P1 c1
  rw [b1] at t3 t4
  rw [b2] at t4
  have htag1 : P1.getD 0 0 = GET_PORT_CAPABILITIES := by
    rw [← f6 0 (by omega) (by decide)]
    exact t3
  have hR1 : (responseState s L1 P1 c1).RcvData 1 = P1.getD 1 0 :=
    f6 1 (by omega) (by decide)
  rw [hR1] at t4
  have hR0 : (responseState s L1 P1 c1).RcvData 0 = GET_PORT_CAPABILITIES := t3
  have key := GetCapabilities_branches decl s cBuf SourceCapabilities
    [SerialEvent.SERIAL_DATA_SENT]
    [SerialEvent.SERIAL_DATA_ARRIVAL (frameBytes L1 P1 c1 0x03)]
    [SerialEvent.SERIAL_DATA_ARRIVAL (frameBytes L2 P2 c2 0x03)] _ _ _ rfl rfl rfl
    a3 (by rw [e2]; exact b3) (by rw [e2, b1]; exact hR0)
  rw [e2, b1, b2, hR1] at key
  obtain ⟨kA, kB⟩ := key
  have hslots := (GetCapabilities_slots decl s cBuf SourceCapabilities
    [SerialEvent.SERIAL_DATA_SENT]
    [SerialEvent.SERIAL_DATA_ARRIVAL (frameBytes L1 P1 c1 0x03)]
    [SerialEvent.SERIAL_DATA_ARRIVAL (frameBytes L2 P2 c2 0x03)] _ _ _ rfl rfl rfl hret)
  obtain ⟨n1, -, n3⟩ := hslots
  rw [e2, b1, hR1] at n1
  refine ⟨n1, ?_, ?_, n3⟩
  · intro k hk q1 q2
    rw [← objectAt_of_payload decl _ L1 P1 k hL1 f6 q1 q2]
    by_cases hn : P1.getD 1 0 ≤ 7
    · exact (kA hn).2.2.2 k hk
    · exact (kB (by omega)).2.2.1 k hk
  · intro hn k hk q1 q2
    have h0r : (responseState s L1 P1 c1).NumRcvBytes = 0 := f1
    have har : (responseState s L1 P1 c1).com_events ComSignal.COM_PACKET_ARRIVED = false := by
      rw [f2]
      exact ha
    obtain ⟨u1, u2⟩ := t4 hn
    have htr2 : P2.getD 0 0 < 0x20 ∨ 0x25 < P2.getD 0 0 := by
      by_contra hcon
      have hev : 0x20 ≤ P2.getD 0 0 ∧ P2.getD 0 0 ≤ 0x25 := by omega
      have hst := WaitForMultipleObjects_event_frame (responseState s L1 P1 c1)
        (responseState s L1 P1 c1).TIME_OUT_MS L2 P2 c2 h0r har hL2 hpos2 hev
      rw [List.nil_append, hst] at u1
      exact absurd u1 (by decide)
    obtain ⟨g1, -, g3⟩ := WaitForMultipleObjects_response (responseState s L1 P1 c1)
      (responseState s L1 P1 c1).TIME_OUT_MS L2 P2 c2 h0r har hL2 hpos2 htr2
    have g6 := (responseState_fields (responseState s L1 P1 c1) L2 P2 c2).2.2.2.2.2
    have k4 := (kB hn).2.2.2 u1 u2 k hk
    rw [List.nil_append, g1] at k4
    rw [k4]
    exact objectAt_of_payload decl _ L2 P2 k hL2 g6 q1 q2

/-- Witness of C25 (amended): two responses of 59 payload bytes, each carrying
seven objects of eight bytes, the first declaring 8 objects; slot 7 holds the
first object of the second frame and slot 14 keeps the caller's object. -/
theorem GetCapabilities_capacity_witness :
    (PDTester.ctor.NumRcvBytes = 0 ∧ (sampleCapsPayload 8 1).length = 59 ∧
        (sampleCapsPayload 8 101).length = 59 ∧
        (GetCapabilities sampleDecl PDTester.ctor (fun _ => 0) sampleCaps
          [SerialEvent.SERIAL_DATA_SENT]
          [SerialEvent.SERIAL_DATA_ARRIVAL
            (frameBytes 59 (sampleCapsPayload 8 1) (frameChecksum 59 (sampleCapsPayload 8 1))
              0x03)]
          [SerialEvent.SERIAL_DATA_ARRIVAL
            (frameBytes 59 (sampleCapsPayload 8 101)
              (frameChecksum 59 (sampleCapsPayload 8 101)) 0x03)]).retVal = true) ∧
      (GetCapabilities_receive sampleDecl PDTester.ctor (fun _ => 0) sampleCaps
          [SerialEvent.SERIAL_DATA_SENT]
          [SerialEvent.SERIAL_DATA_ARRIVAL
            (frameBytes 59 (sampleCapsPayload 8 1) (frameChecksum 59 (sampleCapsPayload 8 1))
              0x03)]
          [SerialEvent.SERIAL_DATA_ARRIVAL
            (frameBytes 59 (sampleCapsPayload 8 101)
              (frameChecksum 59 (sampleCapsPayload 8 101)) 0x03)]).caps.NumObjects = 8 ∧
      (GetCapabilities_receive sampleDecl PDTester.ctor (fun _ => 0) sampleCaps
          [SerialEvent.SERIAL_DATA_SENT]
          [SerialEvent.SERIAL_DATA_ARRIVAL
            (frameBytes 59 (sampleCapsPayload 8 1) (frameChecksum 59 (sampleCapsPayload 8 1))
              0x03)]
          [SerialEvent.SERIAL_DATA_ARRIVAL
            (frameBytes 59 (sampleCapsPayload 8 101)
              (frameChecksum 59 (sampleCapsPayload 8 101)) 0x03)]).caps.Object (7 + 0) =
        ⟨101, 102, 103 + 256 * 104, [105, 106, 107, 108]⟩ ∧
      (GetCapabilities_receive sampleDecl PDTester.ctor (fun _ => 0) sampleCaps
          [SerialEvent.SERIAL_DATA_SENT]
          [SerialEvent.SERIAL_DATA_ARRIVAL
            (frameBytes 59 (sampleCapsPayload 8 1) (frameChecksum 59 (sampleCapsPayload 8 1))
              0x03)]
          [SerialEvent.SERIAL_DATA_ARRIVAL
            (frameBytes 59 (sampleCapsPayload 8 101)
              (frameChecksum 59 (sampleCapsPayload 8 101)) 0x03)]).caps.Object 14 =
        sampleCaps.Object 14 :=
  ⟨⟨rfl, by decide, by decide, by decide⟩,
    (GetCapabilities_capacity sampleDecl PDTester.ctor (fun _ => 0) sampleCaps 59
      (sampleCapsPayload 8 1) (frameChecksum 59 (sampleCapsPayload 8 1)) 59
      (sampleCapsPayload 8 101) (frameChecksum 59 (sampleCapsPayload 8 101))
      rfl rfl rfl (by decide) (by decide) (by decide) (by decide) (by decide)).1.trans
      (by decide),
    ((GetCapabilities_capacity sampleDecl PDTester.ctor (fun _ => 0) sampleCaps 59
      (sampleCapsPayload 8 1) (frameChecksum 59 (sampleCapsPayload 8 1)) 59
      (sampleCapsPayload 8 101) (frameChecksum 59 (sampleCapsPayload 8 101))
      rfl rfl rfl (by decide) (by decide) (by decide) (by decide) (by decide)).2.2.1
      (by decide) 0 (by decide) (by decide) (by decide)).trans (by decide),
    (GetCapabilities_capacity sampleDecl PDTester.ctor (fun _ => 0) sampleCaps 59
      (sampleCapsPayload 8 1) (frameChecksum 59 (sampleCapsPayload 8 1)) 59
      (sampleCapsPayload 8 101) (frameChecksum 59 (sampleCapsPayload 8 101))
      rfl rfl rfl (by decide) (by decide) (by decide) (by decide) (by decide)).2.2.2 14
      (by decide)⟩

/-! ## `InjectPDMsg`: the frame and the 64 bytes of its buffer -/

/-- With at most 47 data bytes every store of `InjectPDMsg` lies within its
array of 64 bytes, and the buffer is the one that `InjectPDMsg_cBuf` gives;
with 48 data bytes or more a store, a copy or the read of `sendData` leaves
the array. -/
theorem InjectPDMsg_cBuf64_eq (cBuf : Nat → Nat) (type : Nat) (data : Nat → Nat)
    (dataLen : Nat) :
    (dataLen ≤ 47 →
      InjectPDMsg_cBuf64 cBuf type data dataLen = some (InjectPDMsg_cBuf cBuf type data dataLen)) ∧
    (47 < dataLen → InjectPDMsg_cBuf64 cBuf type data dataLen = none) := by
  constructor
  · intro h
    by_cases hp : dataLen > 24
    · have m1 : (dataLen + 3) % 256 = dataLen + 3 := Nat.mod_eq_of_lt (by omega)
      have m2 : (dataLen + 10 + 3) % 256 = dataLen + 10 + 3 := Nat.mod_eq_of_lt (by omega)
      have c1 : 5 + dataLen ≤ 64 := by omega
      have c2 : 5 + dataLen + 10 ≤ 64 := by omega
      have c3 : dataLen + 10 + 3 + 2 < 64 := by omega
      have c4 : 5 + (dataLen + 10) < 64 := by omega
      have c5 : 6 + (dataLen + 10) < 64 := by omega
      have c6 : 7 + (dataLen + 10) ≤ 64 := by omega
      simp [InjectPDMsg_cBuf64, InjectPDMsg_cBuf, storeIn, memcpyIn, checksumIn, hp, m1, m2,
        c1, c2, c3, c4, c5, c6, memcpyAt]
    · have m1 : (dataLen + 3) % 256 = dataLen + 3 := Nat.mod_eq_of_lt (by omega)
      have c1 : 5 + dataLen ≤ 64 := by omega
      have c3 : dataLen + 3 + 2 < 64 := by omega
      have c4 : 5 + dataLen < 64 := by omega
      have c5 : 6 + dataLen < 64 := by omega
      have c6 : 7 + dataLen ≤ 64 := by omega
      have n1 : ¬ (5 ≤ 1) := by decide
      simp [InjectPDMsg_cBuf64, InjectPDMsg_cBuf, storeIn, memcpyIn, checksumIn, hp, m1,
        c1, c3, c4, c5, c6, memcpyAt]
  · intro h
    have hp : dataLen > 24 := by omega
    have c6 : ¬ (7 + (dataLen + 10) ≤ 64) := by omega
    simp only [InjectPDMsg_cBuf64, hp, decide_True, if_true, c6, if_false]
    simp [Option.bind_eq_none]

/-- C20 (the code on its buffer of 64 bytes). Encoding of `InjectPDMsg`, for a
message type that fits a byte and data bytes `data[0 .. dataLen)`. With
`dataLen <= 24` every store lies within the array `cBuf[64]` and the bytes
handed to the transport are `02`, `dataLen + 3`, `15`, `type AND 0x1F`,
`type >> 5`, the data, the checksum, `03`. With `24 < dataLen <= 47` every
store lies within the array and the same layout carries ten zero bytes after
the data and the length byte `dataLen + 13`. In both cases the length byte is
the number of payload bytes, the checksum is the XOR of all bytes before it
XOR 0x03, and the terminator is last. With `dataLen >= 48` a store, a copy or
the read of `sendData` leaves the array: the function has no defined frame;
for `dataLen` up to 50 the frame would have `dataLen + 17` bytes, more than
64, and the terminator is stored at index `dataLen + 16`, at or beyond the end
of the array. -/
theorem InjectPDMsg_encoding (s : PDTester) (cBuf : Nat → Nat) (type : Nat)
    (data : Nat → Nat) (dataLen : Nat) (w1 w2 : List SerialEvent)
    (htype : type < 256) (hdata : ∀ i, i < dataLen → data i < 256) :
    (dataLen ≤ 24 →
      InjectPDMsg_cBuf64 cBuf type data dataLen =
        some (InjectPDMsg_cBuf cBuf type data dataLen) ∧
      sentFrames (InjectPDMsg s cBuf type data dataLen w1 w2).fx =
        [0x02 :: (dataLen + 3) ::
          (([0x15, type &&& 0x1F, type >>> 5] ++ bufferBytes data dataLen) ++
            [(0x02 :: (dataLen + 3) ::
                ([0x15, type &&& 0x1F, type >>> 5] ++ bufferBytes data dataLen)).foldl
                (· ^^^ ·) 0 ^^^ 0x03, 0x03])] ∧
      ([0x15, type &&& 0x1F, type >>> 5] ++ bufferBytes data dataLen).length = dataLen + 3) ∧
    (24 < dataLen → dataLen ≤ 47 →
      InjectPDMsg_cBuf64 cBuf type data dataLen =
        some (InjectPDMsg_cBuf cBuf type data dataLen) ∧
      sentFrames (InjectPDMsg s cBuf type data dataLen w1 w2).fx =
        [0x02 :: (dataLen + 13) ::
          (([0x15, type &&& 0x1F, type >>> 5] ++ bufferBytes data dataLen ++
              List.replicate 10 0) ++
            [(0x02 :: (dataLen + 13) ::
                ([0x15, type &&& 0x1F, type >>> 5] ++ bufferBytes data dataLen ++
                  List.replicate 10 0)).foldl (· ^^^ ·) 0 ^^^ 0x03, 0x03])] ∧
      ([0x15, type &&& 0x1F, type >>> 5] ++ bufferBytes data dataLen ++
        List.replicate 10 0).length = dataLen + 13) ∧
    (47 < dataLen →
      InjectPDMsg_cBuf64 cBuf type data dataLen = none ∧
      (InjectPDMsg_cBuf cBuf type data dataLen).2 = dataLen + 17 ∧
      64 < (InjectPDMsg_cBuf cBuf type data dataLen).2 ∧
      (InjectPDMsg_cBuf cBuf type data dataLen).1 (dataLen + 16) = 0x03 ∧
      64 ≤ dataLen + 16) := by
  refine ⟨?_, ?_, ?_⟩
  · intro hlen
    rw [InjectPDMsg_sentFrames, InjectPDMsg_frame_short cBuf type data dataLen htype hdata hlen]
    exact ⟨(InjectPDMsg_cBuf64_eq cBuf type data dataLen).1 (by omega), rfl,
      by simp [bufferBytes]⟩
  · intro hlen hmax
    rw [InjectPDMsg_sentFrames,
      InjectPDMsg_frame_padded cBuf type data dataLen htype hdata hlen (by omega)]
    exact ⟨(InjectPDMsg_cBuf64_eq cBuf type data dataLen).1 hmax, rfl, by simp [bufferBytes]⟩
  · intro hlen
    have hp : dataLen > 24 := by omega
    have e : 6 + (dataLen + 10) = dataLen + 16 := by omega
    refine ⟨(InjectPDMsg_cBuf64_eq cBuf type data dataLen).2 hlen, ?_, ?_, ?_, by omega⟩
    · simp only [InjectPDMsg_cBuf, hp, decide_True, if_true]
      omega
    · simp only [InjectPDMsg_cBuf, hp, decide_True, if_true]
      omega
    · simp only [InjectPDMsg_cBuf, hp, decide_True, if_true, e]
      simp

/-- Witness of C20: message type 0x43 with the four data bytes `01 02 03 04`,
with the twenty-five data bytes `01 .. 19`, and with the forty-eight data
bytes `01 .. 30`, for which the terminator is stored at index 64 of the array
of 64 bytes. -/
theorem InjectPDMsg_encoding_witness :
    ((0x43 : Nat) < 256 ∧ (∀ i, i < 4 → (fun i => i + 1) i < 256) ∧ 4 ≤ 24) ∧
      sentFrames (InjectPDMsg PDTester.ctor (fun _ => 0) 0x43 (fun i => i + 1) 4 [] []).fx =
        [[0x02, 0x07, 0x15, 0x03, 0x02, 0x01, 0x02, 0x03, 0x04, 0x16, 0x03]] ∧
      ((∀ i, i < 25 → (fun i => i + 1) i < 256) ∧ 24 < 25 ∧ 25 ≤ 47) ∧
      (sentFrames (InjectPDMsg PDTester.ctor (fun _ => 0) 0x43 (fun i => i + 1) 25 [] []).fx).map
        (fun frame => (frame.length, frame.getD 1 0, frame.getD 40 0, frame.getD 41 0)) =
        [(42, 38, 0x32, 0x03)] ∧
      ((∀ i, i < 48 → (fun i => i + 1) i < 256) ∧ 47 < 48) ∧
      InjectPDMsg_cBuf64 (fun _ => 0) 0x43 (fun i => i + 1) 48 = none ∧
      (InjectPDMsg_cBuf (fun _ => 0) 0x43 (fun i => i + 1) 48).2 = 65 ∧
      (InjectPDMsg_cBuf (fun _ => 0) 0x43 (fun i => i + 1) 48).1 64 = 0x03 :=
  ⟨⟨by decide, by decide, by decide⟩,
    ((InjectPDMsg_encoding PDTester.ctor (fun _ => 0) 0x43 (fun i => i + 1) 4 [] []
      (by decide) (by decide)).1 (by decide)).2.1.trans (by decide),
    ⟨by decide, by decide, by decide⟩,
    (congrArg (List.map (fun frame => (frame.length, frame.getD 1 0, frame.getD 40 0,
        frame.getD 41 0)))
      ((InjectPDMsg_encoding PDTester.ctor (fun _ => 0) 0x43 (fun i => i + 1) 25 [] []
        (by decide) (by decide)).2.1 (by decide) (by decide)).2.1).trans (by decide),
    ⟨by decide, by decide⟩,
    ((InjectPDMsg_encoding PDTester.ctor (fun _ => 0) 0x43 (fun i => i + 1) 48 [] []
      (by decide) (by decide)).2.2 (by decide)).1,
    ((InjectPDMsg_encoding PDTester.ctor (fun _ => 0) 0x43 (fun i => i + 1) 48 [] []
      (by decide) (by decide)).2.2 (by decide)).2.1,
    ((InjectPDMsg_encoding PDTester.ctor (fun _ => 0) 0x43 (fun i => i + 1) 48 [] []
      (by decide) (by decide)).2.2 (by decide)).2.2.2.1⟩

/-! ## Config round trip from an arbitrary shadow -/

theorem fetches_byte (c : ConfigShadow) (payloadOf : Nat → List Nat) (id : Nat)
    (lenCheck : Bool) (set : Nat → ConfigShadow → ConfigShadow) (v : Nat) (hv : v < 256)
    (hp : payloadOf id = [GET_CONFIG, v % 256])
    (hset : ∀ x, set v x = fetchedMember c id x) :
    getItemFetches c payloadOf (CfgItem.get id lenCheck (fun d c => set (d 1) c)) := by
  refine ⟨by rw [hp]; simp [lowHigh], by rw [hp]; rfl, ?_⟩
  intro d hd x
  have h1 := hd 1 (by rw [hp]; simp [lowHigh]) (by decide)
  rw [hp] at h1
  simp only [List.getD_cons_zero, List.getD_cons_succ] at h1
  show set (d 1) x = fetchedMember c id x
  rw [h1, Nat.mod_eq_of_lt hv]
  exact hset x

theorem fetches_u16 (c : ConfigShadow) (payloadOf : Nat → List Nat) (id : Nat)
    (lenCheck : Bool) (set : Nat → ConfigShadow → ConfigShadow) (v : Nat) (hv : v < 65536)
    (hp : payloadOf id = GET_CONFIG :: lowHigh v)
    (hset : ∀ x, set v x = fetchedMember c id x) :
    getItemFetches c payloadOf (CfgItem.get id lenCheck (fun d c => set (rcvU16 d 1) c)) := by
  refine ⟨by rw [hp]; simp [lowHigh], by rw [hp]; rfl, ?_⟩
  intro d hd x
  have h1 := hd 1 (by rw [hp]; simp [lowHigh]) (by decide)
  have h2 := hd 2 (by rw [hp]; simp [lowHigh]) (by decide)
  rw [hp] at h1 h2
  simp only [List.getD_cons_succ] at h1 h2
  show set (rcvU16 d 1) x = fetchedMember c id x
  rw [lowHigh_decode d 1 v hv h1 h2]
  exact hset x

theorem fetches_pair (c : ConfigShadow) (payloadOf : Nat → List Nat) (id : Nat)
    (lenCheck : Bool) (set : Nat → Nat → ConfigShadow → ConfigShadow) (v w : Nat)
    (hv : v < 65536) (hw : w < 65536)
    (hp : payloadOf id = GET_CONFIG :: (lowHigh v ++ lowHigh w))
    (hset : ∀ x, set v w x = fetchedMember c id x) :
    getItemFetches c payloadOf
      (CfgItem.get id lenCheck (fun d c => set (rcvU16 d 1) (rcvU16 d 3) c)) := by
  refine ⟨by rw [hp]; simp [lowHigh], by rw [hp]; rfl, ?_⟩
  intro d hd x
  have h1 := hd 1 (by rw [hp]; simp [lowHigh]) (by decide)
  have h2 := hd 2 (by rw [hp]; simp [lowHigh]) (by decide)
  have h3 := hd 3 (by rw [hp]; simp [lowHigh]) (by decide)
  have h4 := hd 4 (by rw [hp]; simp [lowHigh]) (by decide)
  rw [hp] at h1 h2 h3 h4
  have e1 : (GET_CONFIG :: (lowHigh v ++ lowHigh w)).getD 1 0 = (lowHigh v).getD 0 0 := rfl
  have e2 : (GET_CONFIG :: (lowHigh v ++ lowHigh w)).getD 2 0 = (lowHigh v).getD 1 0 := rfl
  have e3 : (GET_CONFIG :: (lowHigh v ++ lowHigh w)).getD 3 0 = (lowHigh w).getD 0 0 := rfl
  have e4 : (GET_CONFIG :: (lowHigh v ++ lowHigh w)).getD 4 0 = (lowHigh w).getD 1 0 := rfl
  rw [e1] at h1
  rw [e2] at h2
  rw [e3] at h3
  rw [e4] at h4
  show set (rcvU16 d 1) (rcvU16 d 3) x = fetchedMember c id x
  rw [lowHigh_decode d 1 v hv h1 h2, lowHigh_decode d 3 w hw h3 h4]
  exact hset x

/-- Every block of `GetConfig`, answered by the device that has recorded the
requests of `SetConfig` for the configuration members `c`, stores the values
of `c` in its members, whatever the configuration members held before. -/
theorem GetConfig_items_fetch (FORCE_LIMIT : Nat) (c : ConfigShadow) (hr : wireRange c) :
    ∀ it ∈ GetConfig_items, getItemFetches c
      (fun id => GET_CONFIG :: deviceValues (setFrames c (SetConfig_items FORCE_LIMIT)) id) it := by
  obtain ⟨⟨b1, b2, b3, b4, b5, b6, b7, b8⟩, ⟨u1, u2, u3, u4, u5, u6, u7⟩,
    ⟨p1, p2, p3, p4, p5, p6, p7, p8, p9⟩⟩ := hr
  intro it hit
  rw [GetConfig_items_eq] at hit
  simp only [List.mem_cons, List.mem_singleton, List.not_mem_nil, or_false] at hit
  rcases hit with rfl | rfl | rfl | rfl | rfl | rfl | rfl | rfl | rfl | rfl | rfl | rfl | rfl |
    rfl | rfl | rfl | rfl | rfl | rfl | rfl | rfl | rfl | rfl | rfl | rfl | rfl
  · exact fetches_byte _ _ _ _ (fun v c => { c with bLoopbackPortEnabled := v })
      c.bLoopbackPortEnabled b1 rfl (fun _ => rfl)
  · exact fetches_u16 _ _ _ _ (fun v c => { c with MaxSDPCurrent := v })
      c.MaxSDPCurrent u1 rfl (fun _ => rfl)
  · exact fetches_byte _ _ _ _ (fun v c => { c with bEstimatePortVoltage := v })
      c.bEstimatePortVoltage b2 rfl (fun _ => rfl)
  · exact fetches_u16 _ _ _ _ (fun v c => { c with CableResistance := v })
      c.CableResistance u2 rfl (fun _ => rfl)
  · exact trivial
  · exact fetches_byte _ _ _ _ (fun v c => { c with DefaultProfileIndex := v })
      c.DefaultProfileIndex b3 rfl (fun _ => rfl)
  · exact fetches_u16 _ _ _ _ (fun v c => { c with DefaultVoltage := v })
      c.DefaultVoltage u3 rfl (fun _ => rfl)
  · exact fetches_u16 _ _ _ _ (fun v c => { c with DefaultLoad := v })
      c.DefaultLoad u4 rfl (fun _ => rfl)
  · exact fetches_u16 _ _ _ _ (fun v c => { c with OperatingCurrent := v })
      c.OperatingCurrent u5 rfl (fun _ => rfl)
  · exact trivial
  · exact fetches_pair _ _ _ _ (fun v w c => { c with SinkCapMV := v, SinkCapMA := w })
      c.SinkCapMV c.SinkCapMA u6 u7 rfl (fun _ => rfl)
  · exact fetches_u16 _ _ _ _ (fun v c => storeProfileLimit 0 (v % 65536) c)
      c.ProfilePDLimit p1
      (by show GET_CONFIG :: lowHigh (c.ProfilePDLimit % 65536) = _; rw [Nat.mod_eq_of_lt p1])
      (by intro x
          show storeProfileLimit 0 (c.ProfilePDLimit % 65536) x = _
          rw [Nat.mod_eq_of_lt p1]; rfl)
  · exact fetches_u16 _ _ _ _ (fun v c => storeProfileLimit 1 (v % 65536) c)
      c.ProfileUCLimit p2
      (by show GET_CONFIG :: lowHigh (c.ProfileUCLimit % 65536) = _; rw [Nat.mod_eq_of_lt p2])
      (by intro x
          show storeProfileLimit 1 (c.ProfileUCLimit % 65536) x = _
          rw [Nat.mod_eq_of_lt p2]; rfl)
  · exact fetches_u16 _ _ _ _ (fun v c => storeProfileLimit 2 (v % 65536) c)
      c.ProfileBCLimit p3
      (by show GET_CONFIG :: lowHigh (c.ProfileBCLimit % 65536) = _; rw [Nat.mod_eq_of_lt p3])
      (by intro x
          show storeProfileLimit 2 (c.ProfileBCLimit % 65536) x = _
          rw [Nat.mod_eq_of_lt p3]; rfl)
  · exact fetches_u16 _ _ _ _ (fun v c => storeProfileLimit 3 (v % 65536) c)
      c.ProfileQC5Limit p4
      (by show GET_CONFIG :: lowHigh (c.ProfileQC5Limit % 65536) = _; rw [Nat.mod_eq_of_lt p4])
      (by intro x
          show storeProfileLimit 3 (c.ProfileQC5Limit % 65536) x = _
          rw [Nat.mod_eq_of_lt p4]; rfl)
  · exact fetches_u16 _ _ _ _ (fun v c => storeProfileLimit 4 (v % 65536) c)
      c.ProfileQC9Limit p5
      (by show GET_CONFIG :: lowHigh (c.ProfileQC9Limit % 65536) = _; rw [Nat.mod_eq_of_lt p5])
      (by intro x
          show storeProfileLimit 4 (c.ProfileQC9Limit % 65536) x = _
          rw [Nat.mod_eq_of_lt p5]; rfl)
  · exact fetches_u16 _ _ _ _ (fun v c => storeProfileLimit 5 (v % 65536) c)
      c.ProfileQC12Limit p6
      (by show GET_CONFIG :: lowHigh (c.ProfileQC12Limit % 65536) = _; rw [Nat.mod_eq_of_lt p6])
      (by intro x
          show storeProfileLimit 5 (c.ProfileQC12Limit % 65536) x = _
          rw [Nat.mod_eq_of_lt p6]; rfl)
  · exact fetches_u16 _ _ _ _ (fun v c => storeProfileLimit 6 (v % 65536) c)
      c.ProfileQC20Limit p7
      (by show GET_CONFIG :: lowHigh (c.ProfileQC20Limit % 65536) = _; rw [Nat.mod_eq_of_lt p7])
      (by intro x
          show storeProfileLimit 6 (c.ProfileQC20Limit % 65536) x = _
          rw [Nat.mod_eq_of_lt p7]; rfl)
  · exact fetches_u16 _ _ _ _ (fun v c => storeProfileLimit 7 (v % 65536) c)
      c.ProfileAppleLimit p8
      (by show GET_CONFIG :: lowHigh (c.ProfileAppleLimit % 65536) = _; rw [Nat.mod_eq_of_lt p8])
      (by intro x
          show storeProfileLimit 7 (c.ProfileAppleLimit % 65536) x = _
          rw [Nat.mod_eq_of_lt p8]; rfl)
  · exact fetches_u16 _ _ _ _ (fun v c => storeProfileLimit 8 (v % 65536) c)
      c.ProfileSamsung2ALimit p9
      (by show GET_CONFIG :: lowHigh (c.ProfileSamsung2ALimit % 65536) = _
          rw [Nat.mod_eq_of_lt p9])
      (by intro x
          show storeProfileLimit 8 (c.ProfileSamsung2ALimit % 65536) x = _
          rw [Nat.mod_eq_of_lt p9]; rfl)
  · exact trivial
  · exact fetches_byte _ _ _ _ (fun v c => { c with bHoldLoadOnVChange := v })
      c.bHoldLoadOnVChange b4 rfl (fun _ => rfl)
  · exact fetches_byte _ _ _ _ (fun v c => { c with bPPSEnabled := v })
      c.bPPSEnabled b5 rfl (fun _ => rfl)
  · exact fetches_byte _ _ _ _ (fun v c => { c with bApplyDefaultConfigOnCap := v })
      c.bApplyDefaultConfigOnCap b6 rfl (fun _ => rfl)
  · exact fetches_byte _ _ _ _ (fun v c => { c with bDefaultConfigFailOnVolt := v })
      c.bDefaultConfigFailOnVolt b7 rfl (fun _ => rfl)
  · exact fetches_byte _ _ _ _ (fun v c => { c with bDefaultConfigFailOnCurr := v })
      c.bDefaultConfigFailOnCurr b8 rfl (fun _ => rfl)

/-- A run of blocks of `GetConfig` that passes every firmware check, in which
every exchange completes and the response for each parameter carries the
values of `c`: the configuration members end as they were on entry, with the
members of every block issued replaced by those of `c`. -/
theorem runItems_get_fetching (c : ConfigShadow) (payloadOf : Nat → List Nat)
    (chk : Nat → Nat) (items : List CfgItem) :
    ∀ (r : CfgRun) (rest : List (List SerialEvent × List SerialEvent)),
    (∀ it ∈ items, getItemFetches c payloadOf it) → gatesPass r.s.FW_Ver items = true →
    r.retVal = true → r.pending = [] →
    r.s.NumRcvBytes = 0 → r.s.com_events ComSignal.COM_PACKET_SENT = false →
    r.s.com_events ComSignal.COM_PACKET_ARRIVED = false →
    r.ws = (issuedIds r.s.FW_Ver items).map
      (fun id => completing (frameBytes (payloadOf id).length (payloadOf id) (chk id) 0x03)) ++
        rest →
    (∀ e ∈ r.log, e.2 = true) →
    (runItems items r).retVal = true ∧
      (runItems items r).s.cfg =
        (issuedIds r.s.FW_Ver items).foldl (fun x id => fetchedMember c id x) r.s.cfg ∧
      ∀ e ∈ (runItems items r).log, e.2 = true := by
  induction items with
  | nil => intro r rest _ _ hr _ _ _ _ _ hlog; exact ⟨hr, rfl, hlog⟩
  | cons it items ih =>
    intro r rest hok hg hr hp h0 hs ha hws hlog
    have hrun : runItems (it :: items) r = runItems items (runItem r it) := rfl
    rw [hrun]
    have hok2 : ∀ i ∈ items, getItemFetches c payloadOf i :=
      fun i hi => hok i (List.mem_cons_of_mem _ hi)
    have hok1 := hok it (List.mem_cons_self _ _)
    cases it with
    | set id frame => exact hok1.elim
    | gate minFw =>
      have hfw : ¬ r.s.FW_Ver < minFw := by
        intro h
        simp [gatesPass, h] at hg
      have hg2 : gatesPass r.s.FW_Ver items = true := by simpa [gatesPass, hfw] using hg
      have hws2 : r.ws = (issuedIds r.s.FW_Ver items).map
          (fun id => completing (frameBytes (payloadOf id).length (payloadOf id) (chk id) 0x03)) ++
            rest := by simpa [issuedIds, hfw] using hws
      have hr2 : (runItem r (CfgItem.gate minFw)).retVal = true := by simp [runItem, hfw, hr]
      have hids : issuedIds r.s.FW_Ver (CfgItem.gate minFw :: items) =
          issuedIds r.s.FW_Ver items := by simp [issuedIds, hfw]
      rw [hids]
      exact ih (runItem r (CfgItem.gate minFw)) rest hok2 hg2 hr2 hp h0 hs ha hws2 hlog
    | sleep ms =>
      have hids : issuedIds r.s.FW_Ver (CfgItem.sleep ms :: items) =
          issuedIds r.s.FW_Ver items := by simp [issuedIds]
      rw [hids]
      exact ih (runItem r (CfgItem.sleep ms)) rest hok2 (by simpa [gatesPass] using hg) hr hp h0
        hs ha (by simpa [issuedIds] using hws) hlog
    | get id lenCheck store =>
      obtain ⟨p1, p2, p3⟩ := hok1
      simp only [issuedIds, List.map_cons, List.cons_append] at hws
      obtain ⟨f1, f2, f3, f4, f5, f6⟩ := responseState_fields r.s (payloadOf id).length
        (payloadOf id) (chk id)
      have hacc : (fun s : PDTester =>
          decide (s.RcvData 0 = GET_CONFIG ∧ (lenCheck = true → s.RcvDataLen > 1)))
          (responseState r.s (payloadOf id).length (payloadOf id) (chk id)) = true := by
        simp only [decide_eq_true_eq]
        rw [f6 0 (by omega) (by decide), f5]
        exact ⟨p2, fun _ => p1⟩
      obtain ⟨e1, e2, e3, e4, e5⟩ := cfgExchange_completing r id 0x02 [GET_CONFIG, id]
        (fun s => decide (s.RcvData 0 = GET_CONFIG ∧ (lenCheck = true → s.RcvDataLen > 1)))
        (fun s => { s with cfg := store s.RcvData s.cfg }) (payloadOf id).length (payloadOf id)
        (chk id) _ hr hp hws h0 hs ha rfl (by omega) (by rw [p2]; right; decide) hacc
      have hdef : cfgExchange r id 0x02 [GET_CONFIG, id]
          (fun s => decide (s.RcvData 0 = GET_CONFIG ∧ (lenCheck = true → s.RcvDataLen > 1)))
          (fun s => { s with cfg := store s.RcvData s.cfg }) =
          runItem r (CfgItem.get id lenCheck store) := rfl
      rw [hdef] at e1 e2 e3 e4 e5
      have hfw : (runItem r (CfgItem.get id lenCheck store)).s.FW_Ver = r.s.FW_Ver := by
        rw [e4]
        exact f3
      have hcfg : (runItem r (CfgItem.get id lenCheck store)).s.cfg =
          fetchedMember c id r.s.cfg := by
        rw [e4]
        show store (responseState r.s (payloadOf id).length (payloadOf id) (chk id)).RcvData
          (responseState r.s (payloadOf id).length (payloadOf id) (chk id)).cfg = _
        rw [f4]
        exact p3 _ f6 _
      have key := ih (runItem r (CfgItem.get id lenCheck store)) rest hok2 ?_ e1 e2 ?_ ?_ ?_ ?_ ?_
      · rw [hfw, hcfg] at key
        simpa [issuedIds] using key
      · rw [hfw]
        simpa [gatesPass] using hg
      · rw [e4]; exact f1
      · rw [e4]
        show (responseState r.s (payloadOf id).length (payloadOf id) (chk id)).com_events _ = _
        rw [f2]; exact hs
      · rw [e4]
        show (responseState r.s (payloadOf id).length (payloadOf id) (chk id)).com_events _ = _
        rw [f2]; exact ha
      · rw [e3, hfw]
      · intro e he
        rw [e5] at he
        simp only [List.mem_append, List.mem_singleton] at he
        rcases he with he | rfl
        · exact hlog e he
        · rfl

/-- The members of all twenty-three blocks of `GetConfig` replaced by those of
`c`: what is left of `x` are the two members that `GetConfig` does not
request. -/
theorem fetchedMember_all (c x : ConfigShadow) :
    GetConfig_ids.foldl (fun x id => fetchedMember c id x) x =
      { c with CurrentLimitType := x.CurrentLimitType, MaxCurrent := x.MaxCurrent } := by
  simp [GetConfig_ids, fetchedMember]

/-- `GetConfig` in which every exchange completes with the answer of the device
that has recorded the requests of `SetConfig` for the configuration members
`c`, whatever members the object holds on entry: the members that `GetConfig`
fetches end with the values of `c`; `CurrentLimitType` and `MaxCurrent`, which
it does not request, keep the values of the object. -/
theorem GetConfig_fetching (FORCE_LIMIT : Nat) (s : PDTester) (c : ConfigShadow)
    (cBuf : Nat → Nat) (hfw : 42 ≤ s.FW_Ver) (h0 : s.NumRcvBytes = 0)
    (hs : s.com_events ComSignal.COM_PACKET_SENT = false)
    (ha : s.com_events ComSignal.COM_PACKET_ARRIVED = false) (hr : wireRange c) :
    (GetConfig s cBuf (GetConfig_requests.map (fun q =>
        completing (deviceAnswer (setFrames c (SetConfig_items FORCE_LIMIT)) q)))).retVal =
        true ∧
      sentFrames (GetConfig s cBuf (GetConfig_requests.map (fun q =>
        completing (deviceAnswer (setFrames c (SetConfig_items FORCE_LIMIT)) q)))).fx =
        GetConfig_requests ∧
      (GetConfig s cBuf (GetConfig_requests.map (fun q =>
        completing (deviceAnswer (setFrames c (SetConfig_items FORCE_LIMIT)) q)))).s.cfg =
        { c with CurrentLimitType := s.cfg.CurrentLimitType, MaxCurrent := s.cfg.MaxCurrent } := by
  have h38 : ¬ s.FW_Ver < 38 := by omega
  have h41 : ¬ s.FW_Ver < 41 := by omega
  have h42 : ¬ s.FW_Ver < 42 := by omega
  have hids : issuedIds s.FW_Ver GetConfig_items = GetConfig_ids := by
    simp [GetConfig_items_eq, issuedIds, h38, h41, h42, GetConfig_ids]
  have hgate : gatesPass s.FW_Ver GetConfig_items = true := by
    simp [GetConfig_items_eq, gatesPass, h38, h41, h42]
  have hws : GetConfig_requests.map (fun q =>
        completing (deviceAnswer (setFrames c (SetConfig_items FORCE_LIMIT)) q)) =
      (issuedIds s.FW_Ver GetConfig_items).map
        (fun id => completing (frameBytes
          (GET_CONFIG :: deviceValues (setFrames c (SetConfig_items FORCE_LIMIT)) id).length
          (GET_CONFIG :: deviceValues (setFrames c (SetConfig_items FORCE_LIMIT)) id)
          (frameChecksum
            (1 + (deviceValues (setFrames c (SetConfig_items FORCE_LIMIT)) id).length)
            (GET_CONFIG :: deviceValues (setFrames c (SetConfig_items FORCE_LIMIT)) id))
          0x03)) ++ [] := by
    rw [hids, List.append_nil, GetConfig_requests, List.map_map]
    apply List.map_congr_left
    intro id _
    simp only [Function.comp, deviceAnswer, wireFrame, List.getD_cons_succ, List.getD_cons_zero,
      List.cons_append, List.nil_append, List.length_cons, Nat.add_comm 1]
  obtain ⟨a1, a2, a3⟩ := runItems_get_fetching c
    (fun id => GET_CONFIG :: deviceValues (setFrames c (SetConfig_items FORCE_LIMIT)) id)
    (fun id => frameChecksum
      (1 + (deviceValues (setFrames c (SetConfig_items FORCE_LIMIT)) id).length)
      (GET_CONFIG :: deviceValues (setFrames c (SetConfig_items FORCE_LIMIT)) id))
    GetConfig_items
    ⟨s, cBuf, [Effect.EnterCriticalSection], [],
      GetConfig_requests.map (fun q =>
        completing (deviceAnswer (setFrames c (SetConfig_items FORCE_LIMIT)) q)), true, []⟩
    [] (GetConfig_items_fetch FORCE_LIMIT c hr) hgate rfl rfl h0 hs ha hws (by simp)
  obtain ⟨hlog, -, -, -⟩ := runItems_all_succeed GetConfig_items
    ⟨s, cBuf, [Effect.EnterCriticalSection], [],
      GetConfig_requests.map (fun q =>
        completing (deviceAnswer (setFrames c (SetConfig_items FORCE_LIMIT)) q)), true, []⟩
    rfl a3
  have hfr := runItems_get_frames GetConfig_items
    ⟨s, cBuf, [Effect.EnterCriticalSection], [],
      GetConfig_requests.map (fun q =>
        completing (deviceAnswer (setFrames c (SetConfig_items FORCE_LIMIT)) q)), true, []⟩
    GetConfig_items_ok rfl
  dsimp only at hlog a2
  rw [hids] at a2
  refine ⟨a1, ?_, ?_⟩
  · have efx : (GetConfig s cBuf (GetConfig_requests.map (fun q =>
          completing (deviceAnswer (setFrames c (SetConfig_items FORCE_LIMIT)) q)))).fx =
        (runItems GetConfig_items
          ⟨s, cBuf, [Effect.EnterCriticalSection], [],
            GetConfig_requests.map (fun q =>
              completing (deviceAnswer (setFrames c (SetConfig_items FORCE_LIMIT)) q)),
            true, []⟩).fx ++ [Effect.LeaveCriticalSection] := rfl
    rw [efx, sentFrames_append, hfr, hlog, hids]
    simp [sentFrames, GetConfig_requests, Function.comp]
  · show (runItems GetConfig_items _).s.cfg = _
    rw [a2]
    exact fetchedMember_all c s.cfg

/-- C16. Config round trip. The device is modelled as a store that records,
per parameter id, the value bytes of each acknowledged `SET_CONFIG` frame and
answers a `GET_CONFIG` frame for that id with the tag 0xE1 followed by those
bytes. `SetConfig` is run on an object whose configuration members are
`s.cfg`; before `GetConfig` is run, the members of the object are replaced by
arbitrary values `c0`, so that what a member holds afterwards is what
`GetConfig` has fetched from the device, or what `c0` held. With a firmware
version of 42 or more, the reassembler in the start-seeking state and both
signals unset on entry, the members that travel as one byte being bytes and
the others 16-bit values, and every exchange completing: `SetConfig` returns
TRUE, `GetConfig` returns TRUE, the frames that `GetConfig` hands to the
transport are the twenty-three requests that the device has answered, and
afterwards every member that `GetConfig` fetches has the value it had before
`SetConfig`, whatever `c0` held; the two members that `GetConfig` does not
request (`CurrentLimitType`, `MaxCurrent`) are those of `c0`. With `c0` the
members that `SetConfig` has left, this is `SetConfig` followed by `GetConfig`
on one object, and every member ends with the value it had before `SetConfig`. -/
theorem config_round_trip (FORCE_LIMIT : Nat) (s : PDTester) (c0 : ConfigShadow)
    (cBuf1 cBuf2 : Nat → Nat)
    (hfw : 42 ≤ s.FW_Ver) (h0 : s.NumRcvBytes = 0)
    (hs : s.com_events ComSignal.COM_PACKET_SENT = false)
    (ha : s.com_events ComSignal.COM_PACKET_ARRIVED = false) (hr : wireRange s.cfg) :
    (SetConfig_then_GetConfig_from FORCE_LIMIT s c0 cBuf1 cBuf2).1.retVal = true ∧
      (SetConfig_then_GetConfig_from FORCE_LIMIT s c0 cBuf1 cBuf2).2.retVal = true ∧
      sentFrames (SetConfig_then_GetConfig_from FORCE_LIMIT s c0 cBuf1 cBuf2).2.fx =
        GetConfig_requests ∧
      (SetConfig_then_GetConfig_from FORCE_LIMIT s c0 cBuf1 cBuf2).2.s.cfg =
        { s.cfg with CurrentLimitType := c0.CurrentLimitType, MaxCurrent := c0.MaxCurrent } ∧
      SetConfig_then_GetConfig_from FORCE_LIMIT s s.cfg cBuf1 cBuf2 =
        SetConfig_then_GetConfig FORCE_LIMIT s cBuf1 cBuf2 ∧
      (SetConfig_then_GetConfig FORCE_LIMIT s cBuf1 cBuf2).2.s.cfg = s.cfg := by
  obtain ⟨a1, a2, a3, a4, a5, a6, a7⟩ := SetConfig_completing FORCE_LIMIT s cBuf1 h0 hs ha
  have b := GetConfig_fetching FORCE_LIMIT
    { (SetConfig FORCE_LIMIT s cBuf1 (List.replicate 24 (completing deviceAck))).s with
      cfg := c0 } s.cfg cBuf2 (by show 42 ≤ (SetConfig _ _ _ _).s.FW_Ver; rw [a6]; exact hfw)
    a2 a3 a4 hr
  dsimp only at b
  have hsame : SetConfig_then_GetConfig_from FORCE_LIMIT s s.cfg cBuf1 cBuf2 =
      SetConfig_then_GetConfig FORCE_LIMIT s cBuf1 cBuf2 := by
    simp only [SetConfig_then_GetConfig_from, SetConfig_then_GetConfig]
    rw [← a5]
  have h4 : (SetConfig_then_GetConfig_from FORCE_LIMIT s c0 cBuf1 cBuf2).1.retVal = true ∧
      (SetConfig_then_GetConfig_from FORCE_LIMIT s c0 cBuf1 cBuf2).2.retVal = true ∧
      sentFrames (SetConfig_then_GetConfig_from FORCE_LIMIT s c0 cBuf1 cBuf2).2.fx =
        GetConfig_requests ∧
      (SetConfig_then_GetConfig_from FORCE_LIMIT s c0 cBuf1 cBuf2).2.s.cfg =
        { s.cfg with CurrentLimitType := c0.CurrentLimitType,
                     MaxCurrent := c0.MaxCurrent } := by
    simp only [SetConfig_then_GetConfig_from]
    rw [a7]
    exact ⟨a1, b⟩
  exact ⟨h4.1, h4.2.1, h4.2.2.1, h4.2.2.2, hsame,
    (SetConfig_GetConfig_same_shadow FORCE_LIMIT s cBuf1 cBuf2 hfw h0 hs ha hr).2.2.2⟩

/-- Witness of C16: firmware 42, the sample configuration pushed by
`SetConfig`, the members of the object then replaced by the value 7
throughout; after `GetConfig` every fetched member has its value of the sample
configuration and the two members not requested hold 7. -/
theorem config_round_trip_witness :
    wireRange sampleConfig ∧
      (SetConfig_then_GetConfig_from 2 { PDTester.ctor with FW_Ver := 42, cfg := sampleConfig }
        sampleStaleConfig (fun _ => 0) (fun _ => 0)).2.retVal = true ∧
      (SetConfig_then_GetConfig_from 2 { PDTester.ctor with FW_Ver := 42, cfg := sampleConfig }
        sampleStaleConfig (fun _ => 0) (fun _ => 0)).2.s.cfg =
        ⟨1, 7, 7, 400, 1, 500, 3, 5000, 1000, 200, 9000, 3000, 1100, 1200, 1300, 1400, 1500,
          1600, 1700, 1800, 65535, 1, 0, 1, 0, 255⟩ :=
  ⟨by decide,
    (config_round_trip 2 { PDTester.ctor with FW_Ver := 42, cfg := sampleConfig }
      sampleStaleConfig (fun _ => 0) (fun _ => 0) (by decide) rfl rfl rfl (by decide)).2.1,
    (config_round_trip 2 { PDTester.ctor with FW_Ver := 42, cfg := sampleConfig }
      sampleStaleConfig (fun _ => 0) (fun _ => 0) (by decide) rfl rfl rfl
      (by decide)).2.2.2.1.trans (by decide)⟩
end PDTesterAPI
